import Mathlib

/-!
WAMR embedder C API (core/iwasm/common/wasm_c_api.c)

A shallow embedding of the value-marshaling layer, the call path
(`wasm_func_call`, `native_func_trampoline`), the engine / store / module
life cycle, the vectors, the type descriptors and their reflection, the
instantiation of a module with its import linking and export phase, and the
access to globals, together with the properties established about them.

Conventions of the embedding

* Machine integers are natural numbers; a `uint32` counter is reduced modulo
  `2 ^ 32` where the C code can wrap.
* The argument area is a list of 32-bit slots.  A `uint64 *` pointing at cell
  `i` designates slots `2 * i` and `2 * i + 1`; the low half of a 64-bit value
  lives in the lower slot (little-endian targets).
* A C function that runs into a failed `bh_assert` or touches memory outside a
  buffer yields `none`; `some r` is an ordinary return.
* The outcome of every allocation and of every call into the execution
  backend is an explicit argument of the function that performs it.
-/

namespace WasmCApi

/-! ## Values and value types -/

/-- Tags of `wasm_valkind_t`. -/
inductive wasm_valkind_t
  | WASM_I32
  | WASM_I64
  | WASM_F32
  | WASM_F64
  | WASM_ANYREF
  | WASM_FUNCREF
  deriving DecidableEq, Repr

/-- The struct `wasm_val_t`: a tag and the bits of the active union member
(`of.i32`, `of.i64`, `of.f32`, `of.f64` or `of.ref`). -/
structure wasm_val_t where
  kind : wasm_valkind_t
  of : Nat
  deriving DecidableEq, Repr

/-- The struct `wasm_valtype_t`. -/
structure wasm_valtype_t where
  kind : wasm_valkind_t
  deriving DecidableEq, Repr

/-- Modulus of a `uint32`. -/
def UINT32_MOD : Nat := 4294967296

/-- The value `UINT32_MAX`. -/
def UINT32_MAX : Nat := 4294967295

/-! ## The 32-bit slot array -/

/-- Store through an `int32 *` / `float32 *` at slot `off`. -/
def store32 (buf : List Nat) (off v : Nat) : Option (List Nat) :=
  if off < buf.length then some (buf.set off (v % UINT32_MOD)) else none

/-- Store through an `int64 *` / `float64 *` at slot `off`: two consecutive
slots, low half first. -/
def store64 (buf : List Nat) (off v : Nat) : Option (List Nat) :=
  if off + 1 < buf.length then
    some ((buf.set off (v % UINT32_MOD)).set (off + 1) (v / UINT32_MOD % UINT32_MOD))
  else none

/-- Load through an `int32 *` / `float32 *` at slot `off`. -/
def load32 (buf : List Nat) (off : Nat) : Option Nat :=
  if off < buf.length then some (buf.getD off 0 % UINT32_MOD) else none

/-- Load through an `int64 *` / `float64 *` at slot `off`. -/
def load64 (buf : List Nat) (off : Nat) : Option Nat :=
  if off + 1 < buf.length then
    some (buf.getD off 0 % UINT32_MOD + UINT32_MOD * (buf.getD (off + 1) 0 % UINT32_MOD))
  else none

/-- Assignment `out[i] = v` on an array of `wasm_val_t`. -/
def store_val (out : List wasm_val_t) (i : Nat) (v : wasm_val_t) : Option (List wasm_val_t) :=
  if i < out.length then some (out.set i v) else none

/-! ## Host values to backend slots and back -/

/-- The loop of `params_to_argv`.  The arguments are the not yet visited part
of `params` and of `param_defs->data` (one entry per remaining iteration), the
slot buffer, the position of the moving pointer `out` in it and the counter
`argc`.  The result is the returned `uint32` together with the buffer; `none`
also stands for a read behind the end of `params`. -/
def params_to_argv_loop :
    List wasm_val_t → List wasm_valtype_t → List Nat → Nat → Nat → Option (Nat × List Nat)
  | _, [], buf, _, argc => some (argc, buf)
  | [], _ :: _, _, _, _ => none
  | param :: params, param_def :: param_defs, buf, off, argc =>
    if param_def.kind ≠ param.kind then none
    else
      match param.kind with
      | .WASM_I32 =>
        (store32 buf off param.of).bind fun buf1 =>
          params_to_argv_loop params param_defs buf1 (off + 1) ((argc + 1) % UINT32_MOD)
      | .WASM_I64 =>
        (store64 buf off param.of).bind fun buf1 =>
          params_to_argv_loop params param_defs buf1 (off + 2) ((argc + 2) % UINT32_MOD)
      | .WASM_F32 =>
        (store32 buf off param.of).bind fun buf1 =>
          params_to_argv_loop params param_defs buf1 (off + 1) ((argc + 1) % UINT32_MOD)
      | .WASM_F64 =>
        (store64 buf off param.of).bind fun buf1 =>
          params_to_argv_loop params param_defs buf1 (off + 2) ((argc + 2) % UINT32_MOD)
      | _ => some (0, buf)

/-- The function `params_to_argv (params, param_defs, param_arity, out)`.
`params` is the caller's array and `param_defs` the populated part of the type
vector, whose length the function asserts to be `param_arity`. -/
def params_to_argv (params : List wasm_val_t) (param_defs : List wasm_valtype_t)
    (param_arity : Nat) (out : List Nat) : Option (Nat × List Nat) :=
  if param_arity = 0 then some (0, out)
  else if param_defs.length ≠ param_arity then none
  else params_to_argv_loop params param_defs out 0 0

/-- The loop of `argv_to_results`.  The arguments are the not yet visited part
of `result_defs->data`, the slot buffer, the position of the moving pointer
`result` in it, the array `out`, the position of the moving pointer `out` and
the counter `argc`. -/
def argv_to_results_loop :
    List wasm_valtype_t → List Nat → Nat → List wasm_val_t → Nat → Nat →
      Option (Nat × List wasm_val_t)
  | [], _, _, out, _, argc => some (argc, out)
  | result_def :: result_defs, results, off, out, i, argc =>
    match result_def.kind with
    | .WASM_I32 =>
      (load32 results off).bind fun v =>
        (store_val out i ⟨.WASM_I32, v⟩).bind fun out1 =>
          argv_to_results_loop result_defs results (off + 1) out1 (i + 1)
            ((argc + 1) % UINT32_MOD)
    | .WASM_I64 =>
      (load64 results off).bind fun v =>
        (store_val out i ⟨.WASM_I64, v⟩).bind fun out1 =>
          argv_to_results_loop result_defs results (off + 2) out1 (i + 1)
            ((argc + 1) % UINT32_MOD)
    | .WASM_F32 =>
      (load32 results off).bind fun v =>
        (store_val out i ⟨.WASM_F32, v⟩).bind fun out1 =>
          argv_to_results_loop result_defs results (off + 1) out1 (i + 1)
            ((argc + 1) % UINT32_MOD)
    | .WASM_F64 =>
      (load64 results off).bind fun v =>
        (store_val out i ⟨.WASM_F64, v⟩).bind fun out1 =>
          argv_to_results_loop result_defs results (off + 2) out1 (i + 1)
            ((argc + 1) % UINT32_MOD)
    | _ => some (0, out)

/-- The function `argv_to_results (results, result_defs, result_arity, out)`. -/
def argv_to_results (results : List Nat) (result_defs : List wasm_valtype_t)
    (result_arity : Nat) (out : List wasm_val_t) : Option (Nat × List wasm_val_t) :=
  if result_arity = 0 then some (0, out)
  else if result_arity ≠ result_defs.length then none
  else argv_to_results_loop result_defs results 0 out 0 0

/-! ## Specification vocabulary for the slot layout -/

/-- Number of 32-bit slots taken by a value of the given kind. -/
def slot_width : wasm_valkind_t → Nat
  | .WASM_I32 => 1
  | .WASM_F32 => 1
  | .WASM_I64 => 2
  | .WASM_F64 => 2
  | _ => 0

/-- Total number of slots of a list of declared types. -/
def slot_count (defs : List wasm_valtype_t) : Nat :=
  (defs.map fun d => slot_width d.kind).sum

/-- The four numeric kinds. -/
def is_numeric : wasm_valkind_t → Bool
  | .WASM_I32 => true
  | .WASM_I64 => true
  | .WASM_F32 => true
  | .WASM_F64 => true
  | _ => false

/-- A value whose bits fit the width of its kind. -/
def val_fits (v : wasm_val_t) : Bool :=
  match v.kind with
  | .WASM_I32 => decide (v.of < UINT32_MOD)
  | .WASM_F32 => decide (v.of < UINT32_MOD)
  | _ => decide (v.of < UINT32_MOD * UINT32_MOD)

/-- The Vals agree with the declared types element by element. -/
def kinds_match (vals : List wasm_val_t) (defs : List wasm_valtype_t) : Bool :=
  decide (vals.map (fun v => v.kind) = defs.map (fun d => d.kind))

/-- The slots that hold a value: one slot for a 32-bit kind, two slots (low
half first) for a 64-bit kind. -/
def slots_of (v : wasm_val_t) : List Nat :=
  match v.kind with
  | .WASM_I32 => [v.of % UINT32_MOD]
  | .WASM_F32 => [v.of % UINT32_MOD]
  | .WASM_I64 => [v.of % UINT32_MOD, v.of / UINT32_MOD % UINT32_MOD]
  | .WASM_F64 => [v.of % UINT32_MOD, v.of / UINT32_MOD % UINT32_MOD]
  | _ => []

/-- The slot image of a list of values, in declaration order. -/
def slot_image : List wasm_val_t → List Nat
  | [] => []
  | v :: vs => slots_of v ++ slot_image vs

/-! ## Vectors of bytes and traps -/

/-- The header shared by every `wasm_##name##_vec_t` (and, through the casts of
the C code, by the generic `Vector`): the capacity `size`, the cell buffer
`data` (`none` is a null pointer) and the populated count `num_elems`. -/
structure wasm_vec_t (α : Type) where
  size : Nat
  data : Option (List α)
  num_elems : Nat
  deriving DecidableEq, Repr

/-- A zeroed header, as left by `memset (out, 0, sizeof ...)`. -/
def wasm_vec_t.zero {α : Type} : wasm_vec_t α := ⟨0, none, 0⟩

/-- Modelled from the spec: `bh_vector_init` of the generic vector storage
(init/append/get/remove/size/destroy on a buffer of fixed-stride cells), whose
source is not among the analysed files.  When the allocation succeeds the
vector owns `init_length` zeroed cells and no populated element; when it fails
the data pointer is null and the call reports failure. -/
def bh_vector_init {α : Type} [Inhabited α] (alloc_ok : Bool) (v : wasm_vec_t α)
    (init_length : Nat) : Bool × wasm_vec_t α :=
  if alloc_ok then (true, ⟨init_length, some (List.replicate init_length default), 0⟩)
  else (false, { v with data := none })

/-- Modelled from the spec: `bh_vector_destroy` releases the buffer and zeroes
the header. -/
def bh_vector_destroy {α : Type} (_v : wasm_vec_t α) : wasm_vec_t α := wasm_vec_t.zero

/-- The function `wasm_byte_vec_new (out, size, data)` of
`WASM_DEFINE_VEC_PLAIN (byte)`; `alloc_ok` is the outcome of the allocation
made by `bh_vector_init`.  The result is the header left in `out`; `none`
stands for a `bh_memcpy_s` that reads past the end of `data`. -/
def wasm_byte_vec_new (alloc_ok : Bool) (size : Nat) (data : Option (List Nat)) :
    Option (wasm_vec_t Nat) :=
  if size = 0 then some wasm_vec_t.zero
  else
    match bh_vector_init alloc_ok (wasm_vec_t.zero : wasm_vec_t Nat) size with
    | (false, out) => some (bh_vector_destroy out)
    | (true, out) =>
      match data with
      | none => some out
      | some src =>
        if src.length < size then none
        else some { out with data := some (src.take size), num_elems := size }

/-- The function `wasm_byte_vec_copy (out, src)`, also reachable under the
name `wasm_name_copy`. -/
def wasm_byte_vec_copy (alloc_ok : Bool) (src : wasm_vec_t Nat) : Option (wasm_vec_t Nat) :=
  wasm_byte_vec_new alloc_ok src.size src.data

/-- The struct `wasm_trap_t`: a pointer to the owned message vector. -/
structure wasm_trap_t where
  message : Option (wasm_vec_t Nat)
  deriving DecidableEq, Repr

/-- The bytes of a C string literal together with its terminating NUL. -/
def c_string_bytes (s : String) : List Nat := s.toList.map Char.toNat ++ [0]

/-- The function `wasm_trap_new_internal (string)`.  The three flags are the
outcomes of the allocation of the trap, of the vector header (`INIT_VEC`) and
of the vector data (`bh_vector_init`).  `none` is a null result. -/
def wasm_trap_new_internal (trap_ok vec_ok data_ok : Bool) (string : String) :
    Option wasm_trap_t :=
  if !trap_ok then none
  else if !vec_ok then none
  else
    match wasm_byte_vec_new data_ok (string.length + 1) (some (c_string_bytes string)) with
    | none => none
    | some message =>
      if message.size ≠ 0 ∧ message.data = none then none
      else some ⟨some message⟩

/-- The function `wasm_trap_message (trap, out)`: the header left in `out`.
`none` stands for the dereference of a null message pointer. -/
def wasm_trap_message (alloc_ok : Bool) (trap : wasm_trap_t) : Option (wasm_vec_t Nat) :=
  match trap.message with
  | none => none
  | some message => wasm_byte_vec_copy alloc_ok message

/-! ## Functions -/

/-- The struct `wasm_functype_t`, reduced to the populated elements
(`data[0 .. num_elems)`) of its two owned type vectors. -/
structure wasm_functype_t where
  params : List wasm_valtype_t
  results : List wasm_valtype_t
  deriving DecidableEq, Repr

/-- Type of a host callback `wasm_func_callback_t`: it receives the argument
array and the result array and returns a trap (or null) together with the
result array as it left it. -/
abbrev wasm_func_callback_t :=
  List wasm_val_t → List wasm_val_t → Option wasm_trap_t × List wasm_val_t

/-- Type of a host callback `wasm_func_callback_with_env_t`; the environment
pointer is an address. -/
abbrev wasm_func_callback_with_env_t :=
  Nat → List wasm_val_t → List wasm_val_t → Option wasm_trap_t × List wasm_val_t

/-- The struct `wasm_func_t`.  `cb` and `cb_env_cb` / `cb_env_env` are the
members of the union `u`; `inst_comm_rt` is the handle of the bound backend
instance (`none` is a null pointer). -/
structure wasm_func_t where
  with_env : Bool
  cb : wasm_func_callback_t
  cb_env_cb : wasm_func_callback_with_env_t
  cb_env_env : Nat
  type : wasm_functype_t
  func_idx_rt : Nat
  inst_comm_rt : Option Nat

/-- The function `wasm_func_param_arity`. -/
def wasm_func_param_arity (func : wasm_func_t) : Nat := func.type.params.length

/-- The function `wasm_func_result_arity`. -/
def wasm_func_result_arity (func : wasm_func_t) : Nat := func.type.results.length

/-- The function `wasm_func_copy`.  `alloc_ok` says whether every allocation
made while cloning (`wasm_func_new_basic` or `wasm_func_new_with_env_basic`
and the copy of the type) succeeds; the clone then has the same callback, a
copy of the type and the copied `func_idx_rt` and `inst_comm_rt`. -/
def wasm_func_copy (alloc_ok : Bool) (func : wasm_func_t) : Option wasm_func_t :=
  if alloc_ok then
    some { with_env := func.with_env, cb := func.cb, cb_env_cb := func.cb_env_cb,
           cb_env_env := func.cb_env_env, type := func.type,
           func_idx_rt := func.func_idx_rt, inst_comm_rt := func.inst_comm_rt }
  else none

/-! ## State shared by the call path -/

/-- The mutable state the call path touches: the static `cur_trap` and, per
backend instance handle, the pending exception string. -/
structure rt_state where
  cur_trap : Option wasm_trap_t
  cur_exception : Nat → Option String

/-- Modelled from the spec: `wasm_runtime_get_exception (instance)` of the
backend interface returns the pending exception string or null. -/
def wasm_runtime_get_exception (st : rt_state) (inst : Nat) : Option String :=
  st.cur_exception inst

/-- Modelled from the spec: `wasm_set_exception (instance, text)` raises a
backend-level exception on the instance, which makes its pending exception
string non-null. -/
def wasm_set_exception (st : rt_state) (inst : Nat) (text : String) : rt_state :=
  { st with cur_exception := fun i => if i = inst then some text else st.cur_exception i }

/-- A zeroed `wasm_val_t`, as produced by `malloc_internal`. -/
def wasm_val_t.zero : wasm_val_t := ⟨.WASM_I32, 0⟩

/-! ## The host-callback trampoline -/

/-- The loop of `argv_to_params`: `argv` is a `uint64 *`, so parameter `i` is
read at cell `i`, that is at slot `2 * i`. -/
def argv_to_params_loop :
    List wasm_valtype_t → List Nat → Nat → List wasm_val_t → Nat →
      Option (Nat × List wasm_val_t)
  | [], _, _, out, argc => some (argc, out)
  | param_def :: param_defs, argv, i, out, argc =>
    match param_def.kind with
    | .WASM_I32 =>
      (load32 argv (2 * i)).bind fun v =>
        (store_val out i ⟨.WASM_I32, v⟩).bind fun out1 =>
          argv_to_params_loop param_defs argv (i + 1) out1 ((argc + 1) % UINT32_MOD)
    | .WASM_I64 =>
      (load64 argv (2 * i)).bind fun v =>
        (store_val out i ⟨.WASM_I64, v⟩).bind fun out1 =>
          argv_to_params_loop param_defs argv (i + 1) out1 ((argc + 1) % UINT32_MOD)
    | .WASM_F32 =>
      (load32 argv (2 * i)).bind fun v =>
        (store_val out i ⟨.WASM_F32, v⟩).bind fun out1 =>
          argv_to_params_loop param_defs argv (i + 1) out1 ((argc + 1) % UINT32_MOD)
    | .WASM_F64 =>
      (load64 argv (2 * i)).bind fun v =>
        (store_val out i ⟨.WASM_F64, v⟩).bind fun out1 =>
          argv_to_params_loop param_defs argv (i + 1) out1 ((argc + 1) % UINT32_MOD)
    | _ => some (0, out)

/-- The function `argv_to_params (argv, param_defs, out)`. -/
def argv_to_params (argv : List Nat) (param_defs : List wasm_valtype_t)
    (out : List wasm_val_t) : Option (Nat × List wasm_val_t) :=
  argv_to_params_loop param_defs argv 0 out 0

/-- The loop of `results_to_argv`: result `i` is written at cell `i` of the
`uint64 *` array `out`, that is at slot `2 * i`. -/
def results_to_argv_loop :
    List wasm_valtype_t → List wasm_val_t → Nat → List Nat → Nat → Option (Nat × List Nat)
  | [], _, _, out, argc => some (argc, out)
  | result_def :: result_defs, results, i, out, argc =>
    match results[i]? with
    | none => none
    | some result =>
      match result_def.kind with
      | .WASM_I32 =>
        (store32 out (2 * i) result.of).bind fun out1 =>
          results_to_argv_loop result_defs results (i + 1) out1 ((argc + 1) % UINT32_MOD)
      | .WASM_I64 =>
        (store64 out (2 * i) result.of).bind fun out1 =>
          results_to_argv_loop result_defs results (i + 1) out1 ((argc + 1) % UINT32_MOD)
      | .WASM_F32 =>
        (store32 out (2 * i) result.of).bind fun out1 =>
          results_to_argv_loop result_defs results (i + 1) out1 ((argc + 1) % UINT32_MOD)
      | .WASM_F64 =>
        (store64 out (2 * i) result.of).bind fun out1 =>
          results_to_argv_loop result_defs results (i + 1) out1 ((argc + 1) % UINT32_MOD)
      | _ => some (0, out)

/-- The function `results_to_argv (results, result_defs, out)`. -/
def results_to_argv (results : List wasm_val_t) (result_defs : List wasm_valtype_t)
    (out : List Nat) : Option (Nat × List Nat) :=
  results_to_argv_loop result_defs results 0 out 0

/-- The call `memset (argv, 0, n * sizeof (uint64))` on the slot array. -/
def memset_cells (argv : List Nat) (n : Nat) : Option (List Nat) :=
  if 2 * n ≤ argv.length then some (List.replicate (2 * n) 0 ++ argv.drop (2 * n)) else none

/-- The part of `wasm_exec_env_t` the trampoline reads: the function
attachment and the calling module instance. -/
structure wasm_exec_env_t where
  attachment : Option wasm_func_t
  module_inst : Nat

/-- Outcomes of the allocations made by `native_func_trampoline`: the array
`params`, the array `results`, and the data of the message copy made by
`wasm_trap_message`. -/
structure trampoline_allocs where
  params_ok : Bool
  results_ok : Bool
  message_ok : Bool
  deriving DecidableEq, Repr

/-- The part of `native_func_trampoline` from the callback invocation on:
`params` and `results` are the two arrays (empty for a null pointer). -/
def native_func_trampoline_invoke (a : trampoline_allocs) (exec_env : wasm_exec_env_t)
    (func : wasm_func_t) (argv : Option (List Nat)) (st : rt_state)
    (params results : List wasm_val_t) : Option (Option (List Nat) × rt_state) :=
  let r := if func.with_env then func.cb_env_cb func.cb_env_env params results
           else func.cb params results
  let trap := r.1
  let st1 : Option rt_state :=
    match trap with
    | none => some st
    | some t =>
      match wasm_trap_message a.message_ok t with
      | none => none
      | some message =>
        let st0 := if message.data ≠ none then
            wasm_set_exception st exec_env.module_inst "call failed, meet a wasm_trap_t"
          else st
        some { st0 with cur_trap := some t }
  match st1 with
  | none => none
  | some st1 =>
    let argv1 : Option (Option (List Nat)) :=
      match argv with
      | none => some none
      | some buf => (memset_cells buf (wasm_func_param_arity func)).map some
    match argv1 with
    | none => none
    | some argv1 =>
      if trap = none ∧ wasm_func_result_arity func ≠ 0 then
        match argv1 with
        | none => none
        | some buf =>
          match results_to_argv r.2 func.type.results buf with
          | none => none
          | some (_, buf1) => some (some buf1, st1)
      else some (argv1, st1)

/-- The function `native_func_trampoline (exec_env, argv)`.  The result is the
argument area and the shared state it leaves behind. -/
def native_func_trampoline (a : trampoline_allocs) (exec_env : wasm_exec_env_t)
    (argv : Option (List Nat)) (st : rt_state) : Option (Option (List Nat) × rt_state) :=
  match exec_env.attachment with
  | none => none
  | some func =>
    let param_count := wasm_func_param_arity func
    let result_count := wasm_func_result_arity func
    let failed : Option (Option (List Nat) × rt_state) := some (argv, st)
    let with_params (params : List wasm_val_t) : Option (Option (List Nat) × rt_state) :=
      if result_count ≠ 0 then
        if argv = none then failed
        else if !a.results_ok then failed
        else native_func_trampoline_invoke a exec_env func argv st params
          (List.replicate result_count wasm_val_t.zero)
      else native_func_trampoline_invoke a exec_env func argv st params []
    if param_count ≠ 0 then
      match argv with
      | none => failed
      | some buf =>
        if !a.params_ok then failed
        else
          match argv_to_params buf func.type.params
              (List.replicate param_count wasm_val_t.zero) with
          | none => none
          | some (argc, params) => if argc = 0 then failed else with_params params
    else with_params []

/-! ## Calling an exported function -/

/-- The function `malloc_internal (size)`: it fails when `size` does not fit
below `UINT32_MAX` or when the allocator (`alloc_ok`) fails; the block it
returns is zeroed. -/
def malloc_internal (alloc_ok : Bool) (size : Nat) : Bool :=
  decide (size < UINT32_MAX) && alloc_ok

/-- Outcomes of the allocations made by `wasm_func_call`: the scratch buffer
`argv`, and the trap, vector header and vector data allocated by
`wasm_trap_new_internal` on the failure path. -/
structure func_call_allocs where
  argv_ok : Bool
  trap_ok : Bool
  trap_vec_ok : Bool
  trap_data_ok : Bool
  deriving DecidableEq, Repr

/-- Modelled from the spec: the backend entry point
`create_exec_env_and_call (instance, function, argc, argv) -> bool`.  Its
arguments are the instance handle, the function handle, `argc`, the argument
area and the shared state; it yields the boolean it returns, the argument area
and the state it leaves (`none` when the backend itself faults). -/
abbrev backend_call_t :=
  Nat → Nat → Nat → Option (List Nat) → rt_state →
    Option (Bool × Option (List Nat) × rt_state)

/-- The code of `wasm_func_call` after the label `failed`. -/
def wasm_func_call_failed (a : func_call_allocs) (inst : Nat) (st : rt_state) :
    Option wasm_trap_t :=
  match st.cur_trap with
  | some trap => some trap
  | none =>
    match wasm_runtime_get_exception st inst with
    | some exception =>
      wasm_trap_new_internal a.trap_ok a.trap_vec_ok a.trap_data_ok exception
    | none =>
      wasm_trap_new_internal a.trap_ok a.trap_vec_ok a.trap_data_ok "wasm_func_call failed"

/-- The part of `wasm_func_call` under the comment "copy results". -/
def wasm_func_call_results (a : func_call_allocs) (inst : Nat) (func : wasm_func_t)
    (argv : Option (List Nat)) (results : List wasm_val_t) (st : rt_state) :
    Option (Option wasm_trap_t × List wasm_val_t × rt_state) :=
  if wasm_func_result_arity func ≠ 0 then
    match argv with
    | none => none
    | some buf =>
      match argv_to_results buf func.type.results (wasm_func_result_arity func) results with
      | none => none
      | some (argc, results1) =>
        if argc = 0 then some (wasm_func_call_failed a inst st, results1, st)
        else some (none, results1, st)
  else some (none, results, st)

/-- The part of `wasm_func_call` that drives the backend and inspects its
verdict. -/
def wasm_func_call_invoke (a : func_call_allocs) (call_wasm : backend_call_t)
    (inst func_comm_rt : Nat) (func : wasm_func_t) (argc : Nat) (argv : Option (List Nat))
    (results : List wasm_val_t) (st : rt_state) :
    Option (Option wasm_trap_t × List wasm_val_t × rt_state) :=
  match call_wasm inst func_comm_rt argc argv st with
  | none => none
  | some (ok, argv1, st1) =>
    if ok = false ∧ (wasm_runtime_get_exception st1 inst).isSome then
      some (wasm_func_call_failed a inst st1, results, st1)
    else wasm_func_call_results a inst func argv1 results st1

/-- The function `wasm_func_call (func, params, results)`.  `func_comm_rt` is
the backend function handle found for `func->func_idx_rt` under the current
mode (`none` when the lookup leaves it null) and `call_wasm` is the backend.
The result is the returned trap (`none` is null), the caller's result array
and the shared state. -/
def wasm_func_call (a : func_call_allocs) (func_comm_rt : Option Nat)
    (call_wasm : backend_call_t) (func : wasm_func_t)
    (params results : List wasm_val_t) (st : rt_state) :
    Option (Option wasm_trap_t × List wasm_val_t × rt_state) :=
  match func.inst_comm_rt with
  | none => none
  | some inst =>
    let st0 : rt_state := { st with cur_trap := none }
    match func_comm_rt with
    | none => some (wasm_func_call_failed a inst st0, results, st0)
    | some f =>
      let param_count := wasm_func_param_arity func
      let result_count := wasm_func_result_arity func
      let alloc_count := if param_count > result_count then param_count else result_count
      if alloc_count ≠ 0 ∧ malloc_internal a.argv_ok (8 * alloc_count) = false then
        some (wasm_func_call_failed a inst st0, results, st0)
      else
        let argv : Option (List Nat) :=
          if alloc_count ≠ 0 then some (List.replicate (2 * alloc_count) 0) else none
        if param_count ≠ 0 then
          match argv with
          | none => none
          | some buf =>
            match params_to_argv params func.type.params param_count buf with
            | none => none
            | some (argc, buf1) =>
              if argc = 0 then some (wasm_func_call_failed a inst st0, results, st0)
              else wasm_func_call_invoke a call_wasm inst f func argc (some buf1) results st0
        else wasm_func_call_invoke a call_wasm inst f func 0 argv results st0

/-! ## Backend descriptors -/

/-- Modelled from the spec: the value type codes of the backend (a `uint8`),
whose constants are declared in a header that is not among the analysed
files; `other` stands for every code that has no name here. -/
inductive value_type_rt
  | VALUE_TYPE_I32
  | VALUE_TYPE_I64
  | VALUE_TYPE_F32
  | VALUE_TYPE_F64
  | VALUE_TYPE_ANY
  | VALUE_TYPE_FUNCREF
  | other (code : Nat)
  deriving DecidableEq, Repr

/-- Modelled from the spec: the signature `WASMType` of the backend, whose
declaration is not among the analysed files: the two counts and the value
type codes, parameters first. -/
structure WASMType where
  param_count : Nat
  result_count : Nat
  types : List value_type_rt
  deriving DecidableEq, Repr

/-- Modelled from the spec: the kinds of an import descriptor (a `uint8`),
whose constants are declared in a header that is not among the analysed
files; `other` stands for every code that has no name here. -/
inductive import_kind_rt
  | IMPORT_KIND_FUNC
  | IMPORT_KIND_TABLE
  | IMPORT_KIND_MEMORY
  | IMPORT_KIND_GLOBAL
  | other (code : Nat)
  deriving DecidableEq, Repr

/-- Modelled from the spec: the kinds of an export descriptor. -/
inductive export_kind_rt
  | EXPORT_KIND_FUNC
  | EXPORT_KIND_TABLE
  | EXPORT_KIND_MEMORY
  | EXPORT_KIND_GLOBAL
  | other (code : Nat)
  deriving DecidableEq, Repr

/-- Modelled from the spec: the import descriptor `WASMImport` of the
interpreter, as `wasm_module_imports` reads it: the kind, the two names (the
bytes of the C strings before the terminator) and, side by side, the members
of the union `u` for the four kinds. -/
structure WASMImport where
  kind : import_kind_rt
  module_name : List Nat
  field_name : List Nat
  func_type : Option WASMType
  global_type : value_type_rt
  global_is_mutable : Bool
  table_elem_type : value_type_rt
  table_init_size : Nat
  table_max_size : Nat
  memory_init_page_count : Nat
  memory_max_page_count : Nat
  deriving DecidableEq, Repr

/-- Modelled from the spec: the export descriptor `WASMExport` (`AOTExport`
is the same struct): the name, the kind and the index. -/
structure WASMExport where
  name : List Nat
  kind : export_kind_rt
  index : Nat
  deriving DecidableEq, Repr

/-- Modelled from the spec: the member `u.global` of an import descriptor,
as the link phase reads and writes it: the declared value type, and the value
and the flag that record the link. -/
structure WASMGlobalImport where
  type : value_type_rt
  is_mutable : Bool
  global_data_linked : Nat
  is_linked : Bool
  deriving DecidableEq, Repr

/-! ## The generic vector storage -/

/-- Modelled from the spec: `bh_vector_append` of the generic vector storage,
whose source is not among the analysed files.  The element is written into
the cell after the last populated one.  When no cell is free the buffer is
reallocated first: `grow = none` is a failed reallocation (the call reports
failure and leaves the vector as it was), `grow = some extra` a successful one
that leaves `extra` spare cells.  `none` stands for a vector whose header
claims cells that its buffer does not have. -/
def bh_vector_append {α : Type} [Inhabited α] (grow : Option Nat) (v : wasm_vec_t α)
    (elem : α) : Option (Bool × wasm_vec_t α) :=
  if v.num_elems + 1 ≤ v.size then
    match v.data with
    | none => none
    | some cells =>
      if v.num_elems < cells.length then
        some (true, { v with data := some (cells.set v.num_elems elem),
                             num_elems := v.num_elems + 1 })
      else none
  else
    match grow with
    | none => some (false, v)
    | some extra =>
      let old := ((v.data.getD []).take v.size).take v.num_elems
      some (true, { size := v.num_elems + 1 + extra,
                    data := some (old ++ elem :: List.replicate extra default),
                    num_elems := v.num_elems + 1 })

/-- Modelled from the spec: `bh_vector_size` returns the populated count. -/
def bh_vector_size {α : Type} (v : wasm_vec_t α) : Nat := v.num_elems

/-- Modelled from the spec: `bh_vector_get (vector, index, elem_buf)` reads a
populated cell and fails on any other index. -/
def bh_vector_get {α : Type} (v : wasm_vec_t α) (index : Nat) : Option α :=
  if index < v.num_elems then (v.data.getD [])[index]? else none

/-- Modelled from the spec: `bh_vector_remove (vector, index, NULL)` moves the
populated cells behind `index` one place down and decrements the populated
count; the cell of the former last element keeps its old content.  It fails,
leaving the vector as it was, when `index` is not a populated cell. -/
def bh_vector_remove {α : Type} (v : wasm_vec_t α) (index : Nat) : Bool × wasm_vec_t α :=
  if index < v.num_elems then
    let cells := v.data.getD []
    (true, { v with
      data := some (cells.take index
        ++ (cells.drop (index + 1)).take (v.num_elems - 1 - index)
        ++ cells.drop (v.num_elems - 1)),
      num_elems := v.num_elems - 1 })
  else (false, v)

/-! ## Externals, instances and import linking -/

/-- The enumeration `wasm_mutability_t`. -/
inductive wasm_mutability_t
  | WASM_CONST
  | WASM_VAR
  deriving DecidableEq, Repr

/-- The struct `wasm_limits_t`. -/
structure wasm_limits_t where
  min : Nat
  max : Nat
  deriving DecidableEq, Repr

/-- The struct `wasm_globaltype_t`. -/
structure wasm_globaltype_t where
  val_type : wasm_valtype_t
  mutability : wasm_mutability_t
  deriving DecidableEq, Repr

/-- The struct `wasm_tabletype_t`. -/
structure wasm_tabletype_t where
  val_type : wasm_valtype_t
  limits : wasm_limits_t
  deriving DecidableEq, Repr

/-- The struct `wasm_memorytype_t`. -/
structure wasm_memorytype_t where
  limits : wasm_limits_t
  deriving DecidableEq, Repr

/-- The struct `wasm_global_t`. -/
structure wasm_global_t where
  type : wasm_globaltype_t
  init : wasm_val_t
  global_idx_rt : Nat
  inst_comm_rt : Option Nat
  deriving DecidableEq, Repr

/-- The struct `wasm_table_t`. -/
structure wasm_table_t where
  type : wasm_tabletype_t
  table_idx_rt : Nat
  inst_comm_rt : Option Nat
  deriving DecidableEq, Repr

/-- The struct `wasm_memory_t`; `type` is `none` for the null pointer that
`wasm_memory_new_basic` leaves when the copy of the type fails. -/
structure wasm_memory_t where
  type : Option wasm_memorytype_t
  memory_idx_rt : Nat
  inst_comm_rt : Option Nat
  deriving DecidableEq, Repr

/-- The tagged view `wasm_extern_t` over the four concrete externals; the
constructor is the field `kind`. -/
inductive wasm_extern_t
  | WASM_EXTERN_FUNC (func : wasm_func_t)
  | WASM_EXTERN_GLOBAL (global : wasm_global_t)
  | WASM_EXTERN_TABLE (table : wasm_table_t)
  | WASM_EXTERN_MEMORY (memory : wasm_memory_t)

/-- The struct `wasm_instance_t`: the two owned vectors of references to
externals (a cell holds `none` for a null reference) and the handle of the
backend instance. -/
structure wasm_instance_t where
  imports : Option (wasm_vec_t (Option wasm_extern_t))
  exports : Option (wasm_vec_t (Option wasm_extern_t))
  inst_comm_rt : Option Nat

/-- Type of a native function installed behind an import, as the backend
invokes it: the allocation outcomes, the execution environment, the raw
argument area and the shared state. -/
abbrev native_func_ptr_t :=
  trampoline_allocs → wasm_exec_env_t → Option (List Nat) → rt_state →
    Option (Option (List Nat) × rt_state)

/-- The function part of a backend import descriptor (`WASMImport.u.function`)
that `interp_link_func` writes. -/
structure WASMFunctionImport where
  call_conv_raw : Bool
  attachment : Option wasm_func_t
  func_ptr_linked : Option native_func_ptr_t

/-- The part of the interpreter module (`WASMModule`) that reflection and
linking touch: `import_functions`, whose length is `import_function_count`;
the descriptor table `imports`, whose length is `import_count`; and
`import_globals`, whose length is `import_global_count`.  The last two are
kept beside `import_functions`, which in the C structure points into the
descriptor table. -/
structure WASMModule where
  import_functions : List WASMFunctionImport
  imports : List WASMImport := []
  import_globals : List WASMGlobalImport := []

/-- The function `interp_link_func (inst, module_interp, func_idx_rt, import)`.
`clone_ok` is the allocation outcome of `wasm_func_copy` and `grow` that of
`bh_vector_append`.  The result is the returned boolean with the instance, the
module and the import as the call leaves them; `none` is a failed
`bh_assert`. -/
def interp_link_func (clone_ok : Bool) (grow : Option Nat) (inst : wasm_instance_t)
    (module_interp : WASMModule) (func_idx_rt : Nat) (import_func : wasm_func_t) :
    Option (Bool × wasm_instance_t × WASMModule × wasm_func_t) :=
  if func_idx_rt < module_interp.import_functions.length then
    match wasm_func_copy clone_ok import_func with
    | none => some (false, inst, module_interp, import_func)
    | some cloned =>
      match inst.imports with
      | none => some (false, inst, module_interp, import_func)
      | some imports =>
        match bh_vector_append grow imports (some (wasm_extern_t.WASM_EXTERN_FUNC cloned)) with
        | none => none
        | some (false, _) => some (false, inst, module_interp, import_func)
        | some (true, imports1) =>
          some (true, { inst with imports := some imports1 },
            { module_interp with
              import_functions := module_interp.import_functions.set func_idx_rt
                { call_conv_raw := true, attachment := some cloned,
                  func_ptr_linked := some native_func_trampoline } },
            { import_func with func_idx_rt := func_idx_rt })
  else none

/-- Modelled from the spec: the backend of the link-then-call scenario, which
is not among the analysed files.  The export takes one i32 argument, forwards
it to the import descriptor `imp` under the raw calling convention (a zeroed
area of sixteen 64-bit cells, the argument in the first cell, the registered
attachment and the calling instance in the execution environment), and
returns the i32 that the native function leaves in the first cell.  The call
is reported as failed exactly when an exception is pending on the instance
after the native function returns. -/
def forwarding_export (ta : trampoline_allocs) (imp : WASMFunctionImport) : backend_call_t :=
  fun inst _function _argc argv st =>
    match imp.func_ptr_linked, argv with
    | some native, some buf =>
      match native ta ⟨imp.attachment, inst⟩ (some (buf.getD 0 0 :: List.replicate 31 0)) st with
      | none => none
      | some (raw, st1) =>
        if (wasm_runtime_get_exception st1 inst).isSome then some (false, some buf, st1)
        else some (true, some (buf.set 0 ((raw.getD []).getD 0 0)), st1)
    | _, _ => none

/-- The backend reported the call as failed. -/
def backend_reports_failure (r : Option (Bool × Option (List Nat) × rt_state)) : Bool :=
  match r with
  | some (ok, _, _) => !ok
  | none => false

/-! ## Scenario data -/

/-- A host function of type (i32) -> (i32) whose callback returns its argument
plus one, wrapping at 32 bits, and no trap. -/
def host_increment : wasm_func_t :=
  { with_env := false
    cb := fun ps rs =>
      (none, rs.set 0 ⟨.WASM_I32, ((ps.getD 0 wasm_val_t.zero).of + 1) % UINT32_MOD⟩)
    cb_env_cb := fun _ _ rs => (none, rs)
    cb_env_env := 0
    type := ⟨[⟨.WASM_I32⟩], [⟨.WASM_I32⟩]⟩
    func_idx_rt := 0
    inst_comm_rt := none }

/-- A trap whose message is the C string "boom". -/
def boom_trap : wasm_trap_t := ⟨some ⟨5, some (c_string_bytes "boom"), 5⟩⟩

/-- A host function of type (i32) -> (i32) whose callback always returns
`boom_trap`. -/
def host_boom : wasm_func_t :=
  { host_increment with cb := fun _ rs => (some boom_trap, rs) }

/-- A backend-bound function of type (i32) -> (i32): export 3 of the backend
instance with handle 7. -/
def bound_export : wasm_func_t :=
  { host_increment with cb := fun _ rs => (none, rs), func_idx_rt := 3, inst_comm_rt := some 7 }

/-- A backend-bound function of type () -> () of the backend instance 7. -/
def bound_unit_export : wasm_func_t :=
  { bound_export with type := ⟨[], []⟩ }

/-- A fresh instance object with room for one import, and a module with one
unlinked function import. -/
def fresh_instance : wasm_instance_t := ⟨some ⟨1, some [none], 0⟩, none, none⟩

/-- A module with one function import that is not linked yet. -/
def fresh_module : WASMModule := { import_functions := [⟨false, none, none⟩] }

/-- The import descriptor that `interp_link_func` leaves for a host function. -/
def linked_import (host : wasm_func_t) : WASMFunctionImport :=
  ⟨true, some host, some native_func_trampoline⟩

/-- A state with no stashed trap and no pending exception. -/
def quiet_state : rt_state := ⟨none, fun _ => none⟩

/-- A backend that reports every call as failed without raising an
exception. -/
def silent_failing_backend : backend_call_t :=
  fun _ _ _ argv st => some (false, argv, st)

/-- The argument area that `wasm_func_call` hands to the backend for a
well-typed call: the zeroed scratch buffer of `max (param_count, result_count)`
64-bit cells with the slot image of the parameters at its start, or a null
pointer when both counts are zero. -/
def scratch_argv (func : wasm_func_t) (params : List wasm_val_t) : Option (List Nat) :=
  if max (wasm_func_param_arity func) (wasm_func_result_arity func) ≠ 0 then
    some (slot_image params ++ List.replicate
      (2 * max (wasm_func_param_arity func) (wasm_func_result_arity func)
        - slot_count func.type.params) 0)
  else none

/-! ## Engine, stores and modules -/

/-- Modelled from the spec: the execution modes of the engine
(interpreter or AOT); the enumeration is declared in a header that is not among
the analysed files. -/
inductive runtime_mode_e
  | INTERP_MODE
  | AOT_MODE
  deriving DecidableEq, Repr

/-- Modelled from the spec: the verdicts of the package-sniffing function
`get_package_type` (bytecode module, AOT module, unknown). -/
inductive PackageType
  | Wasm_Module_Bytecode
  | Wasm_Module_AoT
  | Package_Type_Unknown
  deriving DecidableEq, Repr

/-- The allocation strategies `mem_alloc_type_t` that
`wasm_engine_new_internal` distinguishes. -/
inductive mem_alloc_type_t
  | Alloc_With_Pool
  | Alloc_With_Allocator
  | Alloc_With_System_Allocator
  deriving DecidableEq, Repr

/-- Calls recorded while the code runs: the calls into the backend
(`wasm_runtime_full_init` with its outcome, `wasm_runtime_destroy`,
`wasm_runtime_load` with its result, `wasm_runtime_unload`,
`wasm_runtime_deinstantiate`, `wasm_runtime_instantiate` with its result) and
each entry of `wasm_store_delete` with a non-null store. -/
inductive trace_event
  | runtime_full_init (type : mem_alloc_type_t) (ok : Bool)
  | runtime_destroy
  | load (result : Option Nat)
  | unload (module_comm_rt : Nat)
  | deinstantiate (inst_comm_rt : Nat)
  | store_delete (store : Nat)
  | instantiate (result : Option Nat)
  deriving DecidableEq, Repr

/-- The struct `wasm_module_ex_t`. -/
structure wasm_module_ex_t where
  module_comm_rt : Option Nat
  binary : Option (wasm_vec_t Nat)
  deriving DecidableEq, Repr

/-- The struct `wasm_store_t`: the two owned vectors of references to modules
and to instances. -/
structure wasm_store_t where
  modules : Option (wasm_vec_t (Option wasm_module_ex_t))
  instances : Option (wasm_vec_t (Option wasm_instance_t))

/-- The struct `wasm_engine_t`; the cells of `stores` hold the addresses of
the registered stores (0 is a null pointer). -/
structure wasm_engine_t where
  mode : runtime_mode_e
  stores : Option (wasm_vec_t Nat)
  deriving DecidableEq, Repr

/-- The global state of the layer: the static `singleton_engine`, the engine
and store objects that are allocated (by address), and the recorded calls,
oldest first. -/
structure world where
  singleton_engine : Option Nat
  engines : Nat → Option wasm_engine_t
  stores : Nat → Option wasm_store_t
  trace : List trace_event

/-- Replace the object stored at one address. -/
def heap_set {α : Type} (heap : Nat → Option α) (addr : Nat) (obj : Option α) :
    Nat → Option α :=
  fun p => if p = addr then obj else heap p

/-- The populated cells `data[0 .. num_elems)` of a vector. -/
def wasm_vec_t.populated {α : Type} (v : wasm_vec_t α) : List α :=
  (v.data.getD []).take v.num_elems

/-- The function `wasm_##name##_vec_new_uninitialized (out, size)` of an owning
vector, that is `wasm_##name##_vec_new (out, size, NULL)`; `alloc_ok` is the
outcome of the allocation made by `bh_vector_init`. -/
def wasm_vec_new_uninitialized {α : Type} [Inhabited α] (alloc_ok : Bool) (size : Nat) :
    wasm_vec_t α :=
  if size = 0 then wasm_vec_t.zero
  else
    match bh_vector_init alloc_ok (wasm_vec_t.zero : wasm_vec_t α) size with
    | (false, out) => bh_vector_destroy out
    | (true, out) => out

/-- The function `wasm_module_delete_internal (module)`: the calls it makes. -/
def wasm_module_delete_internal (module : Option wasm_module_ex_t) : List trace_event :=
  match module with
  | none => []
  | some module_ex =>
    match module_ex.module_comm_rt with
    | some h => [trace_event.unload h]
    | none => []

/-- The function `wasm_instance_delete_internal (instance)`: the calls it
makes.  Deleting the two vectors of externals releases host objects only. -/
def wasm_instance_delete_internal (instance_ : Option wasm_instance_t) : List trace_event :=
  match instance_ with
  | none => []
  | some inst =>
    match inst.inst_comm_rt with
    | some h => [trace_event.deinstantiate h]
    | none => []

/-- The function `wasm_module_vec_delete (v)`: the element destructor runs on
`data[0 .. num_elems)` in order.  `none` stands for a populated count beyond
the buffer. -/
def wasm_module_vec_delete (v : wasm_vec_t (Option wasm_module_ex_t)) :
    Option (List trace_event) :=
  if (v.data.getD []).length < v.num_elems then none
  else some (v.populated.flatMap wasm_module_delete_internal)

/-- The function `wasm_instance_vec_delete (v)`. -/
def wasm_instance_vec_delete (v : wasm_vec_t (Option wasm_instance_t)) :
    Option (List trace_event) :=
  if (v.data.getD []).length < v.num_elems then none
  else some (v.populated.flatMap wasm_instance_delete_internal)

/-- The macro `DEINIT_VEC (vector_p, deinit_func)` on the module vector. -/
def DEINIT_VEC_modules (v : Option (wasm_vec_t (Option wasm_module_ex_t))) :
    Option (List trace_event) :=
  match v with
  | none => some []
  | some v => wasm_module_vec_delete v

/-- The macro `DEINIT_VEC (vector_p, deinit_func)` on the instance vector. -/
def DEINIT_VEC_instances (v : Option (wasm_vec_t (Option wasm_instance_t))) :
    Option (List trace_event) :=
  match v with
  | none => some []
  | some v => wasm_instance_vec_delete v

/-- The scan of `wasm_store_delete` over the store list of the engine: the
first populated cell equal to `store` is removed.  The arguments are the
number of iterations left (`store_count - i`) and `i`. -/
def wasm_store_delete_scan (store : Nat) : Nat → Nat → wasm_vec_t Nat → wasm_vec_t Nat
  | 0, _, v => v
  | left + 1, i, v =>
    match bh_vector_get v i with
    | none => v
    | some tmp =>
      if tmp = store then (bh_vector_remove v i).2
      else wasm_store_delete_scan store left (i + 1) v

/-- The function `wasm_store_delete (store)`. -/
def wasm_store_delete (w : world) (store : Nat) : Option world :=
  if store = 0 then some w
  else
    match w.singleton_engine with
    | none => none
    | some e =>
      match w.engines e with
      | none => none
      | some engine =>
        let engine1 : wasm_engine_t :=
          match engine.stores with
          | none => engine
          | some v =>
            { engine with
              stores := some (wasm_store_delete_scan store (bh_vector_size v) 0 v) }
        match w.stores store with
        | none => none
        | some s =>
          match DEINIT_VEC_modules s.modules, DEINIT_VEC_instances s.instances with
          | some unloads, some deinstantiates =>
            some { singleton_engine := w.singleton_engine
                   engines := heap_set w.engines e (some engine1)
                   stores := heap_set w.stores store none
                   trace := w.trace ++ trace_event.store_delete store :: unloads
                     ++ deinstantiates }
          | _, _ => none

/-- The loop of `wasm_store_vec_delete (v)` for `v = engine->stores`, which is
read again in every iteration because the element destructor
`wasm_store_delete` updates the store list of the singleton.  `fuel` bounds
the number of iterations. -/
def wasm_store_vec_delete_loop (engine : Nat) : Nat → Nat → world → Option world
  | 0, _, _ => none
  | fuel + 1, i, w =>
    match w.engines engine with
    | none => none
    | some obj =>
      match obj.stores with
      | none => none
      | some v =>
        if i = v.num_elems then some w
        else
          match (v.data.getD [])[i]? with
          | none => none
          | some store =>
            (wasm_store_delete w store).bind (wasm_store_vec_delete_loop engine fuel (i + 1))

/-- The function `wasm_engine_delete_internal (engine)`.  Every iteration of
the vector loop advances `i` and reads a cell inside the buffer, so the number
of cells plus one bounds the iterations. -/
def wasm_engine_delete_internal (w : world) (engine : Option Nat) : Option world :=
  let w1 : Option world :=
    match engine with
    | none => some w
    | some e =>
      match w.engines e with
      | none => none
      | some obj =>
        let w2 : Option world :=
          match obj.stores with
          | none => some w
          | some v => wasm_store_vec_delete_loop e ((v.data.getD []).length + 1) 0 w
        w2.map fun w2 => { w2 with engines := heap_set w2.engines e none }
  w1.map fun w1 => { w1 with trace := w1.trace ++ [trace_event.runtime_destroy] }

/-- Outcomes of the fallible steps of `wasm_engine_new_internal`:
`wasm_runtime_full_init`, the allocation of the engine (its address), of the
header of the store vector and of its data. -/
structure engine_new_outcomes where
  init_ok : Bool
  engine_alloc : Option Nat
  vec_ok : Bool
  data_ok : Bool
  deriving DecidableEq, Repr

/-- The function `wasm_engine_new_internal (type, opts, mode)`.  `opts` is a
pointer that is dereferenced for the pool and the allocator strategies. -/
def wasm_engine_new_internal (o : engine_new_outcomes) (type : mem_alloc_type_t)
    (opts : Option Nat) (mode : runtime_mode_e) (w : world) : Option (Option Nat × world) :=
  if (type = .Alloc_With_Pool ∨ type = .Alloc_With_Allocator) ∧ opts = none then none
  else
    let w1 : world := { w with trace := w.trace ++ [trace_event.runtime_full_init type o.init_ok] }
    let failed : Option (Option Nat × world) :=
      some (none, { w1 with trace := w1.trace ++ [trace_event.runtime_destroy] })
    if !o.init_ok then failed
    else
      match o.engine_alloc with
      | none => failed
      | some e =>
        if !o.vec_ok then failed
        else
          let stores : wasm_vec_t Nat := wasm_vec_new_uninitialized o.data_ok 1
          if stores.size ≠ 0 ∧ stores.data = none then failed
          else some (some e, { w1 with engines := heap_set w1.engines e (some ⟨mode, some stores⟩) })

/-- The compile-time switches `WASM_ENABLE_INTERP` and `WASM_ENABLE_AOT`. -/
structure build_config where
  WASM_ENABLE_INTERP : Bool
  WASM_ENABLE_AOT : Bool
  deriving DecidableEq, Repr

/-- The mode that `wasm_engine_new` selects: the interpreter unless only the
AOT backend is compiled in. -/
def wasm_engine_new_mode (cfg : build_config) : runtime_mode_e :=
  if cfg.WASM_ENABLE_INTERP = false ∧ cfg.WASM_ENABLE_AOT = true then .AOT_MODE
  else .INTERP_MODE

/-- The two assertions of `wasm_engine_new`: the selected mode is compiled
in. -/
def wasm_engine_new_asserts (cfg : build_config) (mode : runtime_mode_e) : Bool :=
  match mode with
  | .INTERP_MODE => cfg.WASM_ENABLE_INTERP
  | .AOT_MODE => cfg.WASM_ENABLE_AOT

/-- The function `wasm_engine_new ()`. -/
def wasm_engine_new (cfg : build_config) (o : engine_new_outcomes) (w : world) :
    Option (Option Nat × world) :=
  let mode := wasm_engine_new_mode cfg
  if wasm_engine_new_asserts cfg mode = false then none
  else
    match w.singleton_engine with
    | some e => some (some e, w)
    | none =>
      (wasm_engine_new_internal o .Alloc_With_System_Allocator none mode w).map fun r =>
        (r.1, { r.2 with singleton_engine := r.1 })

/-- The function `wasm_engine_new_with_args (type, opts, mode)`. -/
def wasm_engine_new_with_args (o : engine_new_outcomes) (type : mem_alloc_type_t)
    (opts : Option Nat) (mode : runtime_mode_e) (w : world) : Option (Option Nat × world) :=
  match w.singleton_engine with
  | some e => some (some e, w)
  | none =>
    (wasm_engine_new_internal o type opts mode w).map fun r =>
      (r.1, { r.2 with singleton_engine := r.1 })

/-- The function `wasm_engine_delete (engine)`. -/
def wasm_engine_delete (w : world) (engine : Option Nat) : Option world :=
  match engine with
  | none => some w
  | some e =>
    (wasm_engine_delete_internal w (some e)).map fun w1 =>
      { w1 with singleton_engine := none }

/-- Outcomes of the fallible steps of `wasm_store_new`: the allocation of the
store (its address), of the header and the data of the module vector, of the
header and the data of the instance vector, and the reallocation made by
`bh_vector_append` on the store list of the engine. -/
structure store_new_outcomes where
  store_alloc : Option Nat
  modules_vec_ok : Bool
  modules_data_ok : Bool
  instances_vec_ok : Bool
  instances_data_ok : Bool
  grow : Option Nat
  deriving DecidableEq, Repr

/-- The function `wasm_store_new (engine)`.  `DEFAULT_VECTOR_INIT_LENGTH` is a
constant of a header that is not among the analysed files. -/
def wasm_store_new (DEFAULT_VECTOR_INIT_LENGTH : Nat) (o : store_new_outcomes) (w : world)
    (engine : Option Nat) : Option (Option Nat × world) :=
  match engine, w.singleton_engine with
  | some e, some singleton =>
    if singleton ≠ e then none
    else
      match o.store_alloc with
      | none => some (none, w)
      | some store =>
        let failed (s : wasm_store_t) : Option (Option Nat × world) :=
          (wasm_store_delete { w with stores := heap_set w.stores store (some s) } store).map
            fun w1 => (none, w1)
        if !o.modules_vec_ok then failed ⟨none, none⟩
        else
          let modules : wasm_vec_t (Option wasm_module_ex_t) :=
            wasm_vec_new_uninitialized o.modules_data_ok DEFAULT_VECTOR_INIT_LENGTH
          if modules.size ≠ 0 ∧ modules.data.isNone = true then failed ⟨some modules, none⟩
          else if !o.instances_vec_ok then failed ⟨some modules, none⟩
          else
            let instances : wasm_vec_t (Option wasm_instance_t) :=
              wasm_vec_new_uninitialized o.instances_data_ok DEFAULT_VECTOR_INIT_LENGTH
            let s : wasm_store_t := ⟨some modules, some instances⟩
            if instances.size ≠ 0 ∧ instances.data.isNone = true then failed s
            else
              match w.engines singleton with
              | none => none
              | some obj =>
                match obj.stores with
                | none => failed s
                | some v =>
                  match bh_vector_append o.grow v store with
                  | none => none
                  | some (false, _) => failed s
                  | some (true, v1) =>
                    some (some store,
                      { w with
                        engines := heap_set w.engines singleton (some { obj with stores := some v1 })
                        stores := heap_set w.stores store (some s) })
  | _, _ => none

/-- Outcomes of the fallible steps of `wasm_module_new`: the allocation of the
module, of the header and the data of its copy of the binary, and the
reallocation made by `bh_vector_append` on the module list of the store. -/
structure module_new_outcomes where
  module_ok : Bool
  binary_vec_ok : Bool
  binary_data_ok : Bool
  grow : Option Nat
  deriving DecidableEq, Repr

/-- The inline function `current_runtime_mode ()`; `none` is its failed
assertion on `singleton_engine`. -/
def current_runtime_mode (w : world) : Option runtime_mode_e :=
  match w.singleton_engine with
  | none => none
  | some e => (w.engines e).map fun obj => obj.mode

/-- The test of `wasm_module_new` on the package type and the engine mode. -/
def package_rejected (pkg_type : PackageType) (mode : runtime_mode_e) : Bool :=
  decide (pkg_type = .Package_Type_Unknown)
    || (decide (pkg_type = .Wasm_Module_Bytecode) && decide (mode ≠ .INTERP_MODE))
    || (decide (pkg_type = .Wasm_Module_AoT) && decide (mode = .INTERP_MODE))

/-- The function `wasm_module_new (store, binary)`.  `get_package_type` and
`wasm_runtime_load` are the backend functions of these names, applied to the
data pointer and the size; the result is the returned module (`none` is null)
and the world. -/
def wasm_module_new (get_package_type : Option (List Nat) → Nat → PackageType)
    (wasm_runtime_load : Option (List Nat) → Nat → Option Nat) (o : module_new_outcomes)
    (w : world) (store : Nat) (binary : wasm_vec_t Nat) :
    Option (Option wasm_module_ex_t × world) :=
  if w.singleton_engine = none ∨ store = 0 then none
  else if binary.data = none ∨ binary.size = 0 then none
  else if binary.size > UINT32_MAX then some (none, w)
  else
    match current_runtime_mode w with
    | none => none
    | some mode =>
      if package_rejected (get_package_type binary.data binary.size) mode = true then
        some (none, w)
      else if !o.module_ok then some (none, w)
      else if !o.binary_vec_ok then some (none, w)
      else
        match wasm_byte_vec_new o.binary_data_ok binary.size binary.data with
        | none => none
        | some bin =>
          if bin.size ≠ 0 ∧ bin.data = none then some (none, w)
          else
            let loaded := wasm_runtime_load bin.data bin.size
            let w1 : world := { w with trace := w.trace ++ [trace_event.load loaded] }
            match loaded with
            | none => some (none, w1)
            | some h =>
              let module_ex : wasm_module_ex_t := ⟨some h, some bin⟩
              let failed : Option (Option wasm_module_ex_t × world) :=
                some (none, { w1 with trace := w1.trace ++ [trace_event.unload h] })
              match w1.stores store with
              | none => none
              | some s =>
                match s.modules with
                | none => failed
                | some modules =>
                  match bh_vector_append o.grow modules (some module_ex) with
                  | none => none
                  | some (false, _) => failed
                  | some (true, modules1) =>
                    some (some module_ex,
                      { w1 with
                        stores := heap_set w1.stores store
                          (some { s with modules := some modules1 }) })

/-- Number of backend resources a store holds: its populated modules with a
backend module and its populated instances with a backend instance. -/
def store_live_resources (w : world) (store : Nat) : Nat :=
  match w.stores store with
  | none => 0
  | some s =>
    ((s.modules.map fun v => v.populated).getD []).countP
        (fun m => (m.bind fun x => x.module_comm_rt).isSome)
      + ((s.instances.map fun v => v.populated).getD []).countP
        (fun i => (i.bind fun x => x.inst_comm_rt).isSome)

/-- The populated store list of the live engine. -/
def registered_stores (w : world) : List Nat :=
  match w.singleton_engine with
  | none => []
  | some e =>
    match w.engines e with
    | none => []
    | some obj => (obj.stores.map fun v => v.populated).getD []

/-- A world with no engine, no object and no recorded call. -/
def empty_world : world := ⟨none, fun _ => none, fun _ => none, []⟩

/-! ## Scenario data for the engine and the stores -/

/-- A build with the interpreter only. -/
def interp_config : build_config := ⟨true, false⟩

/-- The world after the first `wasm_engine_new` of a process, with the engine
allocated at address 100. -/
def engine_world : world :=
  { singleton_engine := some 100
    engines := heap_set (fun _ => none) 100
      (some ⟨.INTERP_MODE, some ⟨1, some [0], 0⟩⟩)
    stores := fun _ => none
    trace := [trace_event.runtime_full_init .Alloc_With_System_Allocator true] }

/-- Successful outcomes of `wasm_store_new` with the store at `addr`. -/
def store_outcomes (addr : Nat) (grow : Option Nat) : store_new_outcomes :=
  ⟨some addr, true, true, true, true, grow⟩

/-- The world after `wasm_store_new` on `engine_world`, with the store at
address 200. -/
def one_store_world : Option world :=
  (wasm_store_new 4 (store_outcomes 200 none) engine_world (some 100)).map fun r => r.2

/-- The world after a second `wasm_store_new`, with the store at address
300. -/
def two_store_world : Option world :=
  one_store_world.bind fun w =>
    (wasm_store_new 4 (store_outcomes 300 (some 0)) w (some 100)).map fun r => r.2

/-- A world whose store at address 200 holds two modules (backend modules 11
and 12) and one instance (backend instance 21). -/
def teardown_world : world :=
  { singleton_engine := some 100
    engines := heap_set (fun _ => none) 100
      (some ⟨.INTERP_MODE, some ⟨1, some [200], 1⟩⟩)
    stores := heap_set (fun _ => none) 200
      (some ⟨some ⟨4, some [some ⟨some 11, none⟩, some ⟨some 12, none⟩, none, none], 2⟩,
             some ⟨4, some [some ⟨none, none, some 21⟩, none, none, none], 1⟩⟩)
    trace := [] }

/-- A four-byte binary. -/
def sample_binary : wasm_vec_t Nat := ⟨4, some [0, 97, 115, 109], 4⟩

/-! ## The two vector flavours -/

/-- The function `wasm_##name##_vec_new (out, size, data)`.  Its text is the
same in `WASM_DEFINE_VEC_PLAIN` and in `WASM_DEFINE_VEC_OWN` but for the size
of a cell, `elem_size` (`sizeof` of the element in the plain flavour, of a
reference in the owning one): the cells of `data` are moved by one
`bh_memcpy_s` of `size_in_bytes` bytes, an `unsigned int`, and nothing is
called on them.  `alloc_ok` is the outcome of the allocation made by
`bh_vector_init`; `none` stands for a `bh_memcpy_s` that reads past the end
of `data`. -/
def wasm_vec_new {α : Type} [Inhabited α] (elem_size : Nat) (alloc_ok : Bool) (size : Nat)
    (data : Option (List α)) : Option (wasm_vec_t α) :=
  if size = 0 then some wasm_vec_t.zero
  else
    match bh_vector_init alloc_ok (wasm_vec_t.zero : wasm_vec_t α) size with
    | (false, out) => some (bh_vector_destroy out)
    | (true, out) =>
      match data with
      | none => some out
      | some src =>
        let size_in_bytes := (size * elem_size) % UINT32_MOD
        let copied := size_in_bytes / elem_size
        if src.length < copied then none
        else
          some { out with
            data := some (src.take copied ++ (out.data.getD []).drop copied)
            num_elems := size }

/-- The function `wasm_##name##_vec_delete (v)` of an owning vector with a
non-null `v`: the references handed to `elem_destroy_func`, in call order, and
the header it leaves.  `none` stands for a populated count beyond the
buffer. -/
def wasm_vec_delete_own {α : Type} (v : wasm_vec_t α) : Option (List α × wasm_vec_t α) :=
  if (v.data.getD []).length < v.num_elems then none
  else some (v.populated, bh_vector_destroy v)

/-- What a call of `wasm_##name##_vec_copy` of an owning vector leaves: the
header in `out`, the objects that the element copy operation returned (in call
order) and the references that were handed to `elem_destroy_func`. -/
structure vec_copy_result (T : Type) where
  out : wasm_vec_t (Option T)
  copies : List T
  destroyed : List (Option T)
  deriving DecidableEq, Repr

/-- The loop of `wasm_##name##_vec_copy`.  `copy i` is the element copy
operation as it behaves in call `i` (its allocation outcomes are part of it):
`none` is a failed assertion, `some none` a null result.  The arguments are
the number of iterations left (`src->num_elems - i`), `i`, the cells of `out`
and the copies made so far; the boolean tells whether the loop ran to its
end. -/
def wasm_vec_copy_loop {T : Type} (copy : Nat → Option T → Option (Option T))
    (src_cells : List (Option T)) :
    Nat → Nat → List (Option T) → List T → Option (Bool × List (Option T) × List T)
  | 0, _, out_cells, copies => some (true, out_cells, copies)
  | n + 1, i, out_cells, copies =>
    match src_cells[i]? with
    | none => none
    | some elem =>
      match copy i elem with
      | none => none
      | some none =>
        if i < out_cells.length then some (false, out_cells.set i none, copies) else none
      | some (some c) =>
        if i < out_cells.length then
          wasm_vec_copy_loop copy src_cells n (i + 1) (out_cells.set i (some c)) (copies ++ [c])
        else none

/-- The function `wasm_##name##_vec_copy (out, src)` of
`WASM_DEFINE_VEC_OWN`, with the element copy operation `copy` of the element
type.  `alloc_ok` is the outcome of the allocation made by
`bh_vector_init`. -/
def wasm_vec_copy {T : Type} (alloc_ok : Bool) (copy : Nat → Option T → Option (Option T))
    (src : wasm_vec_t (Option T)) : Option (vec_copy_result T) :=
  if src.size = 0 then some ⟨wasm_vec_t.zero, [], []⟩
  else
    match bh_vector_init alloc_ok (wasm_vec_t.zero : wasm_vec_t (Option T)) src.size with
    | (false, out) => (wasm_vec_delete_own out).map fun d => ⟨d.2, [], d.1⟩
    | (true, out) =>
      match wasm_vec_copy_loop copy (src.data.getD []) src.num_elems 0 (out.data.getD []) [] with
      | none => none
      | some (false, cells, copies) =>
        (wasm_vec_delete_own { out with data := some cells }).map fun d => ⟨d.2, copies, d.1⟩
      | some (true, cells, copies) =>
        some ⟨{ out with data := some cells, num_elems := src.num_elems }, copies, []⟩

/-- The stub `wasm_module_copy (src)`: it returns null. -/
def wasm_module_copy (_src : Option wasm_module_ex_t) : Option (Option wasm_module_ex_t) :=
  some none

/-- The function `wasm_module_vec_copy (out, src)` of
`WASM_DEFINE_VEC_OWN (module, wasm_module_delete_internal)`. -/
def wasm_module_vec_copy (alloc_ok : Bool) (src : wasm_vec_t (Option wasm_module_ex_t)) :
    Option (vec_copy_result wasm_module_ex_t) :=
  wasm_vec_copy alloc_ok (fun _ => wasm_module_copy) src

/-! ## Type descriptors -/

/-- The function `val_type_rt_2_valkind (val_type_rt)`. -/
def val_type_rt_2_valkind : value_type_rt → wasm_valkind_t
  | .VALUE_TYPE_I32 => .WASM_I32
  | .VALUE_TYPE_I64 => .WASM_I64
  | .VALUE_TYPE_F32 => .WASM_F32
  | .VALUE_TYPE_F64 => .WASM_F64
  | .VALUE_TYPE_ANY => .WASM_ANYREF
  | .VALUE_TYPE_FUNCREF => .WASM_FUNCREF
  | .other _ => .WASM_ANYREF

/-- The function `wasm_valtype_new (kind)`; `alloc_ok` is the outcome of its
allocation and `none` a null result. -/
def wasm_valtype_new (alloc_ok : Bool) (kind : wasm_valkind_t) : Option wasm_valtype_t :=
  if alloc_ok then some ⟨kind⟩ else none

/-- The function `wasm_valtype_new_internal (val_type_rt)`. -/
def wasm_valtype_new_internal (alloc_ok : Bool) (val_type_rt : value_type_rt) :
    Option wasm_valtype_t :=
  wasm_valtype_new alloc_ok (val_type_rt_2_valkind val_type_rt)

/-- The function `wasm_valtype_copy (src)`; the outer `none` is its failed
assertion on `src`. -/
def wasm_valtype_copy (alloc_ok : Bool) (src : Option wasm_valtype_t) :
    Option (Option wasm_valtype_t) :=
  match src with
  | none => none
  | some s => some (wasm_valtype_new alloc_ok s.kind)

/-- The function `wasm_valtype_vec_copy (out, src)` of
`WASM_DEFINE_VEC_OWN (valtype, wasm_valtype_delete)`: `data_ok` is the outcome
of the allocation of the buffer and `elem_ok i` that of the allocation made by
the element copy number `i`. -/
def wasm_valtype_vec_copy (data_ok : Bool) (elem_ok : Nat → Bool)
    (src : wasm_vec_t (Option wasm_valtype_t)) : Option (vec_copy_result wasm_valtype_t) :=
  wasm_vec_copy data_ok (fun i => wasm_valtype_copy (elem_ok i)) src

/-- The struct `wasm_functype_t` with its two owned vectors as the C code
keeps them, header and cells (`wasm_functype_t` above keeps the populated
value types only).  Both vector pointers are non-null in every function type
that a constructor returns. -/
structure wasm_functype_hdr_t where
  params : wasm_vec_t (Option wasm_valtype_t)
  results : wasm_vec_t (Option wasm_valtype_t)
  deriving DecidableEq, Repr

/-- The value kinds of the populated cells of a value type vector (`none` for
a null cell). -/
def valtype_vec_kinds (v : wasm_vec_t (Option wasm_valtype_t)) : List (Option wasm_valkind_t) :=
  v.populated.map fun cell => cell.map fun vt => vt.kind

/-- The populated value types of a function type, the view that
`wasm_functype_t` keeps. -/
def wasm_functype_hdr_t.populated_types (t : wasm_functype_hdr_t) : wasm_functype_t :=
  ⟨t.params.populated.filterMap id, t.results.populated.filterMap id⟩

/-- The function `wasm_functype_new (params, results)`: the three outcomes
are those of the allocations of the type and of its two vector headers, into
which the headers of `params` and `results` are copied (the cells are
shared). -/
def wasm_functype_new (type_ok params_vec_ok results_vec_ok : Bool)
    (params results : wasm_vec_t (Option wasm_valtype_t)) : Option wasm_functype_hdr_t :=
  if !type_ok then none
  else if !params_vec_ok then none
  else if !results_vec_ok then none
  else some ⟨params, results⟩

/-- Outcomes of the allocations of `wasm_functype_copy`: for each vector the
buffer and the element copies, then the three allocations of
`wasm_functype_new`. -/
structure functype_copy_outcomes where
  params_data_ok : Bool
  params_elem_ok : Nat → Bool
  results_data_ok : Bool
  results_elem_ok : Nat → Bool
  type_ok : Bool
  params_vec_ok : Bool
  results_vec_ok : Bool

/-- The function `wasm_functype_copy (src)`; the outer `none` is a failed
assertion (a null `src`, a null cell handed to `wasm_valtype_copy`) or a
populated count beyond a buffer. -/
def wasm_functype_copy (o : functype_copy_outcomes) (src : Option wasm_functype_hdr_t) :
    Option (Option wasm_functype_hdr_t) :=
  match src with
  | none => none
  | some s =>
    match wasm_valtype_vec_copy o.params_data_ok o.params_elem_ok s.params with
    | none => none
    | some params =>
      if s.params.size ≠ 0 ∧ params.out.data.isNone = true then some none
      else
        match wasm_valtype_vec_copy o.results_data_ok o.results_elem_ok s.results with
        | none => none
        | some results =>
          if s.results.size ≠ 0 ∧ results.out.data.isNone = true then some none
          else some (wasm_functype_new o.type_ok o.params_vec_ok o.results_vec_ok
            params.out results.out)

/-- Outcomes of the allocations of `wasm_functype_new_internal`: the type, then
for each of the two vectors its header (`INIT_VEC`), its buffer, and for the
element number `i` the value type and the reallocation that
`bh_vector_append` makes when no cell is free. -/
structure functype_new_outcomes where
  type_ok : Bool
  params_vec_ok : Bool
  params_data_ok : Bool
  param_elem_ok : Nat → Bool
  param_grow : Nat → Option Nat
  results_vec_ok : Bool
  results_data_ok : Bool
  result_elem_ok : Nat → Bool
  result_grow : Nat → Option Nat

/-- Either loop of `wasm_functype_new_internal`: element `i` is built from the
code `types[base + i]` and appended.  The arguments are the number of
iterations left and `i`; the inner `none` is the exit through `failed`, the
outer one a read past the end of `types` or a header that claims cells its
buffer does not have. -/
def wasm_functype_new_internal_loop (elem_ok : Nat → Bool) (grow : Nat → Option Nat)
    (types : List value_type_rt) (base : Nat) :
    Nat → Nat → wasm_vec_t (Option wasm_valtype_t) →
      Option (Option (wasm_vec_t (Option wasm_valtype_t)))
  | 0, _, v => some (some v)
  | n + 1, i, v =>
    match types[base + i]? with
    | none => none
    | some val_type_rt =>
      match wasm_valtype_new_internal (elem_ok i) val_type_rt with
      | none => some none
      | some val_type =>
        match bh_vector_append (grow i) v (some val_type) with
        | none => none
        | some (false, _) => some none
        | some (true, v1) =>
          wasm_functype_new_internal_loop elem_ok grow types base n (i + 1) v1

/-- The function `wasm_functype_new_internal (type_rt)`; the outer `none` is
its failed assertion on `type_rt` or an access outside a buffer. -/
def wasm_functype_new_internal (o : functype_new_outcomes) (type_rt : Option WASMType) :
    Option (Option wasm_functype_hdr_t) :=
  match type_rt with
  | none => none
  | some t =>
    if !o.type_ok then some none
    else if !o.params_vec_ok then some none
    else
      let params : wasm_vec_t (Option wasm_valtype_t) :=
        wasm_vec_new_uninitialized o.params_data_ok t.param_count
      if params.size ≠ 0 ∧ params.data.isNone = true then some none
      else
        match wasm_functype_new_internal_loop o.param_elem_ok o.param_grow t.types 0
            t.param_count 0 params with
        | none => none
        | some none => some none
        | some (some params1) =>
          if !o.results_vec_ok then some none
          else
            let results : wasm_vec_t (Option wasm_valtype_t) :=
              wasm_vec_new_uninitialized o.results_data_ok t.result_count
            if results.size ≠ 0 ∧ results.data.isNone = true then some none
            else
              match wasm_functype_new_internal_loop o.result_elem_ok o.result_grow t.types
                  t.param_count t.result_count 0 results with
              | none => none
              | some none => some none
              | some (some results1) => some (some ⟨params1, results1⟩)

/-- The function `wasm_globaltype_new (val_type, mut)`; the outer `none` is
its failed assertion on `val_type`. -/
def wasm_globaltype_new (alloc_ok : Bool) (val_type : Option wasm_valtype_t)
    (mutability : wasm_mutability_t) : Option (Option wasm_globaltype_t) :=
  match val_type with
  | none => none
  | some vt => if alloc_ok then some (some ⟨vt, mutability⟩) else some none

/-- The function `wasm_globaltype_new_internal (val_type_rt, is_mutable)`:
`val_ok` and `type_ok` are the outcomes of the allocations of the value type
and of the global type. -/
def wasm_globaltype_new_internal (val_ok type_ok : Bool) (val_type_rt : value_type_rt)
    (is_mutable : Bool) : Option (Option wasm_globaltype_t) :=
  match wasm_valtype_new val_ok (val_type_rt_2_valkind val_type_rt) with
  | none => some none
  | some val_type =>
    wasm_globaltype_new type_ok (some val_type)
      (if is_mutable then .WASM_VAR else .WASM_CONST)

/-- The function `wasm_globaltype_copy (src)`; the outer `none` is its failed
assertion on `src`. -/
def wasm_globaltype_copy (val_ok type_ok : Bool) (src : Option wasm_globaltype_t) :
    Option (Option wasm_globaltype_t) :=
  match src with
  | none => none
  | some s =>
    match wasm_valtype_copy val_ok (some s.val_type) with
    | none => none
    | some none => some none
    | some (some val_type) => wasm_globaltype_new type_ok (some val_type) s.mutability

/-- The function `wasm_tabletype_new (val_type, limits)`. -/
def wasm_tabletype_new (alloc_ok : Bool) (val_type : Option wasm_valtype_t)
    (limits : wasm_limits_t) : Option (Option wasm_tabletype_t) :=
  match val_type with
  | none => none
  | some vt => if alloc_ok then some (some ⟨vt, ⟨limits.min, limits.max⟩⟩) else some none

/-- The function `wasm_tabletype_new_internal (val_type_rt, init_size,
max_size)`. -/
def wasm_tabletype_new_internal (val_ok type_ok : Bool) (val_type_rt : value_type_rt)
    (init_size max_size : Nat) : Option (Option wasm_tabletype_t) :=
  match wasm_valtype_new_internal val_ok val_type_rt with
  | none => some none
  | some val_type => wasm_tabletype_new type_ok (some val_type) ⟨init_size, max_size⟩

/-- The function `wasm_tabletype_copy (src)`; the outer `none` is a null
`src`, which the function dereferences. -/
def wasm_tabletype_copy (val_ok type_ok : Bool) (src : Option wasm_tabletype_t) :
    Option (Option wasm_tabletype_t) :=
  match src with
  | none => none
  | some s =>
    match wasm_valtype_copy val_ok (some s.val_type) with
    | none => none
    | some none => some none
    | some (some val_type) => wasm_tabletype_new type_ok (some val_type) s.limits

/-- The function `wasm_memorytype_new (limits)`. -/
def wasm_memorytype_new (alloc_ok : Bool) (limits : wasm_limits_t) :
    Option wasm_memorytype_t :=
  if alloc_ok then some ⟨⟨limits.min, limits.max⟩⟩ else none

/-- The function `wasm_memorytype_new_internal (min_pages, max_pages)`. -/
def wasm_memorytype_new_internal (alloc_ok : Bool) (min_pages max_pages : Nat) :
    Option wasm_memorytype_t :=
  wasm_memorytype_new alloc_ok ⟨min_pages, max_pages⟩

/-- The function `wasm_memorytype_copy (src)`; the outer `none` is its failed
assertion on `src`. -/
def wasm_memorytype_copy (alloc_ok : Bool) (src : Option wasm_memorytype_t) :
    Option (Option wasm_memorytype_t) :=
  match src with
  | none => none
  | some s => some (wasm_memorytype_new alloc_ok s.limits)

/-- The enumeration `wasm_externkind_t`. -/
inductive wasm_externkind_t
  | WASM_EXTERN_FUNC
  | WASM_EXTERN_GLOBAL
  | WASM_EXTERN_TABLE
  | WASM_EXTERN_MEMORY
  deriving DecidableEq, Repr

/-- The tagged view `wasm_externtype_t` over the four concrete extern types;
the constructor is the field `extern_kind`. -/
inductive wasm_externtype_t
  | WASM_EXTERN_FUNC (functype : wasm_functype_hdr_t)
  | WASM_EXTERN_GLOBAL (globaltype : wasm_globaltype_t)
  | WASM_EXTERN_TABLE (tabletype : wasm_tabletype_t)
  | WASM_EXTERN_MEMORY (memorytype : wasm_memorytype_t)
  deriving DecidableEq, Repr

/-- The function `wasm_externtype_kind (externtype)`. -/
def wasm_externtype_kind : wasm_externtype_t → wasm_externkind_t
  | .WASM_EXTERN_FUNC _ => .WASM_EXTERN_FUNC
  | .WASM_EXTERN_GLOBAL _ => .WASM_EXTERN_GLOBAL
  | .WASM_EXTERN_TABLE _ => .WASM_EXTERN_TABLE
  | .WASM_EXTERN_MEMORY _ => .WASM_EXTERN_MEMORY

/-- Outcomes of the allocations of `wasm_externtype_copy`: those of
`wasm_functype_copy` for a function type; for the other kinds the value type
(`val_ok`) and the type itself (`type_ok`). -/
structure externtype_copy_outcomes where
  functype : functype_copy_outcomes
  val_ok : Bool
  type_ok : Bool

/-- The function `wasm_externtype_copy (src)`; the outer `none` is its failed
assertion on `src` or one inside the copy of the concrete type. -/
def wasm_externtype_copy (o : externtype_copy_outcomes) (src : Option wasm_externtype_t) :
    Option (Option wasm_externtype_t) :=
  match src with
  | none => none
  | some (.WASM_EXTERN_FUNC t) =>
    (wasm_functype_copy o.functype (some t)).map fun r => r.map .WASM_EXTERN_FUNC
  | some (.WASM_EXTERN_GLOBAL t) =>
    (wasm_globaltype_copy o.val_ok o.type_ok (some t)).map fun r => r.map .WASM_EXTERN_GLOBAL
  | some (.WASM_EXTERN_MEMORY t) =>
    (wasm_memorytype_copy o.type_ok (some t)).map fun r => r.map .WASM_EXTERN_MEMORY
  | some (.WASM_EXTERN_TABLE t) =>
    (wasm_tabletype_copy o.val_ok o.type_ok (some t)).map fun r => r.map .WASM_EXTERN_TABLE

/-! ## Reflection of imports and exports -/

/-- The struct `wasm_importtype_t`: the two owned names and the owned extern
type (`none` is a null pointer). -/
structure wasm_importtype_t where
  module_name : Option (wasm_vec_t Nat)
  name : Option (wasm_vec_t Nat)
  externtype : Option wasm_externtype_t
  deriving DecidableEq, Repr

/-- The struct `wasm_exporttype_t`. -/
structure wasm_exporttype_t where
  name : Option (wasm_vec_t Nat)
  externtype : Option wasm_externtype_t
  deriving DecidableEq, Repr

/-- The function `wasm_importtype_new (module, name, externtype)`, which takes
the three pointers as they are. -/
def wasm_importtype_new (alloc_ok : Bool) (module name : Option (wasm_vec_t Nat))
    (externtype : Option wasm_externtype_t) : Option wasm_importtype_t :=
  if alloc_ok then some ⟨module, name, externtype⟩ else none

/-- The function `wasm_exporttype_new (name, externtype)`: it copies the name
and takes the extern type pointer as it is, null included.  The outcomes are
those of the allocations of the export type, of the header of its name and of
the buffer of its name; the outer `none` is an access through a null `name` or
outside its buffer. -/
def wasm_exporttype_new (alloc_ok name_vec_ok name_data_ok : Bool)
    (name : Option (wasm_vec_t Nat)) (externtype : Option wasm_externtype_t) :
    Option (Option wasm_exporttype_t) :=
  if !alloc_ok then some none
  else
    match name with
    | none => none
    | some n =>
      if !name_vec_ok then some none
      else
        match wasm_byte_vec_new name_data_ok n.size n.data with
        | none => none
        | some copy =>
          if copy.size ≠ 0 ∧ copy.data.isNone = true then some none
          else some (some ⟨some copy, externtype⟩)

/-- Outcomes of the allocations made while one import is reflected: the
headers and buffers of the two names, the extern type (function type or value
type and type), the import type and the reallocation of `bh_vector_append`. -/
structure import_reflect_outcomes where
  module_name_vec_ok : Bool
  module_name_data_ok : Bool
  name_vec_ok : Bool
  name_data_ok : Bool
  functype : functype_new_outcomes
  val_ok : Bool
  type_ok : Bool
  importtype_ok : Bool
  grow : Option Nat

/-- The switch of `wasm_module_imports` on the kind of a descriptor: the
extern type it builds.  The inner `none` is the exit through `failed` (a
failed allocation or an unsupported kind), the outer one a failed
assertion. -/
def wasm_module_imports_externtype (o : import_reflect_outcomes) (import_rt : WASMImport) :
    Option (Option wasm_externtype_t) :=
  match import_rt.kind with
  | .IMPORT_KIND_FUNC =>
    (wasm_functype_new_internal o.functype import_rt.func_type).map
      fun r => r.map .WASM_EXTERN_FUNC
  | .IMPORT_KIND_GLOBAL =>
    (wasm_globaltype_new_internal o.val_ok o.type_ok import_rt.global_type
      import_rt.global_is_mutable).map fun r => r.map .WASM_EXTERN_GLOBAL
  | .IMPORT_KIND_TABLE =>
    (wasm_tabletype_new_internal o.val_ok o.type_ok import_rt.table_elem_type
      import_rt.table_init_size import_rt.table_max_size).map fun r => r.map .WASM_EXTERN_TABLE
  | .IMPORT_KIND_MEMORY =>
    some ((wasm_memorytype_new_internal o.type_ok import_rt.memory_init_page_count
      import_rt.memory_max_page_count).map .WASM_EXTERN_MEMORY)
  | .other _ => some none

/-- The exit `failed` of `wasm_module_imports` and of `wasm_module_exports`:
`wasm_##name##_vec_delete (out)` leaves the zeroed header. -/
def reflect_failed {T : Type} (out : wasm_vec_t (Option T)) : Option (wasm_vec_t (Option T)) :=
  (wasm_vec_delete_own out).map fun d => d.2

/-- The loop of `wasm_module_imports` over the descriptors that are left;
`o i` holds the outcomes of iteration `i`.  From the second iteration on, an
exit through `failed` that is taken before `name` is assigned again releases
the name of the import type appended last, which
`wasm_importtype_vec_delete` then releases a second time: that exit is
`none`. -/
def wasm_module_imports_loop (o : Nat → import_reflect_outcomes) :
    List WASMImport → Nat → wasm_vec_t (Option wasm_importtype_t) →
      Option (wasm_vec_t (Option wasm_importtype_t))
  | [], _, out => some out
  | import_rt :: rest, i, out =>
    if !(o i).module_name_vec_ok then (if i = 0 then reflect_failed out else none)
    else
      match wasm_byte_vec_new (o i).module_name_data_ok import_rt.module_name.length
          (some import_rt.module_name) with
      | none => none
      | some module_name =>
        if module_name.size ≠ 0 ∧ module_name.data.isNone = true then
          (if i = 0 then reflect_failed out else none)
        else if !(o i).name_vec_ok then reflect_failed out
        else
          match wasm_byte_vec_new (o i).name_data_ok import_rt.field_name.length
              (some import_rt.field_name) with
          | none => none
          | some name =>
            if name.size ≠ 0 ∧ name.data.isNone = true then reflect_failed out
            else
              match wasm_module_imports_externtype (o i) import_rt with
              | none => none
              | some none => reflect_failed out
              | some (some externtype) =>
                match wasm_importtype_new (o i).importtype_ok (some module_name) (some name)
                    (some externtype) with
                | none => reflect_failed out
                | some importtype =>
                  match bh_vector_append (o i).grow out (some importtype) with
                  | none => none
                  | some (false, _) => reflect_failed out
                  | some (true, out1) => wasm_module_imports_loop o rest (i + 1) out1

/-- The function `wasm_module_imports (module, out)` in an interpreter build,
on the descriptor table `imports` of the backend module (`import_count` is
its length); `out_data_ok` is the outcome of the allocation of the buffer of
`out`.  The result is the header left in `out`. -/
def wasm_module_imports (out_data_ok : Bool) (o : Nat → import_reflect_outcomes)
    (imports : List WASMImport) : Option (wasm_vec_t (Option wasm_importtype_t)) :=
  wasm_module_imports_loop o imports 0 (wasm_vec_new_uninitialized out_data_ok imports.length)

/-- Modelled from the spec: the lookups `wasm_runtime_get_export_func_type`,
`wasm_runtime_get_export_global_type`, `wasm_runtime_get_export_memory_type`
and `wasm_runtime_get_export_table_type` of the backend, which are not among
the analysed files.  Each maps an export descriptor to what it stores through
its out-parameters; `none` is the return value `false`. -/
structure export_type_lookup where
  func_type : WASMExport → Option WASMType
  global_type : WASMExport → Option (value_type_rt × Bool)
  memory_type : WASMExport → Option (Nat × Nat)
  table_type : WASMExport → Option (value_type_rt × Nat × Nat)

/-- Outcomes of the allocations made while one export is reflected: the
header and the buffer of the name, the extern type, the export type with the
header and the buffer of its copy of the name, and the reallocation of
`bh_vector_append`. -/
structure export_reflect_outcomes where
  name_vec_ok : Bool
  name_data_ok : Bool
  functype : functype_new_outcomes
  val_ok : Bool
  type_ok : Bool
  exporttype_ok : Bool
  exporttype_name_vec_ok : Bool
  exporttype_name_data_ok : Bool
  grow : Option Nat

/-- The switch of `wasm_module_exports` on the kind of a descriptor.  The
result `some (some none)` is the null extern type with which the default case
leaves the switch; the inner `none` is the exit through `failed`. -/
def wasm_module_exports_externtype (lookup : export_type_lookup) (o : export_reflect_outcomes)
    (export_rt : WASMExport) : Option (Option (Option wasm_externtype_t)) :=
  match export_rt.kind with
  | .EXPORT_KIND_FUNC =>
    match lookup.func_type export_rt with
    | none => some none
    | some type_rt =>
      (wasm_functype_new_internal o.functype (some type_rt)).map
        fun r => r.map fun t => some (.WASM_EXTERN_FUNC t)
  | .EXPORT_KIND_GLOBAL =>
    match lookup.global_type export_rt with
    | none => some none
    | some (val_type_rt, mutability_rt) =>
      (wasm_globaltype_new_internal o.val_ok o.type_ok val_type_rt mutability_rt).map
        fun r => r.map fun t => some (.WASM_EXTERN_GLOBAL t)
  | .EXPORT_KIND_MEMORY =>
    match lookup.memory_type export_rt with
    | none => some none
    | some (min_page, max_page) =>
      some ((wasm_memorytype_new_internal o.type_ok min_page max_page).map
        fun t => some (.WASM_EXTERN_MEMORY t))
  | .EXPORT_KIND_TABLE =>
    match lookup.table_type export_rt with
    | none => some none
    | some (elem_type_rt, min_size, max_size) =>
      (wasm_tabletype_new_internal o.val_ok o.type_ok elem_type_rt min_size max_size).map
        fun r => r.map fun t => some (.WASM_EXTERN_TABLE t)
  | .other _ => some (some none)

/-- The loop of `wasm_module_exports` over the descriptors that are left;
`o i` holds the outcomes of iteration `i`. -/
def wasm_module_exports_loop (lookup : export_type_lookup) (o : Nat → export_reflect_outcomes) :
    List WASMExport → Nat → wasm_vec_t (Option wasm_exporttype_t) →
      Option (wasm_vec_t (Option wasm_exporttype_t))
  | [], _, out => some out
  | export_rt :: rest, i, out =>
    if !(o i).name_vec_ok then reflect_failed out
    else
      match wasm_byte_vec_new (o i).name_data_ok export_rt.name.length
          (some export_rt.name) with
      | none => none
      | some name =>
        if name.size ≠ 0 ∧ name.data.isNone = true then reflect_failed out
        else
          match wasm_module_exports_externtype lookup (o i) export_rt with
          | none => none
          | some none => reflect_failed out
          | some (some externtype) =>
            match wasm_exporttype_new (o i).exporttype_ok (o i).exporttype_name_vec_ok
                (o i).exporttype_name_data_ok (some name) externtype with
            | none => none
            | some none => reflect_failed out
            | some (some exporttype) =>
              match bh_vector_append (o i).grow out (some exporttype) with
              | none => none
              | some (false, _) => reflect_failed out
              | some (true, out1) => wasm_module_exports_loop lookup o rest (i + 1) out1

/-- The function `wasm_module_exports (module, out)` on the descriptor table
`exports` of the backend module (`export_count` is its length);
`out_data_ok` is the outcome of the allocation of the buffer of `out`.  The
result is the header left in `out`. -/
def wasm_module_exports (lookup : export_type_lookup) (out_data_ok : Bool)
    (o : Nat → export_reflect_outcomes) (exports : List WASMExport) :
    Option (wasm_vec_t (Option wasm_exporttype_t)) :=
  wasm_module_exports_loop lookup o exports 0
    (wasm_vec_new_uninitialized out_data_ok exports.length)

/-! ### Scenario data of the reflection properties -/

/-- Outcomes of `wasm_functype_new_internal` with every allocation
successful. -/
def functype_new_all_ok : functype_new_outcomes :=
  ⟨true, true, true, fun _ => true, fun _ => none, true, true, fun _ => true, fun _ => none⟩

/-- Outcomes of the reflection of one import with every allocation
successful. -/
def import_reflect_all_ok : import_reflect_outcomes :=
  ⟨true, true, true, true, functype_new_all_ok, true, true, true, none⟩

/-- Outcomes of the reflection of one export with every allocation
successful. -/
def export_reflect_all_ok : export_reflect_outcomes :=
  ⟨true, true, functype_new_all_ok, true, true, true, true, true, none⟩

/-- A lookup that finds a signature `(i32) -> ()`, an immutable i32 global,
a memory of one to two pages and a funcref table of three to four cells. -/
def sample_lookup : export_type_lookup :=
  ⟨fun _ => some ⟨1, 0, [.VALUE_TYPE_I32]⟩, fun _ => some (.VALUE_TYPE_I32, false),
   fun _ => some (1, 2), fun _ => some (.VALUE_TYPE_FUNCREF, 3, 4)⟩

/-! ### Well-formed vectors, successful outcomes and expected results -/

/-- An owning vector whose populated count is within its capacity and within
its buffer, and whose populated cells are non-null. -/
def wasm_vec_t.well_formed {T : Type} (v : wasm_vec_t (Option T)) : Bool :=
  decide (v.num_elems ≤ v.size) && decide (v.num_elems ≤ (v.data.getD []).length)
    && v.populated.all Option.isSome

/-- Outcomes of `wasm_functype_copy` with every allocation successful. -/
def functype_copy_all_ok : functype_copy_outcomes :=
  ⟨true, fun _ => true, true, fun _ => true, true, true, true⟩

/-- Outcomes of `wasm_externtype_copy` with every allocation successful. -/
def externtype_copy_all_ok : externtype_copy_outcomes := ⟨functype_copy_all_ok, true, true⟩

/-- Structural comparison of two extern types: the same kind and, by kind,
the same populated parameter and result value types, the same value type and
mutability, the same element type and limits, the same limits. -/
def externtype_same_structure : wasm_externtype_t → wasm_externtype_t → Bool
  | .WASM_EXTERN_FUNC a, .WASM_EXTERN_FUNC b =>
    decide (a.params.populated = b.params.populated)
      && decide (a.results.populated = b.results.populated)
  | .WASM_EXTERN_GLOBAL a, .WASM_EXTERN_GLOBAL b =>
    decide (a.val_type.kind = b.val_type.kind) && decide (a.mutability = b.mutability)
  | .WASM_EXTERN_TABLE a, .WASM_EXTERN_TABLE b =>
    decide (a.val_type.kind = b.val_type.kind) && decide (a.limits.min = b.limits.min)
      && decide (a.limits.max = b.limits.max)
  | .WASM_EXTERN_MEMORY a, .WASM_EXTERN_MEMORY b =>
    decide (a.limits.min = b.limits.min) && decide (a.limits.max = b.limits.max)
  | _, _ => false

/-- The function `wasm_functype_vec_copy (out, src)` of
`WASM_DEFINE_VEC_OWN (functype, wasm_functype_delete)`: `data_ok` is the
outcome of the allocation of the buffer and `o i` holds the outcomes of the
element copy number `i`. -/
def wasm_functype_vec_copy (data_ok : Bool) (o : Nat → functype_copy_outcomes)
    (src : wasm_vec_t (Option wasm_functype_hdr_t)) :
    Option (vec_copy_result wasm_functype_hdr_t) :=
  wasm_vec_copy data_ok (fun i => wasm_functype_copy (o i)) src

/-- A vector that holds exactly the given value kinds: no buffer when there
is none, else as many cells as kinds, all populated. -/
def valtype_vec_of_kinds (kinds : List wasm_valkind_t) : wasm_vec_t (Option wasm_valtype_t) :=
  if kinds.length = 0 then wasm_vec_t.zero
  else ⟨kinds.length, some (kinds.map fun k => some ⟨k⟩), kinds.length⟩

/-- A byte vector that holds exactly the given bytes. -/
def byte_vec_of (bytes : List Nat) : wasm_vec_t Nat :=
  if bytes.length = 0 then wasm_vec_t.zero else ⟨bytes.length, some bytes, bytes.length⟩

/-- The value kind that a value type code stands for, tabulated from the
names of the value types: the four numeric types, the function reference and
the reference to any value; a code that names no value type stands for no
kind. -/
def valkind_spec : value_type_rt → Option wasm_valkind_t
  | .VALUE_TYPE_I32 => some .WASM_I32
  | .VALUE_TYPE_I64 => some .WASM_I64
  | .VALUE_TYPE_F32 => some .WASM_F32
  | .VALUE_TYPE_F64 => some .WASM_F64
  | .VALUE_TYPE_FUNCREF => some .WASM_FUNCREF
  | .VALUE_TYPE_ANY => some .WASM_ANYREF
  | .other _ => none

/-- The value kinds that a list of value type codes stands for, in order;
`none` when one of the codes names no value type. -/
def kinds_spec : List value_type_rt → Option (List wasm_valkind_t)
  | [] => some []
  | c :: cs =>
    match valkind_spec c, kinds_spec cs with
    | some k, some ks => some (k :: ks)
    | _, _ => none

/-- The extern type that the specification of `module_imports` asks for: by
the kind of the descriptor, the parameter kinds then the result kinds of the
signature, the value kind and the mutability of a global, the element kind and
the (init, max) limits of a table, the (init, max) page limits of a memory.
The value kinds are those of `valkind_spec`; `none` when the kind of the
descriptor is not supported or a type code names no value type. -/
def import_externtype_spec (import_rt : WASMImport) : Option wasm_externtype_t :=
  match import_rt.kind with
  | .IMPORT_KIND_FUNC =>
    match import_rt.func_type with
    | none => none
    | some t =>
      match kinds_spec (t.types.take t.param_count),
          kinds_spec ((t.types.drop t.param_count).take t.result_count) with
      | some params, some results =>
        some (.WASM_EXTERN_FUNC ⟨valtype_vec_of_kinds params, valtype_vec_of_kinds results⟩)
      | _, _ => none
  | .IMPORT_KIND_GLOBAL =>
    match valkind_spec import_rt.global_type with
    | none => none
    | some k =>
      some (.WASM_EXTERN_GLOBAL ⟨⟨k⟩,
        if import_rt.global_is_mutable then .WASM_VAR else .WASM_CONST⟩)
  | .IMPORT_KIND_TABLE =>
    match valkind_spec import_rt.table_elem_type with
    | none => none
    | some k =>
      some (.WASM_EXTERN_TABLE ⟨⟨k⟩, ⟨import_rt.table_init_size, import_rt.table_max_size⟩⟩)
  | .IMPORT_KIND_MEMORY =>
    some (.WASM_EXTERN_MEMORY
      ⟨⟨import_rt.memory_init_page_count, import_rt.memory_max_page_count⟩⟩)
  | .other _ => none

/-- The import type that the specification of `module_imports` asks for. -/
def importtype_spec (import_rt : WASMImport) : wasm_importtype_t :=
  ⟨some (byte_vec_of import_rt.module_name), some (byte_vec_of import_rt.field_name),
   import_externtype_spec import_rt⟩

/-- A descriptor of a supported kind that can be read: a function descriptor
has a signature whose code array holds the parameters and the results. -/
def WASMImport.supported (import_rt : WASMImport) : Bool :=
  match import_rt.kind with
  | .IMPORT_KIND_FUNC =>
    match import_rt.func_type with
    | none => false
    | some t => decide (t.param_count + t.result_count ≤ t.types.length)
  | .other _ => false
  | _ => true

/-- The type codes that the descriptor is reflected from name value types:
the parameter and result codes of a function signature, the type of a global,
the element type of a table. -/
def WASMImport.value_typed (import_rt : WASMImport) : Bool :=
  match import_rt.kind with
  | .IMPORT_KIND_FUNC =>
    match import_rt.func_type with
    | none => false
    | some t =>
      (kinds_spec (t.types.take t.param_count)).isSome
        && (kinds_spec ((t.types.drop t.param_count).take t.result_count)).isSome
  | .IMPORT_KIND_GLOBAL => (valkind_spec import_rt.global_type).isSome
  | .IMPORT_KIND_TABLE => (valkind_spec import_rt.table_elem_type).isSome
  | _ => true

/-- Every allocation of `wasm_functype_new_internal` succeeds. -/
def functype_new_outcomes.succeed (o : functype_new_outcomes) : Prop :=
  o.type_ok = true ∧ o.params_vec_ok = true ∧ o.params_data_ok = true ∧
  (∀ i, o.param_elem_ok i = true) ∧ o.results_vec_ok = true ∧ o.results_data_ok = true ∧
  (∀ i, o.result_elem_ok i = true)

/-- Every allocation made while one import is reflected succeeds. -/
def import_reflect_outcomes.succeed (o : import_reflect_outcomes) : Prop :=
  o.module_name_vec_ok = true ∧ o.module_name_data_ok = true ∧ o.name_vec_ok = true ∧
  o.name_data_ok = true ∧ o.functype.succeed ∧ o.val_ok = true ∧ o.type_ok = true ∧
  o.importtype_ok = true

/-- Three function types: `(i32, i64) -> (f64)`, `() -> ()` and
`(f32) -> (i32)`, the first with a spare cell in its parameter vector. -/
def three_functypes : wasm_vec_t (Option wasm_functype_hdr_t) :=
  ⟨4, some [some ⟨⟨3, some [some ⟨.WASM_I32⟩, some ⟨.WASM_I64⟩, none], 2⟩,
                  ⟨1, some [some ⟨.WASM_F64⟩], 1⟩⟩,
            some ⟨wasm_vec_t.zero, wasm_vec_t.zero⟩,
            some ⟨⟨1, some [some ⟨.WASM_F32⟩], 1⟩, ⟨1, some [some ⟨.WASM_I32⟩], 1⟩⟩,
            none], 3⟩

/-- Four descriptors of the module `env`: a function `f` of type
`(i32, f64) -> (i64)`, a mutable i64 global `g`, a table `t` and a memory
`m`. -/
def sample_imports : List WASMImport :=
  [⟨.IMPORT_KIND_FUNC, [101, 110, 118], [102],
     some ⟨2, 1, [.VALUE_TYPE_I32, .VALUE_TYPE_F64, .VALUE_TYPE_I64]⟩,
     .other 0, false, .other 0, 0, 0, 0, 0⟩,
   ⟨.IMPORT_KIND_GLOBAL, [101, 110, 118], [103], none,
     .VALUE_TYPE_I64, true, .other 0, 0, 0, 0, 0⟩,
   ⟨.IMPORT_KIND_TABLE, [101, 110, 118], [116], none,
     .other 0, false, .VALUE_TYPE_FUNCREF, 3, 4, 0, 0⟩,
   ⟨.IMPORT_KIND_MEMORY, [101, 110, 118], [109], none,
     .other 0, false, .other 0, 0, 0, 1, 2⟩]

/-- A function export `f`, an export `x` of an unsupported kind and a memory
export `m`. -/
def sample_exports : List WASMExport :=
  [⟨[102], .EXPORT_KIND_FUNC, 0⟩, ⟨[120], .other 7, 0⟩, ⟨[109], .EXPORT_KIND_MEMORY, 0⟩]

/-! ## Backend instances and backend-bound externals -/

/-- Modelled from the spec: a global of an interpreter instance
(`WASMGlobalInstance`): its value type, its mutability and the offset of its
value in the global data of the instance. -/
structure WASMGlobalInstance where
  type : value_type_rt
  is_mutable : Bool
  data_offset : Nat
  deriving DecidableEq, Repr

/-- Modelled from the spec: a table of an interpreter instance
(`WASMTableInstance`). -/
structure WASMTableInstance where
  elem_type : value_type_rt
  cur_size : Nat
  max_size : Nat
  deriving DecidableEq, Repr

/-- Modelled from the spec: a memory of an interpreter instance
(`WASMMemoryInstance`). -/
structure WASMMemoryInstance where
  cur_page_count : Nat
  max_page_count : Nat
  deriving DecidableEq, Repr

/-- Modelled from the spec: the interpreter instance `WASMModuleInstance`, as
the export phase reads it: the export table of its module (`module->exports`,
whose length is `module->export_count`), the signature of each function
(`functions[i]`, `none` for a null signature pointer; the length is
`function_count`), the globals with the global data (bytes), the tables and
the memories. -/
structure WASMModuleInstance where
  exports : List WASMExport
  functions : List (Option WASMType)
  globals : List WASMGlobalInstance
  global_data : List Nat
  tables : List WASMTableInstance
  memories : List WASMMemoryInstance
  deriving DecidableEq, Repr

/-- Modelled from the spec: an imported global of an AOT module
(`AOTImportGlobal`). -/
structure AOTImportGlobal where
  type : value_type_rt
  is_mutable : Bool
  data_offset : Nat
  global_data_linked : Nat
  deriving DecidableEq, Repr

/-- Modelled from the spec: a global that an AOT module defines
(`AOTGlobal`). -/
structure AOTGlobal where
  type : value_type_rt
  is_mutable : Bool
  data_offset : Nat
  deriving DecidableEq, Repr

/-- Modelled from the spec: the AOT module `AOTModule`, as linking and the
export phase read it: the imported functions (`import_funcs`, whose length is
`import_func_count`; an `AOTImportFunc` has the three fields that linking
writes), the imported globals (the length is `import_global_count`), the two
other import counts, the defined globals and the export table (the length is
`export_count`). -/
structure AOTModule where
  import_funcs : List WASMFunctionImport
  import_globals : List AOTImportGlobal
  import_memory_count : Nat
  import_table_count : Nat
  globals : List AOTGlobal
  exports : List WASMExport

/-- Modelled from the spec: the AOT instance `AOTModuleInstance`: its module
(`aot_module.ptr`), the signature of each exported function
(`export_funcs.ptr[i]`), `export_func_count` and the global data (bytes). -/
structure AOTModuleInstance where
  aot_module : AOTModule
  export_funcs : List (Option WASMType)
  export_func_count : Nat
  global_data : List Nat

/-- The object behind a `WASMModuleInstanceCommon *`: an interpreter instance
or an AOT instance. -/
inductive module_inst_rt
  | interp (inst_interp : WASMModuleInstance)
  | aot (inst_aot : AOTModuleInstance)

/-- The object behind a `wasm_module_t`, `MODULE_RUNTIME (module)`: an
interpreter module or an AOT module. -/
inductive module_rt_t
  | interp (module_interp : WASMModule)
  | aot (module_aot : AOTModule)

/-- Little-endian value of the `n` bytes of `data` from offset `off`; `none`
is a read outside the buffer. -/
def load_le (data : List Nat) (off : Nat) : Nat → Option Nat
  | 0 => some 0
  | n + 1 =>
    match data[off]? with
    | none => none
    | some b => (load_le data (off + 1) n).map fun rest => b % 256 + 256 * rest

/-- The switch of `interp_global_get` and of `aot_global_get` on the value
type of the global: the value read from `data` into `out` and the returned
boolean. -/
def global_get_switch (val_type_rt : value_type_rt) (global_data : List Nat)
    (data_offset : Nat) (out : wasm_val_t) : Option (Bool × wasm_val_t) :=
  match val_type_rt with
  | .VALUE_TYPE_I32 => (load_le global_data data_offset 4).map fun x => (true, ⟨.WASM_I32, x⟩)
  | .VALUE_TYPE_F32 => (load_le global_data data_offset 4).map fun x => (true, ⟨.WASM_F32, x⟩)
  | .VALUE_TYPE_I64 => (load_le global_data data_offset 8).map fun x => (true, ⟨.WASM_I64, x⟩)
  | .VALUE_TYPE_F64 => (load_le global_data data_offset 8).map fun x => (true, ⟨.WASM_F64, x⟩)
  | _ => some (false, out)

/-- The function `interp_global_get (inst_interp, global_idx_rt, out)` in a
build without multi-module support. -/
def interp_global_get (inst_interp : WASMModuleInstance) (global_idx_rt : Nat)
    (out : wasm_val_t) : Option (Bool × wasm_val_t) :=
  match inst_interp.globals[global_idx_rt]? with
  | none => none
  | some global_interp =>
    global_get_switch global_interp.type inst_interp.global_data global_interp.data_offset out

/-- The function `aot_global_get (inst_aot, global_idx_rt, out)`. -/
def aot_global_get (inst_aot : AOTModuleInstance) (global_idx_rt : Nat) (out : wasm_val_t) :
    Option (Bool × wasm_val_t) :=
  let module_aot := inst_aot.aot_module
  if global_idx_rt < module_aot.import_globals.length then
    match module_aot.import_globals[global_idx_rt]? with
    | none => none
    | some g => global_get_switch g.type inst_aot.global_data g.data_offset out
  else
    match module_aot.globals[global_idx_rt - module_aot.import_globals.length]? with
    | none => none
    | some g => global_get_switch g.type inst_aot.global_data g.data_offset out

/-- Outcomes of the allocations of one of `wasm_func_new_internal`,
`wasm_global_new_internal`, `wasm_table_new_internal` and
`wasm_memory_new_internal`: the object, its type (a function type, or a value
type and the type) and, for a global, the initial value. -/
structure extern_new_outcomes where
  obj_ok : Bool
  functype : functype_new_outcomes
  val_ok : Bool
  type_ok : Bool
  init_ok : Bool

/-- The zeroed member `u.cb` of a function that has no host callback. -/
def null_callback : wasm_func_callback_t := fun _ results => (none, results)

/-- The zeroed member `u.cb_env.cb` of a function that has no host
callback. -/
def null_callback_with_env : wasm_func_callback_with_env_t := fun _ _ results => (none, results)

/-- The function `wasm_func_new_internal (store, func_idx_rt, inst_comm_rt)`;
`inst` is the object behind `inst_comm_rt`.  The outer `none` is a failed
assertion or an access outside an array, the inner one a null result. -/
def wasm_func_new_internal (o : extern_new_outcomes) (w : world) (store : Nat)
    (func_idx_rt : Nat) (inst_comm_rt : Option Nat) (inst : module_inst_rt) :
    Option (Option wasm_func_t) :=
  let build (type_rt : Option WASMType) : Option (Option wasm_func_t) :=
    match type_rt with
    | none => some none
    | some t =>
      match wasm_functype_new_internal o.functype (some t) with
      | none => none
      | some none => some none
      | some (some type) =>
        some (some { with_env := false, cb := null_callback,
                     cb_env_cb := null_callback_with_env, cb_env_env := 0,
                     type := type.populated_types, func_idx_rt := func_idx_rt,
                     inst_comm_rt := inst_comm_rt })
  if w.singleton_engine = none ∨ store = 0 then none
  else if inst_comm_rt = none then none
  else if !o.obj_ok then some none
  else
    match current_runtime_mode w, inst with
    | some .INTERP_MODE, .interp inst_interp =>
      if func_idx_rt < inst_interp.functions.length then
        match inst_interp.functions[func_idx_rt]? with
        | none => none
        | some type_rt => build type_rt
      else none
    | some .AOT_MODE, .aot inst_aot =>
      match inst_aot.export_funcs[func_idx_rt]? with
      | none => none
      | some type_rt => build type_rt
    | _, _ => none

/-- The function `wasm_global_new_internal (store, global_idx_rt,
inst_comm_rt)`; `inst` is the object behind `inst_comm_rt`. -/
def wasm_global_new_internal (o : extern_new_outcomes) (w : world) (store : Nat)
    (global_idx_rt : Nat) (inst_comm_rt : Option Nat) (inst : module_inst_rt) :
    Option (Option wasm_global_t) :=
  let build (val_type_rt : value_type_rt) (is_mutable : Bool)
      (get : wasm_val_t → Option (Bool × wasm_val_t)) : Option (Option wasm_global_t) :=
    match wasm_globaltype_new_internal o.val_ok o.type_ok val_type_rt is_mutable with
    | none => none
    | some none => some none
    | some (some type) =>
      if !o.init_ok then some none
      else
        match get wasm_val_t.zero with
        | none => none
        | some (_, init) =>
          some (some { type := type, init := init, global_idx_rt := global_idx_rt,
                       inst_comm_rt := inst_comm_rt })
  if w.singleton_engine = none ∨ store = 0 then none
  else if inst_comm_rt = none then none
  else if !o.obj_ok then some none
  else
    match current_runtime_mode w, inst with
    | some .INTERP_MODE, .interp inst_interp =>
      match inst_interp.globals[global_idx_rt]? with
      | none => none
      | some global_interp =>
        build global_interp.type global_interp.is_mutable
          (interp_global_get inst_interp global_idx_rt)
    | some .AOT_MODE, .aot inst_aot =>
      let module_aot := inst_aot.aot_module
      if global_idx_rt < module_aot.import_globals.length then
        match module_aot.import_globals[global_idx_rt]? with
        | none => none
        | some g => build g.type g.is_mutable (aot_global_get inst_aot global_idx_rt)
      else
        match module_aot.globals[global_idx_rt - module_aot.import_globals.length]? with
        | none => none
        | some g => build g.type g.is_mutable (aot_global_get inst_aot global_idx_rt)
    | _, _ => none

/-- The function `wasm_table_new_internal (store, table_idx_rt,
inst_comm_rt)`; in AOT mode the element type and the sizes stay zero. -/
def wasm_table_new_internal (o : extern_new_outcomes) (w : world) (store : Nat)
    (table_idx_rt : Nat) (inst_comm_rt : Option Nat) (inst : module_inst_rt) :
    Option (Option wasm_table_t) :=
  let build (val_type_rt : value_type_rt) (init_size max_size : Nat) :
      Option (Option wasm_table_t) :=
    match wasm_tabletype_new_internal o.val_ok o.type_ok val_type_rt init_size max_size with
    | none => none
    | some none => some none
    | some (some type) =>
      some (some { type := type, table_idx_rt := table_idx_rt, inst_comm_rt := inst_comm_rt })
  if w.singleton_engine = none ∨ store = 0 then none
  else if inst_comm_rt = none then none
  else if !o.obj_ok then some none
  else
    match current_runtime_mode w, inst with
    | some .INTERP_MODE, .interp inst_interp =>
      match inst_interp.tables[table_idx_rt]? with
      | none => none
      | some table_interp =>
        build table_interp.elem_type table_interp.cur_size table_interp.max_size
    | some .AOT_MODE, .aot _ => build (.other 0) 0 0
    | _, _ => none

/-- The function `wasm_memory_new_internal (store, memory_idx_rt,
inst_comm_rt)`; in AOT mode the page counts stay zero. -/
def wasm_memory_new_internal (o : extern_new_outcomes) (w : world) (store : Nat)
    (memory_idx_rt : Nat) (inst_comm_rt : Option Nat) (inst : module_inst_rt) :
    Option (Option wasm_memory_t) :=
  let build (min_pages max_pages : Nat) : Option (Option wasm_memory_t) :=
    match wasm_memorytype_new_internal o.type_ok min_pages max_pages with
    | none => some none
    | some type =>
      some (some { type := some type, memory_idx_rt := memory_idx_rt,
                   inst_comm_rt := inst_comm_rt })
  if w.singleton_engine = none ∨ store = 0 then none
  else if inst_comm_rt = none then none
  else if !o.obj_ok then some none
  else
    match current_runtime_mode w, inst with
    | some .INTERP_MODE, .interp inst_interp =>
      match inst_interp.memories[memory_idx_rt]? with
      | none => none
      | some memory_interp =>
        build memory_interp.cur_page_count memory_interp.max_page_count
    | some .AOT_MODE, .aot _ => build 0 0
    | _, _ => none

/-! ## Linking -/

/-- The function `wasm_extern_kind (external)`. -/
def wasm_extern_kind : wasm_extern_t → wasm_externkind_t
  | .WASM_EXTERN_FUNC _ => .WASM_EXTERN_FUNC
  | .WASM_EXTERN_GLOBAL _ => .WASM_EXTERN_GLOBAL
  | .WASM_EXTERN_TABLE _ => .WASM_EXTERN_TABLE
  | .WASM_EXTERN_MEMORY _ => .WASM_EXTERN_MEMORY

/-- The field `inst_comm_rt` of the concrete external behind a
`wasm_extern_t`. -/
def wasm_extern_t.inst_comm_rt : wasm_extern_t → Option Nat
  | .WASM_EXTERN_FUNC func => func.inst_comm_rt
  | .WASM_EXTERN_GLOBAL global => global.inst_comm_rt
  | .WASM_EXTERN_TABLE table => table.inst_comm_rt
  | .WASM_EXTERN_MEMORY memory => memory.inst_comm_rt

/-- The width in bits of the member of `wasm_val_t.of` that linking reads for
a global of a numeric kind; `none` is the default case of the switch. -/
def link_global_width : wasm_valkind_t → Option Nat
  | .WASM_I32 => some 32
  | .WASM_I64 => some 64
  | .WASM_F32 => some 32
  | .WASM_F64 => some 64
  | _ => none

/-- The value type code that the switch of `interp_link_global` and of
`aot_link_global` asserts for a kind. -/
def link_global_code : wasm_valkind_t → value_type_rt
  | .WASM_I32 => .VALUE_TYPE_I32
  | .WASM_I64 => .VALUE_TYPE_I64
  | .WASM_F32 => .VALUE_TYPE_F32
  | _ => .VALUE_TYPE_F64

/-- The function `interp_link_global (module_interp, global_idx_rt, import)`:
the returned boolean with the module and the import as the call leaves them;
`none` is a failed `bh_assert`. -/
def interp_link_global (module_interp : WASMModule) (global_idx_rt : Nat)
    (import_global : wasm_global_t) : Option (Bool × WASMModule × wasm_global_t) :=
  match module_interp.import_globals[global_idx_rt]? with
  | none => none
  | some imported_global_interp =>
    match link_global_width import_global.type.val_type.kind with
    | none => some (false, module_interp, import_global)
    | some width =>
      if imported_global_interp.type ≠ link_global_code import_global.type.val_type.kind then
        none
      else
        some (true,
          { module_interp with
            import_globals := module_interp.import_globals.set global_idx_rt
              { imported_global_interp with
                global_data_linked := import_global.init.of % 2 ^ width
                is_linked := true } },
          { import_global with global_idx_rt := global_idx_rt })

/-- Outcomes of the allocations made while one import is linked: the clone of
a function with the reallocation of `bh_vector_append`, and the two
allocations of the copy of a global type that `aot_link_global` takes. -/
structure link_outcomes where
  clone_ok : Bool
  grow : Option Nat
  val_ok : Bool
  type_ok : Bool

/-- What the link phase works on: the instance, the interpreter module and the
array `imports` of the caller. -/
structure interp_link_state where
  inst : wasm_instance_t
  module_interp : WASMModule
  imports : List (Option wasm_extern_t)

/-- The loop of `interp_link` over the descriptors that are left.  The
arguments are `i`, `import_func_i` and `import_global_i`; the two indices are
handed to parameters of type `uint16`.  The boolean is false for the exit
through `failed`; `none` is a failed `bh_assert` or a read past the end of
`imports`.  `BH_DEBUG` tells whether the build compiles `bh_assert` in: the
cases of a memory and of a table are `ASSERT_NOT_IMPLEMENTED (); break;`, so
with assertions the loop stops there, and without them it leaves the switch
and goes on with the next descriptor, the import counted as linked.  (The
other assertions guard the accesses that follow them; they are kept as
`none` in either build.) -/
def interp_link_loop (BH_DEBUG : Bool) (o : Nat → link_outcomes) :
    List WASMImport → Nat → Nat → Nat → interp_link_state → Option (Bool × interp_link_state)
  | [], _, _, _, st => some (true, st)
  | import_rt :: rest, i, import_func_i, import_global_i, st =>
    match st.imports[i]? with
    | none => none
    | some import_ =>
      match import_rt.kind with
      | .IMPORT_KIND_FUNC =>
        match import_ with
        | some (.WASM_EXTERN_FUNC func) =>
          match interp_link_func (o i).clone_ok (o i).grow st.inst st.module_interp
              (import_func_i % 65536) func with
          | none => none
          | some (false, inst1, module1, func1) =>
            some (false, ⟨inst1, module1, st.imports.set i (some (.WASM_EXTERN_FUNC func1))⟩)
          | some (true, inst1, module1, func1) =>
            interp_link_loop BH_DEBUG o rest (i + 1) (import_func_i + 1) import_global_i
              ⟨inst1, module1, st.imports.set i (some (.WASM_EXTERN_FUNC func1))⟩
        | _ => none
      | .IMPORT_KIND_GLOBAL =>
        match import_ with
        | some (.WASM_EXTERN_GLOBAL global) =>
          match interp_link_global st.module_interp (import_global_i % 65536) global with
          | none => none
          | some (false, module1, global1) =>
            some (false,
              ⟨st.inst, module1, st.imports.set i (some (.WASM_EXTERN_GLOBAL global1))⟩)
          | some (true, module1, global1) =>
            interp_link_loop BH_DEBUG o rest (i + 1) import_func_i (import_global_i + 1)
              ⟨st.inst, module1, st.imports.set i (some (.WASM_EXTERN_GLOBAL global1))⟩
        | _ => none
      | .IMPORT_KIND_MEMORY =>
        if BH_DEBUG then none
        else interp_link_loop BH_DEBUG o rest (i + 1) import_func_i import_global_i st
      | .IMPORT_KIND_TABLE =>
        if BH_DEBUG then none
        else interp_link_loop BH_DEBUG o rest (i + 1) import_func_i import_global_i st
      | .other _ => some (false, st)

/-- The function `interp_link (inst, module_interp, imports)`: the returned
count (`UINT32_MAX` is `(uint32)-1`) and the state the call leaves. -/
def interp_link (BH_DEBUG : Bool) (o : Nat → link_outcomes) (st : interp_link_state) :
    Option (Nat × interp_link_state) :=
  match interp_link_loop BH_DEBUG o st.module_interp.imports 0 0 0 st with
  | none => none
  | some (true, st1) => some (st.module_interp.imports.length, st1)
  | some (false, st1) => some (UINT32_MAX, st1)

/-- What the AOT link phase works on. -/
structure aot_link_state where
  module_aot : AOTModule
  imports : List (Option wasm_extern_t)

/-- The function
`aot_link_func (inst, module_aot, import_func_idx_rt, import)`; the clone is
not stored in the instance. -/
def aot_link_func (clone_ok : Bool) (module_aot : AOTModule) (import_func_idx_rt : Nat)
    (import_func : wasm_func_t) : Option (Bool × AOTModule × wasm_func_t) :=
  match wasm_func_copy clone_ok import_func with
  | none => some (false, module_aot, import_func)
  | some cloned =>
    if import_func_idx_rt < module_aot.import_funcs.length then
      some (true,
        { module_aot with
          import_funcs := module_aot.import_funcs.set import_func_idx_rt
            { call_conv_raw := true, attachment := some cloned,
              func_ptr_linked := some native_func_trampoline } },
        { import_func with func_idx_rt := import_func_idx_rt })
    else none

/-- The function `aot_link_global (module_aot, global_idx_rt, import)`.  It
reads the value type through `wasm_global_type`, a copy of the global type
whose two allocations have the outcomes `val_ok` and `type_ok`; a null copy
fails the assertion of `wasm_globaltype_content`. -/
def aot_link_global (val_ok type_ok : Bool) (module_aot : AOTModule) (global_idx_rt : Nat)
    (import_global : wasm_global_t) : Option (Bool × AOTModule × wasm_global_t) :=
  match module_aot.import_globals[global_idx_rt]? with
  | none => none
  | some import_aot_global =>
    match wasm_globaltype_copy val_ok type_ok (some import_global.type) with
    | some (some global_type) =>
      match link_global_width global_type.val_type.kind with
      | none => some (false, module_aot, import_global)
      | some width =>
        if import_aot_global.type ≠ link_global_code global_type.val_type.kind then none
        else
          some (true,
            { module_aot with
              import_globals := module_aot.import_globals.set global_idx_rt
                { import_aot_global with
                  global_data_linked := import_global.init.of % 2 ^ width } },
            { import_global with global_idx_rt := global_idx_rt })
    | _ => none

/-- The loop of `aot_link`.  The first argument bounds the iterations that
are left: each one reads `imports[i]` and advances `i`, so the length of
`imports` is enough at the start (a read past the end of `imports` is `none`
as well).  `BH_DEBUG` tells whether the build compiles `bh_assert` in: the
cases of a memory and of a table are `ASSERT_NOT_IMPLEMENTED (); break;`, so
with assertions the loop stops there, and without them it leaves the switch
and goes on with the next element of `imports`. -/
def aot_link_loop (BH_DEBUG : Bool) (o : Nat → link_outcomes) :
    Nat → Nat → Nat → Nat → aot_link_state → Option (Bool × Nat × aot_link_state)
  | fuel, i, import_func_i, import_global_i, st =>
    if import_func_i < st.module_aot.import_funcs.length
        ∨ import_global_i < st.module_aot.import_globals.length then
      match fuel with
      | 0 => none
      | fuel1 + 1 =>
        match st.imports[i]? with
        | none => none
        | some none => none
        | some (some (.WASM_EXTERN_FUNC func)) =>
          if import_func_i < st.module_aot.import_funcs.length then
            match aot_link_func (o i).clone_ok st.module_aot import_func_i func with
            | none => none
            | some (false, module1, func1) =>
              some (false, i + 1,
                ⟨module1, st.imports.set i (some (.WASM_EXTERN_FUNC func1))⟩)
            | some (true, module1, func1) =>
              aot_link_loop BH_DEBUG o fuel1 (i + 1) (import_func_i + 1) import_global_i
                ⟨module1, st.imports.set i (some (.WASM_EXTERN_FUNC func1))⟩
          else none
        | some (some (.WASM_EXTERN_GLOBAL global)) =>
          if import_global_i < st.module_aot.import_globals.length then
            match aot_link_global (o i).val_ok (o i).type_ok st.module_aot
                (import_global_i % 65536) global with
            | none => none
            | some (false, module1, global1) =>
              some (false, i + 1,
                ⟨module1, st.imports.set i (some (.WASM_EXTERN_GLOBAL global1))⟩)
            | some (true, module1, global1) =>
              aot_link_loop BH_DEBUG o fuel1 (i + 1) import_func_i (import_global_i + 1)
                ⟨module1, st.imports.set i (some (.WASM_EXTERN_GLOBAL global1))⟩
          else none
        | some (some (.WASM_EXTERN_MEMORY _)) =>
          if BH_DEBUG then none
          else aot_link_loop BH_DEBUG o fuel1 (i + 1) import_func_i import_global_i st
        | some (some (.WASM_EXTERN_TABLE _)) =>
          if BH_DEBUG then none
          else aot_link_loop BH_DEBUG o fuel1 (i + 1) import_func_i import_global_i st
    else some (true, i, st)

/-- The function `aot_link (inst, module_aot, imports)`: the returned count
(`UINT32_MAX` is `(uint32)-1`) and the state the call leaves. -/
def aot_link (BH_DEBUG : Bool) (o : Nat → link_outcomes) (st : aot_link_state) :
    Option (Nat × aot_link_state) :=
  match aot_link_loop BH_DEBUG o
      (st.module_aot.import_funcs.length + st.module_aot.import_globals.length
        + st.imports.length) 0 0 0 st with
  | none => none
  | some (true, i, st1) => some (i % UINT32_MOD, st1)
  | some (false, _, st1) => some (UINT32_MAX, st1)

/-! ## The export phase and `wasm_instance_new` -/

/-- The switch of `interp_process_export` on the kind of an export: the
external it builds; the index of the export is handed to a parameter of type
`uint16`.  The inner `none` is the exit through `failed`. -/
def interp_export_external (o : extern_new_outcomes) (w : world) (store : Nat)
    (inst_comm_rt : Option Nat) (inst : module_inst_rt) (export_rt : WASMExport) :
    Option (Option wasm_extern_t) :=
  match export_rt.kind with
  | .EXPORT_KIND_FUNC =>
    (wasm_func_new_internal o w store (export_rt.index % 65536) inst_comm_rt inst).map
      fun r => r.map .WASM_EXTERN_FUNC
  | .EXPORT_KIND_GLOBAL =>
    (wasm_global_new_internal o w store (export_rt.index % 65536) inst_comm_rt inst).map
      fun r => r.map .WASM_EXTERN_GLOBAL
  | .EXPORT_KIND_TABLE =>
    (wasm_table_new_internal o w store (export_rt.index % 65536) inst_comm_rt inst).map
      fun r => r.map .WASM_EXTERN_TABLE
  | .EXPORT_KIND_MEMORY =>
    (wasm_memory_new_internal o w store (export_rt.index % 65536) inst_comm_rt inst).map
      fun r => r.map .WASM_EXTERN_MEMORY
  | .other _ => some none

/-- The loop of `interp_process_export` over the exports that are left;
`o i` and `grow i` are the outcomes of iteration `i`.  The result is the
returned boolean and the vector `externals`. -/
def interp_process_export_loop (o : Nat → extern_new_outcomes) (grow : Nat → Option Nat)
    (w : world) (store : Nat) (inst_comm_rt : Option Nat) (inst : module_inst_rt) :
    List WASMExport → Nat → wasm_vec_t (Option wasm_extern_t) →
      Option (Bool × wasm_vec_t (Option wasm_extern_t))
  | [], _, externals => some (true, externals)
  | export_rt :: rest, i, externals =>
    match interp_export_external (o i) w store inst_comm_rt inst export_rt with
    | none => none
    | some none => some (false, externals)
    | some (some external) =>
      match bh_vector_append (grow i) externals (some external) with
      | none => none
      | some (false, externals1) => some (false, externals1)
      | some (true, externals1) =>
        interp_process_export_loop o grow w store inst_comm_rt inst rest (i + 1) externals1

/-- The function `interp_process_export (store, inst_interp, externals)`. -/
def interp_process_export (o : Nat → extern_new_outcomes) (grow : Nat → Option Nat)
    (w : world) (store : Nat) (inst_comm_rt : Option Nat) (inst_interp : WASMModuleInstance)
    (externals : wasm_vec_t (Option wasm_extern_t)) :
    Option (Bool × wasm_vec_t (Option wasm_extern_t)) :=
  if store = 0 ∨ inst_comm_rt = none then none
  else
    interp_process_export_loop o grow w store inst_comm_rt (.interp inst_interp)
      inst_interp.exports 0 externals

/-- The loop of `aot_process_export` over the exports that are left.  The
arguments are `i`, `export_func_i` and the variable `external`, which keeps
its value from one iteration to the next: the cases of a memory and of a
table leave the switch without assigning it, and it is appended all the
same. -/
def aot_process_export_loop (o : Nat → extern_new_outcomes) (grow : Nat → Option Nat)
    (w : world) (store : Nat) (inst_comm_rt : Option Nat) (inst : module_inst_rt) :
    List WASMExport → Nat → Nat → Option wasm_extern_t → wasm_vec_t (Option wasm_extern_t) →
      Option (Bool × wasm_vec_t (Option wasm_extern_t))
  | [], _, _, _, externals => some (true, externals)
  | export_rt :: rest, i, export_func_i, external, externals =>
    let append (external1 : Option wasm_extern_t) (export_func_i1 : Nat) :
        Option (Bool × wasm_vec_t (Option wasm_extern_t)) :=
      match bh_vector_append (grow i) externals external1 with
      | none => none
      | some (false, externals1) => some (false, externals1)
      | some (true, externals1) =>
        aot_process_export_loop o grow w store inst_comm_rt inst rest (i + 1) export_func_i1
          external1 externals1
    match export_rt.kind with
    | .EXPORT_KIND_FUNC =>
      match wasm_func_new_internal (o i) w store (export_func_i % 65536) inst_comm_rt inst with
      | none => none
      | some none => some (false, externals)
      | some (some func) => append (some (.WASM_EXTERN_FUNC func)) (export_func_i + 1)
    | .EXPORT_KIND_GLOBAL =>
      match wasm_global_new_internal (o i) w store (export_rt.index % 65536) inst_comm_rt
          inst with
      | none => none
      | some none => some (false, externals)
      | some (some global) => append (some (.WASM_EXTERN_GLOBAL global)) export_func_i
    | .EXPORT_KIND_MEMORY => append external export_func_i
    | .EXPORT_KIND_TABLE => append external export_func_i
    | .other _ => some (false, externals)

/-- The function `aot_process_export (store, inst_aot, externals)`. -/
def aot_process_export (o : Nat → extern_new_outcomes) (grow : Nat → Option Nat)
    (w : world) (store : Nat) (inst_comm_rt : Option Nat) (inst_aot : AOTModuleInstance)
    (externals : wasm_vec_t (Option wasm_extern_t)) :
    Option (Bool × wasm_vec_t (Option wasm_extern_t)) :=
  if store = 0 ∨ inst_comm_rt = none then none
  else
    aot_process_export_loop o grow w store inst_comm_rt (.aot inst_aot)
      inst_aot.aot_module.exports 0 0 none externals

/-- Outcomes of the allocations of `wasm_instance_new`: the instance; the
header and the buffer of its import vector; those of the link of import `i`;
the header and the buffer of its export vector; those of export `i` with the
reallocation of its `bh_vector_append`; and the reallocation of the
`bh_vector_append` on the instance list of the store.  The last field is the
build option that decides whether `bh_assert` is compiled in, which the link
phase needs for `ASSERT_NOT_IMPLEMENTED`; assertions are on by default. -/
structure instance_new_outcomes where
  instance_ok : Bool
  imports_vec_ok : Bool
  imports_data_ok : Bool
  link : Nat → link_outcomes
  exports_vec_ok : Bool
  exports_data_ok : Bool
  export_ : Nat → extern_new_outcomes
  export_grow : Nat → Option Nat
  grow : Option Nat
  BH_DEBUG : Bool := true

/-- What a call of `wasm_instance_new` leaves: the returned instance (`none`
is null), the world, the backend module and the array `imports` as linking
left them, and the instance that the exit through `failed` handed to
`wasm_instance_delete_internal` (`none` when the exit was not taken or the
instance was null). -/
structure instance_new_result where
  ret : Option wasm_instance_t
  w : world
  module_rt : module_rt_t
  imports : Option (List (Option wasm_extern_t))
  deleted : Option wasm_instance_t

/-- The exit `failed` of `wasm_instance_new`: `wasm_instance_delete_internal`
runs on the instance. -/
def wasm_instance_new_failed (w : world) (module_rt : module_rt_t)
    (imports : Option (List (Option wasm_extern_t))) (instance_ : Option wasm_instance_t) :
    instance_new_result :=
  { ret := none
    w := { w with trace := w.trace ++ wasm_instance_delete_internal instance_ }
    module_rt := module_rt
    imports := imports
    deleted := instance_ }

/-- What the link phase of `wasm_instance_new` leaves: whether it passed, the
instance, the backend module, the array `imports` and `import_count`. -/
structure instance_link_result where
  ok : Bool
  instance_ : wasm_instance_t
  module_rt : module_rt_t
  imports : Option (List (Option wasm_extern_t))
  import_count : Nat

/-- The link phase of `wasm_instance_new` (`link module and imports`) on the
freshly allocated instance.  `none` is a failed assertion or a backend module
that is not of the kind of the engine mode. -/
def wasm_instance_new_link (o : instance_new_outcomes) (mode : runtime_mode_e)
    (module_rt : module_rt_t) (imports : Option (List (Option wasm_extern_t))) :
    Option instance_link_result :=
  let instance_ : wasm_instance_t := ⟨none, none, none⟩
  match imports with
  | none => some ⟨true, instance_, module_rt, none, 0⟩
  | some imports_ =>
    match mode, module_rt with
    | .INTERP_MODE, .interp module_interp =>
      let import_count := module_interp.imports.length
      if !o.imports_vec_ok then some ⟨false, instance_, module_rt, imports, import_count⟩
      else
        let vec : wasm_vec_t (Option wasm_extern_t) :=
          wasm_vec_new_uninitialized o.imports_data_ok import_count
        let instance1 : wasm_instance_t := { instance_ with imports := some vec }
        if vec.size ≠ 0 ∧ vec.data.isNone = true then
          some ⟨false, instance1, module_rt, imports, import_count⟩
        else if import_count = 0 then some ⟨true, instance1, module_rt, imports, import_count⟩
        else
          match interp_link o.BH_DEBUG o.link ⟨instance1, module_interp, imports_⟩ with
          | none => none
          | some (actual_link_import_count, st) =>
            some ⟨!(decide (2147483648 ≤ import_count)
                    || decide (import_count ≠ actual_link_import_count)),
                  st.inst, .interp st.module_interp, some st.imports, import_count⟩
    | .AOT_MODE, .aot module_aot =>
      let import_count := (module_aot.import_funcs.length + module_aot.import_globals.length
        + module_aot.import_memory_count + module_aot.import_table_count) % UINT32_MOD
      if !o.imports_vec_ok then some ⟨false, instance_, module_rt, imports, import_count⟩
      else
        let vec : wasm_vec_t (Option wasm_extern_t) :=
          wasm_vec_new_uninitialized o.imports_data_ok import_count
        let instance1 : wasm_instance_t := { instance_ with imports := some vec }
        if vec.size ≠ 0 ∧ vec.data.isNone = true then
          some ⟨false, instance1, module_rt, imports, import_count⟩
        else if import_count = 0 then some ⟨true, instance1, module_rt, imports, import_count⟩
        else
          match aot_link o.BH_DEBUG o.link ⟨module_aot, imports_⟩ with
          | none => none
          | some (linked, st) =>
            some ⟨!decide (2147483648 ≤ linked), instance1, .aot st.module_aot,
                  some st.imports, linked⟩
    | _, _ => none

/-- The assignment of `inst_comm_rt` that the loop `fill with inst` makes on
an import. -/
def wasm_extern_t.fill_inst (inst_comm_rt : Option Nat) : wasm_extern_t → wasm_extern_t
  | .WASM_EXTERN_FUNC func => .WASM_EXTERN_FUNC { func with inst_comm_rt := inst_comm_rt }
  | .WASM_EXTERN_GLOBAL global =>
    .WASM_EXTERN_GLOBAL { global with inst_comm_rt := inst_comm_rt }
  | .WASM_EXTERN_MEMORY memory =>
    .WASM_EXTERN_MEMORY { memory with inst_comm_rt := inst_comm_rt }
  | .WASM_EXTERN_TABLE table => .WASM_EXTERN_TABLE { table with inst_comm_rt := inst_comm_rt }

/-- The loop `fill with inst` of `wasm_instance_new`.  The arguments are the
number of iterations left (`import_count - i`) and `i`; `none` is a read past
the end of `imports` or through a null import. -/
def wasm_instance_new_fill (inst_comm_rt : Option Nat) :
    Nat → Nat → List (Option wasm_extern_t) → Option (List (Option wasm_extern_t))
  | 0, _, imports => some imports
  | n + 1, i, imports =>
    match imports[i]? with
    | some (some import_) =>
      wasm_instance_new_fill inst_comm_rt n (i + 1)
        (imports.set i (some (import_.fill_inst inst_comm_rt)))
    | _ => none

/-- The loop `fill with inst` of `wasm_instance_new` on the argument
`imports`, which may be null: the loop then does not run. -/
def wasm_instance_new_fill_imports (inst_comm_rt : Option Nat) (import_count : Nat)
    (imports : Option (List (Option wasm_extern_t))) :
    Option (Option (List (Option wasm_extern_t))) :=
  match imports with
  | none => some none
  | some imports_ => (wasm_instance_new_fill inst_comm_rt import_count 0 imports_).map some

/-- The part `build the exports list` of `wasm_instance_new`: whether it
passed and the instance it leaves.  `inst` is the object behind the backend
instance of `instance_`. -/
def wasm_instance_new_exports (o : instance_new_outcomes) (w : world) (store : Nat)
    (mode : runtime_mode_e) (instance_ : wasm_instance_t) (inst : module_inst_rt) :
    Option (Bool × wasm_instance_t) :=
  let build (export_cnt : Nat)
      (process : wasm_vec_t (Option wasm_extern_t) →
        Option (Bool × wasm_vec_t (Option wasm_extern_t))) :
      Option (Bool × wasm_instance_t) :=
    if !o.exports_vec_ok then some (false, instance_)
    else
      let vec : wasm_vec_t (Option wasm_extern_t) :=
        wasm_vec_new_uninitialized o.exports_data_ok export_cnt
      if vec.size ≠ 0 ∧ vec.data.isNone = true then
        some (false, { instance_ with exports := some vec })
      else
        (process vec).map fun r => (r.1, { instance_ with exports := some r.2 })
  match mode, inst with
  | .INTERP_MODE, .interp inst_interp =>
    build inst_interp.exports.length
      (interp_process_export o.export_ o.export_grow w store instance_.inst_comm_rt inst_interp)
  | .AOT_MODE, .aot inst_aot =>
    build inst_aot.export_func_count
      (aot_process_export o.export_ o.export_grow w store instance_.inst_comm_rt inst_aot)
  | _, _ => none

/-- The function `wasm_instance_new (store, module, imports, traps)`.
`module_rt` is the backend module behind `module`, and
`wasm_runtime_instantiate` the backend function of this name: applied to the
backend module, it gives the handle of the new backend instance with the
object behind it, or `none` for a null result.  `none` is a failed assertion
or an access outside a buffer. -/
def wasm_instance_new (wasm_runtime_instantiate : module_rt_t → Option (Nat × module_inst_rt))
    (o : instance_new_outcomes) (w : world) (store : Nat) (module_rt : module_rt_t)
    (imports : Option (List (Option wasm_extern_t))) : Option instance_new_result :=
  if w.singleton_engine = none ∨ store = 0 then none
  else if !o.instance_ok then some (wasm_instance_new_failed w module_rt imports none)
  else
    match current_runtime_mode w with
    | none => none
    | some mode =>
      match wasm_instance_new_link o mode module_rt imports with
      | none => none
      | some linked =>
        if !linked.ok then
          some (wasm_instance_new_failed w linked.module_rt linked.imports
            (some linked.instance_))
        else
          let instantiated := wasm_runtime_instantiate linked.module_rt
          let w1 : world :=
            { w with trace := w.trace ++ [trace_event.instantiate (instantiated.map fun r => r.1)] }
          match instantiated with
          | none =>
            some (wasm_instance_new_failed w1 linked.module_rt linked.imports
              (some linked.instance_))
          | some (handle, inst) =>
            let instance1 : wasm_instance_t :=
              { linked.instance_ with inst_comm_rt := some handle }
            match wasm_instance_new_fill_imports (some handle) linked.import_count
                linked.imports with
            | none => none
            | some imports1 =>
              match wasm_instance_new_exports o w1 store mode instance1 inst with
              | none => none
              | some (false, instance2) =>
                some (wasm_instance_new_failed w1 linked.module_rt imports1 (some instance2))
              | some (true, instance2) =>
                match w1.stores store with
                | none => none
                | some s =>
                  match s.instances with
                  | none =>
                    some (wasm_instance_new_failed w1 linked.module_rt imports1
                      (some instance2))
                  | some instances =>
                    match bh_vector_append o.grow instances (some instance2) with
                    | none => none
                    | some (false, _) =>
                      some (wasm_instance_new_failed w1 linked.module_rt imports1
                        (some instance2))
                    | some (true, instances1) =>
                      some { ret := some instance2
                             w := { w1 with
                               stores := heap_set w1.stores store
                                 (some { s with instances := some instances1 }) }
                             module_rt := linked.module_rt
                             imports := imports1
                             deleted := none }

/-! ## Copies of externals and `wasm_instance_exports` -/

/-- Outcomes of the allocations of `wasm_extern_copy`: the object (for a
function, every allocation of the clone), the value type and the type of the
copy of its type, and the initial value of a global. -/
structure extern_copy_outcomes where
  obj_ok : Bool
  val_ok : Bool
  type_ok : Bool
  init_ok : Bool

/-- The function `wasm_global_copy (src)`; `wasm_val_copy` moves the bytes of
the initial value.  The outer `none` is a failed assertion. -/
def wasm_global_copy (o : extern_copy_outcomes) (src : Option wasm_global_t) :
    Option (Option wasm_global_t) :=
  match src with
  | none => none
  | some s =>
    if !o.obj_ok then some none
    else
      match wasm_globaltype_copy o.val_ok o.type_ok (some s.type) with
      | none => none
      | some none => some none
      | some (some type) =>
        if !o.init_ok then some none
        else
          some (some { type := type, init := s.init, global_idx_rt := s.global_idx_rt,
                       inst_comm_rt := s.inst_comm_rt })

/-- The function `wasm_table_new_basic (type)`: the table it returns is bound
to no backend instance. -/
def wasm_table_new_basic (o : extern_copy_outcomes) (type : Option wasm_tabletype_t) :
    Option (Option wasm_table_t) :=
  match type with
  | none => none
  | some t =>
    if !o.obj_ok then some none
    else
      match wasm_tabletype_copy o.val_ok o.type_ok (some t) with
      | none => none
      | some none => some none
      | some (some type1) => some (some { type := type1, table_idx_rt := 0, inst_comm_rt := none })

/-- The function `wasm_table_copy (src)`, which is
`wasm_table_new_basic (src->type)`. -/
def wasm_table_copy (o : extern_copy_outcomes) (src : Option wasm_table_t) :
    Option (Option wasm_table_t) :=
  match src with
  | none => none
  | some s => wasm_table_new_basic o (some s.type)

/-- The function `wasm_memory_new_basic (type)`; the result of the copy of
the type is stored without a test. -/
def wasm_memory_new_basic (o : extern_copy_outcomes) (type : Option wasm_memorytype_t) :
    Option (Option wasm_memory_t) :=
  match type with
  | none => none
  | some t =>
    if !o.obj_ok then some none
    else
      match wasm_memorytype_copy o.type_ok (some t) with
      | none => none
      | some type1 => some (some { type := type1, memory_idx_rt := 0, inst_comm_rt := none })

/-- The function `wasm_memory_copy (src)`. -/
def wasm_memory_copy (o : extern_copy_outcomes) (src : Option wasm_memory_t) :
    Option (Option wasm_memory_t) :=
  match src with
  | none => none
  | some s =>
    match wasm_memory_new_basic o s.type with
    | none => none
    | some none => some none
    | some (some dst) =>
      some (some { dst with memory_idx_rt := s.memory_idx_rt, inst_comm_rt := s.inst_comm_rt })

/-- The function `wasm_extern_copy (src)`; the outer `none` is a failed
assertion. -/
def wasm_extern_copy (o : extern_copy_outcomes) (src : Option wasm_extern_t) :
    Option (Option wasm_extern_t) :=
  match src with
  | none => none
  | some (.WASM_EXTERN_FUNC func) => some ((wasm_func_copy o.obj_ok func).map .WASM_EXTERN_FUNC)
  | some (.WASM_EXTERN_GLOBAL global) =>
    (wasm_global_copy o (some global)).map fun r => r.map .WASM_EXTERN_GLOBAL
  | some (.WASM_EXTERN_MEMORY memory) =>
    (wasm_memory_copy o (some memory)).map fun r => r.map .WASM_EXTERN_MEMORY
  | some (.WASM_EXTERN_TABLE table) =>
    (wasm_table_copy o (some table)).map fun r => r.map .WASM_EXTERN_TABLE

/-- The function `wasm_extern_vec_copy (out, src)` of
`WASM_DEFINE_VEC_OWN (extern, wasm_extern_delete)`. -/
def wasm_extern_vec_copy (data_ok : Bool) (o : Nat → extern_copy_outcomes)
    (src : wasm_vec_t (Option wasm_extern_t)) : Option (vec_copy_result wasm_extern_t) :=
  wasm_vec_copy data_ok (fun i => wasm_extern_copy (o i)) src

/-- The function `wasm_instance_exports (instance, out)`; `none` is a failed
assertion or a null export vector. -/
def wasm_instance_exports (data_ok : Bool) (o : Nat → extern_copy_outcomes)
    (instance_ : Option wasm_instance_t) : Option (vec_copy_result wasm_extern_t) :=
  match instance_ with
  | none => none
  | some inst =>
    match inst.exports with
    | none => none
    | some exports => wasm_extern_vec_copy data_ok o exports

/-- The extern kind that corresponds to the kind of an export descriptor. -/
def export_kind_rt.externkind : export_kind_rt → Option wasm_externkind_t
  | .EXPORT_KIND_FUNC => some .WASM_EXTERN_FUNC
  | .EXPORT_KIND_GLOBAL => some .WASM_EXTERN_GLOBAL
  | .EXPORT_KIND_TABLE => some .WASM_EXTERN_TABLE
  | .EXPORT_KIND_MEMORY => some .WASM_EXTERN_MEMORY
  | .other _ => none

/-- A vector whose populated count is within its capacity and its buffer. -/
def wasm_vec_t.bounded {α : Type} (v : wasm_vec_t α) : Prop :=
  v.num_elems ≤ v.size ∧ v.num_elems ≤ (v.data.getD []).length

/-! ### Scenario data of the instantiation properties -/

/-- Outcomes of one of the `*_new_internal` constructors with every
allocation successful. -/
def extern_new_all_ok : extern_new_outcomes := ⟨true, functype_new_all_ok, true, true, true⟩

/-- Outcomes of `wasm_instance_new` with every allocation successful. -/
def instance_new_all_ok : instance_new_outcomes :=
  { instance_ok := true, imports_vec_ok := true, imports_data_ok := true
    link := fun _ => ⟨true, none, true, true⟩
    exports_vec_ok := true, exports_data_ok := true
    export_ := fun _ => extern_new_all_ok, export_grow := fun _ => some 0
    grow := none }

/-- Outcomes of `wasm_extern_copy` with every allocation successful. -/
def extern_copy_all_ok : extern_copy_outcomes := ⟨true, true, true, true⟩

/-- A world in interpreter mode whose store at address 200 has an empty
instance list with four cells. -/
def interp_store_world : world :=
  { singleton_engine := some 100
    engines := heap_set (fun _ => none) 100 (some ⟨.INTERP_MODE, some ⟨1, some [200], 1⟩⟩)
    stores := heap_set (fun _ => none) 200
      (some ⟨some ⟨4, some [none, none, none, none], 0⟩,
             some ⟨4, some [none, none, none, none], 0⟩⟩)
    trace := [] }

/-- The same world in AOT mode. -/
def aot_store_world : world :=
  { interp_store_world with
    engines := heap_set (fun _ => none) 100 (some ⟨.AOT_MODE, some ⟨1, some [200], 1⟩⟩) }

/-- A descriptor of the given kind named `env.x`. -/
def import_of_kind (kind : import_kind_rt) : WASMImport :=
  ⟨kind, [101, 110, 118], [120], some ⟨1, 1, [.VALUE_TYPE_I32, .VALUE_TYPE_I32]⟩,
   .VALUE_TYPE_I32, false, .VALUE_TYPE_FUNCREF, 1, 2, 1, 2⟩

/-- An interpreter module that imports one function and one table. -/
def table_importing_module : WASMModule :=
  { import_functions := [⟨false, none, none⟩]
    imports := [import_of_kind .IMPORT_KIND_FUNC, import_of_kind .IMPORT_KIND_TABLE] }

/-- A host table of three to four funcref cells. -/
def host_table : wasm_table_t := ⟨⟨⟨.WASM_FUNCREF⟩, ⟨3, 4⟩⟩, 0, none⟩

/-- An AOT module that declares one table import and nothing else, and
exports nothing. -/
def aot_table_importing_module : AOTModule := ⟨[], [], 0, 1, [], []⟩

/-- An interpreter instance that exports a function `f` of type
`(i32) -> (i32)`, an i32 global `g` with the value 7, a table `t` and a
memory `m`. -/
def sample_interp_instance : WASMModuleInstance :=
  { exports := [⟨[102], .EXPORT_KIND_FUNC, 0⟩, ⟨[103], .EXPORT_KIND_GLOBAL, 0⟩,
                ⟨[116], .EXPORT_KIND_TABLE, 0⟩, ⟨[109], .EXPORT_KIND_MEMORY, 0⟩]
    functions := [some ⟨1, 1, [.VALUE_TYPE_I32, .VALUE_TYPE_I32]⟩]
    globals := [⟨.VALUE_TYPE_I32, false, 0⟩]
    global_data := [7, 0, 0, 0]
    tables := [⟨.VALUE_TYPE_FUNCREF, 3, 4⟩]
    memories := [⟨1, 2⟩] }

/-- An AOT instance whose module exports a function `f` and a memory `m`. -/
def sample_aot_instance : AOTModuleInstance :=
  { aot_module := ⟨[], [], 0, 0, [],
      [⟨[102], .EXPORT_KIND_FUNC, 0⟩, ⟨[109], .EXPORT_KIND_MEMORY, 0⟩]⟩
    export_funcs := [some ⟨1, 1, [.VALUE_TYPE_I32, .VALUE_TYPE_I32]⟩]
    export_func_count := 1
    global_data := [] }

/-- An interpreter module that imports one function. -/
def func_importing_module : WASMModule :=
  { import_functions := [⟨false, none, none⟩]
    imports := [import_of_kind .IMPORT_KIND_FUNC] }

/-- Outcomes of `wasm_instance_new` in which only the allocation of the third
exported external fails. -/
def third_export_fails : instance_new_outcomes :=
  { instance_new_all_ok with
    export_ := fun i =>
      if i = 2 then { extern_new_all_ok with obj_ok := false } else extern_new_all_ok }

/-- A backend that instantiates every module as `sample_interp_instance` with
the handle 21. -/
def interp_backend : module_rt_t → Option (Nat × module_inst_rt) :=
  fun _ => some (21, .interp sample_interp_instance)

/-- A backend that instantiates every module as `sample_aot_instance` with the
handle 21. -/
def aot_backend : module_rt_t → Option (Nat × module_inst_rt) :=
  fun _ => some (21, .aot sample_aot_instance)

/-- An external that `wasm_extern_copy` can copy without a failed assertion:
a memory has a type. -/
def wasm_extern_t.copyable : wasm_extern_t → Bool
  | .WASM_EXTERN_MEMORY memory => memory.type.isSome
  | _ => true

/-- An AOT module without imports. -/
def aot_plain_module : AOTModule := ⟨[], [], 0, 0, [], []⟩

/-! ## Comparisons of types and values -/

/-- The function `wasm_valtype_same (vt1, vt2)`. -/
def wasm_valtype_same (vt1 vt2 : Option wasm_valtype_t) : Bool :=
  match vt1, vt2 with
  | none, none => true
  | none, some _ => false
  | some _, none => false
  | some a, some b => decide (a.kind = b.kind)

/-- The function `wasm_globaltype_same (gt1, gt2)`; the member `val_type` of
a global type is not null (`wasm_globaltype_new` asserts it). -/
def wasm_globaltype_same (gt1 gt2 : Option wasm_globaltype_t) : Bool :=
  match gt1, gt2 with
  | none, none => true
  | none, some _ => false
  | some _, none => false
  | some a, some b =>
    wasm_valtype_same (some a.val_type) (some b.val_type)
      || decide (a.mutability = b.mutability)

/-- Modulus of a `uint64`. -/
def UINT64_MOD : Nat := 18446744073709551616

/-- The comparison `==` of two `float32` given by their bits: false when one
of them is a NaN (exponent 255, fraction not zero), true for two zeros of
either sign, and equality of the bits otherwise. -/
def float32_eq (a b : Nat) : Bool :=
  if a / 8388608 % 256 = 255 ∧ a % 8388608 ≠ 0 then false
  else if b / 8388608 % 256 = 255 ∧ b % 8388608 ≠ 0 then false
  else if a % 2147483648 = 0 ∧ b % 2147483648 = 0 then true
  else decide (a = b)

/-- The comparison `==` of two `float64` given by their bits (exponent 2047
for a NaN). -/
def float64_eq (a b : Nat) : Bool :=
  if a / 4503599627370496 % 2048 = 2047 ∧ a % 4503599627370496 ≠ 0 then false
  else if b / 4503599627370496 % 2048 = 2047 ∧ b % 4503599627370496 ≠ 0 then false
  else if a % 9223372036854775808 = 0 ∧ b % 9223372036854775808 = 0 then true
  else decide (a = b)

/-- The function `wasm_val_copy (out, src)`: the value that `bh_memcpy_s`
leaves in `out`; `none` is the failed assertion on a null pointer. -/
def wasm_val_copy (out src : Option wasm_val_t) : Option wasm_val_t :=
  match out, src with
  | some _, some s => some s
  | _, _ => none

/-- The function `wasm_val_same (v1, v2)`; each case reads the union member of
its kind. -/
def wasm_val_same (v1 v2 : Option wasm_val_t) : Bool :=
  match v1, v2 with
  | none, none => true
  | none, some _ => false
  | some _, none => false
  | some a, some b =>
    if a.kind ≠ b.kind then false
    else
      match a.kind with
      | .WASM_I32 => decide (a.of % UINT32_MOD = b.of % UINT32_MOD)
      | .WASM_I64 => decide (a.of % UINT64_MOD = b.of % UINT64_MOD)
      | .WASM_F32 => float32_eq (a.of % UINT32_MOD) (b.of % UINT32_MOD)
      | .WASM_F64 => float64_eq (a.of % UINT64_MOD) (b.of % UINT64_MOD)
      | .WASM_FUNCREF => decide (a.of % UINT64_MOD = b.of % UINT64_MOD)
      | _ => false

/-! ## Plain vectors -/

/-- A zeroed cell of an array of `wasm_val_t`. -/
instance : Inhabited wasm_val_t := ⟨wasm_val_t.zero⟩

/-- The function `wasm_##name##_vec_copy (out, src)` of
`WASM_DEFINE_VEC_PLAIN`, which is `wasm_##name##_vec_new (out, src->size,
src->data)`; `elem_size` is `sizeof (wasm_##name##_t)`. -/
def wasm_vec_copy_plain {α : Type} [Inhabited α] (elem_size : Nat) (alloc_ok : Bool)
    (src : wasm_vec_t α) : Option (wasm_vec_t α) :=
  wasm_vec_new elem_size alloc_ok src.size src.data

/-- The function `wasm_val_vec_copy (out, src)` of
`WASM_DEFINE_VEC_PLAIN (val)`; a `wasm_val_t` takes 16 bytes. -/
def wasm_val_vec_copy (alloc_ok : Bool) (src : wasm_vec_t wasm_val_t) :
    Option (wasm_vec_t wasm_val_t) :=
  wasm_vec_copy_plain 16 alloc_ok src

/-! ## Traps made by the host -/

/-- The function `wasm_trap_new_basic (message)`, reached through
`wasm_trap_new`.  The three flags are the outcomes of the allocation of the
trap, of the vector header (`INIT_VEC`) and of the vector data; the inner
`none` is a null result and the outer one a read past the end of the message
data. -/
def wasm_trap_new_basic (trap_ok vec_ok data_ok : Bool) (message : wasm_vec_t Nat) :
    Option (Option wasm_trap_t) :=
  if !trap_ok then some none
  else if !vec_ok then some none
  else
    match wasm_byte_vec_new data_ok message.size message.data with
    | none => none
    | some m =>
      if m.size ≠ 0 ∧ m.data = none then some none
      else some (some ⟨some m⟩)

/-! ## Access to the value of a global -/

/-- Write the `n` low bytes of `v`, little-endian, into `data` from offset
`off`; `none` is a write outside the buffer. -/
def store_le : List Nat → Nat → Nat → Nat → Option (List Nat)
  | data, _, 0, _ => some data
  | data, off, n + 1, v =>
    if off < data.length then store_le (data.set off (v % 256)) (off + 1) n (v / 256)
    else none

/-- The switch of `interp_global_set` and of `aot_global_set` on the value
type of the global: the global data after the store and the returned boolean;
`none` is a failed assertion on the kind of `v` or a store outside the global
data. -/
def global_set_switch (val_type_rt : value_type_rt) (global_data : List Nat)
    (data_offset : Nat) (v : wasm_val_t) : Option (Bool × List Nat) :=
  match val_type_rt with
  | .VALUE_TYPE_I32 =>
    if v.kind = .WASM_I32 then
      (store_le global_data data_offset 4 v.of).map fun d => (true, d)
    else none
  | .VALUE_TYPE_F32 =>
    if v.kind = .WASM_F32 then
      (store_le global_data data_offset 4 v.of).map fun d => (true, d)
    else none
  | .VALUE_TYPE_I64 =>
    if v.kind = .WASM_I64 then
      (store_le global_data data_offset 8 v.of).map fun d => (true, d)
    else none
  | .VALUE_TYPE_F64 =>
    if v.kind = .WASM_F64 then
      (store_le global_data data_offset 8 v.of).map fun d => (true, d)
    else none
  | _ => some (false, global_data)

/-- The function `interp_global_set (inst_interp, global_idx_rt, v)` in a
build without multi-module support: the returned boolean and the instance
with its global data updated. -/
def interp_global_set (inst_interp : WASMModuleInstance) (global_idx_rt : Nat)
    (v : wasm_val_t) : Option (Bool × WASMModuleInstance) :=
  match inst_interp.globals[global_idx_rt]? with
  | none => none
  | some global_interp =>
    (global_set_switch global_interp.type inst_interp.global_data
        global_interp.data_offset v).map
      fun r => (r.1, { inst_interp with global_data := r.2 })

/-- The function `aot_global_set (inst_aot, global_idx_rt, v)`. -/
def aot_global_set (inst_aot : AOTModuleInstance) (global_idx_rt : Nat) (v : wasm_val_t) :
    Option (Bool × AOTModuleInstance) :=
  let module_aot := inst_aot.aot_module
  if global_idx_rt < module_aot.import_globals.length then
    match module_aot.import_globals[global_idx_rt]? with
    | none => none
    | some g =>
      (global_set_switch g.type inst_aot.global_data g.data_offset v).map
        fun r => (r.1, { inst_aot with global_data := r.2 })
  else
    match module_aot.globals[global_idx_rt - module_aot.import_globals.length]? with
    | none => none
    | some g =>
      (global_set_switch g.type inst_aot.global_data g.data_offset v).map
        fun r => (r.1, { inst_aot with global_data := r.2 })

/-- The function `wasm_global_set (global, v)`; `inst` is the object behind
`global->inst_comm_rt`, and the result is that object after the call.  The
member `global_idx_rt` is a `uint16` and is passed on as it is.  `none` is a
failed assertion, a null instance pointer or an instance that is not of the
current mode. -/
def wasm_global_set (w : world) (inst : module_inst_rt) (global : Option wasm_global_t)
    (v : Option wasm_val_t) : Option module_inst_rt :=
  match global, v with
  | some g, some val =>
    if g.inst_comm_rt = none then none
    else
      match current_runtime_mode w, inst with
      | some .INTERP_MODE, .interp inst_interp =>
        (interp_global_set inst_interp g.global_idx_rt val).map fun r => .interp r.2
      | some .AOT_MODE, .aot inst_aot =>
        (aot_global_set inst_aot g.global_idx_rt val).map fun r => .aot r.2
      | _, _ => none
  | _, _ => none

/-- The function `wasm_global_get (global, out)`: the value left in `out`,
which is zeroed first; the last assertion compares the kind of the initial
value of the global with the kind that was read. -/
def wasm_global_get (w : world) (inst : module_inst_rt) (global : Option wasm_global_t)
    (out : Option wasm_val_t) : Option wasm_val_t :=
  match global, out with
  | some g, some _ =>
    if g.inst_comm_rt = none then none
    else
      let read : Option (Bool × wasm_val_t) :=
        match current_runtime_mode w, inst with
        | some .INTERP_MODE, .interp inst_interp =>
          interp_global_get inst_interp g.global_idx_rt wasm_val_t.zero
        | some .AOT_MODE, .aot inst_aot =>
          aot_global_get inst_aot g.global_idx_rt wasm_val_t.zero
        | _, _ => none
      match read with
      | none => none
      | some (_, out1) => if g.init.kind = out1.kind then some out1 else none
  | _, _ => none

/-- Number of bytes of the value of a global of the given value type. -/
def value_type_rt.byte_width : value_type_rt → Nat
  | .VALUE_TYPE_I32 => 4
  | .VALUE_TYPE_F32 => 4
  | .VALUE_TYPE_I64 => 8
  | .VALUE_TYPE_F64 => 8
  | _ => 0

/-- The four numeric value types of the backend. -/
def value_type_rt.is_numeric : value_type_rt → Bool
  | .VALUE_TYPE_I32 => true
  | .VALUE_TYPE_F32 => true
  | .VALUE_TYPE_I64 => true
  | .VALUE_TYPE_F64 => true
  | _ => false

/-! ## Specification vocabulary for the raw calling convention -/

/-- The Vals that the raw calling convention holds for the declared types
`defs`, the first of them in the 64-bit cell `i` of `argv`: one Val per cell,
read from the low slot of its cell for a 32-bit kind and from both slots for a
64-bit kind. -/
def params_of_cells : List wasm_valtype_t → List Nat → Nat → List wasm_val_t
  | [], _, _ => []
  | d :: ds, argv, i =>
    ⟨d.kind,
      if slot_width d.kind = 1 then argv.getD (2 * i) 0 % UINT32_MOD
      else argv.getD (2 * i) 0 % UINT32_MOD
        + UINT32_MOD * (argv.getD (2 * i + 1) 0 % UINT32_MOD)⟩
      :: params_of_cells ds argv (i + 1)

/-! ### Scenario data of the last properties -/

/-- A backend that reports the number of 32-bit slots of the argument area it
is handed: it writes that number into the first slot and returns true. -/
def measuring_backend : backend_call_t :=
  fun _ _ _ argv st => some (true, argv.map fun buf => buf.set 0 buf.length, st)

/-- A backend whose export runs the native function behind the import
descriptor `imp` as `forwarding_export` does, and reports the call as failed
whatever the native function leaves. -/
def failing_export (ta : trampoline_allocs) (imp : WASMFunctionImport) : backend_call_t :=
  fun inst _function _argc argv st =>
    match imp.func_ptr_linked, argv with
    | some native, some buf =>
      match native ta ⟨imp.attachment, inst⟩ (some (buf.getD 0 0 :: List.replicate 31 0)) st with
      | none => none
      | some (_, st1) => some (false, some buf, st1)
    | _, _ => none

/-- The trap that `wasm_trap_new` makes from an empty message. -/
def empty_trap : wasm_trap_t := ⟨some ⟨0, none, 0⟩⟩

/-- A host function of type (i32) -> (i32) whose callback always returns
`empty_trap`. -/
def host_empty_trap : wasm_func_t :=
  { host_increment with cb := fun _ rs => (some empty_trap, rs) }

/-- A world in interpreter mode whose store at address 200 holds the module
with the backend module 11 and an empty instance list. -/
def module_store_world : world :=
  { interp_store_world with
    stores := heap_set (fun _ => none) 200
      (some ⟨some ⟨4, some [some ⟨some 11, none⟩, none, none, none], 1⟩,
             some ⟨4, some [none, none, none, none], 0⟩⟩) }

/-- A table bound to the table 2 of the backend instance 21. -/
def bound_table : wasm_table_t := ⟨⟨⟨.WASM_FUNCREF⟩, ⟨3, 4⟩⟩, 2, some 21⟩

/-- The runtime index of an external. -/
def wasm_extern_t.idx_rt : wasm_extern_t → Nat
  | .WASM_EXTERN_FUNC func => func.func_idx_rt
  | .WASM_EXTERN_GLOBAL global => global.global_idx_rt
  | .WASM_EXTERN_TABLE table => table.table_idx_rt
  | .WASM_EXTERN_MEMORY memory => memory.memory_idx_rt

/-- An interpreter instance with an i32 global at offset 0 and an f64 global
at offset 4 of twelve bytes of global data. -/
def globals_interp_instance : WASMModuleInstance :=
  { sample_interp_instance with
    globals := [⟨.VALUE_TYPE_I32, true, 0⟩, ⟨.VALUE_TYPE_F64, true, 4⟩]
    global_data := [7, 0, 0, 0, 0, 0, 0, 0, 0, 0, 0, 0] }

/-- The global 1 of `globals_interp_instance` as `wasm_global_new_internal`
builds it, bound to the backend instance 21. -/
def bound_f64_global : wasm_global_t :=
  ⟨⟨⟨.WASM_F64⟩, .WASM_VAR⟩, ⟨.WASM_F64, 0⟩, 1, some 21⟩

/-! ## Marshaling: auxiliary facts -/

theorem set_at_append {α : Type} (pre rest : List α) (m x : α) :
    (pre ++ m :: rest).set pre.length x = pre ++ x :: rest := by
  induction pre with
  | nil => rfl
  | cons a pre ih => simp [ih]

theorem getD_at_append {α : Type} (pre rest : List α) (x d : α) :
    (pre ++ x :: rest).getD pre.length d = x := by
  induction pre with
  | nil => rfl
  | cons a pre ih => simpa using ih

theorem store32_at_append (pre rest : List Nat) (m x : Nat) :
    store32 (pre ++ m :: rest) pre.length x = some (pre ++ (x % UINT32_MOD) :: rest) := by
  simp [store32, set_at_append]

theorem store64_at_append (pre rest : List Nat) (m1 m2 x : Nat) :
    store64 (pre ++ m1 :: m2 :: rest) pre.length x
      = some (pre ++ (x % UINT32_MOD) :: (x / UINT32_MOD % UINT32_MOD) :: rest) := by
  have h : (pre ++ (x % UINT32_MOD) :: m2 :: rest)
      = (pre ++ [x % UINT32_MOD]) ++ m2 :: rest := by simp
  have hl : pre.length + 1 = (pre ++ [x % UINT32_MOD]).length := by simp
  simp only [store64, List.length_append, List.length_cons]
  rw [if_pos (by omega), set_at_append, h, hl, set_at_append]
  simp

theorem load32_at_append (pre rest : List Nat) (x : Nat) :
    load32 (pre ++ x :: rest) pre.length = some (x % UINT32_MOD) := by
  simp only [load32, getD_at_append, List.length_append, List.length_cons]
  rw [if_pos (by omega)]

theorem load64_at_append (pre rest : List Nat) (x1 x2 : Nat) :
    load64 (pre ++ x1 :: x2 :: rest) pre.length
      = some (x1 % UINT32_MOD + UINT32_MOD * (x2 % UINT32_MOD)) := by
  have h : (pre ++ x1 :: x2 :: rest) = (pre ++ [x1]) ++ x2 :: rest := by simp
  have hl : pre.length + 1 = (pre ++ [x1]).length := by simp
  have e1 : (pre ++ x1 :: x2 :: rest).getD pre.length 0 = x1 := getD_at_append _ _ _ _
  have e2 : (pre ++ x1 :: x2 :: rest).getD (pre.length + 1) 0 = x2 := by
    rw [h, hl]; exact getD_at_append _ _ _ _
  simp only [load64, e1, e2, List.length_append, List.length_cons]
  rw [if_pos (by omega)]

theorem store_val_at_append (pre rest : List wasm_val_t) (m v : wasm_val_t) :
    store_val (pre ++ m :: rest) pre.length v = some (pre ++ v :: rest) := by
  simp [store_val, set_at_append]

theorem slot_image_length (vals : List wasm_val_t) (defs : List wasm_valtype_t)
    (hk : vals.map (fun v => v.kind) = defs.map (fun d => d.kind)) :
    (slot_image vals).length = slot_count defs := by
  induction vals generalizing defs with
  | nil =>
    cases defs with
    | nil => rfl
    | cons d ds => simp at hk
  | cons v vs ih =>
    cases defs with
    | nil => simp at hk
    | cons d ds =>
      simp only [List.map_cons, List.cons.injEq] at hk
      have := ih ds hk.2
      simp only [slot_image, List.length_append, this, slot_count, List.map_cons, List.sum_cons]
      rw [← hk.1]
      cases hv : v.kind <;> simp [slots_of, slot_width, hv]

theorem list_length_one_add {α : Type} (mid : List α) (n : Nat) (h : mid.length = 1 + n) :
    ∃ m ms, mid = m :: ms ∧ ms.length = n := by
  cases mid with
  | nil => simp at h; omega
  | cons m ms => exact ⟨m, ms, rfl, by simp at h; omega⟩

theorem list_length_two_add {α : Type} (mid : List α) (n : Nat) (h : mid.length = 2 + n) :
    ∃ m1 m2 ms, mid = m1 :: m2 :: ms ∧ ms.length = n := by
  obtain ⟨m1, ms1, rfl, h1⟩ := list_length_one_add mid (1 + n) (by omega)
  obtain ⟨m2, ms, rfl, h2⟩ := list_length_one_add ms1 n h1
  exact ⟨m1, m2, ms, rfl, h2⟩

/-- Effect of the loop of `params_to_argv` on a buffer split as
`pre ++ mid ++ post`, with the moving pointer at `pre.length` and `mid` as
long as the values need. -/
theorem params_to_argv_loop_spec (vals : List wasm_val_t) :
    ∀ (defs : List wasm_valtype_t) (pre mid post : List Nat) (argc : Nat),
      vals.map (fun v => v.kind) = defs.map (fun d => d.kind) →
      (∀ v ∈ vals, is_numeric v.kind = true) →
      mid.length = slot_count defs →
      argc < UINT32_MOD →
      params_to_argv_loop vals defs (pre ++ mid ++ post) pre.length argc
        = some ((argc + slot_count defs) % UINT32_MOD, pre ++ slot_image vals ++ post) := by
  induction vals with
  | nil =>
    intro defs pre mid post argc hk _ hmid hargc
    cases defs with
    | cons d ds => simp at hk
    | nil =>
      have : mid = [] := by simpa [slot_count] using hmid
      subst this
      simp [params_to_argv_loop, slot_count, slot_image, Nat.mod_eq_of_lt hargc]
  | cons v vs ih =>
    intro defs pre mid post argc hk hn hmid hargc
    cases defs with
    | nil => simp at hk
    | cons d ds =>
      simp only [List.map_cons, List.cons.injEq] at hk
      obtain ⟨hkd, hks⟩ := hk
      have hnv : is_numeric v.kind = true := hn v (List.mem_cons_self _ _)
      have hns : ∀ w ∈ vs, is_numeric w.kind = true :=
        fun w hw => hn w (List.mem_cons_of_mem _ hw)
      have hsc : slot_count (d :: ds) = slot_width d.kind + slot_count ds := by
        simp [slot_count]
      rw [hsc] at hmid
      have hmod : ∀ k, ((argc + k) % UINT32_MOD + slot_count ds) % UINT32_MOD
          = (argc + (k + slot_count ds)) % UINT32_MOD := by
        intro k; unfold UINT32_MOD; omega
      have hlt : ∀ k, (argc + k) % UINT32_MOD < UINT32_MOD := by
        intro k; unfold UINT32_MOD; omega
      cases hv : v.kind with
      | WASM_I32 =>
        have hd : d.kind = .WASM_I32 := by rw [← hkd]; exact hv
        rw [hd] at hmid
        obtain ⟨m, ms, rfl, hms⟩ := list_length_one_add mid _ hmid
        have hstep := ih ds (pre ++ [v.of % UINT32_MOD]) ms post ((argc + 1) % UINT32_MOD)
          hks hns hms (hlt 1)
        simp only [List.length_append, List.length_singleton, List.append_assoc,
          List.singleton_append] at hstep
        simp only [params_to_argv_loop, hd, hv, ne_eq, not_true_eq_false, if_false,
          List.append_assoc, List.cons_append, store32_at_append, Option.some_bind,
          hsc, slot_width, slot_image, slots_of]
        rw [← hmod]; simpa using hstep
      | WASM_F32 =>
        have hd : d.kind = .WASM_F32 := by rw [← hkd]; exact hv
        rw [hd] at hmid
        obtain ⟨m, ms, rfl, hms⟩ := list_length_one_add mid _ hmid
        have hstep := ih ds (pre ++ [v.of % UINT32_MOD]) ms post ((argc + 1) % UINT32_MOD)
          hks hns hms (hlt 1)
        simp only [List.length_append, List.length_singleton, List.append_assoc,
          List.singleton_append] at hstep
        simp only [params_to_argv_loop, hd, hv, ne_eq, not_true_eq_false, if_false,
          List.append_assoc, List.cons_append, store32_at_append, Option.some_bind,
          hsc, slot_width, slot_image, slots_of]
        rw [← hmod]; simpa using hstep
      | WASM_I64 =>
        have hd : d.kind = .WASM_I64 := by rw [← hkd]; exact hv
        rw [hd] at hmid
        obtain ⟨m1, m2, ms, rfl, hms⟩ := list_length_two_add mid _ hmid
        have hstep := ih ds (pre ++ [v.of % UINT32_MOD, v.of / UINT32_MOD % UINT32_MOD]) ms post
          ((argc + 2) % UINT32_MOD) hks hns hms (hlt 2)
        simp only [List.length_append, List.length_cons, List.length_singleton,
          List.length_nil, List.append_assoc, List.cons_append, List.nil_append,
          Nat.zero_add, Nat.reduceAdd] at hstep
        simp only [params_to_argv_loop, hd, hv, ne_eq, not_true_eq_false, if_false,
          List.append_assoc, List.cons_append, store64_at_append, Option.some_bind,
          hsc, slot_width, slot_image, slots_of]
        rw [← hmod]; simpa using hstep
      | WASM_F64 =>
        have hd : d.kind = .WASM_F64 := by rw [← hkd]; exact hv
        rw [hd] at hmid
        obtain ⟨m1, m2, ms, rfl, hms⟩ := list_length_two_add mid _ hmid
        have hstep := ih ds (pre ++ [v.of % UINT32_MOD, v.of / UINT32_MOD % UINT32_MOD]) ms post
          ((argc + 2) % UINT32_MOD) hks hns hms (hlt 2)
        simp only [List.length_append, List.length_cons, List.length_singleton,
          List.length_nil, List.append_assoc, List.cons_append, List.nil_append,
          Nat.zero_add, Nat.reduceAdd] at hstep
        simp only [params_to_argv_loop, hd, hv, ne_eq, not_true_eq_false, if_false,
          List.append_assoc, List.cons_append, store64_at_append, Option.some_bind,
          hsc, slot_width, slot_image, slots_of]
        rw [← hmod]; simpa using hstep
      | WASM_ANYREF => rw [hv] at hnv; simp [is_numeric] at hnv
      | WASM_FUNCREF => rw [hv] at hnv; simp [is_numeric] at hnv

theorem val_eta (v : wasm_val_t) (k : wasm_valkind_t) (h : v.kind = k) : (⟨k, v.of⟩ : wasm_val_t) = v := by
  cases v; simp_all

/-- Effect of the loop of `argv_to_results` when the slots at the moving
pointer hold the slot image of `vals`. -/
theorem argv_to_results_loop_spec (vals : List wasm_val_t) :
    ∀ (defs : List wasm_valtype_t) (pre post : List Nat) (opre omid opost : List wasm_val_t)
      (argc : Nat),
      vals.map (fun v => v.kind) = defs.map (fun d => d.kind) →
      (∀ v ∈ vals, is_numeric v.kind = true) →
      (∀ v ∈ vals, val_fits v = true) →
      omid.length = vals.length →
      argc < UINT32_MOD →
      argv_to_results_loop defs (pre ++ slot_image vals ++ post) pre.length
          (opre ++ omid ++ opost) opre.length argc
        = some ((argc + vals.length) % UINT32_MOD, opre ++ vals ++ opost) := by
  induction vals with
  | nil =>
    intro defs pre post opre omid opost argc hk _ _ hmid hargc
    cases defs with
    | cons d ds => simp at hk
    | nil =>
      have : omid = [] := by simpa using hmid
      subst this
      simp [argv_to_results_loop, Nat.mod_eq_of_lt hargc]
  | cons v vs ih =>
    intro defs pre post opre omid opost argc hk hn hf hmid hargc
    cases defs with
    | nil => simp at hk
    | cons d ds =>
      simp only [List.map_cons, List.cons.injEq] at hk
      obtain ⟨hkd, hks⟩ := hk
      have hnv : is_numeric v.kind = true := hn v (List.mem_cons_self _ _)
      have hns : ∀ w ∈ vs, is_numeric w.kind = true :=
        fun w hw => hn w (List.mem_cons_of_mem _ hw)
      have hfv : val_fits v = true := hf v (List.mem_cons_self _ _)
      have hfs : ∀ w ∈ vs, val_fits w = true :=
        fun w hw => hf w (List.mem_cons_of_mem _ hw)
      obtain ⟨m, ms, rfl, hms⟩ := list_length_one_add omid vs.length
        (by simp at hmid; omega)
      have hmod : ((argc + 1) % UINT32_MOD + vs.length) % UINT32_MOD
          = (argc + (vs.length + 1)) % UINT32_MOD := by
        unfold UINT32_MOD; omega
      have hlt : (argc + 1) % UINT32_MOD < UINT32_MOD := by
        unfold UINT32_MOD; omega
      cases hv : v.kind with
      | WASM_I32 =>
        have hd : d.kind = .WASM_I32 := by rw [← hkd]; exact hv
        have hfit : v.of % UINT32_MOD % UINT32_MOD = v.of := by
          simp only [val_fits, hv, decide_eq_true_eq] at hfv
          unfold UINT32_MOD at *; omega
        have hstep := ih ds (pre ++ [v.of % UINT32_MOD]) post (opre ++ [v]) ms opost
          ((argc + 1) % UINT32_MOD) hks hns hfs hms hlt
        simp only [List.length_append, List.length_singleton, List.append_assoc,
          List.singleton_append] at hstep
        simp only [argv_to_results_loop, hd, slot_image, slots_of, hv, List.append_assoc,
          List.cons_append, List.nil_append, load32_at_append, Option.some_bind, hfit,
          val_eta v _ hv, store_val_at_append, List.length_cons]
        rw [← hmod]; simpa using hstep
      | WASM_F32 =>
        have hd : d.kind = .WASM_F32 := by rw [← hkd]; exact hv
        have hfit : v.of % UINT32_MOD % UINT32_MOD = v.of := by
          simp only [val_fits, hv, decide_eq_true_eq] at hfv
          unfold UINT32_MOD at *; omega
        have hstep := ih ds (pre ++ [v.of % UINT32_MOD]) post (opre ++ [v]) ms opost
          ((argc + 1) % UINT32_MOD) hks hns hfs hms hlt
        simp only [List.length_append, List.length_singleton, List.append_assoc,
          List.singleton_append] at hstep
        simp only [argv_to_results_loop, hd, slot_image, slots_of, hv, List.append_assoc,
          List.cons_append, List.nil_append, load32_at_append, Option.some_bind, hfit,
          val_eta v _ hv, store_val_at_append, List.length_cons]
        rw [← hmod]; simpa using hstep
      | WASM_I64 =>
        have hd : d.kind = .WASM_I64 := by rw [← hkd]; exact hv
        have hfit : v.of % UINT32_MOD % UINT32_MOD
            + UINT32_MOD * (v.of / UINT32_MOD % UINT32_MOD % UINT32_MOD) = v.of := by
          simp only [val_fits, hv, decide_eq_true_eq] at hfv
          unfold UINT32_MOD at *; omega
        have hstep := ih ds (pre ++ [v.of % UINT32_MOD, v.of / UINT32_MOD % UINT32_MOD]) post
          (opre ++ [v]) ms opost ((argc + 1) % UINT32_MOD) hks hns hfs hms hlt
        simp only [List.length_append, List.length_cons, List.length_singleton,
          List.length_nil, List.append_assoc, List.cons_append, List.nil_append,
          Nat.zero_add, Nat.reduceAdd, List.singleton_append] at hstep
        simp only [argv_to_results_loop, hd, slot_image, slots_of, hv, List.append_assoc,
          List.cons_append, List.nil_append, load64_at_append, Option.some_bind, hfit,
          val_eta v _ hv, store_val_at_append, List.length_cons]
        rw [← hmod]; simpa using hstep
      | WASM_F64 =>
        have hd : d.kind = .WASM_F64 := by rw [← hkd]; exact hv
        have hfit : v.of % UINT32_MOD % UINT32_MOD
            + UINT32_MOD * (v.of / UINT32_MOD % UINT32_MOD % UINT32_MOD) = v.of := by
          simp only [val_fits, hv, decide_eq_true_eq] at hfv
          unfold UINT32_MOD at *; omega
        have hstep := ih ds (pre ++ [v.of % UINT32_MOD, v.of / UINT32_MOD % UINT32_MOD]) post
          (opre ++ [v]) ms opost ((argc + 1) % UINT32_MOD) hks hns hfs hms hlt
        simp only [List.length_append, List.length_cons, List.length_singleton,
          List.length_nil, List.append_assoc, List.cons_append, List.nil_append,
          Nat.zero_add, Nat.reduceAdd, List.singleton_append] at hstep
        simp only [argv_to_results_loop, hd, slot_image, slots_of, hv, List.append_assoc,
          List.cons_append, List.nil_append, load64_at_append, Option.some_bind, hfit,
          val_eta v _ hv, store_val_at_append, List.length_cons]
        rw [← hmod]; simpa using hstep
      | WASM_ANYREF => rw [hv] at hnv; simp [is_numeric] at hnv
      | WASM_FUNCREF => rw [hv] at hnv; simp [is_numeric] at hnv

theorem slot_count_ge_length (vals : List wasm_val_t) (defs : List wasm_valtype_t)
    (hk : vals.map (fun v => v.kind) = defs.map (fun d => d.kind))
    (hn : ∀ v ∈ vals, is_numeric v.kind = true) :
    vals.length ≤ slot_count defs ∧ defs.length = vals.length := by
  induction vals generalizing defs with
  | nil =>
    cases defs with
    | nil => simp
    | cons d ds => simp at hk
  | cons v vs ih =>
    cases defs with
    | nil => simp at hk
    | cons d ds =>
      simp only [List.map_cons, List.cons.injEq] at hk
      have h := ih ds hk.2 (fun w hw => hn w (List.mem_cons_of_mem _ hw))
      have hnv : is_numeric v.kind = true := hn v (List.mem_cons_self _ _)
      have hw : 1 ≤ slot_width d.kind := by
        rw [← hk.1]
        cases hv : v.kind <;> rw [hv] at hnv <;> simp [is_numeric, slot_width] at hnv ⊢
      simp only [slot_count, List.map_cons, List.sum_cons, List.length_cons] at *
      omega

/-- Closed form of `params_to_argv` on a buffer that is large enough. -/
theorem params_to_argv_spec (vals : List wasm_val_t) (defs : List wasm_valtype_t)
    (buf : List Nat)
    (hk : vals.map (fun v => v.kind) = defs.map (fun d => d.kind))
    (hn : ∀ v ∈ vals, is_numeric v.kind = true)
    (hbuf : slot_count defs ≤ buf.length) (hsz : buf.length < UINT32_MOD) :
    params_to_argv vals defs vals.length buf
      = some (slot_count defs, slot_image vals ++ buf.drop (slot_count defs)) := by
  obtain ⟨_, hlen⟩ := slot_count_ge_length vals defs hk hn
  by_cases h0 : vals.length = 0
  · have hv : vals = [] := List.length_eq_zero.mp h0
    subst hv
    have hd : defs = [] := by simpa using hlen
    subst hd
    simp [params_to_argv, slot_count, slot_image]
  · have hspec := params_to_argv_loop_spec vals defs [] (buf.take (slot_count defs))
      (buf.drop (slot_count defs)) 0 hk hn (by simp; omega) (by unfold UINT32_MOD; omega)
    simp only [List.nil_append, List.take_append_drop, List.length_nil, Nat.zero_add] at hspec
    have hlt : slot_count defs % UINT32_MOD = slot_count defs := Nat.mod_eq_of_lt (by omega)
    simp only [params_to_argv, h0, if_false, hlen, ne_eq, not_true_eq_false, hspec, hlt]

theorem slots_of_length (v : wasm_val_t) (h : is_numeric v.kind = true) :
    (slots_of v).length = slot_width v.kind := by
  cases hv : v.kind <;> rw [hv] at h <;> simp [is_numeric, slots_of, slot_width, hv] at h ⊢

theorem slot_image_at (vals : List wasm_val_t) :
    ∀ (defs : List wasm_valtype_t) (rest : List Nat) (i : Nat) (h : i < vals.length),
      vals.map (fun v => v.kind) = defs.map (fun d => d.kind) →
      (∀ v ∈ vals, is_numeric v.kind = true) →
      ((slot_image vals ++ rest).drop (slot_count (defs.take i))).take
          (slot_width (vals[i]).kind) = slots_of vals[i] := by
  induction vals with
  | nil => intro defs rest i h; simp at h
  | cons v vs ih =>
    intro defs rest i h hk hn
    cases defs with
    | nil => simp at hk
    | cons d ds =>
      simp only [List.map_cons, List.cons.injEq] at hk
      have hnv : is_numeric v.kind = true := hn v (List.mem_cons_self _ _)
      cases i with
      | zero =>
        simp only [List.take_zero, slot_count, List.map_nil, List.sum_nil, List.drop_zero,
          List.getElem_cons_zero, slot_image, List.append_assoc]
        rw [← slots_of_length v hnv]
        exact List.take_left' rfl
      | succ j =>
        have hj : j < vs.length := by simpa using h
        have hsc : slot_count ((d :: ds).take (j + 1))
            = (slots_of v).length + slot_count (ds.take j) := by
          rw [slots_of_length v hnv, hk.1]
          simp [slot_count]
        have hdrop : (slot_image (v :: vs) ++ rest).drop (slot_count ((d :: ds).take (j + 1)))
            = (slot_image vs ++ rest).drop (slot_count (ds.take j)) := by
          rw [hsc, slot_image, List.append_assoc, ← List.drop_drop, List.drop_left' rfl]
        rw [hdrop]
        simpa using ih ds rest j hj hk.2 (fun w hw => hn w (List.mem_cons_of_mem _ hw))

/-! ## Marshaling: the claims -/

/-- C1. Marshaling Vals of kinds i32/i64/f32/f64 into 32-bit slots with
`params_to_argv` and reading the slots back with `argv_to_results` under the
same declared types returns exactly the original Vals: the call returns the
number of values and leaves the array `out` equal to the original array. -/
theorem marshal_roundtrip (vals : List wasm_val_t) (defs : List wasm_valtype_t)
    (buf : List Nat) (out0 : List wasm_val_t)
    (hk : kinds_match vals defs = true)
    (hn : ∀ v ∈ vals, is_numeric v.kind = true)
    (hf : ∀ v ∈ vals, val_fits v = true)
    (hbuf : slot_count defs ≤ buf.length) (hsz : buf.length < UINT32_MOD)
    (hout : out0.length = vals.length) :
    ∃ argc slots, params_to_argv vals defs vals.length buf = some (argc, slots) ∧
      argv_to_results slots defs defs.length out0 = some (vals.length, vals) := by
  have hk1 : vals.map (fun v => v.kind) = defs.map (fun d => d.kind) := by
    simpa [kinds_match] using hk
  obtain ⟨hle, hlen⟩ := slot_count_ge_length vals defs hk1 hn
  refine ⟨_, _, params_to_argv_spec vals defs buf hk1 hn hbuf hsz, ?_⟩
  by_cases h0 : vals.length = 0
  · have hv : vals = [] := List.length_eq_zero.mp h0
    subst hv
    have ho : out0 = [] := List.length_eq_zero.mp (by simpa using hout)
    subst ho
    simp [argv_to_results, hlen]
  · have hspec := argv_to_results_loop_spec vals defs [] (buf.drop (slot_count defs)) [] out0 []
      0 hk1 hn hf hout (by unfold UINT32_MOD; omega)
    simp only [List.nil_append, List.append_nil, List.length_nil, Nat.zero_add] at hspec
    have hlt : vals.length % UINT32_MOD = vals.length := Nat.mod_eq_of_lt (by omega)
    simp only [argv_to_results, hlen, h0, if_false, ne_eq, not_true_eq_false, hspec, hlt]

/-- Witness of C1: types (i32, i64, f32, f64) with values 7, 9000000000,
1.5f (bits 0x3FC00000) and 2.25 (bits 0x4002000000000000). -/
theorem marshal_roundtrip_witness :
    ∃ argc slots,
      params_to_argv
          [⟨.WASM_I32, 7⟩, ⟨.WASM_I64, 9000000000⟩, ⟨.WASM_F32, 1069547520⟩,
            ⟨.WASM_F64, 4612248968380809216⟩]
          [⟨.WASM_I32⟩, ⟨.WASM_I64⟩, ⟨.WASM_F32⟩, ⟨.WASM_F64⟩] 4 (List.replicate 8 0)
        = some (argc, slots) ∧
      argv_to_results slots [⟨.WASM_I32⟩, ⟨.WASM_I64⟩, ⟨.WASM_F32⟩, ⟨.WASM_F64⟩] 4
          (List.replicate 4 ⟨.WASM_ANYREF, 0⟩)
        = some (4, [⟨.WASM_I32, 7⟩, ⟨.WASM_I64, 9000000000⟩, ⟨.WASM_F32, 1069547520⟩,
            ⟨.WASM_F64, 4612248968380809216⟩]) :=
  marshal_roundtrip
    [⟨.WASM_I32, 7⟩, ⟨.WASM_I64, 9000000000⟩, ⟨.WASM_F32, 1069547520⟩,
      ⟨.WASM_F64, 4612248968380809216⟩]
    [⟨.WASM_I32⟩, ⟨.WASM_I64⟩, ⟨.WASM_F32⟩, ⟨.WASM_F64⟩] (List.replicate 8 0)
    (List.replicate 4 ⟨.WASM_ANYREF, 0⟩) (by decide) (by decide) (by decide) (by decide)
    (by decide) (by decide)

/-- C2. For Vals of kinds i32/i64/f32/f64 matching the declared types,
`params_to_argv` returns the total slot count (the sum of the widths, 1 for
i32/f32 and 2 for i64/f64), and parameter `i` occupies the slots starting at
the offset that is the sum of the widths of parameters `0 .. i-1`: one slot
for a 32-bit kind, two consecutive slots (low half, high half) for a 64-bit
kind.  For (i32, i64, f32, f64) the count is 6. -/
theorem params_to_argv_layout (vals : List wasm_val_t) (defs : List wasm_valtype_t)
    (buf : List Nat)
    (hk : kinds_match vals defs = true)
    (hn : ∀ v ∈ vals, is_numeric v.kind = true)
    (hbuf : slot_count defs ≤ buf.length) (hsz : buf.length < UINT32_MOD) :
    ∃ slots, params_to_argv vals defs vals.length buf = some (slot_count defs, slots) ∧
      (∀ (i : Nat) (h : i < vals.length),
        (slots.drop (slot_count (defs.take i))).take (slot_width (vals[i]).kind)
          = slots_of vals[i]) ∧
      slot_count [⟨.WASM_I32⟩, ⟨.WASM_I64⟩, ⟨.WASM_F32⟩, ⟨.WASM_F64⟩] = 6 := by
  have hk1 : vals.map (fun v => v.kind) = defs.map (fun d => d.kind) := by
    simpa [kinds_match] using hk
  refine ⟨_, params_to_argv_spec vals defs buf hk1 hn hbuf hsz, ?_, by decide⟩
  intro i h
  exact slot_image_at vals defs _ i h hk1 hn

/-- Witness of C2: (i32, i64, f32, f64) with values 7, 9000000000, 1.5f, 2.25
in a zeroed buffer of eight slots. -/
theorem params_to_argv_layout_witness :
    ∃ slots,
      params_to_argv
          [⟨.WASM_I32, 7⟩, ⟨.WASM_I64, 9000000000⟩, ⟨.WASM_F32, 1069547520⟩,
            ⟨.WASM_F64, 4612248968380809216⟩]
          [⟨.WASM_I32⟩, ⟨.WASM_I64⟩, ⟨.WASM_F32⟩, ⟨.WASM_F64⟩] 4 (List.replicate 8 0)
        = some (6, slots) :=
  (params_to_argv_layout
    [⟨.WASM_I32, 7⟩, ⟨.WASM_I64, 9000000000⟩, ⟨.WASM_F32, 1069547520⟩,
      ⟨.WASM_F64, 4612248968380809216⟩]
    [⟨.WASM_I32⟩, ⟨.WASM_I64⟩, ⟨.WASM_F32⟩, ⟨.WASM_F64⟩] (List.replicate 8 0)
    (by decide) (by decide) (by decide) (by decide)).imp fun _ h => h.1

/-! ## The call path: auxiliary facts -/

theorem c_string_bytes_length (s : String) : (c_string_bytes s).length = s.length + 1 := by
  cases s with
  | mk data => simp only [c_string_bytes, String.toList, String.length, List.length_append,
      List.length_map, List.length_singleton]

theorem slot_count_le_two_mul (defs : List wasm_valtype_t) :
    slot_count defs ≤ 2 * defs.length := by
  induction defs with
  | nil => simp [slot_count]
  | cons d ds ih =>
    have hw : slot_width d.kind ≤ 2 := by cases d.kind <;> simp [slot_width]
    simp only [slot_count, List.map_cons, List.sum_cons, List.length_cons] at *
    omega

/-- With the trap and the vector header allocated, `wasm_trap_new_internal`
returns a trap; its message is the string with its NUL when the data
allocation succeeds too, and empty otherwise. -/
theorem wasm_trap_new_internal_eq (data_ok : Bool) (s : String) :
    wasm_trap_new_internal true true data_ok s
      = some ⟨some (if data_ok then ⟨s.length + 1, some (c_string_bytes s), s.length + 1⟩
                    else wasm_vec_t.zero)⟩ := by
  have hl := c_string_bytes_length s
  cases data_ok
  · simp [wasm_trap_new_internal, wasm_byte_vec_new, bh_vector_init, bh_vector_destroy,
      wasm_vec_t.zero]
  · have ht : (c_string_bytes s).take (s.length + 1) = c_string_bytes s := by
      rw [← hl]; exact List.take_length _
    simp [wasm_trap_new_internal, wasm_byte_vec_new, bh_vector_init, hl, ht]

/-- The code after `failed` yields a trap as soon as one is stashed or the
trap and its vector header can be allocated. -/
theorem wasm_func_call_failed_isSome (a : func_call_allocs) (inst : Nat) (st : rt_state)
    (h : st.cur_trap ≠ none ∨ (a.trap_ok = true ∧ a.trap_vec_ok = true)) :
    (wasm_func_call_failed a inst st).isSome = true := by
  unfold wasm_func_call_failed
  cases hc : st.cur_trap with
  | some t => simp
  | none =>
    rcases h with h | ⟨h1, h2⟩
    · exact absurd hc h
    · cases he : wasm_runtime_get_exception st inst <;>
        simp [h1, h2, wasm_trap_new_internal_eq]

/-- A well-typed call whose scratch buffer can be allocated reaches the
backend with the slot image of the parameters in the argument area. -/
theorem wasm_func_call_reaches_backend (a : func_call_allocs) (f : Nat)
    (call_wasm : backend_call_t) (func : wasm_func_t) (params results : List wasm_val_t)
    (st : rt_state) (inst : Nat)
    (hinst : func.inst_comm_rt = some inst)
    (hk : kinds_match params func.type.params = true)
    (hn : ∀ v ∈ params, is_numeric v.kind = true)
    (hargv : a.argv_ok = true)
    (hsize : 8 * max (wasm_func_param_arity func) (wasm_func_result_arity func) < UINT32_MAX) :
    wasm_func_call a (some f) call_wasm func params results st
      = wasm_func_call_invoke a call_wasm inst f func (slot_count func.type.params)
          (scratch_argv func params) results { st with cur_trap := none } := by
  unfold scratch_argv
  have hk1 : params.map (fun v => v.kind) = func.type.params.map (fun d => d.kind) := by
    simpa [kinds_match] using hk
  obtain ⟨hle, hlen⟩ := slot_count_ge_length params func.type.params hk1 hn
  have hmax : (if wasm_func_param_arity func > wasm_func_result_arity func
      then wasm_func_param_arity func else wasm_func_result_arity func)
      = max (wasm_func_param_arity func) (wasm_func_result_arity func) := by
    split <;> omega
  have hmalloc : malloc_internal a.argv_ok
      (8 * max (wasm_func_param_arity func) (wasm_func_result_arity func)) = true := by
    simp [malloc_internal, hargv, hsize]
  simp only [wasm_func_call, hinst, hmax, hmalloc, Bool.true_eq_false, and_false, if_false]
  by_cases hp : wasm_func_param_arity func = 0
  · have hps : params = [] := by
      apply List.length_eq_zero.mp
      rw [← hlen]; exact hp
    have hds : func.type.params = [] := List.length_eq_zero.mp hp
    simp only [hp, ne_eq, not_true_eq_false, if_false, hps, hds, slot_count, slot_image,
      List.map_nil, List.sum_nil, List.nil_append, Nat.sub_zero]
  · have hmne : max (wasm_func_param_arity func) (wasm_func_result_arity func) ≠ 0 := by omega
    have hpa : wasm_func_param_arity func = params.length := by
      rw [← hlen]; rfl
    have hsc : slot_count func.type.params
        ≤ 2 * max (wasm_func_param_arity func) (wasm_func_result_arity func) := by
      have := slot_count_le_two_mul func.type.params
      unfold wasm_func_param_arity
      omega
    have hspec := params_to_argv_spec params func.type.params
      (List.replicate (2 * max (wasm_func_param_arity func) (wasm_func_result_arity func)) 0)
      hk1 hn (by simpa using hsc) (by simp [UINT32_MOD]; unfold UINT32_MAX at hsize; omega)
    have hne : slot_count func.type.params ≠ 0 := by omega
    simp only [hp, hmne, ne_eq, not_false_eq_true, if_true]
    rw [hpa] at hspec ⊢
    rw [hspec]
    simp only [hne, if_false, List.drop_replicate]

/-- A successful `interp_link_func` leaves, in the import descriptor it was
given, the raw calling convention, a clone of the host function as attachment
and `native_func_trampoline` as the linked native function. -/
theorem interp_link_func_slot (clone_ok : Bool) (grow : Option Nat)
    (inst inst1 : wasm_instance_t) (module_interp module1 : WASMModule) (idx : Nat)
    (host host1 : wasm_func_t) (imp : WASMFunctionImport)
    (hlink : interp_link_func clone_ok grow inst module_interp idx host
      = some (true, inst1, module1, host1))
    (himp : module1.import_functions[idx]? = some imp) :
    imp = { call_conv_raw := true, attachment := some host,
            func_ptr_linked := some native_func_trampoline } := by
  unfold interp_link_func at hlink
  split at hlink
  · rename_i hidx
    cases hc : wasm_func_copy clone_ok host with
    | none => simp [hc] at hlink
    | some cloned =>
      have hcl : cloned = host := by
        unfold wasm_func_copy at hc
        split at hc
        · simpa using hc.symm
        · simp at hc
      subst hcl
      simp only [hc] at hlink
      cases hi : inst.imports with
      | none => simp [hi] at hlink
      | some imports =>
        simp only [hi] at hlink
        cases ha : bh_vector_append grow imports (some (wasm_extern_t.WASM_EXTERN_FUNC cloned)) with
        | none => simp [ha] at hlink
        | some r =>
          obtain ⟨ok, imports1⟩ := r
          cases ok with
          | false => simp [ha] at hlink
          | true =>
            simp only [ha, Option.some.injEq, Prod.mk.injEq, true_and] at hlink
            obtain ⟨_, hm, _⟩ := hlink
            subst hm
            simp only [List.getElem?_set_self hidx, Option.some.injEq] at himp
            exact himp.symm
  · simp at hlink

/-- The trampoline run of the link-then-call scenario: the argument in the
first cell is replaced by the result of the callback. -/
theorem trampoline_increment (x : Nat) (hx : x < UINT32_MOD) (host : wasm_func_t)
    (htype : host.type = ⟨[⟨.WASM_I32⟩], [⟨.WASM_I32⟩]⟩)
    (henv : host.with_env = false)
    (hcb : ∀ (v : Nat) (rs : List wasm_val_t),
      host.cb [⟨.WASM_I32, v⟩] rs = (none, rs.set 0 ⟨.WASM_I32, (v + 1) % UINT32_MOD⟩))
    (ta : trampoline_allocs) (hp : ta.params_ok = true) (hr : ta.results_ok = true)
    (inst : Nat) (st : rt_state) (tail : List Nat) :
    native_func_trampoline ta ⟨some host, inst⟩ (some (x :: 0 :: tail)) st
      = some (some ((x + 1) % UINT32_MOD :: 0 :: tail), st) := by
  have hxm : x % UINT32_MOD = x := Nat.mod_eq_of_lt hx
  have h1 : (1 : Nat) % UINT32_MOD = 1 := by decide
  have hmm : (x + 1) % UINT32_MOD % UINT32_MOD = (x + 1) % UINT32_MOD := Nat.mod_mod _ _
  simp [native_func_trampoline, native_func_trampoline_invoke, wasm_func_param_arity,
    wasm_func_result_arity, htype, henv, hp, hr, argv_to_params, argv_to_params_loop,
    load32, store_val, hcb, memset_cells, results_to_argv, results_to_argv_loop, store32,
    wasm_val_t.zero, hxm, h1, hmm, List.replicate]

/-- C3. Link-then-call: a host function of type (i32) -> (i32) whose callback
returns its argument plus one (wrapping at 32 bits) and no trap is linked with
`interp_link_func`; the export of the backend forwards its argument to the
linked function through the installed trampoline and returns its result.  Then, when
the allocations succeed and no exception is pending on the instance,
`wasm_func_call` on the export with the parameter `x` returns a null trap and
leaves the i32 value `x + 1` (wrapping) in `results[0]`, for every 32-bit
`x`. -/
theorem link_then_call (x : Nat) (hx : x < UINT32_MOD)
    (host host1 : wasm_func_t)
    (htype : host.type = ⟨[⟨.WASM_I32⟩], [⟨.WASM_I32⟩]⟩)
    (henv : host.with_env = false)
    (hcb : ∀ (v : Nat) (rs : List wasm_val_t),
      host.cb [⟨.WASM_I32, v⟩] rs = (none, rs.set 0 ⟨.WASM_I32, (v + 1) % UINT32_MOD⟩))
    (clone_ok : Bool) (grow : Option Nat) (inst_obj inst_obj1 : wasm_instance_t)
    (module_interp module1 : WASMModule) (imp : WASMFunctionImport)
    (hlink : interp_link_func clone_ok grow inst_obj module_interp 0 host
      = some (true, inst_obj1, module1, host1))
    (himp : module1.import_functions[0]? = some imp)
    (export_func : wasm_func_t) (inst f : Nat)
    (hetype : export_func.type = ⟨[⟨.WASM_I32⟩], [⟨.WASM_I32⟩]⟩)
    (hinst : export_func.inst_comm_rt = some inst)
    (a : func_call_allocs) (ta : trampoline_allocs)
    (hargv : a.argv_ok = true) (hp : ta.params_ok = true) (hr : ta.results_ok = true)
    (st : rt_state) (hst : wasm_runtime_get_exception st inst = none)
    (r0 : wasm_val_t) (rest : List wasm_val_t) :
    ∃ st1, wasm_func_call a (some f) (forwarding_export ta imp) export_func
        [⟨.WASM_I32, x⟩] (r0 :: rest) st
      = some (none, ⟨.WASM_I32, (x + 1) % UINT32_MOD⟩ :: rest, st1) := by
  have hslot := interp_link_func_slot clone_ok grow inst_obj inst_obj1 module_interp module1 0
    host host1 imp hlink himp
  subst hslot
  have hreach := wasm_func_call_reaches_backend a f
    (forwarding_export ta ⟨true, some host, some native_func_trampoline⟩)
    export_func [⟨.WASM_I32, x⟩] (r0 :: rest) st inst hinst
    (by simp [kinds_match, hetype]) (by simp [is_numeric]) hargv
    (by simp [wasm_func_param_arity, wasm_func_result_arity, hetype, UINT32_MAX])
  rw [hreach]
  have hxm : x % UINT32_MOD = x := Nat.mod_eq_of_lt hx
  have h1 : (1 : Nat) % UINT32_MOD = 1 := by decide
  have hmm : (x + 1) % UINT32_MOD % UINT32_MOD = (x + 1) % UINT32_MOD := Nat.mod_mod _ _
  have htr := trampoline_increment x hx host htype henv hcb ta hp hr inst
    { st with cur_trap := none } (List.replicate 30 0)
  simp only [List.reduceReplicate] at htr
  have hst1 : wasm_runtime_get_exception { st with cur_trap := none } inst = none := hst
  refine ⟨{ st with cur_trap := none }, ?_⟩
  simp [wasm_func_call_invoke, forwarding_export, scratch_argv, wasm_func_param_arity,
    wasm_func_result_arity, hetype, slot_image, slots_of, slot_count, slot_width, hxm,
    htr, hst1, wasm_func_call_results, argv_to_results, argv_to_results_loop, load32,
    store_val, hmm, h1]

/-- The trampoline run of the trap-propagation scenario: the callback's trap
is stashed in `cur_trap`, and an exception is raised on the calling instance
when the copy of the message has data. -/
theorem trampoline_trap (x : Nat) (host : wasm_func_t) (T : wasm_trap_t) (m : wasm_vec_t Nat)
    (htype : host.type = ⟨[⟨.WASM_I32⟩], [⟨.WASM_I32⟩]⟩)
    (henv : host.with_env = false)
    (hcb : ∀ (ps rs : List wasm_val_t), (host.cb ps rs).1 = some T)
    (hT : T.message = some m)
    (ta : trampoline_allocs) (hp : ta.params_ok = true) (hr : ta.results_ok = true)
    (inst : Nat) (st : rt_state) (tail : List Nat) :
    native_func_trampoline ta ⟨some host, inst⟩ (some (x :: 0 :: tail)) st
      = (wasm_byte_vec_copy ta.message_ok m).map fun message =>
          (some (0 :: 0 :: tail),
            { (if message.data ≠ none then
                wasm_set_exception st inst "call failed, meet a wasm_trap_t" else st)
              with cur_trap := some T }) := by
  have h1 : (1 : Nat) % UINT32_MOD = 1 := by decide
  cases hc : wasm_byte_vec_copy ta.message_ok m <;>
  simp [native_func_trampoline, native_func_trampoline_invoke, wasm_func_param_arity,
    wasm_func_result_arity, htype, henv, hp, hr, argv_to_params, argv_to_params_loop,
    load32, store_val, hcb, memset_cells, wasm_val_t.zero, h1, List.replicate,
    wasm_trap_message, hT, hc]

/-- The copy that `wasm_trap_message` makes of a message that is not empty,
when its allocation succeeds. -/
theorem wasm_trap_message_nonempty (T : wasm_trap_t) (m : wasm_vec_t Nat) (bytes : List Nat)
    (hT : T.message = some m) (hsize : m.size ≠ 0) (hdata : m.data = some bytes)
    (hlen : m.size ≤ bytes.length) :
    wasm_trap_message true T = some ⟨m.size, some (bytes.take m.size), m.size⟩ := by
  simp [wasm_trap_message, hT, wasm_byte_vec_copy, wasm_byte_vec_new, hsize, bh_vector_init,
    hdata, Nat.not_lt.mpr hlen]

/-- The part of the trampoline from the callback invocation on, when the
callback returns a trap with a message that is not empty and the copy of the
message is allocated: every return leaves the trap in `cur_trap` and the
exception raised on the calling instance. -/
theorem native_func_trampoline_invoke_trap (a : trampoline_allocs) (exec_env : wasm_exec_env_t)
    (func : wasm_func_t) (argv : Option (List Nat)) (st : rt_state)
    (params results : List wasm_val_t) (T : wasm_trap_t) (m : wasm_vec_t Nat)
    (bytes : List Nat)
    (hT : T.message = some m) (hsize : m.size ≠ 0) (hdata : m.data = some bytes)
    (hlen : m.size ≤ bytes.length) (hmsg : a.message_ok = true)
    (hcb : (if func.with_env then func.cb_env_cb func.cb_env_env params results
      else func.cb params results).1 = some T)
    (r : Option (List Nat) × rt_state)
    (h : native_func_trampoline_invoke a exec_env func argv st params results = some r) :
    r.2.cur_trap = some T ∧
    wasm_runtime_get_exception r.2 exec_env.module_inst
      = some "call failed, meet a wasm_trap_t" := by
  have hm := wasm_trap_message_nonempty T m bytes hT hsize hdata hlen
  simp only [native_func_trampoline_invoke, hcb, hmsg, hm] at h
  cases hargv : argv with
  | none =>
    simp only [hargv] at h
    simp at h
    subst h
    simp [wasm_runtime_get_exception, wasm_set_exception]
  | some buf =>
    simp only [hargv] at h
    cases hset : memset_cells buf (wasm_func_param_arity func) with
    | none => simp [hset] at h
    | some buf1 =>
      simp [hset] at h
      subst h
      simp [wasm_runtime_get_exception, wasm_set_exception]

/-- C4, counterexample.  The host callback reached through the trampoline
returns the trap `boom_trap`, whose message is not empty, and the backend
reports the call as failed; the trampoline cannot allocate its copy of the
message, so it raises no exception, and `wasm_func_call` returns a null trap
while `boom_trap` stays in `cur_trap`. -/
theorem trap_lost_without_message_copy :
    (wasm_func_call ⟨true, true, true, true⟩ (some 1)
        (failing_export ⟨true, true, false⟩ (linked_import host_boom)) bound_export
        [⟨.WASM_I32, 41⟩] [wasm_val_t.zero] quiet_state).map
      (fun r => (r.1, r.2.2.cur_trap, wasm_runtime_get_exception r.2.2 7))
      = some (none, some boom_trap, none) ∧
    backend_reports_failure
      (failing_export ⟨true, true, false⟩ (linked_import host_boom) 7 1 1 (some [41, 0])
        { quiet_state with cur_trap := none }) = true ∧
    boom_trap.message = some ⟨5, some (c_string_bytes "boom"), 5⟩ := by
  decide

/-- C4, amended.  Trap propagation, for a trap `T` whose message is not
empty.  When the host callback returns `T` and the trampoline can allocate its
copy of the message, every return of `native_func_trampoline` either left
through `failed` before the callback was reached, with nothing changed, or left
`T` in `cur_trap` and the exception raised on the calling instance.  When a
well-typed call reaches a backend that reports the call as failed with `T` in
`cur_trap` and an exception pending on the instance, `wasm_func_call` returns
`T` itself; and `wasm_trap_message` on `T` yields the bytes of the message of
the callback. -/
theorem trap_propagation (T : wasm_trap_t) (m : wasm_vec_t Nat) (bytes : List Nat)
    (hT : T.message = some m) (hsize : m.size ≠ 0) (hdata : m.data = some bytes)
    (hlen : m.size ≤ bytes.length) :
    (∀ (host : wasm_func_t) (ta : trampoline_allocs) (inst : Nat) (argv : Option (List Nat))
        (st : rt_state) (r : Option (List Nat) × rt_state),
      (host.with_env = false ∧ ∀ ps rs, (host.cb ps rs).1 = some T)
        ∨ (host.with_env = true ∧ ∀ ps rs, (host.cb_env_cb host.cb_env_env ps rs).1 = some T) →
      ta.message_ok = true →
      native_func_trampoline ta ⟨some host, inst⟩ argv st = some r →
      r = (argv, st) ∨
      (r.2.cur_trap = some T ∧
        wasm_runtime_get_exception r.2 inst = some "call failed, meet a wasm_trap_t")) ∧
    (∀ (a : func_call_allocs) (f : Nat) (call_wasm : backend_call_t) (func : wasm_func_t)
        (params results : List wasm_val_t) (st st1 : rt_state) (inst : Nat)
        (argv1 : Option (List Nat)),
      func.inst_comm_rt = some inst →
      kinds_match params func.type.params = true →
      (∀ v ∈ params, is_numeric v.kind = true) →
      a.argv_ok = true →
      8 * max (wasm_func_param_arity func) (wasm_func_result_arity func) < UINT32_MAX →
      call_wasm inst f (slot_count func.type.params) (scratch_argv func params)
        { st with cur_trap := none } = some (false, argv1, st1) →
      st1.cur_trap = some T →
      (wasm_runtime_get_exception st1 inst).isSome = true →
      wasm_func_call a (some f) call_wasm func params results st
        = some (some T, results, st1)) ∧
    wasm_trap_message true T = some ⟨m.size, some (bytes.take m.size), m.size⟩ := by
  refine ⟨?_, ?_, wasm_trap_message_nonempty T m bytes hT hsize hdata hlen⟩
  · intro host ta inst argv st r hcb hmsg h
    have hcb1 : ∀ ps rs, (if host.with_env then host.cb_env_cb host.cb_env_env ps rs
        else host.cb ps rs).1 = some T := by
      intro ps rs
      rcases hcb with ⟨he, hc⟩ | ⟨he, hc⟩
      · simp [he, hc]
      · simp [he, hc]
    have hinv : ∀ ps rs, native_func_trampoline_invoke ta ⟨some host, inst⟩ host argv st ps rs
        = some r →
        r.2.cur_trap = some T ∧
        wasm_runtime_get_exception r.2 inst = some "call failed, meet a wasm_trap_t" :=
      fun ps rs hr => native_func_trampoline_invoke_trap ta ⟨some host, inst⟩ host argv st ps rs
        T m bytes hT hsize hdata hlen hmsg (hcb1 ps rs) r hr
    simp only [native_func_trampoline] at h
    repeat' split at h
    all_goals first
      | exact Or.inr (hinv _ _ h)
      | (simp only [Option.some.injEq] at h
         exact Or.inl h.symm)
      | simp at h
  · intro a f call_wasm func params results st st1 inst argv1 hinst hk hn hargv hsz hcall
      htrap hexc
    rw [wasm_func_call_reaches_backend a f call_wasm func params results st inst hinst hk hn
      hargv hsz]
    simp only [wasm_func_call_invoke, hcall, hexc, and_self, if_true, wasm_func_call_failed,
      htrap]

/-- Witness of C3: the callback `x + 1` on the argument 41. -/
theorem link_then_call_witness :
    ∃ st1, wasm_func_call ⟨true, true, true, true⟩ (some 1)
        (forwarding_export ⟨true, true, true⟩ (linked_import host_increment)) bound_export
        [⟨.WASM_I32, 41⟩] [wasm_val_t.zero] quiet_state
      = some (none, [⟨.WASM_I32, 42⟩], st1) :=
  link_then_call 41 (by decide) host_increment _ rfl rfl (fun _ _ => rfl) true (some 0)
    fresh_instance _ fresh_module _ (linked_import host_increment) rfl rfl bound_export 7 1
    rfl rfl ⟨true, true, true, true⟩ ⟨true, true, true⟩ rfl rfl rfl quiet_state rfl
    wasm_val_t.zero []

/-- Witness of C4: the callback returns the trap with message "boom", the
trampoline stashes it and raises the exception, and the forwarding backend
reports the failure. -/
theorem trap_propagation_witness :
    (∃ r, native_func_trampoline ⟨true, true, true⟩ ⟨some host_boom, 7⟩
          (some (41 :: List.replicate 31 0)) quiet_state = some r ∧
        (r = (some (41 :: List.replicate 31 0), quiet_state) ∨
          (r.2.cur_trap = some boom_trap ∧
            wasm_runtime_get_exception r.2 7 = some "call failed, meet a wasm_trap_t"))) ∧
    (native_func_trampoline ⟨true, true, true⟩ ⟨some host_boom, 7⟩
        (some (41 :: List.replicate 31 0)) quiet_state).map
      (fun r => (r.2.cur_trap, wasm_runtime_get_exception r.2 7))
      = some (some boom_trap, some "call failed, meet a wasm_trap_t") ∧
    wasm_func_call ⟨true, true, true, true⟩ (some 1)
        (forwarding_export ⟨true, true, true⟩ (linked_import host_boom)) bound_export
        [⟨.WASM_I32, 41⟩] [wasm_val_t.zero] quiet_state
      = some (some boom_trap, [wasm_val_t.zero],
          { wasm_set_exception quiet_state 7 "call failed, meet a wasm_trap_t" with
            cur_trap := some boom_trap }) ∧
    wasm_trap_message true boom_trap = some ⟨5, some (c_string_bytes "boom"), 5⟩ :=
  have h := trap_propagation boom_trap ⟨5, some (c_string_bytes "boom"), 5⟩
    (c_string_bytes "boom") rfl (by decide) rfl (by decide)
  have hsome : (native_func_trampoline ⟨true, true, true⟩ ⟨some host_boom, 7⟩
      (some (41 :: List.replicate 31 0)) quiet_state).isSome = true := by decide
  ⟨⟨_, (Option.some_get hsome).symm,
      h.1 host_boom ⟨true, true, true⟩ 7 (some (41 :: List.replicate 31 0)) quiet_state _
        (Or.inl ⟨rfl, fun _ _ => rfl⟩) rfl (Option.some_get hsome).symm⟩,
    by decide,
    h.2.1 ⟨true, true, true, true⟩ 1
      (forwarding_export ⟨true, true, true⟩ (linked_import host_boom)) bound_export
      [⟨.WASM_I32, 41⟩] [wasm_val_t.zero] quiet_state
      { wasm_set_exception quiet_state 7 "call failed, meet a wasm_trap_t" with
        cur_trap := some boom_trap }
      7 (some [41, 0]) rfl (by decide) (by decide) rfl (by decide) rfl rfl rfl,
    h.2.2⟩

/-- A null result of the result-marshaling stage means that result marshaling
did not fail. -/
theorem wasm_func_call_results_null (a : func_call_allocs) (inst : Nat) (func : wasm_func_t)
    (argv : Option (List Nat)) (results rs : List wasm_val_t) (st st1 : rt_state)
    (halloc : a.trap_ok = true ∧ a.trap_vec_ok = true)
    (h : wasm_func_call_results a inst func argv results st = some (none, rs, st1)) :
    st1 = st ∧
      ((wasm_func_result_arity func = 0 ∧ rs = results) ∨
        ∃ buf n, argv = some buf ∧ n ≠ 0 ∧
          argv_to_results buf func.type.results (wasm_func_result_arity func) results
            = some (n, rs)) := by
  unfold wasm_func_call_results at h
  by_cases hr : wasm_func_result_arity func = 0
  · simp only [hr, ne_eq, not_true_eq_false, if_false, Option.some.injEq, Prod.mk.injEq,
      true_and] at h
    exact ⟨h.2.symm, Or.inl ⟨hr, h.1.symm⟩⟩
  · simp only [hr, ne_eq, not_false_eq_true, if_true] at h
    cases hargv : argv with
    | none => simp [hargv] at h
    | some buf =>
      simp only [hargv] at h
      cases hres : argv_to_results buf func.type.results (wasm_func_result_arity func) results with
      | none => simp [hres] at h
      | some r =>
        obtain ⟨n, rs1⟩ := r
        simp only [hres] at h
        by_cases hn : n = 0
        · simp only [hn, if_true, Option.some.injEq, Prod.mk.injEq] at h
          have := wasm_func_call_failed_isSome a inst st (Or.inr halloc)
          rw [h.1] at this
          simp at this
        · simp only [hn, if_false, Option.some.injEq, Prod.mk.injEq, true_and] at h
          exact ⟨h.2.symm, Or.inr ⟨buf, n, rfl, hn, h.1 ▸ hres⟩⟩

/-- A null result of the backend stage means that the backend did not report
a failure with a pending exception and that result marshaling did not fail. -/
theorem wasm_func_call_invoke_null (a : func_call_allocs) (call_wasm : backend_call_t)
    (inst f : Nat) (func : wasm_func_t) (argc : Nat) (argv : Option (List Nat))
    (results rs : List wasm_val_t) (st st1 : rt_state)
    (halloc : a.trap_ok = true ∧ a.trap_vec_ok = true)
    (h : wasm_func_call_invoke a call_wasm inst f func argc argv results st
      = some (none, rs, st1)) :
    ∃ ok argv1, call_wasm inst f argc argv st = some (ok, argv1, st1) ∧
      (ok = true ∨ wasm_runtime_get_exception st1 inst = none) ∧
      ((wasm_func_result_arity func = 0 ∧ rs = results) ∨
        ∃ buf n, argv1 = some buf ∧ n ≠ 0 ∧
          argv_to_results buf func.type.results (wasm_func_result_arity func) results
            = some (n, rs)) := by
  unfold wasm_func_call_invoke at h
  cases hc : call_wasm inst f argc argv st with
  | none => simp [hc] at h
  | some r =>
    obtain ⟨ok, argv1, st2⟩ := r
    simp only [hc] at h
    by_cases hfail : ok = false ∧ (wasm_runtime_get_exception st2 inst).isSome = true
    · simp only [hfail, and_self, if_true, Option.some.injEq, Prod.mk.injEq] at h
      have := wasm_func_call_failed_isSome a inst st2 (Or.inr halloc)
      rw [h.1] at this
      simp at this
    · simp only [hfail, if_false] at h
      obtain ⟨hst, hres⟩ := wasm_func_call_results_null a inst func argv1 results rs st2 st1
        halloc h
      subst hst
      refine ⟨ok, argv1, rfl, ?_, hres⟩
      cases ok with
      | true => exact Or.inl rfl
      | false =>
        right
        cases he : wasm_runtime_get_exception st1 inst with
        | none => rfl
        | some e => exact absurd ⟨rfl, by simp [he]⟩ hfail

/-- C5, counterexample: a backend that returns false without a pending
exception string.  The call is a failure of the backend, yet `wasm_func_call`
returns a null trap. -/
theorem func_call_null_on_silent_failure :
    backend_reports_failure (silent_failing_backend 7 1 0 none quiet_state) = true ∧
    wasm_runtime_get_exception quiet_state 7 = none ∧
    (wasm_func_call ⟨true, true, true, true⟩ (some 1) silent_failing_backend
        bound_unit_export [] [] quiet_state).map (fun r => r.1) = some none := by
  decide

/-- C5, amended. When the trap and its vector header can be allocated,
`wasm_func_call` returns a null trap only if the backend function was found,
parameter marshaling did not fail, the backend call returned true or returned
false with no pending exception string, and result marshaling did not fail.
So every failure of parameter marshaling, every backend failure with a pending
exception string and every failure of result marshaling yields a non-null
trap. -/
theorem func_call_null_only_if (a : func_call_allocs) (func_comm_rt : Option Nat)
    (call_wasm : backend_call_t) (func : wasm_func_t) (params results rs : List wasm_val_t)
    (st st1 : rt_state)
    (halloc : a.trap_ok = true ∧ a.trap_vec_ok = true)
    (h : wasm_func_call a func_comm_rt call_wasm func params results st
      = some (none, rs, st1)) :
    ∃ inst f argc argv ok argv1,
      func.inst_comm_rt = some inst ∧ func_comm_rt = some f ∧
      ((wasm_func_param_arity func = 0 ∧ argc = 0) ∨
        ∃ buf buf1, argc ≠ 0 ∧ argv = some buf1 ∧
          params_to_argv params func.type.params (wasm_func_param_arity func) buf
            = some (argc, buf1)) ∧
      call_wasm inst f argc argv { st with cur_trap := none } = some (ok, argv1, st1) ∧
      (ok = true ∨ wasm_runtime_get_exception st1 inst = none) ∧
      ((wasm_func_result_arity func = 0 ∧ rs = results) ∨
        ∃ buf n, argv1 = some buf ∧ n ≠ 0 ∧
          argv_to_results buf func.type.results (wasm_func_result_arity func) results
            = some (n, rs)) := by
  unfold wasm_func_call at h
  cases hinst : func.inst_comm_rt with
  | none => simp [hinst] at h
  | some inst =>
    simp only [hinst] at h
    have hfailed : ∀ (rs0 : List wasm_val_t) (s : rt_state),
        some (wasm_func_call_failed a inst s, rs0, s) ≠ some (none, rs, st1) := by
      intro rs0 s hh
      simp only [Option.some.injEq, Prod.mk.injEq] at hh
      have := wasm_func_call_failed_isSome a inst s (Or.inr halloc)
      rw [hh.1] at this
      simp at this
    cases hf : func_comm_rt with
    | none => simp only [hf] at h; exact absurd h (hfailed _ _)
    | some f =>
      simp only [hf] at h
      generalize hac : (if wasm_func_param_arity func > wasm_func_result_arity func
        then wasm_func_param_arity func else wasm_func_result_arity func) = alloc_count at h
      by_cases hm : alloc_count ≠ 0 ∧ malloc_internal a.argv_ok (8 * alloc_count) = false
      · rw [if_pos hm] at h
        exact absurd h (hfailed _ _)
      · rw [if_neg hm] at h
        by_cases hp : wasm_func_param_arity func = 0
        · rw [if_neg (by simpa using hp)] at h
          obtain ⟨ok, argv1, hcall, hok, hres⟩ :=
            wasm_func_call_invoke_null a call_wasm inst f func 0 _ results rs _ st1 halloc h
          exact ⟨inst, f, 0, _, ok, argv1, rfl, rfl, Or.inl ⟨hp, rfl⟩, hcall, hok, hres⟩
        · rw [if_pos hp] at h
          by_cases hz : alloc_count = 0
          · simp [hz] at h
          · simp only [hz, ne_eq, not_false_eq_true, if_true] at h
            cases hpm : params_to_argv params func.type.params (wasm_func_param_arity func)
                (List.replicate (2 * alloc_count) 0) with
            | none => simp [hpm] at h
            | some r =>
              obtain ⟨argc, buf1⟩ := r
              simp only [hpm] at h
              by_cases hz : argc = 0
              · rw [if_pos hz] at h
                exact absurd h (hfailed _ _)
              · rw [if_neg hz] at h
                obtain ⟨ok, argv1, hcall, hok, hres⟩ :=
                  wasm_func_call_invoke_null a call_wasm inst f func argc _ results rs _ st1
                    halloc h
                exact ⟨inst, f, argc, _, ok, argv1, rfl, rfl,
                  Or.inr ⟨_, buf1, hz, rfl, hpm⟩, hcall, hok, hres⟩

/-- Witness of the amended C5: the null result of the silently failing
backend comes from a backend call that left no pending exception. -/
theorem func_call_null_only_if_witness :
    ∃ inst f argc argv ok argv1,
      silent_failing_backend inst f argc argv quiet_state = some (ok, argv1, quiet_state) ∧
      (ok = true ∨ wasm_runtime_get_exception quiet_state inst = none) :=
  match func_call_null_only_if ⟨true, true, true, true⟩ (some 1) silent_failing_backend
    bound_unit_export [] [] [] quiet_state quiet_state ⟨rfl, rfl⟩ rfl with
  | ⟨inst, f, argc, argv, ok, argv1, _, _, _, hc, ho, _⟩ =>
    ⟨inst, f, argc, argv, ok, argv1, hc, ho⟩

/-- C6, counterexample: in the trap-propagation run an exception string is
pending on the instance when the backend fails, yet `wasm_func_call` returns
the trap stashed by the trampoline, whose message is "boom" and not the
exception string. -/
theorem func_call_prefers_stashed_trap :
    (wasm_func_call ⟨true, true, true, true⟩ (some 1)
        (forwarding_export ⟨true, true, true⟩ (linked_import host_boom)) bound_export
        [⟨.WASM_I32, 41⟩] [wasm_val_t.zero] quiet_state).map
      (fun r => (r.1, wasm_runtime_get_exception r.2.2 7))
      = some (some boom_trap, some "call failed, meet a wasm_trap_t") ∧
    some boom_trap
      ≠ wasm_trap_new_internal true true true "call failed, meet a wasm_trap_t" := by
  decide

/-- C6, amended. When a well-typed call reaches the backend, the backend
returns false and an exception string `e` is pending on the instance,
`wasm_func_call` returns the trap stashed by the trampoline if there is one;
only when no trap is stashed does it return a new trap made from `e`, whose
message, when its allocations succeed, is `e` with its terminating NUL. -/
theorem func_call_backend_failure (a : func_call_allocs) (f : Nat)
    (call_wasm : backend_call_t) (func : wasm_func_t) (params results : List wasm_val_t)
    (st st1 : rt_state) (inst : Nat) (argv1 : Option (List Nat)) (e : String)
    (hinst : func.inst_comm_rt = some inst)
    (hk : kinds_match params func.type.params = true)
    (hn : ∀ v ∈ params, is_numeric v.kind = true)
    (hargv : a.argv_ok = true)
    (hsize : 8 * max (wasm_func_param_arity func) (wasm_func_result_arity func) < UINT32_MAX)
    (hcall : call_wasm inst f (slot_count func.type.params) (scratch_argv func params)
      { st with cur_trap := none } = some (false, argv1, st1))
    (hexc : wasm_runtime_get_exception st1 inst = some e) :
    wasm_func_call a (some f) call_wasm func params results st
      = some ((match st1.cur_trap with
               | some trap => some trap
               | none => wasm_trap_new_internal a.trap_ok a.trap_vec_ok a.trap_data_ok e),
              results, st1) ∧
    wasm_trap_new_internal true true true e
      = some ⟨some ⟨e.length + 1, some (c_string_bytes e), e.length + 1⟩⟩ := by
  constructor
  · rw [wasm_func_call_reaches_backend a f call_wasm func params results st inst hinst hk hn
      hargv hsize]
    simp only [wasm_func_call_invoke, hcall, hexc, Option.isSome_some, and_self, if_true,
      wasm_func_call_failed]
  · simpa using wasm_trap_new_internal_eq true e

/-- Witness of the amended C6: the trap-propagation run, in which a trap is
stashed and an exception is pending. -/
theorem func_call_backend_failure_witness :
    wasm_func_call ⟨true, true, true, true⟩ (some 1)
        (forwarding_export ⟨true, true, true⟩ (linked_import host_boom)) bound_export
        [⟨.WASM_I32, 41⟩] [wasm_val_t.zero] quiet_state
      = some (some boom_trap, [wasm_val_t.zero],
          { wasm_set_exception quiet_state 7 "call failed, meet a wasm_trap_t" with
            cur_trap := some boom_trap }) :=
  (func_call_backend_failure ⟨true, true, true, true⟩ 1
    (forwarding_export ⟨true, true, true⟩ (linked_import host_boom)) bound_export
    [⟨.WASM_I32, 41⟩] [wasm_val_t.zero] quiet_state
    { wasm_set_exception quiet_state 7 "call failed, meet a wasm_trap_t" with
      cur_trap := some boom_trap }
    7 (some [41, 0]) "call failed, meet a wasm_trap_t" rfl (by decide) (by decide) rfl
    (by decide) rfl rfl).1

/-! ## Engine, stores and modules: the claims -/

theorem wasm_vec_new_uninitialized_num_elems {α : Type} [Inhabited α] (alloc_ok : Bool)
    (size : Nat) : (wasm_vec_new_uninitialized alloc_ok size : wasm_vec_t α).num_elems = 0 := by
  unfold wasm_vec_new_uninitialized
  cases alloc_ok <;> by_cases h : size = 0 <;>
    simp [h, bh_vector_init, bh_vector_destroy, wasm_vec_t.zero]

/-- What a successful `wasm_engine_new_internal` leaves: the runtime was
initialised, and the new engine has the requested mode and a store list with
no populated element. -/
theorem wasm_engine_new_internal_some (o : engine_new_outcomes) (type : mem_alloc_type_t)
    (opts : Option Nat) (mode : runtime_mode_e) (w0 w1 : world) (E : Nat)
    (h1 : wasm_engine_new_internal o type opts mode w0 = some (some E, w1)) :
    w1.singleton_engine = w0.singleton_engine ∧
    w1.trace = w0.trace ++ [trace_event.runtime_full_init type true] ∧
    w1.stores = w0.stores ∧
    (∃ v, w1.engines E = some ⟨mode, some v⟩ ∧ v.num_elems = 0) := by
  unfold wasm_engine_new_internal at h1
  split at h1
  · simp at h1
  · cases hi : o.init_ok
    · simp [hi] at h1
    · simp only [hi, Bool.not_true, Bool.false_eq_true, if_false] at h1
      cases ha : o.engine_alloc with
      | none => simp [ha] at h1
      | some e =>
        simp only [ha] at h1
        cases hv : o.vec_ok
        · simp [hv] at h1
        · simp only [hv, Bool.not_true, Bool.false_eq_true, if_false] at h1
          split at h1
          · simp at h1
          · simp only [Option.some.injEq, Prod.mk.injEq] at h1
            obtain ⟨he, hw⟩ := h1
            subst he
            subst hw
            exact ⟨rfl, rfl, rfl, wasm_vec_new_uninitialized o.data_ok 1, by simp [heap_set],
              wasm_vec_new_uninitialized_num_elems _ _⟩

/-- With successful outcomes `wasm_engine_new_internal` returns the allocated
engine. -/
theorem wasm_engine_new_internal_ok (a : Nat) (data_ok : Bool) (mode : runtime_mode_e)
    (w0 : world) :
    ∃ w1, wasm_engine_new_internal ⟨true, some a, true, data_ok⟩
      .Alloc_With_System_Allocator none mode w0 = some (some a, w1) := by
  unfold wasm_engine_new_internal
  cases data_ok <;>
    simp [wasm_vec_new_uninitialized, bh_vector_init, bh_vector_destroy, wasm_vec_t.zero]

/-- C7. Engine singleton idempotence.  Starting with no live engine, let
`wasm_engine_new` succeed with the handle `E`.  Then every further
`wasm_engine_new` and every `wasm_engine_new_with_args`, whatever its
arguments, returns `E` and leaves the whole state as it was (no runtime
initialisation, same mode); `wasm_engine_delete (E)` returns and clears the
singleton; and the next `wasm_engine_new` whose allocations succeed
initialises the runtime afresh and returns an engine whose store list has no
populated element. -/
theorem engine_singleton_idempotence (cfg : build_config) (o1 : engine_new_outcomes)
    (w0 w1 : world) (E : Nat)
    (h0 : w0.singleton_engine = none)
    (h1 : wasm_engine_new cfg o1 w0 = some (some E, w1)) :
    (∀ o2, wasm_engine_new cfg o2 w1 = some (some E, w1)) ∧
    (∀ o2 type opts mode, wasm_engine_new_with_args o2 type opts mode w1 = some (some E, w1)) ∧
    (∃ w2, wasm_engine_delete w1 (some E) = some w2 ∧ w2.singleton_engine = none ∧
      ∀ (a : Nat) (data_ok : Bool),
        ∃ w3 v, wasm_engine_new cfg ⟨true, some a, true, data_ok⟩ w2 = some (some a, w3) ∧
          w3.singleton_engine = some a ∧
          w3.trace = w2.trace
            ++ [trace_event.runtime_full_init .Alloc_With_System_Allocator true] ∧
          w3.engines a = some ⟨wasm_engine_new_mode cfg, some v⟩ ∧ v.num_elems = 0) := by
  unfold wasm_engine_new at h1
  by_cases hassert : wasm_engine_new_asserts cfg (wasm_engine_new_mode cfg) = false
  · simp [hassert] at h1
  · simp only [hassert, Bool.false_eq_true, if_false, h0] at h1
    cases hint : wasm_engine_new_internal o1 .Alloc_With_System_Allocator none
        (wasm_engine_new_mode cfg) w0 with
    | none => simp [hint] at h1
    | some r =>
      obtain ⟨r1, wi⟩ := r
      simp only [hint, Option.map_some', Option.some.injEq, Prod.mk.injEq] at h1
      obtain ⟨rfl, rfl⟩ := h1
      obtain ⟨_, _, _, v, hv, hnum⟩ := wasm_engine_new_internal_some _ _ _ _ _ _ _ hint
      generalize hw1 : ({ wi with singleton_engine := some E } : world) = w1
      have hsing : w1.singleton_engine = some E := by rw [← hw1]
      have heng : w1.engines E = some ⟨wasm_engine_new_mode cfg, some v⟩ := by
        rw [← hw1]; exact hv
      refine ⟨?_, ?_, ?_⟩
      · intro o2
        simp [wasm_engine_new, hassert, hsing]
      · intro o2 type opts mode
        simp [wasm_engine_new_with_args, hsing]
      · have hloop : wasm_store_vec_delete_loop E ((v.data.getD []).length + 1) 0 w1 = some w1 := by
          simp [wasm_store_vec_delete_loop, heng, hnum]
        refine ⟨_, by simp [wasm_engine_delete, wasm_engine_delete_internal, heng, hloop]; rfl,
          rfl, ?_⟩
        intro a data_ok
        obtain ⟨w3, h3⟩ := wasm_engine_new_internal_ok a data_ok (wasm_engine_new_mode cfg)
          { singleton_engine := none
            engines := heap_set w1.engines E none
            stores := w1.stores
            trace := w1.trace ++ [trace_event.runtime_destroy] }
        obtain ⟨h3s, h3t, _, v3, h3e, h3n⟩ := wasm_engine_new_internal_some _ _ _ _ _ _ _ h3
        refine ⟨{ w3 with singleton_engine := some a }, v3, ?_, rfl, h3t, h3e, h3n⟩
        simp [wasm_engine_new, hassert, h3]

theorem getElem?_at_append {α : Type} (pre rest : List α) (x : α) :
    (pre ++ x :: rest)[pre.length]? = some x := by
  induction pre with
  | nil => simp
  | cons a pre ih => simpa using ih

/-- The scan of `wasm_store_delete` removes the first populated occurrence of
the store: with the cells split as `pre ++ rest` at the current index, the
populated part becomes `pre` followed by the remaining populated cells
without their first occurrence of `store`. -/
theorem wasm_store_delete_scan_spec (store : Nat) :
    ∀ (left : Nat) (pre rest : List Nat) (size : Nat),
      left ≤ rest.length →
      (wasm_store_delete_scan store left pre.length
          ⟨size, some (pre ++ rest), pre.length + left⟩).populated
        = pre ++ (rest.take left).erase store := by
  intro left
  induction left with
  | zero =>
    intro pre rest size _
    simp [wasm_store_delete_scan, wasm_vec_t.populated]
  | succ left ih =>
    intro pre rest size hlen
    cases rest with
    | nil => simp at hlen
    | cons r rest =>
      have hlen1 : left ≤ rest.length := by simpa using hlen
      have hget : bh_vector_get (⟨size, some (pre ++ r :: rest), pre.length + (left + 1)⟩ :
          wasm_vec_t Nat) pre.length = some r := by
        simp only [bh_vector_get, Option.getD_some, getElem?_at_append]
        rw [if_pos (by omega)]
      simp only [wasm_store_delete_scan, hget]
      by_cases hr : r = store
      · subst hr
        have htake : (pre ++ r :: rest).take pre.length = pre := by simp
        have hdrop : (pre ++ r :: rest).drop (pre.length + 1) = rest := by
          rw [show pre ++ r :: rest = (pre ++ [r]) ++ rest by simp,
            show pre.length + 1 = (pre ++ [r]).length by simp, List.drop_left]
        simp only [if_true, bh_vector_remove, wasm_vec_t.populated, Option.getD_some,
          show pre.length < pre.length + (left + 1) by omega, htake, hdrop,
          show pre.length + (left + 1) - 1 - pre.length = left by omega,
          show pre.length + (left + 1) - 1 = pre.length + left by omega,
          List.take_succ_cons, List.erase_cons_head]
        rw [List.append_assoc, List.take_append_eq_append_take]
        simp [List.take_take, Nat.min_eq_left hlen1]
      · have hstep := ih (pre ++ [r]) rest size hlen1
        simp only [List.length_append, List.length_singleton, List.append_assoc,
          List.singleton_append] at hstep
        have hadd : pre.length + 1 + left = pre.length + (left + 1) := by omega
        rw [hadd] at hstep
        simp only [hr, if_false, hstep, List.take_succ_cons]
        rw [List.erase_cons_tail (by simpa using hr)]

theorem module_unloads_of_handles (cells : List (Option wasm_module_ex_t)) :
    ∀ (handles : List Nat),
      cells.map (fun m => m.bind fun x => x.module_comm_rt) = handles.map some →
      cells.flatMap wasm_module_delete_internal = handles.map trace_event.unload ∧
      cells.countP (fun m => (m.bind fun x => x.module_comm_rt).isSome) = handles.length := by
  induction cells with
  | nil =>
    intro handles h
    cases handles with
    | nil => simp
    | cons a t => simp at h
  | cons c cs ih =>
    intro handles h
    cases handles with
    | nil => simp at h
    | cons a t =>
      simp only [List.map_cons, List.cons.injEq] at h
      obtain ⟨hc, ht⟩ := h
      obtain ⟨ih1, ih2⟩ := ih t ht
      cases c with
      | none => simp at hc
      | some m =>
        simp only [Option.some_bind] at hc
        simp [wasm_module_delete_internal, hc, ih1, ih2, List.countP_cons]

theorem instance_deinstantiates_of_handles (cells : List (Option wasm_instance_t)) :
    ∀ (handles : List Nat),
      cells.map (fun i => i.bind fun x => x.inst_comm_rt) = handles.map some →
      cells.flatMap wasm_instance_delete_internal = handles.map trace_event.deinstantiate ∧
      cells.countP (fun i => (i.bind fun x => x.inst_comm_rt).isSome) = handles.length := by
  induction cells with
  | nil =>
    intro handles h
    cases handles with
    | nil => simp
    | cons a t => simp at h
  | cons c cs ih =>
    intro handles h
    cases handles with
    | nil => simp at h
    | cons a t =>
      simp only [List.map_cons, List.cons.injEq] at h
      obtain ⟨hc, ht⟩ := h
      obtain ⟨ih1, ih2⟩ := ih t ht
      cases c with
      | none => simp at hc
      | some m =>
        simp only [Option.some_bind] at hc
        simp [wasm_instance_delete_internal, hc, ih1, ih2, List.countP_cons]

/-- C8. Store teardown cascade.  Let `store` be an allocated store of the live
engine whose module list holds modules with the backend modules `mhs` and
whose instance list holds instances with the backend instances `ihs` (as left
by successful `wasm_module_new` and `wasm_instance_new` calls).  Then
`wasm_store_delete` returns; it removes the first occurrence of the store from
the store list of the engine; the calls it makes are one `wasm_runtime_unload`
per module and one `wasm_runtime_deinstantiate` per instance; and the number
of backend resources held by the store drops from `k + n` to 0. -/
theorem store_teardown_cascade (w : world) (E store : Nat) (engine : wasm_engine_t)
    (size : Nat) (cells : List Nat) (num_elems : Nat) (s : wasm_store_t)
    (mv : wasm_vec_t (Option wasm_module_ex_t)) (iv : wasm_vec_t (Option wasm_instance_t))
    (mhs ihs : List Nat)
    (hstore : store ≠ 0)
    (hE : w.singleton_engine = some E) (hengine : w.engines E = some engine)
    (hv : engine.stores = some ⟨size, some cells, num_elems⟩)
    (hwf : num_elems ≤ cells.length)
    (hs : w.stores store = some s)
    (hmv : s.modules = some mv) (hiv : s.instances = some iv)
    (hmwf : mv.num_elems ≤ (mv.data.getD []).length)
    (hiwf : iv.num_elems ≤ (iv.data.getD []).length)
    (hms : mv.populated.map (fun m => m.bind fun x => x.module_comm_rt) = mhs.map some)
    (his : iv.populated.map (fun i => i.bind fun x => x.inst_comm_rt) = ihs.map some) :
    ∃ w1, wasm_store_delete w store = some w1 ∧
      w1.trace = w.trace ++ trace_event.store_delete store ::
        (mhs.map trace_event.unload ++ ihs.map trace_event.deinstantiate) ∧
      registered_stores w1 = (registered_stores w).erase store ∧
      w1.stores store = none ∧
      store_live_resources w store = mhs.length + ihs.length ∧
      store_live_resources w1 store = 0 := by
  obtain ⟨hm1, hm2⟩ := module_unloads_of_handles mv.populated mhs hms
  obtain ⟨hi1, hi2⟩ := instance_deinstantiates_of_handles iv.populated ihs his
  have hscan := wasm_store_delete_scan_spec store num_elems [] cells size hwf
  simp only [List.length_nil, Nat.zero_add, List.nil_append] at hscan
  have hdm : DEINIT_VEC_modules s.modules = some (mhs.map trace_event.unload) := by
    simp [DEINIT_VEC_modules, hmv, wasm_module_vec_delete, Nat.not_lt.mpr hmwf, hm1]
  have hdi : DEINIT_VEC_instances s.instances = some (ihs.map trace_event.deinstantiate) := by
    simp [DEINIT_VEC_instances, hiv, wasm_instance_vec_delete, Nat.not_lt.mpr hiwf, hi1]
  have hdel : wasm_store_delete w store = some
      { singleton_engine := some E
        engines := heap_set w.engines E (some
          { engine with stores := some (wasm_store_delete_scan store
              (bh_vector_size (⟨size, some cells, num_elems⟩ : wasm_vec_t Nat)) 0
              ⟨size, some cells, num_elems⟩) })
        stores := heap_set w.stores store none
        trace := w.trace ++ trace_event.store_delete store :: mhs.map trace_event.unload
          ++ ihs.map trace_event.deinstantiate } := by
    simp only [wasm_store_delete, hstore, if_false, hE, hengine, hs, hdm, hdi, hv]
  refine ⟨_, hdel, ?_, ?_, ?_, ?_, ?_⟩
  · simp
  · simp only [registered_stores, hE, hengine, hv, heap_set, bh_vector_size, if_true,
      Option.map_some', Option.getD_some, hscan]
    simp [wasm_vec_t.populated]
  · simp [heap_set]
  · simp [store_live_resources, hs, hmv, hiv, hm2, hi2]
  · simp [store_live_resources, heap_set]

/-- Every return of `wasm_module_new` leaves the engine and, unless a module is
returned, the stores as they were; a returned module has a backend module and
was appended to the module list of the store, and its package type was
accepted for the mode of the engine. -/
theorem wasm_module_new_cases (get_package_type : Option (List Nat) → Nat → PackageType)
    (wasm_runtime_load : Option (List Nat) → Nat → Option Nat) (o : module_new_outcomes)
    (w w1 : world) (store : Nat) (binary : wasm_vec_t Nat) (r : Option wasm_module_ex_t)
    (h : wasm_module_new get_package_type wasm_runtime_load o w store binary = some (r, w1)) :
    w1.singleton_engine = w.singleton_engine ∧ w1.engines = w.engines ∧
    (r = none → w1.stores = w.stores) ∧
    (∀ m, r = some m →
      (∃ mode, current_runtime_mode w = some mode ∧
        package_rejected (get_package_type binary.data binary.size) mode = false) ∧
      (∃ handle, m.module_comm_rt = some handle) ∧
      ∃ s modules modules1, w.stores store = some s ∧ s.modules = some modules ∧
        bh_vector_append o.grow modules (some m) = some (true, modules1) ∧
        w1.stores = heap_set w.stores store (some { s with modules := some modules1 })) := by
  unfold wasm_module_new at h
  by_cases h1 : w.singleton_engine = none ∨ store = 0
  · simp [h1] at h
  rw [if_neg h1] at h
  by_cases h2 : binary.data = none ∨ binary.size = 0
  · simp [h2] at h
  rw [if_neg h2] at h
  by_cases h3 : binary.size > UINT32_MAX
  · rw [if_pos h3] at h
    simp only [Option.some.injEq, Prod.mk.injEq] at h
    obtain ⟨rfl, rfl⟩ := h
    simp
  rw [if_neg h3] at h
  cases hmode : current_runtime_mode w with
  | none => simp [hmode] at h
  | some mode =>
    simp only [hmode] at h
    by_cases hrej : package_rejected (get_package_type binary.data binary.size) mode = true
    · rw [if_pos hrej] at h
      simp only [Option.some.injEq, Prod.mk.injEq] at h
      obtain ⟨rfl, rfl⟩ := h
      simp
    rw [if_neg hrej] at h
    have hacc : package_rejected (get_package_type binary.data binary.size) mode
        = false := by simpa using hrej
    cases hmo : o.module_ok
    · simp only [hmo, Bool.not_false, if_true, Option.some.injEq, Prod.mk.injEq] at h
      obtain ⟨rfl, rfl⟩ := h
      simp
    simp only [hmo, Bool.not_true, Bool.false_eq_true, if_false] at h
    cases hvo : o.binary_vec_ok
    · simp only [hvo, Bool.not_false, if_true, Option.some.injEq, Prod.mk.injEq] at h
      obtain ⟨rfl, rfl⟩ := h
      simp
    simp only [hvo, Bool.not_true, Bool.false_eq_true, if_false] at h
    cases hbin : wasm_byte_vec_new o.binary_data_ok binary.size binary.data with
    | none => simp [hbin] at h
    | some bin =>
      simp only [hbin] at h
      by_cases hchk : bin.size ≠ 0 ∧ bin.data = none
      · rw [if_pos hchk] at h
        simp only [Option.some.injEq, Prod.mk.injEq] at h
        obtain ⟨rfl, rfl⟩ := h
        simp
      rw [if_neg hchk] at h
      cases hload : wasm_runtime_load bin.data bin.size with
      | none =>
        simp only [hload, Option.some.injEq, Prod.mk.injEq] at h
        obtain ⟨rfl, rfl⟩ := h
        simp
      | some handle =>
        simp only [hload] at h
        cases hs : w.stores store with
        | none => simp [hs] at h
        | some s =>
          simp only [hs] at h
          cases hm : s.modules with
          | none =>
            simp only [hm, Option.some.injEq, Prod.mk.injEq] at h
            obtain ⟨rfl, rfl⟩ := h
            simp
          | some modules =>
            simp only [hm] at h
            cases happ : bh_vector_append o.grow modules
                (some ⟨some handle, some bin⟩) with
            | none => simp [happ] at h
            | some res =>
              obtain ⟨ok, modules1⟩ := res
              cases ok with
              | false =>
                simp only [happ, Option.some.injEq, Prod.mk.injEq] at h
                obtain ⟨rfl, rfl⟩ := h
                simp
              | true =>
                simp only [happ, Option.some.injEq, Prod.mk.injEq] at h
                obtain ⟨rfl, rfl⟩ := h
                refine ⟨rfl, rfl, by simp, ?_⟩
                intro m hm'
                simp only [Option.some.injEq] at hm'
                subst hm'
                exact ⟨⟨mode, rfl, hacc⟩, ⟨handle, rfl⟩, s, modules, modules1,
                  rfl, hm, happ, rfl⟩

/-- C10. `wasm_module_new` loads a module only if its package kind matches the
mode of the engine.  Under the preconditions that the function asserts, a
package type that is unknown, bytecode while the mode is not the interpreter,
or AOT while the mode is the interpreter makes it return null with no call of
the loader and the whole state unchanged.  It returns null as well, with the
stores unchanged, for a size over 32 bits (the whole state is unchanged), when
the module object cannot be allocated, when the loader rejects the binary and
when the module list of the store is full and cannot be reallocated (the
backend module is then unloaded).  Whenever it returns null, the stores (hence
the module list of the store) are unchanged; and whenever it returns a
module, the package type was accepted for the mode. -/
theorem module_new_package_gate (get_package_type : Option (List Nat) → Nat → PackageType)
    (wasm_runtime_load : Option (List Nat) → Nat → Option Nat) (o : module_new_outcomes)
    (w : world) (store : Nat) (binary : wasm_vec_t Nat) (mode : runtime_mode_e)
    (hengine : w.singleton_engine ≠ none) (hstore : store ≠ 0)
    (hdata : binary.data ≠ none) (hsize : binary.size ≠ 0)
    (hmode : current_runtime_mode w = some mode) :
    ((get_package_type binary.data binary.size = .Package_Type_Unknown
        ∨ (get_package_type binary.data binary.size = .Wasm_Module_Bytecode
            ∧ mode ≠ .INTERP_MODE)
        ∨ (get_package_type binary.data binary.size = .Wasm_Module_AoT
            ∧ mode = .INTERP_MODE)) →
      wasm_module_new get_package_type wasm_runtime_load o w store binary = some (none, w)) ∧
    (binary.size > UINT32_MAX →
      wasm_module_new get_package_type wasm_runtime_load o w store binary = some (none, w)) ∧
    (binary.size ≤ UINT32_MAX →
      package_rejected (get_package_type binary.data binary.size) mode = false →
      (o.module_ok = false →
        wasm_module_new get_package_type wasm_runtime_load o w store binary
          = some (none, w)) ∧
      ∀ bin, o.module_ok = true → o.binary_vec_ok = true →
        wasm_byte_vec_new o.binary_data_ok binary.size binary.data = some bin →
        bin.data ≠ none →
        (wasm_runtime_load bin.data bin.size = none →
          wasm_module_new get_package_type wasm_runtime_load o w store binary
            = some (none, { w with trace := w.trace ++ [trace_event.load none] })) ∧
        ∀ handle s modules, wasm_runtime_load bin.data bin.size = some handle →
          w.stores store = some s → s.modules = some modules →
          modules.size ≤ modules.num_elems → o.grow = none →
          wasm_module_new get_package_type wasm_runtime_load o w store binary
            = some (none, { w with trace := w.trace
                ++ [trace_event.load (some handle)] ++ [trace_event.unload handle] })) ∧
    (∀ w1, wasm_module_new get_package_type wasm_runtime_load o w store binary
        = some (none, w1) → w1.stores = w.stores) ∧
    (∀ m w1, wasm_module_new get_package_type wasm_runtime_load o w store binary
        = some (some m, w1) →
      (get_package_type binary.data binary.size = .Wasm_Module_Bytecode
          ∧ mode = .INTERP_MODE)
        ∨ (get_package_type binary.data binary.size = .Wasm_Module_AoT
          ∧ mode ≠ .INTERP_MODE)) := by
  refine ⟨?_, ?_, ?_, ?_, ?_⟩
  · intro hpkg
    have hrej : package_rejected (get_package_type binary.data binary.size) mode = true := by
      rcases hpkg with h | ⟨h, hm⟩ | ⟨h, hm⟩
      · simp [package_rejected, h]
      · simp [package_rejected, h, hm]
      · simp [package_rejected, h, hm]
    by_cases hmax : binary.size > UINT32_MAX
    · simp [wasm_module_new, hengine, hstore, hdata, hsize, hmax]
    · simp [wasm_module_new, hengine, hstore, hdata, hsize, hmax, hmode, hrej]
  · intro hmax
    simp [wasm_module_new, hengine, hstore, hdata, hsize, hmax]
  · intro hmax hacc
    have hmax1 : ¬ binary.size > UINT32_MAX := Nat.not_lt.mpr hmax
    refine ⟨?_, ?_⟩
    · intro hmo
      simp [wasm_module_new, hengine, hstore, hdata, hsize, hmax1, hmode, hacc, hmo]
    · intro bin hmo hvo hbin hbd
      have hbin2 : ¬ (bin.size ≠ 0 ∧ bin.data = none) := fun h => hbd h.2
      refine ⟨?_, ?_⟩
      · intro hload
        simp [wasm_module_new, hengine, hstore, hdata, hsize, hmax1, hmode, hacc, hmo, hvo,
          hbin, hbin2, hload]
      · intro handle s modules hload hs hsm hfull hgrow
        have happ : bh_vector_append o.grow modules
            (some (⟨some handle, some bin⟩ : wasm_module_ex_t)) = some (false, modules) := by
          simp [bh_vector_append, Nat.not_le.mpr (Nat.lt_succ_of_le hfull), hgrow]
        simp [wasm_module_new, hengine, hstore, hdata, hsize, hmax1, hmode, hacc, hmo, hvo,
          hbin, hbin2, hload, hs, hsm, happ]
  · intro w1 h
    exact (wasm_module_new_cases _ _ _ _ _ _ _ _ h).2.2.1 rfl
  · intro m w1 h
    obtain ⟨⟨mode1, hm1, hacc⟩, _⟩ := (wasm_module_new_cases _ _ _ _ _ _ _ _ h).2.2.2 m rfl
    rw [hmode] at hm1
    simp only [Option.some.injEq] at hm1
    subst hm1
    revert hacc
    cases get_package_type binary.data binary.size <;> cases mode <;>
      simp [package_rejected]

/-- Witness of C7: after the first `wasm_engine_new`, a call of
`wasm_engine_new_with_args` with other arguments returns the same handle and
changes nothing. -/
theorem engine_singleton_idempotence_witness :
    wasm_engine_new_with_args ⟨true, some 555, true, true⟩ .Alloc_With_Pool (some 1)
      .AOT_MODE engine_world = some (some 100, engine_world) :=
  (engine_singleton_idempotence interp_config ⟨true, some 100, true, true⟩ empty_world
    engine_world 100 rfl rfl).2.1 _ _ _ _

/-- Witness of C8: two modules and one instance. -/
theorem store_teardown_cascade_witness :
    ∃ w1, wasm_store_delete teardown_world 200 = some w1 ∧
      w1.trace = [trace_event.store_delete 200, trace_event.unload 11, trace_event.unload 12,
        trace_event.deinstantiate 21] ∧
      registered_stores w1 = [] ∧
      w1.stores 200 = none ∧
      store_live_resources teardown_world 200 = 3 ∧
      store_live_resources w1 200 = 0 :=
  store_teardown_cascade teardown_world 100 200 ⟨.INTERP_MODE, some ⟨1, some [200], 1⟩⟩
    1 [200] 1
    ⟨some ⟨4, some [some ⟨some 11, none⟩, some ⟨some 12, none⟩, none, none], 2⟩,
     some ⟨4, some [some ⟨none, none, some 21⟩, none, none, none], 1⟩⟩
    ⟨4, some [some ⟨some 11, none⟩, some ⟨some 12, none⟩, none, none], 2⟩
    ⟨4, some [some ⟨none, none, some 21⟩, none, none, none], 1⟩
    [11, 12] [21] (by decide) rfl rfl rfl (by decide) rfl rfl rfl (by decide) (by decide)
    rfl rfl

/-- C9, evaluation at the failing input.  With two stores registered (at 200
and 300), `wasm_engine_delete` runs the store destructor on the first store
only: the vector loop compares its index with a populated count that the
destructor has just decremented.  The store at 300 stays allocated and is
never destroyed, although the engine is gone and the singleton is cleared.
With one store registered the same loop reads the cell behind the buffer. -/
theorem engine_delete_misses_second_store :
    two_store_world.map registered_stores = some [200, 300] ∧
    (two_store_world.bind fun w => wasm_engine_delete w (some 100)).map
        (fun w => (w.singleton_engine, (w.stores 200).isSome, (w.stores 300).isSome, w.trace))
      = some (none, false, true,
          [trace_event.runtime_full_init .Alloc_With_System_Allocator true,
           trace_event.store_delete 200, trace_event.runtime_destroy]) ∧
    one_store_world.map registered_stores = some [200] ∧
    (one_store_world.bind fun w => wasm_engine_delete w (some 100)).isNone = true := by
  decide

/-- Witness of C10: an AOT package offered to an engine in interpreter mode. -/
theorem module_new_package_gate_witness :
    wasm_module_new (fun _ _ => .Wasm_Module_AoT) (fun _ _ => some 11)
      ⟨true, true, true, some 0⟩ teardown_world 200 sample_binary
      = some (none, teardown_world) :=
  (module_new_package_gate (fun _ _ => .Wasm_Module_AoT) (fun _ _ => some 11)
    ⟨true, true, true, some 0⟩ teardown_world 200 sample_binary .INTERP_MODE
    (by decide) (by decide) (by decide) (by decide) rfl).1
    (Or.inr (Or.inr ⟨rfl, rfl⟩))

/-! ## The two vector flavours: auxiliary facts -/

/-- Below `2 ^ 32` bytes the byte instance `wasm_byte_vec_new` is
`wasm_vec_new` with cells of one byte. -/
theorem wasm_byte_vec_new_eq_vec_new (alloc_ok : Bool) (size : Nat) (data : Option (List Nat))
    (hsize : size < UINT32_MOD) :
    wasm_byte_vec_new alloc_ok size data = wasm_vec_new 1 alloc_ok size data := by
  unfold wasm_byte_vec_new wasm_vec_new
  by_cases h0 : size = 0
  · simp [h0]
  · cases alloc_ok
    · simp [h0, bh_vector_init]
    · cases data with
      | none => simp [h0, bh_vector_init]
      | some src =>
        simp [h0, bh_vector_init, Nat.mod_eq_of_lt hsize]

/-- The loop of `wasm_##name##_vec_copy` runs to its end when every element
copy returns an object: the cells `i .. i + n` of `out` then hold the results
of the copy operation and all other cells are as before. -/
theorem wasm_vec_copy_loop_ok {T : Type} (copy : Nat → Option T → Option (Option T))
    (src_cells : List (Option T)) :
    ∀ (n i : Nat) (out_cells : List (Option T)) (copies : List T),
      i + n ≤ out_cells.length →
      (∀ j, i ≤ j → j < i + n →
        ∃ e c, src_cells[j]? = some e ∧ copy j e = some (some c)) →
      ∃ cells1 copies1,
        wasm_vec_copy_loop copy src_cells n i out_cells copies = some (true, cells1, copies1) ∧
        cells1.length = out_cells.length ∧
        copies1.length = copies.length + n ∧
        (∀ j, j < i → cells1[j]? = out_cells[j]?) ∧
        (∀ j, i + n ≤ j → cells1[j]? = out_cells[j]?) ∧
        (∀ j, i ≤ j → j < i + n →
          ∃ e c, src_cells[j]? = some e ∧ copy j e = some (some c) ∧
            cells1[j]? = some (some c)) := by
  intro n
  induction n with
  | zero =>
    intro i out_cells copies _ _
    refine ⟨out_cells, copies, rfl, rfl, rfl, fun _ _ => rfl, fun _ _ => rfl, ?_⟩
    intro j h1 h2
    omega
  | succ n ih =>
    intro i out_cells copies hlen hcopy
    obtain ⟨e, c, he, hc⟩ := hcopy i (Nat.le_refl i) (by omega)
    have hi : i < out_cells.length := by omega
    obtain ⟨cells1, copies1, hrun, hl, hcl, hlow, hhigh, hmid⟩ :=
      ih (i + 1) (out_cells.set i (some c)) (copies ++ [c])
        (by simp only [List.length_set]; omega)
        (fun j h1 h2 => hcopy j (by omega) (by omega))
    refine ⟨cells1, copies1, ?_, ?_, ?_, ?_, ?_, ?_⟩
    · simp only [wasm_vec_copy_loop, he, hc, if_pos hi]
      exact hrun
    · simpa using hl
    · simp only [List.length_append, List.length_singleton] at hcl
      omega
    · intro j hj
      rw [hlow j (by omega), List.getElem?_set_ne (by omega)]
    · intro j hj
      rw [hhigh j (by omega), List.getElem?_set_ne (by omega)]
    · intro j h1 h2
      by_cases hji : j = i
      · subst hji
        refine ⟨e, c, he, hc, ?_⟩
        rw [hlow j (by omega), List.getElem?_set_self hi]
      · exact hmid j (by omega) (by omega)

/-- The loop of `wasm_##name##_vec_copy` stops at the first element copy that
returns null; the copies made before are kept in the ghost list. -/
theorem wasm_vec_copy_loop_fails {T : Type} (copy : Nat → Option T → Option (Option T))
    (src_cells : List (Option T)) :
    ∀ (k n i : Nat) (out_cells : List (Option T)) (copies : List T),
      k < n → i + n ≤ out_cells.length →
      (∀ j, i ≤ j → j < i + k →
        ∃ e c, src_cells[j]? = some e ∧ copy j e = some (some c)) →
      (∃ e, src_cells[i + k]? = some e ∧ copy (i + k) e = some none) →
      ∃ cells1 copies1,
        wasm_vec_copy_loop copy src_cells n i out_cells copies = some (false, cells1, copies1) ∧
        copies1.length = copies.length + k := by
  intro k
  induction k with
  | zero =>
    intro n i out_cells copies hk hlen _ hfail
    obtain ⟨e, he, hc⟩ := hfail
    obtain ⟨m, rfl⟩ : ∃ m, n = m + 1 := ⟨n - 1, by omega⟩
    have hi : i < out_cells.length := by omega
    refine ⟨out_cells.set i none, copies, ?_, rfl⟩
    simp only [Nat.add_zero] at he hc
    simp only [wasm_vec_copy_loop, he, hc, if_pos hi]
  | succ k ih =>
    intro n i out_cells copies hk hlen hcopy hfail
    obtain ⟨m, rfl⟩ : ∃ m, n = m + 1 := ⟨n - 1, by omega⟩
    obtain ⟨e, c, he, hc⟩ := hcopy i (Nat.le_refl i) (by omega)
    have hi : i < out_cells.length := by omega
    obtain ⟨cells1, copies1, hrun, hcl⟩ :=
      ih m (i + 1) (out_cells.set i (some c)) (copies ++ [c]) (by omega)
        (by simp only [List.length_set]; omega)
        (fun j h1 h2 => hcopy j (by omega) (by omega))
        (by
          obtain ⟨e1, he1, hc1⟩ := hfail
          refine ⟨e1, ?_, ?_⟩
          · rw [← he1]; congr 1; omega
          · rw [← hc1]; congr 1; omega)
    refine ⟨cells1, copies1, ?_, ?_⟩
    · simp only [wasm_vec_copy_loop, he, hc, if_pos hi]
      exact hrun
    · simp only [List.length_append, List.length_singleton] at hcl
      omega

/-- A successful `wasm_##name##_vec_copy`: when the buffer is allocated and
every element copy returns an object, `out` has the capacity and the populated
count of `src`, and each populated cell holds what the copy operation returned
for the cell of `src` at the same index. -/
theorem wasm_vec_copy_ok {T : Type} (copy : Nat → Option T → Option (Option T))
    (src : wasm_vec_t (Option T))
    (hsize : src.size ≠ 0) (hcount : src.num_elems ≤ src.size)
    (hcopy : ∀ j, j < src.num_elems →
      ∃ e c, (src.data.getD [])[j]? = some e ∧ copy j e = some (some c)) :
    ∃ out_cells copies,
      wasm_vec_copy true copy src
        = some ⟨⟨src.size, some out_cells, src.num_elems⟩, copies, []⟩ ∧
      out_cells.length = src.size ∧ copies.length = src.num_elems ∧
      ∀ j, j < src.num_elems →
        ∃ e c, (src.data.getD [])[j]? = some e ∧ copy j e = some (some c) ∧
          out_cells[j]? = some (some c) := by
  obtain ⟨cells1, copies1, hrun, hl, hcl, _, _, hmid⟩ :=
    wasm_vec_copy_loop_ok copy (src.data.getD []) src.num_elems 0
      (List.replicate src.size none) []
      (by simpa using hcount)
      (fun j _ h2 => hcopy j (by omega))
  refine ⟨cells1, copies1, ?_, by simpa using hl, by simpa using hcl, ?_⟩
  · simp only [wasm_vec_copy, if_neg hsize, bh_vector_init, if_true, Option.getD_some]
    have hd : (default : Option T) = none := rfl
    simp only [hd, hrun]
  · intro j hj
    exact hmid j (Nat.zero_le j) (by omega)

/-- A failed `wasm_##name##_vec_copy`: when the element copy at index `k`
returns null after `k` copies were made, `out` is left zeroed, and
`wasm_##name##_vec_delete` hands no reference to `elem_destroy_func`, the
populated count of `out` being still zero; the `k` copies stay allocated. -/
theorem wasm_vec_copy_fails {T : Type} (copy : Nat → Option T → Option (Option T))
    (src : wasm_vec_t (Option T)) (k : Nat)
    (hk : k < src.num_elems) (hcount : src.num_elems ≤ src.size)
    (hcopy : ∀ j, j < k →
      ∃ e c, (src.data.getD [])[j]? = some e ∧ copy j e = some (some c))
    (hfail : ∃ e, (src.data.getD [])[k]? = some e ∧ copy k e = some none) :
    ∃ copies,
      wasm_vec_copy true copy src = some ⟨wasm_vec_t.zero, copies, []⟩ ∧
      copies.length = k := by
  obtain ⟨cells1, copies1, hrun, hcl⟩ :=
    wasm_vec_copy_loop_fails copy (src.data.getD []) k src.num_elems 0
      (List.replicate src.size none) []
      hk (by simpa using hcount)
      (fun j _ h2 => hcopy j (by omega))
      (by simpa using hfail)
  have hsize : src.size ≠ 0 := by omega
  refine ⟨copies1, ?_, by simpa using hcl⟩
  simp only [wasm_vec_copy, if_neg hsize, bh_vector_init, if_true, Option.getD_some]
  have hd : (default : Option T) = none := rfl
  simp only [hd, hrun]
  simp [wasm_vec_delete_own, wasm_vec_t.populated, bh_vector_destroy]

/-- C15. `wasm_<name>_vec_new (out, n, data)`, in both flavours (the cell
type and its size are arbitrary, so a cell may be a raw value or a reference).
With `n = 0` the result is the zeroed header, whatever the allocator and
`data`.  With `n > 0`, a byte count `n * sizeof` that fits `unsigned int`, a
successful allocation and an array `data` of at least `n` cells, the result
has size `n`, populated count `n` and cell `i` equal to `data[i]`: the cells
are moved as they are, the function has no element operation to call.  With
`n > 0` and a null `data` the result has size `n` and populated count 0. -/
theorem vec_new_contract {α : Type} [Inhabited α] (elem_size n : Nat) (data : List α)
    (hn : 0 < n) (helem : 0 < elem_size) (hbytes : n * elem_size < UINT32_MOD)
    (hdata : n ≤ data.length) :
    (∀ (alloc_ok : Bool) (d : Option (List α)),
      wasm_vec_new elem_size alloc_ok 0 d = some (wasm_vec_t.zero : wasm_vec_t α)) ∧
    (wasm_vec_t.zero : wasm_vec_t α) = ⟨0, none, 0⟩ ∧
    wasm_vec_new elem_size true n (some data) = some ⟨n, some (data.take n), n⟩ ∧
    (∀ i, i < n → (data.take n)[i]? = data[i]?) ∧
    wasm_vec_new elem_size true n (none : Option (List α))
      = some ⟨n, some (List.replicate n default), 0⟩ := by
  have hn0 : n ≠ 0 := by omega
  refine ⟨?_, rfl, ?_, ?_, ?_⟩
  · intro alloc_ok d
    simp [wasm_vec_new]
  · have hdiv : n * elem_size % UINT32_MOD / elem_size = n := by
      rw [Nat.mod_eq_of_lt hbytes, Nat.mul_div_cancel _ helem]
    simp only [wasm_vec_new, if_neg hn0, bh_vector_init, if_true, hdiv,
      if_neg (Nat.not_lt.mpr hdata)]
    simp
  · intro i hi
    simp [List.getElem?_take, hi]
  · simp [wasm_vec_new, hn0, bh_vector_init]

/-- Witness of `vec_new_contract`: two cells of eight bytes taken from an
array of three references. -/
theorem vec_new_contract_witness :
    wasm_vec_new 8 true 2 (some [some 5, some 6, (none : Option Nat)])
      = some ⟨2, some [some 5, some 6], 2⟩ :=
  (vec_new_contract 8 2 [some 5, some 6, (none : Option Nat)]
    (by decide) (by decide) (by decide) (by decide)).2.2.1

/-! ## Type descriptors: auxiliary facts -/

/-- The populated cells of a well-formed vector are within its buffer and hold
objects. -/
theorem well_formed_cells {T : Type} (v : wasm_vec_t (Option T))
    (hwf : v.well_formed = true) :
    v.num_elems ≤ v.size ∧
    ∀ j, j < v.num_elems → ∃ x, (v.data.getD [])[j]? = some (some x) := by
  simp only [wasm_vec_t.well_formed, Bool.and_eq_true, decide_eq_true_eq, List.all_eq_true,
    wasm_vec_t.populated] at hwf
  obtain ⟨⟨h1, h2⟩, h3⟩ := hwf
  refine ⟨h1, ?_⟩
  intro j hj
  have hjl : j < (v.data.getD []).length := by omega
  have hmem : (v.data.getD [])[j] ∈ (v.data.getD []).take v.num_elems := by
    rw [List.mem_take_iff_getElem]
    exact ⟨j, by simp [hj, hjl], rfl⟩
  have hsome := h3 _ hmem
  rw [Option.isSome_iff_exists] at hsome
  obtain ⟨x, hx⟩ := hsome
  exact ⟨x, by rw [List.getElem?_eq_getElem hjl, hx]⟩

/-- Copy of a well-formed value type vector when every allocation succeeds:
the capacity, the populated count and the populated value types of the
source. -/
theorem wasm_valtype_vec_copy_ok (elem_ok : Nat → Bool)
    (v : wasm_vec_t (Option wasm_valtype_t)) (hwf : v.well_formed = true)
    (hok : ∀ i, elem_ok i = true) :
    ∃ r, wasm_valtype_vec_copy true elem_ok v = some r ∧
      r.out.size = v.size ∧ r.out.num_elems = v.num_elems ∧
      r.out.populated = v.populated ∧ (v.size ≠ 0 → r.out.data.isNone = false) := by
  obtain ⟨hcount, hcells⟩ := well_formed_cells v hwf
  by_cases hsize : v.size = 0
  · refine ⟨⟨wasm_vec_t.zero, [], []⟩, ?_, ?_, ?_, ?_, ?_⟩
    · simp [wasm_valtype_vec_copy, wasm_vec_copy, hsize]
    · simp [wasm_vec_t.zero, hsize]
    · simp only [wasm_vec_t.zero]; omega
    · have h0 : v.num_elems = 0 := by omega
      simp [wasm_vec_t.populated, wasm_vec_t.zero, h0]
    · intro h; exact absurd hsize h
  · obtain ⟨out_cells, copies, hrun, hl, _, hmid⟩ :=
      wasm_vec_copy_ok (fun i => wasm_valtype_copy (elem_ok i)) v hsize hcount
        (by
          intro j hj
          obtain ⟨x, hx⟩ := hcells j hj
          exact ⟨some x, x, hx, by simp [wasm_valtype_copy, wasm_valtype_new, hok]⟩)
    refine ⟨_, hrun, rfl, rfl, ?_, by simp⟩
    simp only [wasm_vec_t.populated, Option.getD_some]
    apply List.ext_getElem?
    intro j
    by_cases hj : j < v.num_elems
    · obtain ⟨e, c, he, hc, ho⟩ := hmid j hj
      obtain ⟨x, hx⟩ := hcells j hj
      rw [hx] at he
      simp only [Option.some.injEq] at he
      subst he
      simp only [wasm_valtype_copy, wasm_valtype_new, hok, if_true, Option.some.injEq] at hc
      subst hc
      simp [List.getElem?_take, hj, ho, hx]
    · simp [List.getElem?_take, hj]

/-- Copy of a well-formed function type when every allocation succeeds: both
vectors keep their capacity, populated count and populated value types. -/
theorem wasm_functype_copy_ok (x : wasm_functype_hdr_t)
    (hp : x.params.well_formed = true) (hr : x.results.well_formed = true) :
    ∃ c, wasm_functype_copy functype_copy_all_ok (some x) = some (some c) ∧
      c.params.populated = x.params.populated ∧
      c.results.populated = x.results.populated ∧
      c.params.num_elems = x.params.num_elems ∧
      c.results.num_elems = x.results.num_elems := by
  obtain ⟨rp, hrp, _, hpn, hpp, hpd⟩ :=
    wasm_valtype_vec_copy_ok (fun _ => true) x.params hp (fun _ => rfl)
  obtain ⟨rr, hrr, _, hrn, hrpop, hrd⟩ :=
    wasm_valtype_vec_copy_ok (fun _ => true) x.results hr (fun _ => rfl)
  refine ⟨⟨rp.out, rr.out⟩, ?_, hpp, hrpop, hpn, hrn⟩
  have h1 : ¬ (x.params.size ≠ 0 ∧ rp.out.data.isNone = true) := by
    intro h
    have := hpd h.1
    rw [this] at h
    exact Bool.false_ne_true h.2
  have h2 : ¬ (x.results.size ≠ 0 ∧ rr.out.data.isNone = true) := by
    intro h
    have := hrd h.1
    rw [this] at h
    exact Bool.false_ne_true h.2
  simp only [wasm_functype_copy, functype_copy_all_ok, hrp, hrr, if_neg h1, if_neg h2,
    wasm_functype_new, Bool.not_true, Bool.false_eq_true, if_false]

/-- C13. Round-trip type copy.  When every allocation succeeds, the copy of a
value type, of a global type, of a table type and of a memory type is equal to
its source, and the copy of a function type whose two vectors are well formed
has the populated parameter and result value types of its source; hence
`wasm_externtype_copy` of an extern type of each of the four kinds returns an
extern type of the same kind that compares equal by structure (parameter and
result kinds, value kind and mutability, element kind and limits, limits). -/
theorem type_copy_roundtrip (v : wasm_valtype_t) (f : wasm_functype_hdr_t)
    (g : wasm_globaltype_t) (t : wasm_tabletype_t) (m : wasm_memorytype_t)
    (hp : f.params.well_formed = true) (hr : f.results.well_formed = true) :
    wasm_valtype_copy true (some v) = some (some v) ∧
    (∃ c, wasm_functype_copy functype_copy_all_ok (some f) = some (some c) ∧
      valtype_vec_kinds c.params = valtype_vec_kinds f.params ∧
      valtype_vec_kinds c.results = valtype_vec_kinds f.results) ∧
    wasm_globaltype_copy true true (some g) = some (some g) ∧
    wasm_tabletype_copy true true (some t) = some (some t) ∧
    wasm_memorytype_copy true (some m) = some (some m) ∧
    (∀ x, x = wasm_externtype_t.WASM_EXTERN_FUNC f ∨ x = .WASM_EXTERN_GLOBAL g ∨
        x = .WASM_EXTERN_TABLE t ∨ x = .WASM_EXTERN_MEMORY m →
      ∃ c, wasm_externtype_copy externtype_copy_all_ok (some x) = some (some c) ∧
        wasm_externtype_kind c = wasm_externtype_kind x ∧
        externtype_same_structure c x = true) := by
  obtain ⟨c, hc, hcp, hcr, _, _⟩ := wasm_functype_copy_ok f hp hr
  have hv : wasm_valtype_copy true (some v) = some (some v) := by
    simp [wasm_valtype_copy, wasm_valtype_new]
  have hg : wasm_globaltype_copy true true (some g) = some (some g) := by
    simp [wasm_globaltype_copy, wasm_valtype_copy, wasm_valtype_new, wasm_globaltype_new]
  have ht : wasm_tabletype_copy true true (some t) = some (some t) := by
    simp [wasm_tabletype_copy, wasm_valtype_copy, wasm_valtype_new, wasm_tabletype_new]
  have hm : wasm_memorytype_copy true (some m) = some (some m) := by
    simp [wasm_memorytype_copy, wasm_memorytype_new]
  refine ⟨hv, ⟨c, hc, ?_, ?_⟩, hg, ht, hm, ?_⟩
  · simp [valtype_vec_kinds, hcp]
  · simp [valtype_vec_kinds, hcr]
  · intro x hx
    rcases hx with rfl | rfl | rfl | rfl
    · refine ⟨.WASM_EXTERN_FUNC c, ?_, rfl, ?_⟩
      · simp [wasm_externtype_copy, externtype_copy_all_ok, hc]
      · simp [externtype_same_structure, hcp, hcr]
    · refine ⟨.WASM_EXTERN_GLOBAL g, ?_, rfl, ?_⟩
      · simp [wasm_externtype_copy, externtype_copy_all_ok, hg]
      · simp [externtype_same_structure]
    · refine ⟨.WASM_EXTERN_TABLE t, ?_, rfl, ?_⟩
      · simp [wasm_externtype_copy, externtype_copy_all_ok, ht]
      · simp [externtype_same_structure]
    · refine ⟨.WASM_EXTERN_MEMORY m, ?_, rfl, ?_⟩
      · simp [wasm_externtype_copy, externtype_copy_all_ok, hm]
      · simp [externtype_same_structure]

/-- Witness of C13: a mutable i64 global type and the function type
`(i32, i64) -> (f64)` kept in vectors with a spare cell. -/
theorem type_copy_roundtrip_witness :
    wasm_globaltype_copy true true (some ⟨⟨.WASM_I64⟩, .WASM_VAR⟩)
      = some (some ⟨⟨.WASM_I64⟩, .WASM_VAR⟩) ∧
    ∃ c, wasm_functype_copy functype_copy_all_ok
        (some ⟨⟨3, some [some ⟨.WASM_I32⟩, some ⟨.WASM_I64⟩, none], 2⟩,
               ⟨1, some [some ⟨.WASM_F64⟩], 1⟩⟩) = some (some c) ∧
      valtype_vec_kinds c.params = [some .WASM_I32, some .WASM_I64] ∧
      valtype_vec_kinds c.results = [some .WASM_F64] :=
  match type_copy_roundtrip ⟨.WASM_F32⟩
      ⟨⟨3, some [some ⟨.WASM_I32⟩, some ⟨.WASM_I64⟩, none], 2⟩, ⟨1, some [some ⟨.WASM_F64⟩], 1⟩⟩
      ⟨⟨.WASM_I64⟩, .WASM_VAR⟩ ⟨⟨.WASM_FUNCREF⟩, ⟨3, 4⟩⟩ ⟨⟨1, 2⟩⟩ (by decide) (by decide) with
  | ⟨_, ⟨c, hc, hp, hr⟩, hg, _, _, _⟩ => ⟨hg, c, hc, hp, hr⟩

/-- C14, counterexample.  Copying a module vector with one populated element
yields the zeroed vector although no allocation fails: the element copy
operation `wasm_module_copy` is a stub that returns null. -/
theorem module_vec_copy_yields_empty :
    wasm_module_vec_copy true ⟨1, some [some ⟨some 11, none⟩], 1⟩
      = some ⟨⟨0, none, 0⟩, [], []⟩ := by
  decide

/-- C14, amended.  Owning-vector deep copy, for every owning vector `src`
(well formed: populated count within capacity and buffer, non-null populated
cells) whose element copy operation returns, for each populated element, an
object that compares equal by structure (`same`): when the buffer allocation
succeeds, `wasm_<name>_vec_copy` yields a vector with the populated count of
`src` whose cell `i` is the result of the copy operation on cell `i` of `src`
and is structurally equal to it, for every `i` below the populated count; no
destructor runs. -/
theorem owning_vec_deep_copy {T : Type} (copy : Nat → Option T → Option (Option T))
    (same : T → T → Prop) (src : wasm_vec_t (Option T)) (hwf : src.well_formed = true)
    (hcopy : ∀ i x, i < src.num_elems → (src.data.getD [])[i]? = some (some x) →
      ∃ c, copy i (some x) = some (some c) ∧ same c x) :
    ∃ r, wasm_vec_copy true copy src = some r ∧ r.destroyed = [] ∧
      r.out.num_elems = src.num_elems ∧
      ∀ i, i < src.num_elems →
        ∃ x c, (src.data.getD [])[i]? = some (some x) ∧ copy i (some x) = some (some c) ∧
          (r.out.data.getD [])[i]? = some (some c) ∧ same c x := by
  obtain ⟨hcount, hcells⟩ := well_formed_cells src hwf
  by_cases hsize : src.size = 0
  · refine ⟨⟨wasm_vec_t.zero, [], []⟩, by simp [wasm_vec_copy, hsize], rfl, ?_, ?_⟩
    · simp only [wasm_vec_t.zero]; omega
    · intro i hi; omega
  · obtain ⟨out_cells, copies, hrun, _, _, hmid⟩ :=
      wasm_vec_copy_ok copy src hsize hcount
        (by
          intro j hj
          obtain ⟨x, hx⟩ := hcells j hj
          obtain ⟨c, hc, _⟩ := hcopy j x hj hx
          exact ⟨some x, c, hx, hc⟩)
    refine ⟨_, hrun, rfl, rfl, ?_⟩
    intro i hi
    obtain ⟨x, hx⟩ := hcells i hi
    obtain ⟨c, hc, hsame⟩ := hcopy i x hi hx
    obtain ⟨e, c1, he, hc1, ho⟩ := hmid i hi
    rw [hx] at he
    simp only [Option.some.injEq] at he
    subst he
    rw [hc] at hc1
    simp only [Option.some.injEq] at hc1
    subst hc1
    exact ⟨x, c, hx, hc, by simpa using ho, hsame⟩

/-- Witness of C14: the copy of a vector of three function types, with
`wasm_functype_copy` as the element copy operation and every allocation
successful. -/
theorem owning_vec_deep_copy_witness :
    ∃ r, wasm_functype_vec_copy true (fun _ => functype_copy_all_ok) three_functypes = some r ∧
      r.destroyed = [] ∧ r.out.num_elems = 3 :=
  match owning_vec_deep_copy (fun _ => wasm_functype_copy functype_copy_all_ok)
      (fun c x => c.params.populated = x.params.populated
        ∧ c.results.populated = x.results.populated)
      three_functypes (by decide)
      (by
        intro i x hi hx
        have hi3 : i < 3 := hi
        have hwf : x.params.well_formed = true ∧ x.results.well_formed = true := by
          interval_cases i <;>
            · simp only [three_functypes, Option.getD_some] at hx
              simp at hx
              subst hx
              decide
        obtain ⟨c, hc, hp, hr, _, _⟩ := wasm_functype_copy_ok x hwf.1 hwf.2
        exact ⟨c, hc, hp, hr⟩) with
  | ⟨r, hr, hd, hn, _⟩ => ⟨r, hr, hd, hn⟩

/-- C16, evaluation at the failing input.  A vector of three function types
is copied and the third element copy fails (the allocation of the type).  The
output is left zeroed, but `wasm_functype_vec_delete (out)` runs while the
populated count of `out` is still zero, so the element destructor is handed
no reference: the two copies already made are not destroyed. -/
theorem functype_vec_copy_leaks_on_failure :
    (wasm_functype_vec_copy true
        (fun i => if i = 2 then { functype_copy_all_ok with type_ok := false }
          else functype_copy_all_ok)
        three_functypes).map
      (fun r => (r.out, r.copies.length, r.destroyed))
      = some (⟨0, none, 0⟩, 2, []) := by
  decide

/-! ## Reflection: auxiliary facts -/

/-- A byte vector built from a C string when the allocation succeeds. -/
theorem wasm_byte_vec_new_of_bytes (bytes : List Nat) :
    wasm_byte_vec_new true bytes.length (some bytes) = some (byte_vec_of bytes) := by
  by_cases h : bytes.length = 0
  · simp [wasm_byte_vec_new, byte_vec_of, h]
  · simp [wasm_byte_vec_new, byte_vec_of, h, bh_vector_init]

/-- Either loop of `wasm_functype_new_internal`, when the value types are
allocated and the vector has a free cell for each element: the cells after the
populated ones receive the value types of the codes `types[base + i ..]`. -/
theorem wasm_functype_new_internal_loop_ok (elem_ok : Nat → Bool) (grow : Nat → Option Nat)
    (types : List value_type_rt) (base : Nat) (hok : ∀ i, elem_ok i = true) :
    ∀ (n i : Nat) (pre : List (Option wasm_valtype_t)),
      base + i + n ≤ types.length →
      wasm_functype_new_internal_loop elem_ok grow types base n i
          ⟨pre.length + n, some (pre ++ List.replicate n none), pre.length⟩
        = some (some ⟨pre.length + n,
            some (pre ++ ((types.drop (base + i)).take n).map
              fun t => some ⟨val_type_rt_2_valkind t⟩),
            pre.length + n⟩) := by
  intro n
  induction n with
  | zero =>
    intro i pre _
    simp [wasm_functype_new_internal_loop]
  | succ n ih =>
    intro i pre hlen
    have hi : base + i < types.length := by omega
    have hget : types[base + i]? = some types[base + i] := List.getElem?_eq_getElem hi
    have hdrop : types.drop (base + i) = types[base + i] :: types.drop (base + i + 1) :=
      List.drop_eq_getElem_cons hi
    have hstep := ih (i + 1) (pre ++ [some ⟨val_type_rt_2_valkind types[base + i]⟩])
      (by omega)
    simp only [List.length_append, List.length_singleton, List.append_assoc,
      List.singleton_append] at hstep
    have hadd : base + (i + 1) = base + i + 1 := by omega
    rw [hadd] at hstep
    have hsz : pre.length + 1 + n = pre.length + (n + 1) := by omega
    rw [hsz] at hstep
    simp only [wasm_functype_new_internal_loop, hget, wasm_valtype_new_internal,
      wasm_valtype_new, hok, if_true, bh_vector_append]
    rw [if_pos (by omega)]
    simp only [List.length_append, List.length_replicate]
    rw [if_pos (by omega)]
    simp only [List.replicate_succ, set_at_append]
    have htake : (types.drop (base + i)).take (n + 1)
        = types[base + i] :: (types.drop (base + i + 1)).take n := by
      rw [hdrop, List.take_succ_cons]
    rw [hstep, htake, List.map_cons]

/-- The vector that a loop of `wasm_functype_new_internal` fills from an
uninitialized vector of `n` cells. -/
theorem wasm_functype_new_internal_vec (elem_ok : Nat → Bool) (grow : Nat → Option Nat)
    (types : List value_type_rt) (base n : Nat) (hok : ∀ i, elem_ok i = true)
    (hlen : base + n ≤ types.length) :
    wasm_functype_new_internal_loop elem_ok grow types base n 0
        (wasm_vec_new_uninitialized true n)
      = some (some (valtype_vec_of_kinds
          (((types.drop base).take n).map val_type_rt_2_valkind))) := by
  by_cases hn : n = 0
  · subst hn
    simp [wasm_vec_new_uninitialized, wasm_functype_new_internal_loop, valtype_vec_of_kinds]
  · have h := wasm_functype_new_internal_loop_ok elem_ok grow types base hok n 0 [] (by omega)
    have hl : ((types.drop base).take n).length = n := by
      simp only [List.length_take, List.length_drop]
      omega
    have hd : (default : Option wasm_valtype_t) = none := rfl
    simp only [List.length_nil, Nat.zero_add, List.nil_append, Nat.add_zero] at h
    simp only [wasm_vec_new_uninitialized, if_neg hn, bh_vector_init, if_true, hd, h,
      valtype_vec_of_kinds, List.length_map, hl, List.map_map]
    rfl

/-- The function type that `wasm_functype_new_internal` builds when every
allocation succeeds. -/
theorem wasm_functype_new_internal_ok (o : functype_new_outcomes) (t : WASMType)
    (hok : o.succeed) (hlen : t.param_count + t.result_count ≤ t.types.length) :
    wasm_functype_new_internal o (some t)
      = some (some
          ⟨valtype_vec_of_kinds ((t.types.take t.param_count).map val_type_rt_2_valkind),
           valtype_vec_of_kinds
             (((t.types.drop t.param_count).take t.result_count).map
               val_type_rt_2_valkind)⟩) := by
  obtain ⟨h1, h2, h3, h4, h5, h6, h7⟩ := hok
  have hp := wasm_functype_new_internal_vec o.param_elem_ok o.param_grow t.types 0
    t.param_count h4 (by omega)
  have hr := wasm_functype_new_internal_vec o.result_elem_ok o.result_grow t.types
    t.param_count t.result_count h7 hlen
  simp only [List.drop_zero] at hp
  have hc1 : ∀ n, ¬ ((wasm_vec_new_uninitialized true n :
      wasm_vec_t (Option wasm_valtype_t)).size ≠ 0 ∧
      (wasm_vec_new_uninitialized true n :
        wasm_vec_t (Option wasm_valtype_t)).data.isNone = true) := by
    intro n
    by_cases hn : n = 0
    · simp [wasm_vec_new_uninitialized, hn, wasm_vec_t.zero]
    · simp [wasm_vec_new_uninitialized, hn, bh_vector_init]
  simp only [wasm_functype_new_internal, h1, h2, h3, h5, h6, Bool.not_true,
    Bool.false_eq_true, if_false, if_neg (hc1 _), hp, hr]

/-- On a code that names a value type, `val_type_rt_2_valkind` returns the
kind that the code stands for. -/
theorem val_type_rt_2_valkind_spec (c : value_type_rt) (k : wasm_valkind_t)
    (h : valkind_spec c = some k) : val_type_rt_2_valkind c = k := by
  cases c <;> simp [valkind_spec] at h <;> simp [val_type_rt_2_valkind, h]

/-- On codes that name value types, mapping `val_type_rt_2_valkind` gives the
kinds that the codes stand for. -/
theorem kinds_spec_map :
    ∀ (cs : List value_type_rt) (ks : List wasm_valkind_t),
      kinds_spec cs = some ks → cs.map val_type_rt_2_valkind = ks := by
  intro cs
  induction cs with
  | nil =>
    intro ks h
    simp [kinds_spec] at h
    simp [h]
  | cons c cs ih =>
    intro ks h
    cases hc : valkind_spec c with
    | none => simp [kinds_spec, hc] at h
    | some k =>
      cases hcs : kinds_spec cs with
      | none => simp [kinds_spec, hc, hcs] at h
      | some ks1 =>
        simp [kinds_spec, hc, hcs] at h
        subst h
        simp [val_type_rt_2_valkind_spec c k hc, ih ks1 hcs]

/-- The switch of `wasm_module_imports` builds the extern type that the
specification asks for, when the descriptor is supported, its type codes name
value types and every allocation succeeds. -/
theorem wasm_module_imports_externtype_ok (o : import_reflect_outcomes) (import_rt : WASMImport)
    (hok : o.succeed) (hsup : import_rt.supported = true)
    (htyped : import_rt.value_typed = true) :
    ∃ externtype, import_externtype_spec import_rt = some externtype ∧
      wasm_module_imports_externtype o import_rt = some (some externtype) := by
  obtain ⟨_, _, _, _, hf, hv, ht, _⟩ := hok
  unfold WASMImport.supported at hsup
  unfold WASMImport.value_typed at htyped
  unfold wasm_module_imports_externtype import_externtype_spec
  cases hk : import_rt.kind with
  | IMPORT_KIND_FUNC =>
    rw [hk] at hsup htyped
    cases hft : import_rt.func_type with
    | none => simp [hft] at hsup
    | some t =>
      simp only [hft, decide_eq_true_eq] at hsup
      simp only [hft, Bool.and_eq_true, Option.isSome_iff_exists] at htyped
      obtain ⟨⟨ps, hps⟩, ⟨rs, hrs⟩⟩ := htyped
      refine ⟨.WASM_EXTERN_FUNC ⟨valtype_vec_of_kinds ps, valtype_vec_of_kinds rs⟩,
        by simp only [hps, hrs], ?_⟩
      simp only [wasm_functype_new_internal_ok o.functype t hf hsup, Option.map_some',
        kinds_spec_map _ ps hps, kinds_spec_map _ rs hrs]
  | IMPORT_KIND_GLOBAL =>
    rw [hk] at htyped
    simp only [Option.isSome_iff_exists] at htyped
    obtain ⟨k, hkind⟩ := htyped
    refine ⟨.WASM_EXTERN_GLOBAL ⟨⟨k⟩,
      if import_rt.global_is_mutable then .WASM_VAR else .WASM_CONST⟩,
      by simp only [hkind], ?_⟩
    simp [wasm_globaltype_new_internal, wasm_valtype_new, wasm_globaltype_new, hv, ht,
      val_type_rt_2_valkind_spec _ k hkind]
  | IMPORT_KIND_TABLE =>
    rw [hk] at htyped
    simp only [Option.isSome_iff_exists] at htyped
    obtain ⟨k, hkind⟩ := htyped
    refine ⟨.WASM_EXTERN_TABLE ⟨⟨k⟩, ⟨import_rt.table_init_size, import_rt.table_max_size⟩⟩,
      by simp only [hkind], ?_⟩
    simp [wasm_tabletype_new_internal, wasm_valtype_new_internal, wasm_valtype_new,
      wasm_tabletype_new, hv, ht, val_type_rt_2_valkind_spec _ k hkind]
  | IMPORT_KIND_MEMORY =>
    refine ⟨_, rfl, ?_⟩
    simp [wasm_memorytype_new_internal, wasm_memorytype_new, ht]
  | other code =>
    rw [hk] at hsup
    simp at hsup

/-- The loop of `wasm_module_imports`, when every descriptor is supported, its
type codes name value types and every allocation succeeds: the free cells of
`out` receive the import types that the specification asks for, in the order
of the descriptors. -/
theorem wasm_module_imports_loop_ok (o : Nat → import_reflect_outcomes)
    (hok : ∀ i, (o i).succeed) :
    ∀ (rest : List WASMImport) (i : Nat) (pre : List (Option wasm_importtype_t)),
      (∀ import_rt, import_rt ∈ rest → import_rt.supported = true) →
      (∀ import_rt, import_rt ∈ rest → import_rt.value_typed = true) →
      wasm_module_imports_loop o rest i
          ⟨pre.length + rest.length, some (pre ++ List.replicate rest.length none), pre.length⟩
        = some ⟨pre.length + rest.length,
            some (pre ++ rest.map fun import_rt => some (importtype_spec import_rt)),
            pre.length + rest.length⟩ := by
  intro rest
  induction rest with
  | nil =>
    intro i pre _ _
    simp [wasm_module_imports_loop]
  | cons import_rt rest ih =>
    intro i pre hsup htyped
    obtain ⟨h1, h2, h3, h4, _, _, _, h8⟩ := hok i
    obtain ⟨externtype, hexternal, hext⟩ :=
      wasm_module_imports_externtype_ok (o i) import_rt (hok i)
        (hsup import_rt (List.mem_cons_self _ _)) (htyped import_rt (List.mem_cons_self _ _))
    have hstep := ih (i + 1) (pre ++ [some (importtype_spec import_rt)])
      (fun x hx => hsup x (List.mem_cons_of_mem _ hx))
      (fun x hx => htyped x (List.mem_cons_of_mem _ hx))
    simp only [List.length_append, List.length_singleton, List.append_assoc,
      List.singleton_append] at hstep
    have hsz : pre.length + 1 + rest.length = pre.length + (rest.length + 1) := by omega
    rw [hsz] at hstep
    have hb1 : ∀ bytes : List Nat,
        ¬ ((byte_vec_of bytes).size ≠ 0 ∧ (byte_vec_of bytes).data.isNone = true) := by
      intro bytes
      by_cases hb : bytes.length = 0
      · simp [byte_vec_of, hb, wasm_vec_t.zero]
      · simp [byte_vec_of, hb]
    simp only [wasm_module_imports_loop, h1, h2, h3, h4, h8, Bool.not_true,
      Bool.false_eq_true, if_false, wasm_byte_vec_new_of_bytes, if_neg (hb1 _), hext,
      wasm_importtype_new, if_true, bh_vector_append, List.length_cons]
    rw [if_pos (by omega)]
    simp only [List.length_append, List.length_replicate]
    rw [if_pos (by omega)]
    simp only [List.replicate_succ, set_at_append]
    have hit : (⟨some (byte_vec_of import_rt.module_name),
        some (byte_vec_of import_rt.field_name), some externtype⟩ : wasm_importtype_t)
        = importtype_spec import_rt := by
      simp [importtype_spec, hexternal]
    rw [hit, hstep, List.map_cons]

/-- C17. In an interpreter build, when every import descriptor has a supported
kind (and a function descriptor a readable signature), its type codes name
value types and every allocation succeeds, `wasm_module_imports` outputs
exactly `import_count` import types in declaration order; the `i`-th carries
the bytes of the module name and of the field name of descriptor `i` and the
extern type of its kind built from its fields: the parameter kinds then the
result kinds of the signature, the value kind and the mutability of a global,
the element kind and the (init, max) limits of a table, the (init, max) page
limits of a memory, a value type code giving the kind that `valkind_spec`
tabulates for it. -/
theorem module_imports_reflects (o : Nat → import_reflect_outcomes) (imports : List WASMImport)
    (hok : ∀ i, (o i).succeed)
    (hsup : ∀ import_rt, import_rt ∈ imports → import_rt.supported = true)
    (htyped : ∀ import_rt, import_rt ∈ imports → import_rt.value_typed = true) :
    ∃ out, wasm_module_imports true o imports = some out ∧
      out.size = imports.length ∧
      out.num_elems = imports.length ∧
      out.populated = imports.map (fun import_rt => some (importtype_spec import_rt)) ∧
      ∀ (i : Nat) (import_rt : WASMImport), imports[i]? = some import_rt →
        ∃ externtype, import_externtype_spec import_rt = some externtype ∧
          out.populated[i]? = some (some (⟨some (byte_vec_of import_rt.module_name),
            some (byte_vec_of import_rt.field_name), some externtype⟩ : wasm_importtype_t)) := by
  have hcell : ∀ (populated : List (Option wasm_importtype_t)),
      populated = imports.map (fun import_rt => some (importtype_spec import_rt)) →
      ∀ (i : Nat) (import_rt : WASMImport), imports[i]? = some import_rt →
        ∃ externtype, import_externtype_spec import_rt = some externtype ∧
          populated[i]? = some (some (⟨some (byte_vec_of import_rt.module_name),
            some (byte_vec_of import_rt.field_name), some externtype⟩ : wasm_importtype_t)) := by
    intro populated hp i import_rt hi
    have hmem : import_rt ∈ imports := by
      obtain ⟨hlt, hget⟩ := List.getElem?_eq_some_iff.mp hi
      exact hget ▸ List.getElem_mem hlt
    obtain ⟨externtype, hexternal, _⟩ :=
      wasm_module_imports_externtype_ok (o 0) import_rt (hok 0) (hsup _ hmem) (htyped _ hmem)
    refine ⟨externtype, hexternal, ?_⟩
    rw [hp, List.getElem?_map, hi]
    simp [importtype_spec, hexternal]
  by_cases hn : imports.length = 0
  · have hnil : imports = [] := List.length_eq_zero.mp hn
    subst hnil
    refine ⟨wasm_vec_t.zero, ?_, rfl, rfl, ?_, ?_⟩
    · simp [wasm_module_imports, wasm_vec_new_uninitialized, wasm_module_imports_loop]
    · simp [wasm_vec_t.populated, wasm_vec_t.zero]
    · intro i import_rt hi
      simp at hi
  · have h := wasm_module_imports_loop_ok o hok imports 0 [] hsup htyped
    simp only [List.length_nil, Nat.zero_add, List.nil_append] at h
    have hd : (default : Option wasm_importtype_t) = none := rfl
    have hpop : (⟨imports.length,
        some (imports.map fun import_rt => some (importtype_spec import_rt)),
        imports.length⟩ : wasm_vec_t (Option wasm_importtype_t)).populated
        = imports.map (fun import_rt => some (importtype_spec import_rt)) := by
      simp [wasm_vec_t.populated]
    refine ⟨⟨imports.length,
      some (imports.map fun import_rt => some (importtype_spec import_rt)),
      imports.length⟩, ?_, rfl, rfl, hpop, hcell _ hpop⟩
    simp only [wasm_module_imports, wasm_vec_new_uninitialized, if_neg hn, bh_vector_init,
      if_true, hd]
    exact h

/-- Witness of C17: a function import `f` of type `(i32, f64) -> (i64)`, a
mutable i64 global import `g`, a funcref table import `t` with limits (3, 4)
and a memory import `m` with limits (1, 2), all of the module `env`; the
output holds the four import types with these kinds. -/
theorem module_imports_reflects_witness :
    ∃ out, wasm_module_imports true (fun _ => import_reflect_all_ok) sample_imports = some out ∧
      out.size = 4 ∧
      out.num_elems = 4 ∧
      out.populated =
        [some ⟨some ⟨3, some [101, 110, 118], 3⟩, some ⟨1, some [102], 1⟩,
           some (.WASM_EXTERN_FUNC
             ⟨⟨2, some [some ⟨.WASM_I32⟩, some ⟨.WASM_F64⟩], 2⟩,
              ⟨1, some [some ⟨.WASM_I64⟩], 1⟩⟩)⟩,
         some ⟨some ⟨3, some [101, 110, 118], 3⟩, some ⟨1, some [103], 1⟩,
           some (.WASM_EXTERN_GLOBAL ⟨⟨.WASM_I64⟩, .WASM_VAR⟩)⟩,
         some ⟨some ⟨3, some [101, 110, 118], 3⟩, some ⟨1, some [116], 1⟩,
           some (.WASM_EXTERN_TABLE ⟨⟨.WASM_FUNCREF⟩, ⟨3, 4⟩⟩)⟩,
         some ⟨some ⟨3, some [101, 110, 118], 3⟩, some ⟨1, some [109], 1⟩,
           some (.WASM_EXTERN_MEMORY ⟨⟨1, 2⟩⟩)⟩] :=
  have h := module_imports_reflects (fun _ => import_reflect_all_ok) sample_imports
    (fun _ => ⟨rfl, rfl, rfl, rfl, ⟨rfl, rfl, rfl, fun _ => rfl, rfl, rfl, fun _ => rfl⟩,
      rfl, rfl, rfl⟩)
    (by decide) (by decide)
  match h with
  | ⟨out, h1, h2, h3, h4, _⟩ => ⟨out, h1, h2, h3, h4⟩

/-- The exit `failed` of the reflection functions leaves the zeroed header. -/
theorem reflect_failed_zero {T : Type} (out r : wasm_vec_t (Option T))
    (h : reflect_failed out = some r) : r = wasm_vec_t.zero := by
  unfold reflect_failed wasm_vec_delete_own at h
  by_cases hl : (out.data.getD []).length < out.num_elems
  · simp [hl] at h
  · simp only [if_neg hl, Option.map_some', Option.some.injEq, bh_vector_destroy] at h
    exact h.symm

/-- The loop of `wasm_module_imports` on a descriptor table that holds an
unsupported kind: every return leaves the zeroed header in `out`. -/
theorem wasm_module_imports_loop_unsupported (o : Nat → import_reflect_outcomes) :
    ∀ (rest : List WASMImport) (i : Nat) (out r : wasm_vec_t (Option wasm_importtype_t)),
      (∃ import_rt code, import_rt ∈ rest ∧ import_rt.kind = .other code) →
      wasm_module_imports_loop o rest i out = some r → r = wasm_vec_t.zero := by
  intro rest
  induction rest with
  | nil =>
    intro i out r hex _
    obtain ⟨x, c, hx, _⟩ := hex
    simp at hx
  | cons import_rt rest ih =>
    intro i out r hex h
    unfold wasm_module_imports_loop at h
    repeat' split at h
    all_goals first
      | exact reflect_failed_zero _ _ h
      | (exfalso; simp at h)
      | skip
    have hext : ∃ e, wasm_module_imports_externtype (o i) import_rt = some (some e) :=
      ⟨_, by assumption⟩
    obtain ⟨e, hext⟩ := hext
    obtain ⟨x, c, hx, hk⟩ := hex
    rcases List.mem_cons.mp hx with rfl | hx
    · simp [wasm_module_imports_externtype, hk] at hext
    · exact ih _ _ _ ⟨x, c, hx, hk⟩ h

/-- An unsupported import kind aborts `wasm_module_imports`: whenever the
function returns, on a descriptor table that holds an unsupported kind, `out`
is the zeroed vector (no partial list). -/
theorem wasm_module_imports_unsupported (out_data_ok : Bool)
    (o : Nat → import_reflect_outcomes) (imports : List WASMImport)
    (r : wasm_vec_t (Option wasm_importtype_t))
    (hex : ∃ import_rt code, import_rt ∈ imports ∧ import_rt.kind = .other code)
    (h : wasm_module_imports out_data_ok o imports = some r) : r = wasm_vec_t.zero :=
  wasm_module_imports_loop_unsupported o imports 0 _ r hex h

/-- C18, evaluation at the failing input.  For the export table `f` (a
function), `x` (an unsupported kind) and `m` (a memory), with every
allocation successful, `wasm_module_exports` does not abort: the default case
of its switch leaves the switch with a null extern type, and the output holds
three export types, the second one named `x` and without an extern type.  The
sibling `wasm_module_imports` leaves its output zeroed when the second
descriptor has an unsupported kind. -/
theorem module_exports_keeps_unsupported_entry :
    (wasm_module_exports sample_lookup true (fun _ => export_reflect_all_ok)
        sample_exports).map (fun out => out.num_elems) = some 3 ∧
    (wasm_module_exports sample_lookup true (fun _ => export_reflect_all_ok)
        sample_exports).map
      (fun out => out.populated.map fun cell => cell.bind fun e =>
        e.name.map fun n => n.populated)
      = some [some [102], some [120], some [109]] ∧
    (wasm_module_exports sample_lookup true (fun _ => export_reflect_all_ok)
        sample_exports).map
      (fun out => out.populated.map fun cell => cell.map fun e =>
        e.externtype.map wasm_externtype_kind)
      = some [some (some .WASM_EXTERN_FUNC), some none, some (some .WASM_EXTERN_MEMORY)] ∧
    wasm_module_imports true (fun _ => import_reflect_all_ok)
        [⟨.IMPORT_KIND_GLOBAL, [101, 110, 118], [103], none,
           .VALUE_TYPE_I64, true, .other 0, 0, 0, 0, 0⟩,
         ⟨.other 7, [101, 110, 118], [120], none, .other 0, false, .other 0, 0, 0, 0, 0⟩]
      = some ⟨0, none, 0⟩ := by
  decide

/-! ## Instantiation: auxiliary facts -/

/-- `interp_link_func` touches only the import vector of the instance. -/
theorem interp_link_func_inst (clone_ok : Bool) (grow : Option Nat) (inst inst1 : wasm_instance_t)
    (module_interp module1 : WASMModule) (idx : Nat) (func func1 : wasm_func_t) (b : Bool)
    (h : interp_link_func clone_ok grow inst module_interp idx func
      = some (b, inst1, module1, func1)) :
    inst1.inst_comm_rt = inst.inst_comm_rt ∧ inst1.exports = inst.exports := by
  unfold interp_link_func at h
  repeat' split at h
  all_goals first
    | (simp only [Option.some.injEq, Prod.mk.injEq] at h
       obtain ⟨_, rfl, _, _⟩ := h
       exact ⟨rfl, rfl⟩)
    | simp at h

/-- The loop of `interp_link` touches only the import vector of the
instance. -/
theorem interp_link_loop_inst (BH_DEBUG : Bool) (o : Nat → link_outcomes) :
    ∀ (rest : List WASMImport) (i fi gi : Nat) (st st1 : interp_link_state) (b : Bool),
      interp_link_loop BH_DEBUG o rest i fi gi st = some (b, st1) →
      st1.inst.inst_comm_rt = st.inst.inst_comm_rt ∧ st1.inst.exports = st.inst.exports := by
  intro rest
  induction rest with
  | nil =>
    intro i fi gi st st1 b h
    simp only [interp_link_loop, Option.some.injEq, Prod.mk.injEq] at h
    obtain ⟨_, rfl⟩ := h
    exact ⟨rfl, rfl⟩
  | cons import_rt rest ih =>
    intro i fi gi st st1 b h
    unfold interp_link_loop at h
    repeat' split at h
    all_goals first
      | (simp only [Option.some.injEq, Prod.mk.injEq] at h
         obtain ⟨-, rfl⟩ := h
         first
           | exact ⟨rfl, rfl⟩
           | (rename_i hlink
              exact interp_link_func_inst _ _ _ _ _ _ _ _ _ _ hlink))
      | (have hrec := ih _ _ _ _ _ _ h
         first
           | exact hrec
           | (rename_i hlink
              have hf := interp_link_func_inst _ _ _ _ _ _ _ _ _ _ hlink
              exact ⟨hrec.1.trans hf.1, hrec.2.trans hf.2⟩))
      | simp at h

/-- `interp_link` touches only the import vector of the instance. -/
theorem interp_link_inst (BH_DEBUG : Bool) (o : Nat → link_outcomes)
    (st st1 : interp_link_state) (n : Nat)
    (h : interp_link BH_DEBUG o st = some (n, st1)) :
    st1.inst.inst_comm_rt = st.inst.inst_comm_rt ∧ st1.inst.exports = st.inst.exports := by
  unfold interp_link at h
  cases hl : interp_link_loop BH_DEBUG o st.module_interp.imports 0 0 0 st with
  | none => simp [hl] at h
  | some res =>
    obtain ⟨b, st2⟩ := res
    have hinv := interp_link_loop_inst BH_DEBUG o _ _ _ _ _ _ _ hl
    cases b <;>
    · simp only [hl, Option.some.injEq, Prod.mk.injEq] at h
      obtain ⟨-, rfl⟩ := h
      exact hinv

/-- `interp_link` reports a complete link only when its loop ran to its end. -/
theorem interp_link_complete (BH_DEBUG : Bool) (o : Nat → link_outcomes)
    (st st1 : interp_link_state) (n : Nat)
    (h : interp_link BH_DEBUG o st = some (n, st1)) :
    (interp_link_loop BH_DEBUG o st.module_interp.imports 0 0 0 st = some (true, st1)
      ∧ n = st.module_interp.imports.length)
    ∨ (interp_link_loop BH_DEBUG o st.module_interp.imports 0 0 0 st = some (false, st1)
      ∧ n = UINT32_MAX) := by
  unfold interp_link at h
  cases hl : interp_link_loop BH_DEBUG o st.module_interp.imports 0 0 0 st with
  | none => simp [hl] at h
  | some res =>
    obtain ⟨b, st2⟩ := res
    cases b <;>
    · simp only [hl, Option.some.injEq, Prod.mk.injEq] at h
      obtain ⟨rfl, rfl⟩ := h
      simp

/-- The link phase of `wasm_instance_new` leaves an instance that has no
backend instance and no export vector. -/
theorem wasm_instance_new_link_instance (o : instance_new_outcomes) (mode : runtime_mode_e)
    (module_rt : module_rt_t) (imports : Option (List (Option wasm_extern_t)))
    (linked : instance_link_result)
    (h : wasm_instance_new_link o mode module_rt imports = some linked) :
    linked.instance_.inst_comm_rt = none ∧ linked.instance_.exports = none := by
  simp only [wasm_instance_new_link] at h
  repeat' split at h
  all_goals first
    | (simp only [Option.some.injEq] at h
       subst h
       first
         | exact ⟨rfl, rfl⟩
         | (rename_i hlink
            exact interp_link_inst _ _ _ _ _ hlink))
    | simp at h

/-- The export part of `wasm_instance_new` keeps the backend instance of the
instance and its vector of imports. -/
theorem wasm_instance_new_exports_inst (o : instance_new_outcomes) (w : world) (store : Nat)
    (mode : runtime_mode_e) (instance1 instance2 : wasm_instance_t) (inst : module_inst_rt)
    (ok : Bool)
    (h : wasm_instance_new_exports o w store mode instance1 inst = some (ok, instance2)) :
    instance2.inst_comm_rt = instance1.inst_comm_rt ∧ instance2.imports = instance1.imports := by
  simp only [wasm_instance_new_exports] at h
  repeat' split at h
  all_goals first
    | (simp only [Option.some.injEq, Prod.mk.injEq] at h
       obtain ⟨-, rfl⟩ := h
       exact ⟨rfl, rfl⟩)
    | (simp only [Option.map_eq_some', Prod.mk.injEq] at h
       obtain ⟨_, _, -, rfl⟩ := h
       exact ⟨rfl, rfl⟩)
    | simp at h

/-- The shapes of a return of `wasm_instance_new`: the exit through `failed`
before the backend is asked for an instance, after it gave none, or after it
gave one; or the registration of the instance in the store. -/
theorem wasm_instance_new_cases
    (wasm_runtime_instantiate : module_rt_t → Option (Nat × module_inst_rt))
    (o : instance_new_outcomes) (w : world) (store : Nat) (module_rt : module_rt_t)
    (imports : Option (List (Option wasm_extern_t))) (r : instance_new_result)
    (h : wasm_instance_new wasm_runtime_instantiate o w store module_rt imports = some r) :
    (∃ m i d, r = wasm_instance_new_failed w m i d ∧
      ∀ x, d = some x → x.inst_comm_rt = none) ∨
    (∃ m i d, r = wasm_instance_new_failed
        { w with trace := w.trace ++ [trace_event.instantiate none] } m i (some d) ∧
      d.inst_comm_rt = none ∧
      ∃ mode linked, current_runtime_mode w = some mode ∧
        wasm_instance_new_link o mode module_rt imports = some linked ∧ linked.ok = true) ∨
    (∃ m i d handle, r = wasm_instance_new_failed
        { w with trace := w.trace ++ [trace_event.instantiate (some handle)] } m i (some d) ∧
      d.inst_comm_rt = some handle ∧
      ∃ mode linked, current_runtime_mode w = some mode ∧
        wasm_instance_new_link o mode module_rt imports = some linked ∧ linked.ok = true) ∨
    (∃ mode linked handle inst imports1 instance2 s instances instances1,
      current_runtime_mode w = some mode ∧
      wasm_instance_new_link o mode module_rt imports = some linked ∧ linked.ok = true ∧
      wasm_runtime_instantiate linked.module_rt = some (handle, inst) ∧
      wasm_instance_new_exports o
        { w with trace := w.trace ++ [trace_event.instantiate (some handle)] } store mode
        { linked.instance_ with inst_comm_rt := some handle } inst = some (true, instance2) ∧
      w.stores store = some s ∧ s.instances = some instances ∧
      bh_vector_append o.grow instances (some instance2) = some (true, instances1) ∧
      r = { ret := some instance2
            w := { w with
              trace := w.trace ++ [trace_event.instantiate (some handle)]
              stores := heap_set w.stores store (some { s with instances := some instances1 }) }
            module_rt := linked.module_rt
            imports := imports1
            deleted := none }) := by
  unfold wasm_instance_new at h
  by_cases h1 : w.singleton_engine = none ∨ store = 0
  · simp [h1] at h
  rw [if_neg h1] at h
  by_cases h2 : (!o.instance_ok) = true
  · rw [if_pos h2] at h
    simp only [Option.some.injEq] at h
    exact Or.inl ⟨_, _, none, h.symm, fun x hx => by simp at hx⟩
  rw [if_neg h2] at h
  cases hmode : current_runtime_mode w with
  | none => simp [hmode] at h
  | some mode =>
    simp only [hmode] at h
    cases hlink : wasm_instance_new_link o mode module_rt imports with
    | none => simp [hlink] at h
    | some linked =>
      simp only [hlink] at h
      obtain ⟨hl1, _⟩ := wasm_instance_new_link_instance o mode module_rt imports linked hlink
      by_cases h3 : (!linked.ok) = true
      · rw [if_pos h3] at h
        simp only [Option.some.injEq] at h
        refine Or.inl ⟨_, _, some linked.instance_, h.symm, ?_⟩
        intro x hx
        simp only [Option.some.injEq] at hx
        subst hx
        exact hl1
      rw [if_neg h3] at h
      have hok : linked.ok = true := by simpa using h3
      cases hinst : wasm_runtime_instantiate linked.module_rt with
      | none =>
        simp only [hinst, Option.map_none'] at h
        simp only [Option.some.injEq] at h
        exact Or.inr (Or.inl ⟨_, _, linked.instance_, h.symm, hl1, mode, linked, rfl, hlink, hok⟩)
      | some res =>
        obtain ⟨handle, inst⟩ := res
        simp only [hinst, Option.map_some'] at h
        cases hfill : wasm_instance_new_fill_imports (some handle) linked.import_count
            linked.imports with
        | none => simp [hfill] at h
        | some imports1 =>
          simp only [hfill] at h
          cases hexp : wasm_instance_new_exports o
              { w with trace := w.trace ++ [trace_event.instantiate (some handle)] } store mode
              { linked.instance_ with inst_comm_rt := some handle } inst with
          | none => simp [hexp] at h
          | some res2 =>
            obtain ⟨ok, instance2⟩ := res2
            obtain ⟨hi2, _⟩ := wasm_instance_new_exports_inst _ _ _ _ _ _ _ _ hexp
            have hi2' : instance2.inst_comm_rt = some handle := hi2
            cases ok with
            | false =>
              simp only [hexp, Option.some.injEq] at h
              exact Or.inr (Or.inr (Or.inl ⟨_, _, instance2, handle, h.symm, hi2',
                mode, linked, rfl, hlink, hok⟩))
            | true =>
              simp only [hexp] at h
              cases hs : w.stores store with
              | none => simp [hs] at h
              | some s =>
                simp only [hs] at h
                cases hsi : s.instances with
                | none =>
                  simp only [hsi, Option.some.injEq] at h
                  exact Or.inr (Or.inr (Or.inl ⟨_, _, instance2, handle, h.symm, hi2',
                mode, linked, rfl, hlink, hok⟩))
                | some instances =>
                  simp only [hsi] at h
                  cases happ : bh_vector_append o.grow instances (some instance2) with
                  | none => simp [happ] at h
                  | some res3 =>
                    obtain ⟨b, instances1⟩ := res3
                    cases b with
                    | false =>
                      simp only [happ, Option.some.injEq] at h
                      exact Or.inr (Or.inr (Or.inl ⟨_, _, instance2, handle, h.symm, hi2',
                mode, linked, rfl, hlink, hok⟩))
                    | true =>
                      simp only [happ, Option.some.injEq] at h
                      exact Or.inr (Or.inr (Or.inr ⟨mode, linked, handle, inst, imports1,
                        instance2, s, instances, instances1, rfl, hlink, hok, hinst, hexp,
                        rfl, hsi, happ, h.symm⟩))

/-- A successful `bh_vector_append` on a bounded vector: the populated count
grows by one, the vector stays bounded, the populated cells are kept and the
element is in the cell after them. -/
theorem bh_vector_append_spec {α : Type} [Inhabited α] (grow : Option Nat)
    (v v1 : wasm_vec_t α) (x : α) (hb : v.bounded)
    (h : bh_vector_append grow v x = some (true, v1)) :
    v1.num_elems = v.num_elems + 1 ∧ v1.bounded ∧
    (∀ j, j < v.num_elems → (v1.data.getD [])[j]? = (v.data.getD [])[j]?) ∧
    (v1.data.getD [])[v.num_elems]? = some x := by
  obtain ⟨hb1, hb2⟩ := hb
  unfold bh_vector_append at h
  by_cases hcap : v.num_elems + 1 ≤ v.size
  · rw [if_pos hcap] at h
    cases hd : v.data with
    | none => simp [hd] at h
    | some cells =>
      simp only [hd] at h
      simp only [hd, Option.getD_some] at hb2
      by_cases hlt : v.num_elems < cells.length
      · rw [if_pos hlt] at h
        simp only [Option.some.injEq, Prod.mk.injEq, true_and] at h
        subst h
        refine ⟨rfl, ⟨hcap, ?_⟩, ?_, ?_⟩
        · simp only [Option.getD_some, List.length_set]; omega
        · intro j hj
          simp only [Option.getD_some]
          rw [List.getElem?_set_ne (by omega)]
        · simp only [Option.getD_some]
          rw [List.getElem?_set_self hlt]
      · rw [if_neg hlt] at h
        simp at h
  · rw [if_neg hcap] at h
    cases grow with
    | none => simp at h
    | some extra =>
      simp only [Option.some.injEq, Prod.mk.injEq, true_and] at h
      subst h
      have hold : (((v.data.getD []).take v.size).take v.num_elems).length = v.num_elems := by
        simp only [List.length_take]
        omega
      refine ⟨rfl, ⟨?_, ?_⟩, ?_, ?_⟩
      · show v.num_elems + 1 ≤ v.num_elems + 1 + extra
        omega
      · simp only [Option.getD_some, List.length_append, List.length_cons,
          List.length_replicate, hold]
        omega
      · intro j hj
        simp only [Option.getD_some]
        rw [List.getElem?_append_left (by rw [hold]; exact hj)]
        simp only [List.getElem?_take]
        rw [if_pos hj, if_pos (by omega)]
      · simp only [Option.getD_some]
        rw [List.getElem?_append_right (by rw [hold])]
        simp [hold]

/-- The exit `failed` of `wasm_instance_new` returns null, keeps the stores
and records the calls of `wasm_instance_delete_internal`. -/
theorem wasm_instance_new_failed_spec (w1 : world) (m : module_rt_t)
    (i : Option (List (Option wasm_extern_t))) (d : Option wasm_instance_t) :
    (wasm_instance_new_failed w1 m i d).ret = none ∧
    (wasm_instance_new_failed w1 m i d).w.stores = w1.stores ∧
    (wasm_instance_new_failed w1 m i d).w.trace
      = w1.trace ++ wasm_instance_delete_internal d :=
  ⟨rfl, rfl, rfl⟩

/-- A link phase that does not pass makes `wasm_instance_new` leave through
`failed` before the backend is asked for an instance. -/
theorem wasm_instance_new_of_link_failure
    (wasm_runtime_instantiate : module_rt_t → Option (Nat × module_inst_rt))
    (o : instance_new_outcomes) (w : world) (store : Nat) (module_rt : module_rt_t)
    (imports : Option (List (Option wasm_extern_t))) (mode : runtime_mode_e)
    (linked : instance_link_result)
    (h1 : ¬ (w.singleton_engine = none ∨ store = 0)) (hok : o.instance_ok = true)
    (hmode : current_runtime_mode w = some mode)
    (hlink : wasm_instance_new_link o mode module_rt imports = some linked)
    (hfail : linked.ok = false) :
    wasm_instance_new wasm_runtime_instantiate o w store module_rt imports
      = some (wasm_instance_new_failed w linked.module_rt linked.imports
          (some linked.instance_)) := by
  simp [wasm_instance_new, h1, hok, hmode, hlink, hfail]

/-- The link phase does not pass when the header of the import vector cannot
be allocated. -/
theorem wasm_instance_new_link_no_header (o : instance_new_outcomes) (mode : runtime_mode_e)
    (module_rt : module_rt_t) (imports_ : List (Option wasm_extern_t))
    (hfit : (mode = .INTERP_MODE ∧ ∃ m, module_rt = .interp m)
      ∨ (mode = .AOT_MODE ∧ ∃ m, module_rt = .aot m))
    (hvec : o.imports_vec_ok = false) :
    ∃ linked, wasm_instance_new_link o mode module_rt (some imports_) = some linked ∧
      linked.ok = false ∧ linked.instance_ = ⟨none, none, none⟩ ∧
      linked.module_rt = module_rt ∧ linked.imports = some imports_ := by
  rcases hfit with ⟨rfl, m, rfl⟩ | ⟨rfl, m, rfl⟩
  · exact ⟨⟨false, ⟨none, none, none⟩, .interp m, some imports_, m.imports.length⟩,
      by simp [wasm_instance_new_link, hvec], rfl, rfl, rfl, rfl⟩
  · exact ⟨⟨false, ⟨none, none, none⟩, .aot m, some imports_,
        (m.import_funcs.length + m.import_globals.length + m.import_memory_count
          + m.import_table_count) % UINT32_MOD⟩,
      by simp [wasm_instance_new_link, hvec], rfl, rfl, rfl, rfl⟩

/-- In interpreter mode the link phase does not pass when `interp_link`
returns a count that differs from `import_count`, or when `import_count` is
negative as an `int32`. -/
theorem wasm_instance_new_link_incomplete (o : instance_new_outcomes)
    (module_interp : WASMModule) (imports_ : List (Option wasm_extern_t)) (n : Nat)
    (st : interp_link_state)
    (hvec : o.imports_vec_ok = true) (hdata : o.imports_data_ok = true)
    (hne : module_interp.imports ≠ [])
    (hlink : interp_link o.BH_DEBUG o.link
      ⟨⟨some (wasm_vec_new_uninitialized true module_interp.imports.length), none, none⟩,
        module_interp, imports_⟩ = some (n, st))
    (hn : n ≠ module_interp.imports.length ∨ 2147483648 ≤ module_interp.imports.length) :
    ∃ linked, wasm_instance_new_link o .INTERP_MODE (.interp module_interp) (some imports_)
        = some linked ∧
      linked.ok = false ∧ linked.instance_ = st.inst ∧
      linked.module_rt = .interp st.module_interp ∧ linked.imports = some st.imports := by
  have hlen : module_interp.imports.length ≠ 0 := by
    intro h0
    exact hne (List.length_eq_zero.mp h0)
  have hsz : ¬ ((wasm_vec_new_uninitialized true module_interp.imports.length :
      wasm_vec_t (Option wasm_extern_t)).size ≠ 0 ∧
      (wasm_vec_new_uninitialized true module_interp.imports.length :
        wasm_vec_t (Option wasm_extern_t)).data.isNone = true) := by
    simp [wasm_vec_new_uninitialized, hlen, bh_vector_init]
  refine ⟨⟨false, st.inst, .interp st.module_interp, some st.imports,
    module_interp.imports.length⟩, ?_, rfl, rfl, rfl, rfl⟩
  simp only [wasm_instance_new_link, hvec, hdata, Bool.not_true, Bool.false_eq_true, if_false,
    if_neg hsz, if_neg hlen, hlink, Option.some.injEq]
  rcases hn with hn | hn
  · have hd : ¬ module_interp.imports.length = n := fun h => hn h.symm
    simp [hd]
  · simp [hn]

/-- In AOT mode the link phase does not pass when `aot_link` returns a count
that is negative as an `int32`. -/
theorem wasm_instance_new_link_aot_failure (o : instance_new_outcomes)
    (module_aot : AOTModule) (imports_ : List (Option wasm_extern_t)) (n : Nat)
    (st : aot_link_state)
    (hvec : o.imports_vec_ok = true) (hdata : o.imports_data_ok = true)
    (hne : (module_aot.import_funcs.length + module_aot.import_globals.length
        + module_aot.import_memory_count + module_aot.import_table_count) % UINT32_MOD ≠ 0)
    (hlink : aot_link o.BH_DEBUG o.link ⟨module_aot, imports_⟩ = some (n, st))
    (hn : 2147483648 ≤ n) :
    ∃ linked, wasm_instance_new_link o .AOT_MODE (.aot module_aot) (some imports_)
        = some linked ∧
      linked.ok = false ∧ linked.module_rt = .aot st.module_aot ∧
      linked.imports = some st.imports := by
  have hsz : ¬ ((wasm_vec_new_uninitialized true
      ((module_aot.import_funcs.length + module_aot.import_globals.length
        + module_aot.import_memory_count + module_aot.import_table_count) % UINT32_MOD) :
      wasm_vec_t (Option wasm_extern_t)).size ≠ 0 ∧
      (wasm_vec_new_uninitialized true
        ((module_aot.import_funcs.length + module_aot.import_globals.length
          + module_aot.import_memory_count + module_aot.import_table_count) % UINT32_MOD) :
        wasm_vec_t (Option wasm_extern_t)).data.isNone = true) := by
    simp [wasm_vec_new_uninitialized, hne, bh_vector_init]
  refine ⟨⟨false,
    ⟨some (wasm_vec_new_uninitialized true
      ((module_aot.import_funcs.length + module_aot.import_globals.length
        + module_aot.import_memory_count + module_aot.import_table_count) % UINT32_MOD)),
      none, none⟩,
    .aot st.module_aot, some st.imports, n⟩, ?_, rfl, rfl, rfl⟩
  simp only [wasm_instance_new_link, hvec, hdata, Bool.not_true, Bool.false_eq_true, if_false,
    if_neg hsz, if_neg hne, hlink, Option.some.injEq]
  simp [hn]

/-- The loop of `interp_link` leaves through `failed` when the clone of a
function import cannot be allocated, whatever the build. -/
theorem interp_link_clone_failure (BH_DEBUG : Bool) (o : Nat → link_outcomes)
    (st : interp_link_state) (import_rt : WASMImport) (rest : List WASMImport)
    (func : wasm_func_t) (more : List (Option wasm_extern_t))
    (himports : st.module_interp.imports = import_rt :: rest)
    (hkind : import_rt.kind = .IMPORT_KIND_FUNC)
    (hsupplied : st.imports = some (.WASM_EXTERN_FUNC func) :: more)
    (hfuncs : st.module_interp.import_functions ≠ [])
    (hclone : (o 0).clone_ok = false) :
    ∃ st1, interp_link BH_DEBUG o st = some (UINT32_MAX, st1) ∧ st1.inst = st.inst ∧
      st1.module_interp = st.module_interp := by
  have hlen : 0 < st.module_interp.import_functions.length :=
    List.length_pos.mpr hfuncs
  refine ⟨⟨st.inst, st.module_interp, st.imports.set 0 (some (.WASM_EXTERN_FUNC func))⟩,
    ?_, rfl, rfl⟩
  simp only [interp_link, himports, interp_link_loop, hsupplied, List.getElem?_cons_zero, hkind,
    interp_link_func, Nat.zero_mod, if_pos hlen, hclone, wasm_func_copy, Bool.false_eq_true,
    if_false]

/-- A backend that gives no instance makes `wasm_instance_new` leave through
`failed`. -/
theorem wasm_instance_new_of_instantiate_failure
    (wasm_runtime_instantiate : module_rt_t → Option (Nat × module_inst_rt))
    (o : instance_new_outcomes) (w : world) (store : Nat) (module_rt : module_rt_t)
    (imports : Option (List (Option wasm_extern_t))) (mode : runtime_mode_e)
    (linked : instance_link_result)
    (h1 : ¬ (w.singleton_engine = none ∨ store = 0)) (hok : o.instance_ok = true)
    (hmode : current_runtime_mode w = some mode)
    (hlink : wasm_instance_new_link o mode module_rt imports = some linked)
    (hpass : linked.ok = true)
    (hinst : wasm_runtime_instantiate linked.module_rt = none) :
    wasm_instance_new wasm_runtime_instantiate o w store module_rt imports
      = some (wasm_instance_new_failed
          { w with trace := w.trace ++ [trace_event.instantiate none] }
          linked.module_rt linked.imports (some linked.instance_)) := by
  simp [wasm_instance_new, h1, hok, hmode, hlink, hpass, hinst]

/-- An export phase that does not pass makes `wasm_instance_new` leave through
`failed` with the instance that holds the backend instance. -/
theorem wasm_instance_new_of_export_failure
    (wasm_runtime_instantiate : module_rt_t → Option (Nat × module_inst_rt))
    (o : instance_new_outcomes) (w : world) (store : Nat) (module_rt : module_rt_t)
    (imports : Option (List (Option wasm_extern_t))) (mode : runtime_mode_e)
    (linked : instance_link_result) (handle : Nat) (inst : module_inst_rt)
    (imports1 : Option (List (Option wasm_extern_t))) (instance2 : wasm_instance_t)
    (h1 : ¬ (w.singleton_engine = none ∨ store = 0)) (hok : o.instance_ok = true)
    (hmode : current_runtime_mode w = some mode)
    (hlink : wasm_instance_new_link o mode module_rt imports = some linked)
    (hpass : linked.ok = true)
    (hinst : wasm_runtime_instantiate linked.module_rt = some (handle, inst))
    (hfill : wasm_instance_new_fill_imports (some handle) linked.import_count linked.imports
      = some imports1)
    (hexp : wasm_instance_new_exports o
      { w with trace := w.trace ++ [trace_event.instantiate (some handle)] } store mode
      { linked.instance_ with inst_comm_rt := some handle } inst = some (false, instance2)) :
    wasm_instance_new wasm_runtime_instantiate o w store module_rt imports
      = some (wasm_instance_new_failed
          { w with trace := w.trace ++ [trace_event.instantiate (some handle)] }
          linked.module_rt imports1 (some instance2)) := by
  simp [wasm_instance_new, h1, hok, hmode, hlink, hpass, hinst, hfill, hexp]

/-- The export phase does not pass when the header of the export vector
cannot be allocated. -/
theorem wasm_instance_new_exports_no_header (o : instance_new_outcomes) (w : world)
    (store : Nat) (mode : runtime_mode_e) (instance_ : wasm_instance_t) (inst : module_inst_rt)
    (hfit : (mode = .INTERP_MODE ∧ ∃ i, inst = .interp i)
      ∨ (mode = .AOT_MODE ∧ ∃ i, inst = .aot i))
    (hvec : o.exports_vec_ok = false) :
    wasm_instance_new_exports o w store mode instance_ inst = some (false, instance_) := by
  rcases hfit with ⟨rfl, i, rfl⟩ | ⟨rfl, i, rfl⟩ <;>
    simp [wasm_instance_new_exports, hvec]

/-- A failed registration in the instance list of the store makes
`wasm_instance_new` leave through `failed`. -/
theorem wasm_instance_new_of_registration_failure
    (wasm_runtime_instantiate : module_rt_t → Option (Nat × module_inst_rt))
    (o : instance_new_outcomes) (w : world) (store : Nat) (module_rt : module_rt_t)
    (imports : Option (List (Option wasm_extern_t))) (mode : runtime_mode_e)
    (linked : instance_link_result) (handle : Nat) (inst : module_inst_rt)
    (imports1 : Option (List (Option wasm_extern_t))) (instance2 : wasm_instance_t)
    (s : wasm_store_t) (instances instances1 : wasm_vec_t (Option wasm_instance_t))
    (h1 : ¬ (w.singleton_engine = none ∨ store = 0)) (hok : o.instance_ok = true)
    (hmode : current_runtime_mode w = some mode)
    (hlink : wasm_instance_new_link o mode module_rt imports = some linked)
    (hpass : linked.ok = true)
    (hinst : wasm_runtime_instantiate linked.module_rt = some (handle, inst))
    (hfill : wasm_instance_new_fill_imports (some handle) linked.import_count linked.imports
      = some imports1)
    (hexp : wasm_instance_new_exports o
      { w with trace := w.trace ++ [trace_event.instantiate (some handle)] } store mode
      { linked.instance_ with inst_comm_rt := some handle } inst = some (true, instance2))
    (hs : w.stores store = some s) (hsi : s.instances = some instances)
    (happ : bh_vector_append o.grow instances (some instance2) = some (false, instances1)) :
    wasm_instance_new wasm_runtime_instantiate o w store module_rt imports
      = some (wasm_instance_new_failed
          { w with trace := w.trace ++ [trace_event.instantiate (some handle)] }
          linked.module_rt imports1 (some instance2)) := by
  simp [wasm_instance_new, h1, hok, hmode, hlink, hpass, hinst, hfill, hexp, hs, hsi, happ]

/-- `bh_vector_append` reports failure on a vector without a free cell when
the reallocation fails. -/
theorem bh_vector_append_full {α : Type} [Inhabited α] (v : wasm_vec_t α) (x : α)
    (hfull : v.size ≤ v.num_elems) : bh_vector_append none v x = some (false, v) := by
  simp [bh_vector_append, Nat.not_le.mpr (Nat.lt_succ_of_le hfull)]

/-- C12. `wasm_instance_new` is atomic with respect to the store, under the
assertion on the engine and the store.  The exit `failed` returns null, keeps
the stores and runs `wasm_instance_delete_internal` on the partially built
instance, and every failing step takes it: the allocation of the instance;
the allocation of the import vector; a link phase that does not pass, which
is the case when `interp_link` returns a count other than `import_count`
(so when the clone of a function import cannot be allocated) and when
`aot_link` returns a negative count; a backend that gives no instance; an
export phase that does not pass, which is the case when the export vector
cannot be allocated; and a failed registration, which is the case when the
instance list of the store is full and cannot be reallocated.  (The loop
`fill with inst` has no failing step for an external of one of the four
kinds.)  Moreover every return falls under one of two cases.  With a null
result, the stores (hence the instance list of the store) and the engine are
unchanged, and `wasm_instance_delete_internal` ran on the partially built
instance: either the backend was not asked for an instance or gave none, and
the instance handed to the destructor has no backend instance; or the backend
gave an instance, the instance handed to the destructor holds it (with
its import and export vectors) and it was deinstantiated.  With a non-null
result, the instance has a backend instance, which was not deinstantiated,
and it was appended to the instance list of the store: the populated count
grew by one and, on a bounded list, the cell after the former populated cells
holds the instance while the former cells are kept. -/
theorem instance_new_atomic
    (wasm_runtime_instantiate : module_rt_t → Option (Nat × module_inst_rt))
    (o : instance_new_outcomes) (w : world) (store : Nat) (module_rt : module_rt_t)
    (imports : Option (List (Option wasm_extern_t)))
    (hengine : w.singleton_engine ≠ none) (hstore : store ≠ 0) :
    (∀ (w1 : world) (m : module_rt_t) (i : Option (List (Option wasm_extern_t)))
        (d : Option wasm_instance_t),
      (wasm_instance_new_failed w1 m i d).ret = none ∧
      (wasm_instance_new_failed w1 m i d).w.stores = w1.stores ∧
      (wasm_instance_new_failed w1 m i d).w.trace
        = w1.trace ++ wasm_instance_delete_internal d) ∧
    (o.instance_ok = false →
      wasm_instance_new wasm_runtime_instantiate o w store module_rt imports
        = some (wasm_instance_new_failed w module_rt imports none)) ∧
    (o.instance_ok = true → (∃ mode, current_runtime_mode w = some mode) →
      wasm_runtime_instantiate module_rt = none →
      wasm_instance_new wasm_runtime_instantiate o w store module_rt none
        = some (wasm_instance_new_failed
            { w with trace := w.trace ++ [trace_event.instantiate none] } module_rt none
            (some ⟨none, none, none⟩))) ∧
    (o.instance_ok = true → ∀ mode, current_runtime_mode w = some mode →
      (∀ imports_, imports = some imports_ →
        (mode = .INTERP_MODE ∧ ∃ m, module_rt = .interp m)
          ∨ (mode = .AOT_MODE ∧ ∃ m, module_rt = .aot m) →
        o.imports_vec_ok = false →
        wasm_instance_new wasm_runtime_instantiate o w store module_rt imports
          = some (wasm_instance_new_failed w module_rt imports (some ⟨none, none, none⟩))) ∧
      (∀ linked, wasm_instance_new_link o mode module_rt imports = some linked →
        linked.ok = false →
        wasm_instance_new wasm_runtime_instantiate o w store module_rt imports
          = some (wasm_instance_new_failed w linked.module_rt linked.imports
              (some linked.instance_))) ∧
      (∀ (module_interp : WASMModule) (imports_ : List (Option wasm_extern_t)) (n : Nat)
          (st : interp_link_state),
        mode = .INTERP_MODE → module_rt = .interp module_interp → imports = some imports_ →
        o.imports_vec_ok = true → o.imports_data_ok = true → module_interp.imports ≠ [] →
        interp_link o.BH_DEBUG o.link
          ⟨⟨some (wasm_vec_new_uninitialized true module_interp.imports.length), none, none⟩,
            module_interp, imports_⟩ = some (n, st) →
        n ≠ module_interp.imports.length ∨ 2147483648 ≤ module_interp.imports.length →
        wasm_instance_new wasm_runtime_instantiate o w store module_rt imports
          = some (wasm_instance_new_failed w (.interp st.module_interp) (some st.imports)
              (some st.inst))) ∧
      (∀ (module_interp : WASMModule) (import_rt : WASMImport) (rest : List WASMImport)
          (func : wasm_func_t) (more : List (Option wasm_extern_t)),
        mode = .INTERP_MODE → module_rt = .interp module_interp →
        imports = some (some (.WASM_EXTERN_FUNC func) :: more) →
        module_interp.imports = import_rt :: rest → import_rt.kind = .IMPORT_KIND_FUNC →
        module_interp.import_functions ≠ [] →
        o.imports_vec_ok = true → o.imports_data_ok = true → (o.link 0).clone_ok = false →
        ∃ r, wasm_instance_new wasm_runtime_instantiate o w store module_rt imports = some r ∧
          r.ret = none ∧ r.w.stores = w.stores ∧ r.w.trace = w.trace) ∧
      (∀ (module_aot : AOTModule) (imports_ : List (Option wasm_extern_t)) (n : Nat)
          (st : aot_link_state),
        mode = .AOT_MODE → module_rt = .aot module_aot → imports = some imports_ →
        o.imports_vec_ok = true → o.imports_data_ok = true →
        (module_aot.import_funcs.length + module_aot.import_globals.length
          + module_aot.import_memory_count + module_aot.import_table_count) % UINT32_MOD ≠ 0 →
        aot_link o.BH_DEBUG o.link ⟨module_aot, imports_⟩ = some (n, st) →
        2147483648 ≤ n →
        ∃ r, wasm_instance_new wasm_runtime_instantiate o w store module_rt imports = some r ∧
          r.ret = none ∧ r.w.stores = w.stores ∧ r.w.trace = w.trace) ∧
      (∀ linked, wasm_instance_new_link o mode module_rt imports = some linked →
        linked.ok = true →
        (wasm_runtime_instantiate linked.module_rt = none →
          wasm_instance_new wasm_runtime_instantiate o w store module_rt imports
            = some (wasm_instance_new_failed
                { w with trace := w.trace ++ [trace_event.instantiate none] }
                linked.module_rt linked.imports (some linked.instance_))) ∧
        ∀ (handle : Nat) (inst : module_inst_rt)
            (imports1 : Option (List (Option wasm_extern_t))),
          wasm_runtime_instantiate linked.module_rt = some (handle, inst) →
          wasm_instance_new_fill_imports (some handle) linked.import_count linked.imports
            = some imports1 →
          (∀ instance2, wasm_instance_new_exports o
              { w with trace := w.trace ++ [trace_event.instantiate (some handle)] } store mode
              { linked.instance_ with inst_comm_rt := some handle } inst
              = some (false, instance2) →
            wasm_instance_new wasm_runtime_instantiate o w store module_rt imports
              = some (wasm_instance_new_failed
                  { w with trace := w.trace ++ [trace_event.instantiate (some handle)] }
                  linked.module_rt imports1 (some instance2))) ∧
          ((mode = .INTERP_MODE ∧ ∃ i, inst = .interp i)
              ∨ (mode = .AOT_MODE ∧ ∃ i, inst = .aot i) →
            o.exports_vec_ok = false →
            ∃ r, wasm_instance_new wasm_runtime_instantiate o w store module_rt imports
                = some r ∧
              r.ret = none ∧ r.w.stores = w.stores ∧
              r.w.trace = w.trace ++ [trace_event.instantiate (some handle),
                trace_event.deinstantiate handle]) ∧
          (∀ instance2 s instances, wasm_instance_new_exports o
              { w with trace := w.trace ++ [trace_event.instantiate (some handle)] } store mode
              { linked.instance_ with inst_comm_rt := some handle } inst
              = some (true, instance2) →
            w.stores store = some s → s.instances = some instances →
            ((∃ instances1, bh_vector_append o.grow instances (some instance2)
                = some (false, instances1))
              ∨ (instances.size ≤ instances.num_elems ∧ o.grow = none)) →
            wasm_instance_new wasm_runtime_instantiate o w store module_rt imports
              = some (wasm_instance_new_failed
                  { w with trace := w.trace ++ [trace_event.instantiate (some handle)] }
                  linked.module_rt imports1 (some instance2))))) ∧
    ∀ r, wasm_instance_new wasm_runtime_instantiate o w store module_rt imports = some r →
      r.w.singleton_engine = w.singleton_engine ∧ r.w.engines = w.engines ∧
      (r.ret.isNone = true →
        r.w.stores = w.stores ∧
        ((r.w.trace = w.trace ∧ ∀ d, r.deleted = some d → d.inst_comm_rt = none) ∨
         (r.w.trace = w.trace ++ [trace_event.instantiate none] ∧
           ∀ d, r.deleted = some d → d.inst_comm_rt = none) ∨
         ∃ handle d, r.deleted = some d ∧ d.inst_comm_rt = some handle ∧
           r.w.trace = w.trace
             ++ [trace_event.instantiate (some handle), trace_event.deinstantiate handle])) ∧
      (∀ inst, r.ret = some inst →
        r.deleted = none ∧
        ∃ handle s instances instances1,
          inst.inst_comm_rt = some handle ∧
          r.w.trace = w.trace ++ [trace_event.instantiate (some handle)] ∧
          w.stores store = some s ∧ s.instances = some instances ∧
          r.w.stores = heap_set w.stores store (some { s with instances := some instances1 }) ∧
          (instances.bounded →
            instances1.num_elems = instances.num_elems + 1 ∧
            bh_vector_get instances1 instances.num_elems = some (some inst) ∧
            ∀ j, j < instances.num_elems →
              bh_vector_get instances1 j = bh_vector_get instances j)) := by
  have h1 : ¬ (w.singleton_engine = none ∨ store = 0) := by
    intro h
    rcases h with h | h
    · exact hengine h
    · exact hstore h
  refine ⟨fun w1 m i d => wasm_instance_new_failed_spec w1 m i d, ?_, ?_, ?_, ?_⟩
  · intro hfail
    simp [wasm_instance_new, h1, hfail]
  · intro hok hmode hinst
    obtain ⟨mode, hmode⟩ := hmode
    simp [wasm_instance_new, h1, hok, hmode, wasm_instance_new_link, hinst]
  · intro hok mode hmode
    refine ⟨?_, ?_, ?_, ?_, ?_, ?_⟩
    · intro imports_ himp hfit hvec
      subst himp
      obtain ⟨linked, hl, hf, hi, hm, hs⟩ :=
        wasm_instance_new_link_no_header o mode module_rt imports_ hfit hvec
      have h := wasm_instance_new_of_link_failure wasm_runtime_instantiate o w store module_rt
        (some imports_) mode linked h1 hok hmode hl hf
      rw [hi, hm, hs] at h
      exact h
    · intro linked hl hf
      exact wasm_instance_new_of_link_failure wasm_runtime_instantiate o w store module_rt
        imports mode linked h1 hok hmode hl hf
    · intro module_interp imports_ n st hm hmod himp hvec hdata hne hlink hn
      subst hm hmod himp
      obtain ⟨linked, hl, hf, hi, hmr, hs⟩ :=
        wasm_instance_new_link_incomplete o module_interp imports_ n st hvec hdata hne hlink hn
      have h := wasm_instance_new_of_link_failure wasm_runtime_instantiate o w store _ _ _
        linked h1 hok hmode hl hf
      rw [hi, hmr, hs] at h
      exact h
    · intro module_interp import_rt rest func more hm hmod himp himports hkind hfuncs hvec
        hdata hclone
      subst hm hmod himp
      obtain ⟨st1, hlink, hinst1, _⟩ := interp_link_clone_failure o.BH_DEBUG o.link
        ⟨⟨some (wasm_vec_new_uninitialized true module_interp.imports.length), none, none⟩,
          module_interp, some (.WASM_EXTERN_FUNC func) :: more⟩
        import_rt rest func more himports hkind rfl hfuncs hclone
      have hne : module_interp.imports ≠ [] := by rw [himports]; simp
      have hn : UINT32_MAX ≠ module_interp.imports.length
          ∨ 2147483648 ≤ module_interp.imports.length := by
        by_cases hc : module_interp.imports.length = UINT32_MAX
        · right; rw [hc]; decide
        · left; exact fun h => hc h.symm
      obtain ⟨linked, hl, hf, hi, hmr, hs⟩ :=
        wasm_instance_new_link_incomplete o module_interp _ UINT32_MAX st1 hvec hdata hne
          hlink hn
      have h := wasm_instance_new_of_link_failure wasm_runtime_instantiate o w store _ _ _
        linked h1 hok hmode hl hf
      refine ⟨_, h, rfl, rfl, ?_⟩
      simp [wasm_instance_new_failed, wasm_instance_delete_internal, hi, hinst1]
    · intro module_aot imports_ n st hm hmod himp hvec hdata hne hlink hn
      subst hm hmod himp
      obtain ⟨linked, hl, hf, _, _⟩ :=
        wasm_instance_new_link_aot_failure o module_aot imports_ n st hvec hdata hne hlink hn
      have h := wasm_instance_new_of_link_failure wasm_runtime_instantiate o w store _ _ _
        linked h1 hok hmode hl hf
      obtain ⟨hi, _⟩ := wasm_instance_new_link_instance o _ _ _ linked hl
      refine ⟨_, h, rfl, rfl, ?_⟩
      simp [wasm_instance_new_failed, wasm_instance_delete_internal, hi]
    · intro linked hl hpass
      refine ⟨?_, ?_⟩
      · intro hinst
        exact wasm_instance_new_of_instantiate_failure wasm_runtime_instantiate o w store
          module_rt imports mode linked h1 hok hmode hl hpass hinst
      · intro handle inst imports1 hinst hfill
        refine ⟨?_, ?_, ?_⟩
        · intro instance2 hexp
          exact wasm_instance_new_of_export_failure wasm_runtime_instantiate o w store
            module_rt imports mode linked handle inst imports1 instance2 h1 hok hmode hl hpass
            hinst hfill hexp
        · intro hfit hvec
          have hexp := wasm_instance_new_exports_no_header o
            { w with trace := w.trace ++ [trace_event.instantiate (some handle)] } store mode
            { linked.instance_ with inst_comm_rt := some handle } inst hfit hvec
          have h := wasm_instance_new_of_export_failure wasm_runtime_instantiate o w store
            module_rt imports mode linked handle inst imports1 _ h1 hok hmode hl hpass
            hinst hfill hexp
          refine ⟨_, h, rfl, rfl, ?_⟩
          simp [wasm_instance_new_failed, wasm_instance_delete_internal]
        · intro instance2 s instances hexp hs hsi happ
          have happ1 : ∃ instances1, bh_vector_append o.grow instances (some instance2)
              = some (false, instances1) := by
            rcases happ with happ | ⟨hfull, hgrow⟩
            · exact happ
            · exact ⟨instances, by rw [hgrow]; exact bh_vector_append_full _ _ hfull⟩
          obtain ⟨instances1, happ1⟩ := happ1
          exact wasm_instance_new_of_registration_failure wasm_runtime_instantiate o w store
            module_rt imports mode linked handle inst imports1 instance2 s instances
            instances1 h1 hok hmode hl hpass hinst hfill hexp hs hsi happ1
  · intro r h
    rcases wasm_instance_new_cases _ _ _ _ _ _ _ h with
      ⟨m, i, d, rfl, hd⟩ | ⟨m, i, d, rfl, hd, _⟩ | ⟨m, i, d, handle, rfl, hd, _⟩ |
      ⟨mode, linked, handle, inst, imports1, instance2, s, instances, instances1, _, hlink,
        _, _, hexp, hs, hsi, happ, rfl⟩
    · refine ⟨rfl, rfl, ?_, ?_⟩
      · intro _
        refine ⟨rfl, Or.inl ⟨?_, hd⟩⟩
        cases d with
        | none => simp [wasm_instance_new_failed, wasm_instance_delete_internal]
        | some x =>
          simp [wasm_instance_new_failed, wasm_instance_delete_internal, hd x rfl]
      · intro inst hi
        simp [wasm_instance_new_failed] at hi
    · refine ⟨rfl, rfl, ?_, ?_⟩
      · intro _
        refine ⟨rfl, Or.inr (Or.inl ⟨?_, ?_⟩)⟩
        · simp [wasm_instance_new_failed, wasm_instance_delete_internal, hd]
        · intro d1 hd1
          simp only [wasm_instance_new_failed, Option.some.injEq] at hd1
          subst hd1
          exact hd
      · intro inst hi
        simp [wasm_instance_new_failed] at hi
    · refine ⟨rfl, rfl, ?_, ?_⟩
      · intro _
        refine ⟨rfl, Or.inr (Or.inr ⟨handle, d, rfl, hd, ?_⟩)⟩
        simp [wasm_instance_new_failed, wasm_instance_delete_internal, hd]
      · intro inst hi
        simp [wasm_instance_new_failed] at hi
    · refine ⟨rfl, rfl, ?_, ?_⟩
      · intro hnone
        simp at hnone
      · intro inst1 hi
        simp only [Option.some.injEq] at hi
        subst hi
        obtain ⟨hi2, _⟩ := wasm_instance_new_exports_inst _ _ _ _ _ _ _ _ hexp
        refine ⟨rfl, handle, s, instances, instances1, hi2, rfl, hs, hsi, rfl, ?_⟩
        intro hb
        obtain ⟨hn, _, hkeep, hlast⟩ := bh_vector_append_spec _ _ _ _ hb happ
        refine ⟨hn, ?_, ?_⟩
        · simp only [bh_vector_get, hn]
          rw [if_pos (by omega)]
          exact hlast
        · intro j hj
          simp only [bh_vector_get, hn]
          rw [if_pos (by omega), if_pos hj]
          exact hkeep j hj


/-- Witness of C12.  The clone of the function import cannot be allocated:
the call returns null before the backend is asked for an instance.  The
allocation of the third exported external fails after the backend gave the
instance 21: the call returns null with the stores unchanged. -/
theorem instance_new_atomic_witness :
    (∃ r, wasm_instance_new interp_backend
        { instance_new_all_ok with link := fun _ => ⟨false, none, true, true⟩ }
        interp_store_world 200 (.interp func_importing_module)
        (some [some (.WASM_EXTERN_FUNC host_increment)]) = some r ∧
      r.ret = none ∧ r.w.stores = interp_store_world.stores ∧
      r.w.trace = interp_store_world.trace) ∧
    ∃ r, wasm_instance_new interp_backend third_export_fails interp_store_world 200
        (.interp func_importing_module) (some [some (.WASM_EXTERN_FUNC host_increment)])
        = some r ∧
      r.ret.isNone = true ∧ r.w.stores = interp_store_world.stores :=
  have hsome : (wasm_instance_new interp_backend third_export_fails interp_store_world 200
        (.interp func_importing_module)
        (some [some (.WASM_EXTERN_FUNC host_increment)])).isSome = true := by decide
  ⟨((instance_new_atomic interp_backend
        { instance_new_all_ok with link := fun _ => ⟨false, none, true, true⟩ }
        interp_store_world 200 (.interp func_importing_module)
        (some [some (.WASM_EXTERN_FUNC host_increment)])
        (by decide) (by decide)).2.2.2.1 rfl .INTERP_MODE rfl).2.2.2.1
      func_importing_module (import_of_kind .IMPORT_KIND_FUNC) [] host_increment []
      rfl rfl rfl rfl rfl (List.cons_ne_nil _ _) rfl rfl rfl,
   ⟨_, (Option.some_get hsome).symm, rfl,
    (((instance_new_atomic interp_backend third_export_fails interp_store_world 200
        (.interp func_importing_module) (some [some (.WASM_EXTERN_FUNC host_increment)])
        (by decide) (by decide)).2.2.2.2 _
      (Option.some_get hsome).symm).2.2.1 rfl).1⟩⟩
/-- C11, evaluation at the failing input.  In interpreter mode, for a module
that imports a function and a table and an import array that supplies both,
every allocation successful, `wasm_instance_new` does not return null.  In a
build without assertions the link loop leaves the switch at the table import
and counts it as linked: `interp_link` returns the full count 2, the backend
is asked for an instance, and the instance is returned and registered in the
store although its table import is not linked.  In a build with assertions
the link loop stops at the assertion of `ASSERT_NOT_IMPLEMENTED`, so the call
does not return.  In AOT mode, for a module that declares one table import,
the call returns an instance, which is registered in the store, in either
build. -/
theorem instance_new_table_import_not_null :
    (interp_link false instance_new_all_ok.link
        ⟨⟨some (wasm_vec_new_uninitialized true 2), none, none⟩, table_importing_module,
          [some (.WASM_EXTERN_FUNC host_increment), some (.WASM_EXTERN_TABLE host_table)]⟩).map
      (fun r => r.1) = some 2 ∧
    (wasm_instance_new interp_backend { instance_new_all_ok with BH_DEBUG := false }
        interp_store_world 200 (.interp table_importing_module)
        (some [some (.WASM_EXTERN_FUNC host_increment),
               some (.WASM_EXTERN_TABLE host_table)])).map
      (fun r => (r.ret.isSome, ((r.w.stores 200).bind fun s => s.instances).map
        (fun v => v.num_elems), r.w.trace))
      = some (true, some 1, [trace_event.instantiate (some 21)]) ∧
    (wasm_instance_new interp_backend instance_new_all_ok interp_store_world 200
        (.interp table_importing_module)
        (some [some (.WASM_EXTERN_FUNC host_increment),
               some (.WASM_EXTERN_TABLE host_table)])).isNone = true ∧
    (wasm_instance_new aot_backend instance_new_all_ok aot_store_world 200
        (.aot aot_table_importing_module) (some [some (.WASM_EXTERN_TABLE host_table)])).map
      (fun r => (r.ret.isSome, ((r.w.stores 200).bind fun s => s.instances).map
        fun v => v.num_elems))
      = some (true, some 1) ∧
    (wasm_instance_new aot_backend { instance_new_all_ok with BH_DEBUG := false }
        aot_store_world 200 (.aot aot_table_importing_module)
        (some [some (.WASM_EXTERN_TABLE host_table)])).map
      (fun r => (r.ret.isSome, ((r.w.stores 200).bind fun s => s.instances).map
        fun v => v.num_elems))
      = some (true, some 1) := by
  decide

/-- C20, evaluation at the failing input.  In AOT mode, for a module that
declares one import, a table, `aot_link` resolves no import (it returns 0, in
a build with and in a build without assertions), which is fewer than the
declared count 1; `wasm_instance_new` tests only the sign of that count, asks
the backend for an instance and returns it.  In interpreter mode a link that
resolves fewer imports than declared (here the clone of the function import
fails) makes `wasm_instance_new` return null without a call of the
backend. -/
theorem aot_incomplete_link_instantiates :
    (∀ BH_DEBUG : Bool, (aot_link BH_DEBUG instance_new_all_ok.link
        ⟨aot_table_importing_module, [some (.WASM_EXTERN_TABLE host_table)]⟩).map
      (fun r => r.1) = some 0) ∧
    (wasm_instance_new aot_backend instance_new_all_ok aot_store_world 200
        (.aot aot_table_importing_module) (some [some (.WASM_EXTERN_TABLE host_table)])).map
      (fun r => (r.ret.isSome, r.w.trace))
      = some (true, [trace_event.instantiate (some 21)]) ∧
    (wasm_instance_new interp_backend
        { instance_new_all_ok with link := fun _ => ⟨false, none, true, true⟩ }
        interp_store_world 200 (.interp func_importing_module)
        (some [some (.WASM_EXTERN_FUNC host_increment)])).map
      (fun r => (r.ret.isSome, r.w.trace))
      = some (false, []) ∧
    (wasm_instance_new aot_backend { instance_new_all_ok with BH_DEBUG := false }
        aot_store_world 200 (.aot aot_table_importing_module)
        (some [some (.WASM_EXTERN_TABLE host_table)])).map
      (fun r => (r.ret.isSome, r.w.trace))
      = some (true, [trace_event.instantiate (some 21)]) := by
  decide

/-! ## The export phase: auxiliary facts -/

/-- An external built by `wasm_func_new_internal` is bound to the instance it
was built for. -/
theorem wasm_func_new_internal_bound (o : extern_new_outcomes) (w : world) (store idx : Nat)
    (inst_comm_rt : Option Nat) (inst : module_inst_rt) (func : wasm_func_t)
    (h : wasm_func_new_internal o w store idx inst_comm_rt inst = some (some func)) :
    func.inst_comm_rt = inst_comm_rt := by
  simp only [wasm_func_new_internal] at h
  repeat' split at h
  all_goals first
    | (simp only [Option.some.injEq] at h
       subst h
       rfl)
    | simp at h

/-- A global built by `wasm_global_new_internal` is bound to the instance it
was built for. -/
theorem wasm_global_new_internal_bound (o : extern_new_outcomes) (w : world) (store idx : Nat)
    (inst_comm_rt : Option Nat) (inst : module_inst_rt) (global : wasm_global_t)
    (h : wasm_global_new_internal o w store idx inst_comm_rt inst = some (some global)) :
    global.inst_comm_rt = inst_comm_rt := by
  simp only [wasm_global_new_internal] at h
  repeat' split at h
  all_goals first
    | (simp only [Option.some.injEq] at h
       subst h
       rfl)
    | simp at h

/-- A table built by `wasm_table_new_internal` is bound to the instance it was
built for. -/
theorem wasm_table_new_internal_bound (o : extern_new_outcomes) (w : world) (store idx : Nat)
    (inst_comm_rt : Option Nat) (inst : module_inst_rt) (table : wasm_table_t)
    (h : wasm_table_new_internal o w store idx inst_comm_rt inst = some (some table)) :
    table.inst_comm_rt = inst_comm_rt := by
  simp only [wasm_table_new_internal] at h
  repeat' split at h
  all_goals first
    | (simp only [Option.some.injEq] at h
       subst h
       rfl)
    | simp at h

/-- A memory built by `wasm_memory_new_internal` has a type and is bound to
the instance it was built for. -/
theorem wasm_memory_new_internal_bound (o : extern_new_outcomes) (w : world) (store idx : Nat)
    (inst_comm_rt : Option Nat) (inst : module_inst_rt) (memory : wasm_memory_t)
    (h : wasm_memory_new_internal o w store idx inst_comm_rt inst = some (some memory)) :
    memory.inst_comm_rt = inst_comm_rt ∧ memory.type.isSome = true := by
  simp only [wasm_memory_new_internal] at h
  repeat' split at h
  all_goals first
    | (simp only [Option.some.injEq] at h
       subst h
       exact ⟨rfl, rfl⟩)
    | simp at h

/-- The external that the switch of `interp_process_export` builds has the
kind of the export, is bound to the instance and can be copied. -/
theorem interp_export_external_spec (o : extern_new_outcomes) (w : world) (store : Nat)
    (inst_comm_rt : Option Nat) (inst : module_inst_rt) (export_rt : WASMExport)
    (e : wasm_extern_t)
    (h : interp_export_external o w store inst_comm_rt inst export_rt = some (some e)) :
    some (wasm_extern_kind e) = export_rt.kind.externkind ∧
    e.inst_comm_rt = inst_comm_rt ∧ e.copyable = true := by
  unfold interp_export_external at h
  cases hk : export_rt.kind with
  | EXPORT_KIND_FUNC =>
    rw [hk] at h
    simp only [Option.map_eq_some'] at h
    obtain ⟨r, hr, hmap⟩ := h
    cases r with
    | none => simp at hmap
    | some func =>
      simp only [Option.some.injEq] at hmap
      obtain ⟨a, rfl, rfl⟩ := hmap
      exact ⟨rfl, wasm_func_new_internal_bound _ _ _ _ _ _ _ hr, rfl⟩
  | EXPORT_KIND_GLOBAL =>
    rw [hk] at h
    simp only [Option.map_eq_some'] at h
    obtain ⟨r, hr, hmap⟩ := h
    cases r with
    | none => simp at hmap
    | some global =>
      simp only [Option.some.injEq] at hmap
      obtain ⟨a, rfl, rfl⟩ := hmap
      exact ⟨rfl, wasm_global_new_internal_bound _ _ _ _ _ _ _ hr, rfl⟩
  | EXPORT_KIND_TABLE =>
    rw [hk] at h
    simp only [Option.map_eq_some'] at h
    obtain ⟨r, hr, hmap⟩ := h
    cases r with
    | none => simp at hmap
    | some table =>
      simp only [Option.some.injEq] at hmap
      obtain ⟨a, rfl, rfl⟩ := hmap
      exact ⟨rfl, wasm_table_new_internal_bound _ _ _ _ _ _ _ hr, rfl⟩
  | EXPORT_KIND_MEMORY =>
    rw [hk] at h
    simp only [Option.map_eq_some'] at h
    obtain ⟨r, hr, hmap⟩ := h
    cases r with
    | none => simp at hmap
    | some memory =>
      simp only [Option.some.injEq] at hmap
      obtain ⟨a, rfl, rfl⟩ := hmap
      obtain ⟨hb, ht⟩ := wasm_memory_new_internal_bound _ _ _ _ _ _ _ hr
      exact ⟨rfl, hb, ht⟩
  | other code =>
    rw [hk] at h
    simp at h

/-- The loop of `interp_process_export`, when it runs to its end on a bounded
vector: one cell is appended for each export that was left, in order, and it
holds an external of the kind of that export, bound to the instance. -/
theorem interp_process_export_loop_spec (o : Nat → extern_new_outcomes)
    (grow : Nat → Option Nat) (w : world) (store : Nat) (inst_comm_rt : Option Nat)
    (inst : module_inst_rt) :
    ∀ (rest : List WASMExport) (i : Nat) (ext ext1 : wasm_vec_t (Option wasm_extern_t)),
      ext.bounded →
      interp_process_export_loop o grow w store inst_comm_rt inst rest i ext
        = some (true, ext1) →
      ext1.bounded ∧ ext1.num_elems = ext.num_elems + rest.length ∧
      (∀ j, j < ext.num_elems → (ext1.data.getD [])[j]? = (ext.data.getD [])[j]?) ∧
      (∀ j export_rt, rest[j]? = some export_rt →
        ∃ e, (ext1.data.getD [])[ext.num_elems + j]? = some (some e) ∧
          some (wasm_extern_kind e) = export_rt.kind.externkind ∧
          e.inst_comm_rt = inst_comm_rt ∧ e.copyable = true) := by
  intro rest
  induction rest with
  | nil =>
    intro i ext ext1 hb h
    simp only [interp_process_export_loop, Option.some.injEq, Prod.mk.injEq, true_and] at h
    subst h
    refine ⟨hb, rfl, fun _ _ => rfl, ?_⟩
    intro j export_rt hj
    simp at hj
  | cons export_rt rest ih =>
    intro i ext ext1 hb h
    unfold interp_process_export_loop at h
    cases hx : interp_export_external (o i) w store inst_comm_rt inst export_rt with
    | none => simp [hx] at h
    | some r =>
      cases r with
      | none => simp [hx] at h
      | some e =>
        simp only [hx] at h
        cases happ : bh_vector_append (grow i) ext (some e) with
        | none => simp [happ] at h
        | some res =>
          obtain ⟨b, ext2⟩ := res
          cases b with
          | false => simp [happ] at h
          | true =>
            simp only [happ] at h
            obtain ⟨hn, hb2, hkeep, hlast⟩ := bh_vector_append_spec _ _ _ _ hb happ
            obtain ⟨hb1, hn1, hkeep1, hnew⟩ := ih (i + 1) ext2 ext1 hb2 h
            refine ⟨hb1, ?_, ?_, ?_⟩
            · rw [hn1, hn, List.length_cons]
              omega
            · intro j hj
              rw [hkeep1 j (by omega), hkeep j hj]
            · intro j ex hj
              cases j with
              | zero =>
                simp only [List.getElem?_cons_zero, Option.some.injEq] at hj
                subst hj
                refine ⟨e, ?_, interp_export_external_spec _ _ _ _ _ _ _ hx⟩
                rw [Nat.add_zero, hkeep1 ext.num_elems (by omega), hlast]
              | succ j =>
                simp only [List.getElem?_cons_succ] at hj
                obtain ⟨e1, he1, hrest⟩ := hnew j ex hj
                refine ⟨e1, ?_, hrest⟩
                rw [← he1, hn]
                congr 1
                omega

/-- The loop of `aot_process_export`, when it runs to its end on a bounded
vector: one cell is appended for each export that was left, and the cell of a
function export or of a global export holds an external of that kind, bound
to the instance. -/
theorem aot_process_export_loop_spec (o : Nat → extern_new_outcomes)
    (grow : Nat → Option Nat) (w : world) (store : Nat) (inst_comm_rt : Option Nat)
    (inst : module_inst_rt) :
    ∀ (rest : List WASMExport) (i export_func_i : Nat) (external : Option wasm_extern_t)
      (ext ext1 : wasm_vec_t (Option wasm_extern_t)),
      ext.bounded →
      aot_process_export_loop o grow w store inst_comm_rt inst rest i export_func_i external ext
        = some (true, ext1) →
      ext1.bounded ∧ ext1.num_elems = ext.num_elems + rest.length ∧
      (∀ j, j < ext.num_elems → (ext1.data.getD [])[j]? = (ext.data.getD [])[j]?) ∧
      (∀ j export_rt, rest[j]? = some export_rt →
        export_rt.kind = .EXPORT_KIND_FUNC ∨ export_rt.kind = .EXPORT_KIND_GLOBAL →
        ∃ e, (ext1.data.getD [])[ext.num_elems + j]? = some (some e) ∧
          some (wasm_extern_kind e) = export_rt.kind.externkind ∧
          e.inst_comm_rt = inst_comm_rt) := by
  intro rest
  induction rest with
  | nil =>
    intro i efi external ext ext1 hb h
    simp only [aot_process_export_loop, Option.some.injEq, Prod.mk.injEq, true_and] at h
    subst h
    refine ⟨hb, rfl, fun _ _ => rfl, ?_⟩
    intro j export_rt hj
    simp at hj
  | cons export_rt rest ih =>
    intro i efi external ext ext1 hb h
    have step : ∀ (cell : Option wasm_extern_t) (efi1 : Nat),
        (match bh_vector_append (grow i) ext cell with
          | none => none
          | some (false, externals1) => some (false, externals1)
          | some (true, externals1) =>
            aot_process_export_loop o grow w store inst_comm_rt inst rest (i + 1) efi1
              cell externals1) = some (true, ext1) →
        (export_rt.kind = .EXPORT_KIND_FUNC ∨ export_rt.kind = .EXPORT_KIND_GLOBAL →
          ∃ e, cell = some e ∧ some (wasm_extern_kind e) = export_rt.kind.externkind ∧
            e.inst_comm_rt = inst_comm_rt) →
        ext1.bounded ∧ ext1.num_elems = ext.num_elems + (export_rt :: rest).length ∧
        (∀ j, j < ext.num_elems → (ext1.data.getD [])[j]? = (ext.data.getD [])[j]?) ∧
        (∀ j ex, (export_rt :: rest)[j]? = some ex →
          ex.kind = .EXPORT_KIND_FUNC ∨ ex.kind = .EXPORT_KIND_GLOBAL →
          ∃ e, (ext1.data.getD [])[ext.num_elems + j]? = some (some e) ∧
            some (wasm_extern_kind e) = ex.kind.externkind ∧
            e.inst_comm_rt = inst_comm_rt) := by
      intro cell efi1 hrun hcell
      cases happ : bh_vector_append (grow i) ext cell with
      | none => simp [happ] at hrun
      | some res =>
        obtain ⟨b, ext2⟩ := res
        cases b with
        | false => simp [happ] at hrun
        | true =>
          simp only [happ] at hrun
          obtain ⟨hn, hb2, hkeep, hlast⟩ := bh_vector_append_spec _ _ _ _ hb happ
          obtain ⟨hb1, hn1, hkeep1, hnew⟩ := ih (i + 1) efi1 cell ext2 ext1 hb2 hrun
          refine ⟨hb1, ?_, ?_, ?_⟩
          · rw [hn1, hn, List.length_cons]
            omega
          · intro j hj
            rw [hkeep1 j (by omega), hkeep j hj]
          · intro j ex hj hkind
            cases j with
            | zero =>
              simp only [List.getElem?_cons_zero, Option.some.injEq] at hj
              subst hj
              obtain ⟨e, hce, hrest⟩ := hcell hkind
              refine ⟨e, ?_, hrest⟩
              rw [Nat.add_zero, hkeep1 ext.num_elems (by omega), hlast, hce]
            | succ j =>
              simp only [List.getElem?_cons_succ] at hj
              obtain ⟨e1, he1, hrest⟩ := hnew j ex hj hkind
              refine ⟨e1, ?_, hrest⟩
              rw [← he1, hn]
              congr 1
              omega
    simp only [aot_process_export_loop] at h
    cases hk : export_rt.kind with
    | EXPORT_KIND_FUNC =>
      simp only [hk] at h
      cases hf : wasm_func_new_internal (o i) w store (efi % 65536) inst_comm_rt inst with
      | none => simp [hf] at h
      | some r =>
        cases r with
        | none => simp [hf] at h
        | some func =>
          simp only [hf] at h
          refine step _ _ h ?_
          intro _
          exact ⟨_, rfl, by rw [hk]; rfl, wasm_func_new_internal_bound _ _ _ _ _ _ _ hf⟩
    | EXPORT_KIND_GLOBAL =>
      simp only [hk] at h
      cases hg : wasm_global_new_internal (o i) w store (export_rt.index % 65536)
          inst_comm_rt inst with
      | none => simp [hg] at h
      | some r =>
        cases r with
        | none => simp [hg] at h
        | some global =>
          simp only [hg] at h
          refine step _ _ h ?_
          intro _
          exact ⟨_, rfl, by rw [hk]; rfl, wasm_global_new_internal_bound _ _ _ _ _ _ _ hg⟩
    | EXPORT_KIND_MEMORY =>
      simp only [hk] at h
      refine step _ _ h ?_
      intro hkind
      rw [hk] at hkind
      simp at hkind
    | EXPORT_KIND_TABLE =>
      simp only [hk] at h
      refine step _ _ h ?_
      intro hkind
      rw [hk] at hkind
      simp at hkind
    | other code =>
      simp [hk] at h

/-- An uninitialized vector is bounded and has no populated cell. -/
theorem wasm_vec_new_uninitialized_bounded {α : Type} [Inhabited α] (alloc_ok : Bool)
    (size : Nat) :
    (wasm_vec_new_uninitialized alloc_ok size : wasm_vec_t α).bounded ∧
    (wasm_vec_new_uninitialized alloc_ok size : wasm_vec_t α).num_elems = 0 := by
  unfold wasm_vec_new_uninitialized wasm_vec_t.bounded
  by_cases hs : size = 0
  · simp [hs, wasm_vec_t.zero]
  · cases alloc_ok <;> simp [hs, bh_vector_init, bh_vector_destroy, wasm_vec_t.zero]

/-- `wasm_extern_copy` of an external that can be copied, when every
allocation succeeds: a copy of the same kind. -/
theorem wasm_extern_copy_ok (e : wasm_extern_t) (hc : e.copyable = true) :
    ∃ c, wasm_extern_copy extern_copy_all_ok (some e) = some (some c) ∧
      wasm_extern_kind c = wasm_extern_kind e := by
  cases e with
  | WASM_EXTERN_FUNC func =>
    exact ⟨_, by simp [wasm_extern_copy, wasm_func_copy, extern_copy_all_ok], rfl⟩
  | WASM_EXTERN_GLOBAL global =>
    exact ⟨_, by
      simp [wasm_extern_copy, wasm_global_copy, extern_copy_all_ok, wasm_globaltype_copy,
        wasm_valtype_copy, wasm_valtype_new, wasm_globaltype_new], rfl⟩
  | WASM_EXTERN_TABLE table =>
    refine ⟨.WASM_EXTERN_TABLE
      ⟨⟨⟨table.type.val_type.kind⟩, ⟨table.type.limits.min, table.type.limits.max⟩⟩, 0, none⟩,
      ?_, rfl⟩
    simp [wasm_extern_copy, wasm_table_copy, wasm_table_new_basic, extern_copy_all_ok,
      wasm_tabletype_copy, wasm_valtype_copy, wasm_valtype_new, wasm_tabletype_new]
  | WASM_EXTERN_MEMORY memory =>
    simp only [wasm_extern_t.copyable, Option.isSome_iff_exists] at hc
    obtain ⟨t, ht⟩ := hc
    refine ⟨.WASM_EXTERN_MEMORY
      ⟨some ⟨⟨t.limits.min, t.limits.max⟩⟩, memory.memory_idx_rt, memory.inst_comm_rt⟩,
      ?_, rfl⟩
    simp [wasm_extern_copy, wasm_memory_copy, wasm_memory_new_basic, extern_copy_all_ok,
      wasm_memorytype_copy, wasm_memorytype_new, ht]

/-- The export part of `wasm_instance_new`, when it passes: in interpreter
mode the export vector has one populated cell for each entry of the export
table of the backend instance, in order, with an external of the kind of the
entry, bound to the backend instance; in AOT mode it has one populated cell
for each entry, and the cell of a function entry or of a global entry holds an
external of that kind, bound to the backend instance. -/
theorem wasm_instance_new_exports_spec (o : instance_new_outcomes) (w : world) (store : Nat)
    (mode : runtime_mode_e) (instance1 instance2 : wasm_instance_t) (inst : module_inst_rt)
    (h : wasm_instance_new_exports o w store mode instance1 inst = some (true, instance2)) :
    ∃ ev, instance2.exports = some ev ∧ ev.bounded ∧
      ((∃ inst_interp : WASMModuleInstance, mode = .INTERP_MODE ∧ inst = .interp inst_interp ∧
        ev.num_elems = inst_interp.exports.length ∧
        ∀ (j : Nat) (export_rt : WASMExport), inst_interp.exports[j]? = some export_rt →
          ∃ e, (ev.data.getD [])[j]? = some (some e) ∧
            some (wasm_extern_kind e) = export_rt.kind.externkind ∧
            e.inst_comm_rt = instance1.inst_comm_rt ∧ e.copyable = true) ∨
       (∃ inst_aot : AOTModuleInstance, mode = .AOT_MODE ∧ inst = .aot inst_aot ∧
        ev.num_elems = inst_aot.aot_module.exports.length ∧
        ∀ (j : Nat) (export_rt : WASMExport),
          inst_aot.aot_module.exports[j]? = some export_rt →
          export_rt.kind = .EXPORT_KIND_FUNC ∨ export_rt.kind = .EXPORT_KIND_GLOBAL →
          ∃ e, (ev.data.getD [])[j]? = some (some e) ∧
            some (wasm_extern_kind e) = export_rt.kind.externkind ∧
            e.inst_comm_rt = instance1.inst_comm_rt)) := by
  cases mode with
  | INTERP_MODE =>
    cases inst with
    | aot inst_aot => simp [wasm_instance_new_exports] at h
    | interp inst_interp =>
      simp only [wasm_instance_new_exports] at h
      by_cases hv : (!o.exports_vec_ok) = true
      · rw [if_pos hv] at h
        simp at h
      rw [if_neg hv] at h
      obtain ⟨hb0, hn0⟩ := wasm_vec_new_uninitialized_bounded (α := Option wasm_extern_t)
        o.exports_data_ok inst_interp.exports.length
      generalize (wasm_vec_new_uninitialized o.exports_data_ok inst_interp.exports.length :
        wasm_vec_t (Option wasm_extern_t)) = vec at h hb0 hn0
      by_cases hc : vec.size ≠ 0 ∧ vec.data.isNone = true
      · rw [if_pos hc] at h
        simp at h
      rw [if_neg hc] at h
      simp only [Option.map_eq_some', Prod.mk.injEq] at h
      obtain ⟨res, hrun, hok, rfl⟩ := h
      obtain ⟨b, ev⟩ := res
      simp only at hok
      subst hok
      unfold interp_process_export at hrun
      by_cases hs : store = 0 ∨ instance1.inst_comm_rt = none
      · rw [if_pos hs] at hrun
        simp at hrun
      rw [if_neg hs] at hrun
      obtain ⟨hb1, hn1, _, hnew⟩ :=
        interp_process_export_loop_spec _ _ _ _ _ _ _ _ _ _ hb0 hrun
      refine ⟨ev, rfl, hb1, Or.inl ⟨inst_interp, rfl, rfl, by omega, ?_⟩⟩
      intro j ex hj
      obtain ⟨e, he, hrest⟩ := hnew j ex hj
      rw [hn0, Nat.zero_add] at he
      exact ⟨e, he, hrest⟩
  | AOT_MODE =>
    cases inst with
    | interp inst_interp => simp [wasm_instance_new_exports] at h
    | aot inst_aot =>
      simp only [wasm_instance_new_exports] at h
      by_cases hv : (!o.exports_vec_ok) = true
      · rw [if_pos hv] at h
        simp at h
      rw [if_neg hv] at h
      obtain ⟨hb0, hn0⟩ := wasm_vec_new_uninitialized_bounded (α := Option wasm_extern_t)
        o.exports_data_ok inst_aot.export_func_count
      generalize (wasm_vec_new_uninitialized o.exports_data_ok inst_aot.export_func_count :
        wasm_vec_t (Option wasm_extern_t)) = vec at h hb0 hn0
      by_cases hc : vec.size ≠ 0 ∧ vec.data.isNone = true
      · rw [if_pos hc] at h
        simp at h
      rw [if_neg hc] at h
      simp only [Option.map_eq_some', Prod.mk.injEq] at h
      obtain ⟨res, hrun, hok, rfl⟩ := h
      obtain ⟨b, ev⟩ := res
      simp only at hok
      subst hok
      unfold aot_process_export at hrun
      by_cases hs : store = 0 ∨ instance1.inst_comm_rt = none
      · rw [if_pos hs] at hrun
        simp at hrun
      rw [if_neg hs] at hrun
      obtain ⟨hb1, hn1, _, hnew⟩ :=
        aot_process_export_loop_spec _ _ _ _ _ _ _ _ _ _ _ _ hb0 hrun
      refine ⟨ev, rfl, hb1, Or.inr ⟨inst_aot, rfl, rfl, by omega, ?_⟩⟩
      intro j ex hj hkind
      obtain ⟨e, he, hrest⟩ := hnew j ex hj hkind
      rw [hn0, Nat.zero_add] at he
      exact ⟨e, he, hrest⟩

/-- `wasm_extern_vec_copy` of a bounded vector whose populated cells hold
externals that can be copied, when every allocation succeeds: a vector with
the same populated count whose cells hold externals of the same kinds. -/
theorem wasm_extern_vec_copy_kinds (ev : wasm_vec_t (Option wasm_extern_t)) (hb : ev.bounded)
    (hcells : ∀ j, j < ev.num_elems →
      ∃ e, (ev.data.getD [])[j]? = some (some e) ∧ e.copyable = true) :
    ∃ rc, wasm_extern_vec_copy true (fun _ => extern_copy_all_ok) ev = some rc ∧
      rc.out.num_elems = ev.num_elems ∧
      ∀ j, j < ev.num_elems →
        ∃ e c, (ev.data.getD [])[j]? = some (some e) ∧
          (rc.out.data.getD [])[j]? = some (some c) ∧
          wasm_extern_kind c = wasm_extern_kind e := by
  by_cases hsize : ev.size = 0
  · have hn : ev.num_elems = 0 := by
      have := hb.1
      omega
    refine ⟨⟨wasm_vec_t.zero, [], []⟩, by simp [wasm_extern_vec_copy, wasm_vec_copy, hsize],
      by simp [wasm_vec_t.zero, hn], ?_⟩
    intro j hj
    omega
  · obtain ⟨out_cells, copies, hrun, _, _, hmid⟩ :=
      wasm_vec_copy_ok (fun _ => wasm_extern_copy extern_copy_all_ok) ev hsize hb.1
        (by
          intro j hj
          obtain ⟨e, he, hc⟩ := hcells j hj
          obtain ⟨c, hcopy, _⟩ := wasm_extern_copy_ok e hc
          exact ⟨some e, c, he, hcopy⟩)
    refine ⟨_, hrun, rfl, ?_⟩
    intro j hj
    obtain ⟨e, he, hc⟩ := hcells j hj
    obtain ⟨c, hcopy, hkind⟩ := wasm_extern_copy_ok e hc
    obtain ⟨e1, c1, he1, hc1, ho⟩ := hmid j hj
    rw [he] at he1
    simp only [Option.some.injEq] at he1
    subst he1
    rw [hcopy] at hc1
    simp only [Option.some.injEq] at hc1
    subst hc1
    exact ⟨e, c, he, by simpa using ho, hkind⟩

/-- C19, counterexample.  In AOT mode, for a backend instance whose module
exports a function `f` and then a memory `m`, a successful
`wasm_instance_new` leaves an export list of two cells that both hold a
function: for the memory entry the switch of `aot_process_export` builds
nothing and the loop appends the external of the previous entry again. -/
theorem aot_exports_repeat_previous_external :
    (wasm_instance_new aot_backend instance_new_all_ok aot_store_world 200
        (.aot aot_plain_module) none).map
      (fun r => (r.ret.bind fun i => i.exports).map fun v =>
        v.populated.map fun cell => cell.map wasm_extern_kind)
      = some (some [some .WASM_EXTERN_FUNC, some .WASM_EXTERN_FUNC]) ∧
    sample_aot_instance.aot_module.exports.map (fun export_rt => export_rt.kind)
      = [.EXPORT_KIND_FUNC, .EXPORT_KIND_MEMORY] := by
  decide

/-- C19, amended.  Export phase, after a `wasm_instance_new` that returned an
instance.  In interpreter mode the export list of the instance has exactly
one populated cell for each entry of the export table of the backend
instance, in table order; cell `i` holds an external of the kind (func,
global, table, memory) of entry `i`, bound to the new backend instance; and
`wasm_instance_exports`, when every allocation succeeds, returns a copy of
that list with the same populated count and the same kinds.  In AOT mode the
export list has one populated cell for each entry, and the cell of a function
entry or of a global entry holds an external of that kind, bound to the new
backend instance. -/
theorem instance_exports_by_kind
    (wasm_runtime_instantiate : module_rt_t → Option (Nat × module_inst_rt))
    (o : instance_new_outcomes) (w : world) (store : Nat) (module_rt : module_rt_t)
    (imports : Option (List (Option wasm_extern_t))) (r : instance_new_result)
    (inst : wasm_instance_t)
    (h : wasm_instance_new wasm_runtime_instantiate o w store module_rt imports = some r)
    (hret : r.ret = some inst) :
    ∃ handle ev, inst.inst_comm_rt = some handle ∧ inst.exports = some ev ∧
      ((∃ (inst_interp : WASMModuleInstance) (m : module_rt_t),
        current_runtime_mode w = some .INTERP_MODE ∧
        wasm_runtime_instantiate m = some (handle, .interp inst_interp) ∧
        ev.num_elems = inst_interp.exports.length ∧
        (∀ (j : Nat) (export_rt : WASMExport), inst_interp.exports[j]? = some export_rt →
          ∃ e, (ev.data.getD [])[j]? = some (some e) ∧
            some (wasm_extern_kind e) = export_rt.kind.externkind ∧
            e.inst_comm_rt = some handle) ∧
        ∃ rc, wasm_instance_exports true (fun _ => extern_copy_all_ok) (some inst) = some rc ∧
          rc.out.num_elems = ev.num_elems ∧
          ∀ j, j < ev.num_elems →
            ∃ e c, (ev.data.getD [])[j]? = some (some e) ∧
              (rc.out.data.getD [])[j]? = some (some c) ∧
              wasm_extern_kind c = wasm_extern_kind e) ∨
       (∃ (inst_aot : AOTModuleInstance) (m : module_rt_t),
        current_runtime_mode w = some .AOT_MODE ∧
        wasm_runtime_instantiate m = some (handle, .aot inst_aot) ∧
        ev.num_elems = inst_aot.aot_module.exports.length ∧
        ∀ (j : Nat) (export_rt : WASMExport),
          inst_aot.aot_module.exports[j]? = some export_rt →
          export_rt.kind = .EXPORT_KIND_FUNC ∨ export_rt.kind = .EXPORT_KIND_GLOBAL →
          ∃ e, (ev.data.getD [])[j]? = some (some e) ∧
            some (wasm_extern_kind e) = export_rt.kind.externkind ∧
            e.inst_comm_rt = some handle)) := by
  rcases wasm_instance_new_cases _ _ _ _ _ _ _ h with
    ⟨m, i, d, rfl, _⟩ | ⟨m, i, d, rfl, _⟩ | ⟨m, i, d, handle, rfl, _⟩ |
    ⟨mode, linked, handle, inst_rt, imports1, instance2, s, instances, instances1, hm, hlink,
      _, hinst, hexp, _, _, _, rfl⟩
  · simp [wasm_instance_new_failed] at hret
  · simp [wasm_instance_new_failed] at hret
  · simp [wasm_instance_new_failed] at hret
  · simp only [Option.some.injEq] at hret
    subst hret
    obtain ⟨hi2, _⟩ := wasm_instance_new_exports_inst _ _ _ _ _ _ _ _ hexp
    obtain ⟨ev, hev, hb, hcase⟩ := wasm_instance_new_exports_spec _ _ _ _ _ _ _ hexp
    refine ⟨handle, ev, hi2, hev, ?_⟩
    rcases hcase with ⟨inst_interp, rfl, rfl, hn, hcells⟩ | ⟨inst_aot, rfl, rfl, hn, hcells⟩
    · refine Or.inl ⟨inst_interp, linked.module_rt, hm, hinst, hn, ?_, ?_⟩
      · intro j ex hj
        obtain ⟨e, he, hk, hbound, _⟩ := hcells j ex hj
        exact ⟨e, he, hk, hbound⟩
      · have hcopy := wasm_extern_vec_copy_kinds ev hb
          (by
            intro j hj
            have hjl : j < inst_interp.exports.length := by omega
            obtain ⟨e, he, _, _, hc⟩ :=
              hcells j inst_interp.exports[j] (List.getElem?_eq_getElem hjl)
            exact ⟨e, he, hc⟩)
        obtain ⟨rc, hrc, hrn, hkinds⟩ := hcopy
        exact ⟨rc, by simp [wasm_instance_exports, hev, hrc], hrn, hkinds⟩
    · exact Or.inr ⟨inst_aot, linked.module_rt, hm, hinst, hn, hcells⟩

/-- Witness of C19: an interpreter instance that exports a function, a
global, a table and a memory. -/
theorem instance_exports_by_kind_witness :
    ∃ r inst handle ev,
      wasm_instance_new interp_backend instance_new_all_ok interp_store_world 200
        (.interp func_importing_module) (some [some (.WASM_EXTERN_FUNC host_increment)])
        = some r ∧
      r.ret = some inst ∧ inst.inst_comm_rt = some handle ∧ inst.exports = some ev :=
  have hsome : (wasm_instance_new interp_backend instance_new_all_ok interp_store_world 200
        (.interp func_importing_module)
        (some [some (.WASM_EXTERN_FUNC host_increment)])).isSome = true := by decide
  have hret : (((wasm_instance_new interp_backend instance_new_all_ok interp_store_world 200
        (.interp func_importing_module)
        (some [some (.WASM_EXTERN_FUNC host_increment)])).get hsome).ret).isSome = true := rfl
  match instance_exports_by_kind interp_backend instance_new_all_ok interp_store_world 200
      (.interp func_importing_module) (some [some (.WASM_EXTERN_FUNC host_increment)]) _ _
      (Option.some_get hsome).symm (Option.some_get hret).symm with
  | ⟨handle, ev, hh, hev, _⟩ =>
    ⟨_, _, handle, ev, (Option.some_get hsome).symm, (Option.some_get hret).symm, hh, hev⟩

/-! ## Comparisons: the claims -/

/-- C21. For non-null global types, `wasm_globaltype_same` returns true
exactly when the value types are the same or the mutabilities are equal (a
disjunction, not a conjunction): two global types of different value kinds and
the same mutability compare as the same.  With two null arguments it returns
true, with exactly one null argument false. -/
theorem globaltype_same_is_disjunction :
    (∀ g1 g2 : wasm_globaltype_t,
      wasm_globaltype_same (some g1) (some g2) = true ↔
        (wasm_valtype_same (some g1.val_type) (some g2.val_type) = true
          ∨ g1.mutability = g2.mutability)) ∧
    (∀ v1 v2 : wasm_valtype_t,
      wasm_valtype_same (some v1) (some v2) = true ↔ v1.kind = v2.kind) ∧
    wasm_globaltype_same (some ⟨⟨.WASM_I32⟩, .WASM_VAR⟩) (some ⟨⟨.WASM_F64⟩, .WASM_VAR⟩)
      = true ∧
    wasm_globaltype_same (some ⟨⟨.WASM_I32⟩, .WASM_VAR⟩) (some ⟨⟨.WASM_F64⟩, .WASM_CONST⟩)
      = false ∧
    wasm_globaltype_same none none = true ∧
    (∀ g : wasm_globaltype_t, wasm_globaltype_same (some g) none = false
      ∧ wasm_globaltype_same none (some g) = false) := by
  refine ⟨?_, ?_, by decide, by decide, rfl, fun g => ⟨rfl, rfl⟩⟩
  · intro g1 g2
    simp [wasm_globaltype_same]
  · intro v1 v2
    simp [wasm_valtype_same]

/-- C29, evaluation at the failing input.  `wasm_val_same` of an anyref value
and its copy made by `wasm_val_copy` is false, for the null reference and for
every other one: the switch on the kind has no case for `WASM_ANYREF` and
falls to `return false`.  For every value of kind i32, i64 or funcref the comparison
with the copy is true. -/
theorem val_same_anyref_copy_is_false :
    ((wasm_val_copy (some wasm_val_t.zero) (some ⟨.WASM_ANYREF, 0⟩)).map fun c =>
      wasm_val_same (some ⟨.WASM_ANYREF, 0⟩) (some c)) = some false ∧
    (∀ (x : Nat) (out : wasm_val_t),
      ((wasm_val_copy (some out) (some ⟨.WASM_ANYREF, x⟩)).map fun c =>
        wasm_val_same (some ⟨.WASM_ANYREF, x⟩) (some c)) = some false) ∧
    (∀ (x : Nat) (out : wasm_val_t),
      ((wasm_val_copy (some out) (some ⟨.WASM_I32, x⟩)).map fun c =>
        wasm_val_same (some ⟨.WASM_I32, x⟩) (some c)) = some true ∧
      ((wasm_val_copy (some out) (some ⟨.WASM_I64, x⟩)).map fun c =>
        wasm_val_same (some ⟨.WASM_I64, x⟩) (some c)) = some true ∧
      ((wasm_val_copy (some out) (some ⟨.WASM_FUNCREF, x⟩)).map fun c =>
        wasm_val_same (some ⟨.WASM_FUNCREF, x⟩) (some c)) = some true) := by
  refine ⟨by decide, ?_, ?_⟩
  · intro x out
    simp [wasm_val_copy, wasm_val_same]
  · intro x out
    simp [wasm_val_copy, wasm_val_same]

/-! ## Copies of externals: the claim -/

/-- C27, evaluation at the failing input.  The copy that `wasm_extern_copy`
makes of a table bound to the table 2 of the backend instance 21 is a table
with an equal type that is bound to nothing: its instance reference is null
and its runtime index 0, because `wasm_table_copy` is
`wasm_table_new_basic (src->type)`.  The copies of a memory, of a global and
of a function carry the runtime index and the instance reference of their
source. -/
theorem extern_copy_table_drops_binding :
    (wasm_extern_copy extern_copy_all_ok (some (.WASM_EXTERN_TABLE bound_table))).map
      (fun r => r.map fun c => (wasm_extern_kind c, c.inst_comm_rt, c.idx_rt))
      = some (some (.WASM_EXTERN_TABLE, none, 0)) ∧
    wasm_table_copy extern_copy_all_ok (some bound_table)
      = some (some ⟨bound_table.type, 0, none⟩) ∧
    (bound_table.inst_comm_rt, bound_table.table_idx_rt) = (some 21, 2) ∧
    (∀ (t : wasm_memorytype_t) (idx : Nat) (inst : Option Nat),
      wasm_memory_copy extern_copy_all_ok (some ⟨some t, idx, inst⟩)
        = some (some ⟨some t, idx, inst⟩)) ∧
    (∀ g : wasm_global_t, wasm_global_copy extern_copy_all_ok (some g) = some (some g)) ∧
    (∀ f : wasm_func_t, wasm_func_copy extern_copy_all_ok.obj_ok f = some f) := by
  refine ⟨by decide, by decide, rfl, ?_, ?_, ?_⟩
  · intro t idx inst
    simp [wasm_memory_copy, wasm_memory_new_basic, extern_copy_all_ok, wasm_memorytype_copy,
      wasm_memorytype_new]
  · intro g
    simp [wasm_global_copy, extern_copy_all_ok, wasm_globaltype_copy, wasm_valtype_copy,
      wasm_valtype_new, wasm_globaltype_new]
  · intro f
    simp [wasm_func_copy, extern_copy_all_ok]

/-! ## Store teardown order: the claim -/

/-- C26, evaluation at the failing input.  In a store that holds the module
with the backend module 11, `wasm_instance_new` makes the backend instance 21
from that module and registers it; `wasm_store_delete` then unloads the
backend module 11 first and deinstantiates the backend instance 21 after
it. -/
theorem store_delete_unloads_before_deinstantiate :
    ((wasm_instance_new interp_backend instance_new_all_ok module_store_world 200
        (.interp func_importing_module)
        (some [some (.WASM_EXTERN_FUNC host_increment)])).bind
      fun r => (wasm_store_delete r.w 200).map fun w1 => (r.ret.isSome, w1.trace))
      = some (true, [trace_event.instantiate (some 21), trace_event.store_delete 200,
          trace_event.unload 11, trace_event.deinstantiate 21]) := by
  decide

/-! ## The trampoline and the scratch buffer: the claims -/

/-- C24, evaluation at the failing input.  `wasm_trap_new_basic` makes
`empty_trap` from an empty message.  When the host callback returns it, the
trampoline stores it in `cur_trap` but raises no exception on the calling
instance 7, because `wasm_set_exception` is called only when the copy of the
message has data; the forwarding backend then sees no exception and
`wasm_func_call` returns a null trap with the zeroed result.  With the trap
`boom_trap`, whose message is not empty, the trampoline stores the trap and
raises the exception. -/
theorem trampoline_empty_trap_raises_nothing :
    wasm_trap_new_basic true true true ⟨0, none, 0⟩ = some (some empty_trap) ∧
    (native_func_trampoline ⟨true, true, true⟩ ⟨some host_empty_trap, 7⟩
        (some [41, 0]) quiet_state).map
      (fun r => (r.1, r.2.cur_trap, wasm_runtime_get_exception r.2 7))
      = some (some [0, 0], some empty_trap, none) ∧
    (wasm_func_call ⟨true, true, true, true⟩ (some 1)
        (forwarding_export ⟨true, true, true⟩ (linked_import host_empty_trap)) bound_export
        [⟨.WASM_I32, 41⟩] [wasm_val_t.zero] quiet_state).map
      (fun r => (r.1, r.2.1, r.2.2.cur_trap))
      = some (none, [⟨.WASM_I32, 0⟩], some empty_trap) ∧
    (native_func_trampoline ⟨true, true, true⟩ ⟨some host_boom, 7⟩
        (some [41, 0]) quiet_state).map
      (fun r => (r.1, r.2.cur_trap, wasm_runtime_get_exception r.2 7))
      = some (some [0, 0], some boom_trap, some "call failed, meet a wasm_trap_t") := by
  decide

/-- C23, counterexample.  For the function `bound_export` of type
(i32) -> (i32), whose parameter slot count and result slot count are both 1,
the backend is handed an argument area of two 32-bit slots (one 64-bit cell):
the backend that reports the size of the area makes the call return 2. -/
theorem func_call_scratch_is_two_slots :
    (wasm_func_call ⟨true, true, true, true⟩ (some 1) measuring_backend bound_export
        [⟨.WASM_I32, 41⟩] [wasm_val_t.zero] quiet_state).map (fun r => (r.1, r.2.1))
      = some (none, [⟨.WASM_I32, 2⟩]) ∧
    max (slot_count bound_export.type.params) (slot_count bound_export.type.results) = 1 := by
  decide

/-- C22, counterexample.  For two i32 parameters and the slots 1, 2, 3, 4,
`argv_to_params` reads the second parameter from slot 2 (the second 64-bit
cell) and yields 1 and 3, while `argv_to_results` reads the slot layout and
yields 1 and 2. -/
theorem argv_to_params_reads_cells :
    argv_to_params [1, 2, 3, 4] [⟨.WASM_I32⟩, ⟨.WASM_I32⟩] [wasm_val_t.zero, wasm_val_t.zero]
      = some (2, [⟨.WASM_I32, 1⟩, ⟨.WASM_I32, 3⟩]) ∧
    argv_to_results [1, 2, 3, 4] [⟨.WASM_I32⟩, ⟨.WASM_I32⟩] 2
        [wasm_val_t.zero, wasm_val_t.zero]
      = some (2, [⟨.WASM_I32, 1⟩, ⟨.WASM_I32, 2⟩]) := by
  decide

/-- C28, counterexample.  The byte vector and the val vector made by
`new_uninitialized (3)` have the populated count 0; their copies have the
populated count 3. -/
theorem plain_vec_copy_populates_capacity :
    (wasm_vec_new_uninitialized true 3 : wasm_vec_t Nat).num_elems = 0 ∧
    wasm_byte_vec_copy true (wasm_vec_new_uninitialized true 3) = some ⟨3, some [0, 0, 0], 3⟩ ∧
    (wasm_vec_new_uninitialized true 3 : wasm_vec_t wasm_val_t).num_elems = 0 ∧
    (wasm_val_vec_copy true (wasm_vec_new_uninitialized true 3)).map (fun v => v.num_elems)
      = some 3 := by
  decide

/-! ## Plain vectors and globals: auxiliary facts -/

/-- A store of `n` bytes inside the buffer succeeds, keeps the length and the
bytes below `off`, and a load of `n` bytes from the same offset reads the `n`
low bytes of the stored value. -/
theorem load_store_le :
    ∀ (n : Nat) (data : List Nat) (off v : Nat), off + n ≤ data.length →
      ∃ d, store_le data off n v = some d ∧ d.length = data.length ∧
        (∀ j, j < off → d[j]? = data[j]?) ∧ load_le d off n = some (v % 256 ^ n) := by
  intro n
  induction n with
  | zero =>
    intro data off v _
    exact ⟨data, rfl, rfl, fun _ _ => rfl, by simp [load_le, Nat.mod_one]⟩
  | succ n ih =>
    intro data off v h
    have hoff : off < data.length := by omega
    obtain ⟨d, hd, hlen, hkeep, hload⟩ :=
      ih (data.set off (v % 256)) (off + 1) (v / 256) (by simp; omega)
    refine ⟨d, ?_, ?_, ?_, ?_⟩
    · simp only [store_le, if_pos hoff, hd]
    · simpa using hlen
    · intro j hj
      rw [hkeep j (by omega), List.getElem?_set_ne (by omega)]
    · have hcell : d[off]? = some (v % 256) := by
        rw [hkeep off (by omega), List.getElem?_set_self hoff]
      simp only [load_le, hcell, hload, Option.map_some', Option.some.injEq]
      rw [Nat.mod_mod, pow_succ', Nat.mod_mul]

/-- Writing a value of the kind of a numeric global and reading the global
back yields the kind and the low bytes of the value. -/
theorem global_switch_roundtrip (ty : value_type_rt) (data : List Nat) (off : Nat)
    (v out : wasm_val_t) (hty : ty.is_numeric = true)
    (hkind : v.kind = val_type_rt_2_valkind ty) (hroom : off + ty.byte_width ≤ data.length) :
    ∃ d, global_set_switch ty data off v = some (true, d) ∧
      global_get_switch ty d off out = some (true, ⟨v.kind, v.of % 256 ^ ty.byte_width⟩) := by
  cases ty with
  | VALUE_TYPE_I32 =>
    obtain ⟨d, hd, _, _, hl⟩ := load_store_le 4 data off v.of hroom
    exact ⟨d, by simp [global_set_switch, hkind, val_type_rt_2_valkind, hd],
      by simp [global_get_switch, hl, hkind, val_type_rt_2_valkind, value_type_rt.byte_width]⟩
  | VALUE_TYPE_I64 =>
    obtain ⟨d, hd, _, _, hl⟩ := load_store_le 8 data off v.of hroom
    exact ⟨d, by simp [global_set_switch, hkind, val_type_rt_2_valkind, hd],
      by simp [global_get_switch, hl, hkind, val_type_rt_2_valkind, value_type_rt.byte_width]⟩
  | VALUE_TYPE_F32 =>
    obtain ⟨d, hd, _, _, hl⟩ := load_store_le 4 data off v.of hroom
    exact ⟨d, by simp [global_set_switch, hkind, val_type_rt_2_valkind, hd],
      by simp [global_get_switch, hl, hkind, val_type_rt_2_valkind, value_type_rt.byte_width]⟩
  | VALUE_TYPE_F64 =>
    obtain ⟨d, hd, _, _, hl⟩ := load_store_le 8 data off v.of hroom
    exact ⟨d, by simp [global_set_switch, hkind, val_type_rt_2_valkind, hd],
      by simp [global_get_switch, hl, hkind, val_type_rt_2_valkind, value_type_rt.byte_width]⟩
  | VALUE_TYPE_ANY => simp [value_type_rt.is_numeric] at hty
  | VALUE_TYPE_FUNCREF => simp [value_type_rt.is_numeric] at hty
  | other code => simp [value_type_rt.is_numeric] at hty

/-! ## Plain vectors and globals: the claims -/

/-- C30. Global set/get round trip.  For a global bound to a backend instance
whose runtime value type is i32, i64, f32 or f64 and whose value lies inside
the global data, and for a Val `v` of the kind of that type (the kind that
`wasm_global_new_internal` gave the initial value), `wasm_global_set`
followed by `wasm_global_get` returns a Val with the kind of `v` and the
value bits of `v` (the low 4 or 8 bytes of the union, hence `v` itself when
its bits fit its kind): in interpreter mode, and in AOT mode for an imported
global and for a global that the module defines. -/
theorem global_set_get_roundtrip (w : world) (g : wasm_global_t) (v out : wasm_val_t)
    (ty : value_type_rt) (off : Nat)
    (hbound : g.inst_comm_rt ≠ none) (hinit : g.init.kind = v.kind)
    (hty : ty.is_numeric = true) (hkind : v.kind = val_type_rt_2_valkind ty) :
    (∀ (inst_interp : WASMModuleInstance) (global_interp : WASMGlobalInstance),
      current_runtime_mode w = some .INTERP_MODE →
      inst_interp.globals[g.global_idx_rt]? = some global_interp →
      global_interp.type = ty → global_interp.data_offset = off →
      off + ty.byte_width ≤ inst_interp.global_data.length →
      ∃ inst1, wasm_global_set w (.interp inst_interp) (some g) (some v) = some inst1 ∧
        wasm_global_get w inst1 (some g) (some out)
          = some ⟨v.kind, v.of % 256 ^ ty.byte_width⟩) ∧
    (∀ (inst_aot : AOTModuleInstance),
      current_runtime_mode w = some .AOT_MODE →
      ((g.global_idx_rt < inst_aot.aot_module.import_globals.length ∧
          ∃ import_global, inst_aot.aot_module.import_globals[g.global_idx_rt]?
              = some import_global ∧
            import_global.type = ty ∧ import_global.data_offset = off) ∨
       (inst_aot.aot_module.import_globals.length ≤ g.global_idx_rt ∧
          ∃ global_aot, inst_aot.aot_module.globals[g.global_idx_rt
              - inst_aot.aot_module.import_globals.length]? = some global_aot ∧
            global_aot.type = ty ∧ global_aot.data_offset = off)) →
      off + ty.byte_width ≤ inst_aot.global_data.length →
      ∃ inst1, wasm_global_set w (.aot inst_aot) (some g) (some v) = some inst1 ∧
        wasm_global_get w inst1 (some g) (some out)
          = some ⟨v.kind, v.of % 256 ^ ty.byte_width⟩) ∧
    (val_fits v = true → (⟨v.kind, v.of % 256 ^ ty.byte_width⟩ : wasm_val_t) = v) := by
  refine ⟨?_, ?_, ?_⟩
  · intro inst_interp global_interp hmode hg hgt hgo hroom
    obtain ⟨d, hset, hget⟩ :=
      global_switch_roundtrip ty inst_interp.global_data off v wasm_val_t.zero hty hkind hroom
    refine ⟨.interp { inst_interp with global_data := d }, ?_, ?_⟩
    · simp [wasm_global_set, hbound, hmode, interp_global_set, hg, hgt, hgo, hset]
    · simp [wasm_global_get, hbound, hmode, interp_global_get, hg, hgt, hgo, hget, hinit]
  · intro inst_aot hmode hg hroom
    obtain ⟨d, hset, hget⟩ :=
      global_switch_roundtrip ty inst_aot.global_data off v wasm_val_t.zero hty hkind hroom
    refine ⟨.aot { inst_aot with global_data := d }, ?_, ?_⟩
    · rcases hg with ⟨hlt, gi, hgi, hgt, hgo⟩ | ⟨hge, gd, hgd, hgt, hgo⟩
      · simp [wasm_global_set, hbound, hmode, aot_global_set, hlt, hgi, hgt, hgo, hset]
      · simp [wasm_global_set, hbound, hmode, aot_global_set, Nat.not_lt.mpr hge, hgd, hgt,
          hgo, hset]
    · rcases hg with ⟨hlt, gi, hgi, hgt, hgo⟩ | ⟨hge, gd, hgd, hgt, hgo⟩
      · simp [wasm_global_get, hbound, hmode, aot_global_get, hlt, hgi, hgt, hgo, hget, hinit]
      · simp [wasm_global_get, hbound, hmode, aot_global_get, Nat.not_lt.mpr hge, hgd, hgt,
          hgo, hget, hinit]
  · intro hfit
    have hof : v.of % 256 ^ ty.byte_width = v.of := by
      apply Nat.mod_eq_of_lt
      cases ty <;> simp [value_type_rt.is_numeric] at hty <;>
        simp [val_fits, hkind, val_type_rt_2_valkind, UINT32_MOD] at hfit <;>
        simp [value_type_rt.byte_width] <;> omega
    rw [hof]

/-- Witness of C30: `wasm_global_new_internal` builds `bound_f64_global` for
the global 1 of `globals_interp_instance`; the f64 value 2.25 is written to it
and read back. -/
theorem global_set_get_roundtrip_witness :
    wasm_global_new_internal extern_new_all_ok interp_store_world 200 1 (some 21)
        (.interp globals_interp_instance) = some (some bound_f64_global) ∧
    ∃ inst1, wasm_global_set interp_store_world (.interp globals_interp_instance)
        (some bound_f64_global) (some ⟨.WASM_F64, 4612248968380809216⟩) = some inst1 ∧
      wasm_global_get interp_store_world inst1 (some bound_f64_global) (some wasm_val_t.zero)
        = some ⟨.WASM_F64, 4612248968380809216⟩ :=
  ⟨by decide,
    (global_set_get_roundtrip interp_store_world bound_f64_global
      ⟨.WASM_F64, 4612248968380809216⟩ wasm_val_t.zero .VALUE_TYPE_F64 4
      (by decide) rfl rfl rfl).1 globals_interp_instance ⟨.VALUE_TYPE_F64, true, 4⟩
      rfl rfl rfl rfl (by decide)⟩

/-- C28, amended.  For every plain vector `src` with a data buffer of at
least `size` cells, `wasm_<name>_vec_copy`, when the allocation succeeds (so
that the byte count fits `unsigned int`), yields a vector with the size of
`src`, whose populated count is the size of `src` and whose cells are the
first `size` cells of the buffer of `src`, whatever the populated count of
`src`; the copy of a vector of size 0 is the zeroed header.  In particular
the copy of the vector made by `new_uninitialized (n)`, whose populated count
is 0, has the populated count `n`. -/
theorem plain_vec_copy_by_size {α : Type} [Inhabited α] (elem_size : Nat) (src : wasm_vec_t α)
    (cells : List α) (hsize : 0 < src.size) (helem : 0 < elem_size)
    (hbytes : src.size * elem_size < UINT32_MOD) (hdata : src.data = some cells)
    (hcells : src.size ≤ cells.length) :
    wasm_vec_copy_plain elem_size true src
      = some ⟨src.size, some (cells.take src.size), src.size⟩ ∧
    (wasm_vec_new_uninitialized true src.size : wasm_vec_t α).num_elems = 0 ∧
    wasm_vec_copy_plain elem_size true (wasm_vec_new_uninitialized true src.size)
      = some ⟨src.size, some (List.replicate src.size (default : α)), src.size⟩ ∧
    (∀ (alloc_ok : Bool) (v : wasm_vec_t α), v.size = 0 →
      wasm_vec_copy_plain elem_size alloc_ok v = some wasm_vec_t.zero) := by
  have hn0 : src.size ≠ 0 := by omega
  have hdiv : src.size * elem_size % UINT32_MOD / elem_size = src.size := by
    rw [Nat.mod_eq_of_lt hbytes, Nat.mul_div_cancel _ helem]
  refine ⟨?_, ?_, ?_, ?_⟩
  · simp only [wasm_vec_copy_plain, wasm_vec_new, if_neg hn0, bh_vector_init, if_true, hdata,
      hdiv, if_neg (Nat.not_lt.mpr hcells)]
    simp
  · simp [wasm_vec_new_uninitialized, hn0, bh_vector_init]
  · simp only [wasm_vec_copy_plain, wasm_vec_new_uninitialized, wasm_vec_new, if_neg hn0,
      bh_vector_init, if_true, hdiv, List.length_replicate, Nat.lt_irrefl, if_false]
    simp
  · intro alloc_ok v hv
    simp [wasm_vec_copy_plain, wasm_vec_new, hv]

/-- Witness of C28: the copy of a byte vector of size 4 with two populated
cells has four populated cells. -/
theorem plain_vec_copy_by_size_witness :
    wasm_vec_copy_plain 1 true (⟨4, some [104, 105, 0, 0], 2⟩ : wasm_vec_t Nat)
      = some ⟨4, some [104, 105, 0, 0], 4⟩ :=
  (plain_vec_copy_by_size 1 ⟨4, some [104, 105, 0, 0], 2⟩ [104, 105, 0, 0]
    (by decide) (by decide) (by decide) rfl (by decide)).1

/-! ## The raw calling convention and the scratch buffer: auxiliary facts -/

/-- Effect of the loop of `argv_to_params` on an array split as
`pre ++ mid ++ post`, with `i` at `pre.length` and `mid` as long as the
declared types: the cells of `mid` receive the Vals of the 64-bit cells of
`argv` from cell `i` on. -/
theorem argv_to_params_loop_cells (defs : List wasm_valtype_t) :
    ∀ (argv : List Nat) (pre mid post : List wasm_val_t) (argc : Nat),
      (∀ d ∈ defs, is_numeric d.kind = true) →
      mid.length = defs.length →
      2 * (pre.length + defs.length) ≤ argv.length →
      argc + defs.length < UINT32_MOD →
      argv_to_params_loop defs argv pre.length (pre ++ mid ++ post) argc
        = some (argc + defs.length, pre ++ params_of_cells defs argv pre.length ++ post) := by
  induction defs with
  | nil =>
    intro argv pre mid post argc _ hmid _ _
    have : mid = [] := List.length_eq_zero.mp (by simpa using hmid)
    subst this
    simp [argv_to_params_loop, params_of_cells]
  | cons d ds ih =>
    intro argv pre mid post argc hn hmid hargv hargc
    obtain ⟨m, ms, rfl, hms⟩ := list_length_one_add mid ds.length
      (by simp only [List.length_cons] at hmid; omega)
    simp only [List.length_cons] at hargv hargc
    have hnd : is_numeric d.kind = true := hn d (List.mem_cons_self _ _)
    have hargc1 : (argc + 1) % UINT32_MOD = argc + 1 := Nat.mod_eq_of_lt (by omega)
    have hsplit : pre ++ m :: ms ++ post = pre ++ m :: (ms ++ post) := by simp
    have hl32 : load32 argv (2 * pre.length) = some (argv.getD (2 * pre.length) 0 % UINT32_MOD) := by
      simp only [load32]
      rw [if_pos (by omega)]
    have hl64 : load64 argv (2 * pre.length)
        = some (argv.getD (2 * pre.length) 0 % UINT32_MOD
            + UINT32_MOD * (argv.getD (2 * pre.length + 1) 0 % UINT32_MOD)) := by
      simp only [load64]
      rw [if_pos (by omega)]
    have hrec : ∀ v : wasm_val_t,
        argv_to_params_loop ds argv (pre.length + 1) (pre ++ v :: (ms ++ post)) (argc + 1)
          = some (argc + (ds.length + 1),
              pre ++ v :: params_of_cells ds argv (pre.length + 1) ++ post) := by
      intro v
      have h := ih argv (pre ++ [v]) ms post (argc + 1)
        (fun x hx => hn x (List.mem_cons_of_mem _ hx)) hms
        (by simp only [List.length_append, List.length_singleton]; omega) (by omega)
      have e : argc + 1 + ds.length = argc + (ds.length + 1) := by omega
      simp only [List.length_append, List.length_singleton, List.append_assoc,
        List.singleton_append, List.cons_append, e] at h
      simp only [List.append_assoc, List.cons_append]
      exact h
    cases hk : d.kind with
    | WASM_I32 =>
      simp only [argv_to_params_loop, hk, hl32, Option.some_bind, hsplit, store_val_at_append,
        hargc1, hrec, params_of_cells, slot_width, if_true, List.length_cons]
    | WASM_F32 =>
      simp only [argv_to_params_loop, hk, hl32, Option.some_bind, hsplit, store_val_at_append,
        hargc1, hrec, params_of_cells, slot_width, if_true, List.length_cons]
    | WASM_I64 =>
      simp only [argv_to_params_loop, hk, hl64, Option.some_bind, hsplit, store_val_at_append,
        hargc1, hrec, params_of_cells, slot_width, List.length_cons]
      simp
    | WASM_F64 =>
      simp only [argv_to_params_loop, hk, hl64, Option.some_bind, hsplit, store_val_at_append,
        hargc1, hrec, params_of_cells, slot_width, List.length_cons]
      simp
    | WASM_ANYREF => rw [hk] at hnd; simp [is_numeric] at hnd
    | WASM_FUNCREF => rw [hk] at hnd; simp [is_numeric] at hnd

/-- The Val number `i` of `params_of_cells` is read from the 64-bit cell
`base + i`. -/
theorem params_of_cells_getElem (defs : List wasm_valtype_t) :
    ∀ (argv : List Nat) (base i : Nat) (d : wasm_valtype_t), defs[i]? = some d →
      (params_of_cells defs argv base)[i]?
        = some ⟨d.kind,
            if slot_width d.kind = 1 then argv.getD (2 * (base + i)) 0 % UINT32_MOD
            else argv.getD (2 * (base + i)) 0 % UINT32_MOD
              + UINT32_MOD * (argv.getD (2 * (base + i) + 1) 0 % UINT32_MOD)⟩ := by
  induction defs with
  | nil => intro argv base i d h; simp at h
  | cons x xs ih =>
    intro argv base i d h
    cases i with
    | zero =>
      simp only [List.getElem?_cons_zero, Option.some.injEq] at h
      subst h
      simp [params_of_cells]
    | succ j =>
      simp only [List.getElem?_cons_succ] at h
      have := ih argv (base + 1) j d h
      simp only [params_of_cells, List.getElem?_cons_succ, this]
      have e : base + 1 + j = base + (j + 1) := by omega
      rw [e]

/-- The loop of `argv_to_results` runs to its end, without a read outside the
slot array or a write outside `out`, when the slots from `off` on are as many
as the declared numeric types need. -/
theorem argv_to_results_loop_total (defs : List wasm_valtype_t) :
    ∀ (results : List Nat) (off : Nat) (out : List wasm_val_t) (i argc : Nat),
      (∀ d ∈ defs, is_numeric d.kind = true) →
      off + slot_count defs ≤ results.length →
      i + defs.length ≤ out.length →
      argc + defs.length < UINT32_MOD →
      ∃ out1, argv_to_results_loop defs results off out i argc
          = some (argc + defs.length, out1) ∧ out1.length = out.length := by
  induction defs with
  | nil =>
    intro results off out i argc _ _ _ _
    exact ⟨out, by simp [argv_to_results_loop], rfl⟩
  | cons d ds ih =>
    intro results off out i argc hn hslots hout hargc
    simp only [List.length_cons] at hout hargc
    simp only [slot_count, List.map_cons, List.sum_cons] at hslots
    have hnd : is_numeric d.kind = true := hn d (List.mem_cons_self _ _)
    have hargc1 : (argc + 1) % UINT32_MOD = argc + 1 := Nat.mod_eq_of_lt (by omega)
    have hi : i < out.length := by omega
    have hrec : ∀ (w : Nat) (v : wasm_val_t), slot_width d.kind = w →
        ∃ out1, argv_to_results_loop ds results (off + w) (out.set i v) (i + 1) (argc + 1)
            = some (argc + (ds.length + 1), out1) ∧ out1.length = out.length := by
      intro w v hw
      obtain ⟨out1, h1, h2⟩ := ih results (off + w) (out.set i v) (i + 1) (argc + 1)
        (fun x hx => hn x (List.mem_cons_of_mem _ hx))
        (by rw [hw] at hslots; unfold slot_count; omega)
        (by simp only [List.length_set]; omega) (by omega)
      refine ⟨out1, ?_, by simpa using h2⟩
      rw [h1]
      congr 2
      omega
    cases hk : d.kind with
    | WASM_I32 =>
      obtain ⟨out1, h1, h2⟩ := hrec 1 ⟨.WASM_I32, results.getD off 0 % UINT32_MOD⟩
        (by rw [hk]; rfl)
      have hoff : off < results.length := by rw [hk] at hslots; simp [slot_width] at hslots; omega
      exact ⟨out1, by
        simp only [argv_to_results_loop, hk, load32, if_pos hoff, Option.some_bind, store_val,
          if_pos hi, hargc1, h1, List.length_cons], h2⟩
    | WASM_F32 =>
      obtain ⟨out1, h1, h2⟩ := hrec 1 ⟨.WASM_F32, results.getD off 0 % UINT32_MOD⟩
        (by rw [hk]; rfl)
      have hoff : off < results.length := by rw [hk] at hslots; simp [slot_width] at hslots; omega
      exact ⟨out1, by
        simp only [argv_to_results_loop, hk, load32, if_pos hoff, Option.some_bind, store_val,
          if_pos hi, hargc1, h1, List.length_cons], h2⟩
    | WASM_I64 =>
      obtain ⟨out1, h1, h2⟩ := hrec 2
        ⟨.WASM_I64, results.getD off 0 % UINT32_MOD
          + UINT32_MOD * (results.getD (off + 1) 0 % UINT32_MOD)⟩ (by rw [hk]; rfl)
      have hoff : off + 1 < results.length := by
        rw [hk] at hslots; simp [slot_width] at hslots; omega
      exact ⟨out1, by
        simp only [argv_to_results_loop, hk, load64, if_pos hoff, Option.some_bind, store_val,
          if_pos hi, hargc1, h1, List.length_cons], h2⟩
    | WASM_F64 =>
      obtain ⟨out1, h1, h2⟩ := hrec 2
        ⟨.WASM_F64, results.getD off 0 % UINT32_MOD
          + UINT32_MOD * (results.getD (off + 1) 0 % UINT32_MOD)⟩ (by rw [hk]; rfl)
      have hoff : off + 1 < results.length := by
        rw [hk] at hslots; simp [slot_width] at hslots; omega
      exact ⟨out1, by
        simp only [argv_to_results_loop, hk, load64, if_pos hoff, Option.some_bind, store_val,
          if_pos hi, hargc1, h1, List.length_cons], h2⟩
    | WASM_ANYREF => rw [hk] at hnd; simp [is_numeric] at hnd
    | WASM_FUNCREF => rw [hk] at hnd; simp [is_numeric] at hnd

/-! ## The raw calling convention and the scratch buffer: the claims -/

/-- C22, amended.  The host-callback trampoline decodes its arguments from
64-bit cells: for every declared parameter list with kinds in
{i32, i64, f32, f64}, every slot array that holds one 64-bit cell per
parameter and every array `out` with a cell per parameter, `argv_to_params`
returns the number of parameters and leaves in `out[i]` the Val of the
declared kind read at the 32-bit slot offset `2 * i` (the low slot of cell
`i` for i32 and f32, both slots for i64 and f64), whatever the widths of the
parameters before it. -/
theorem argv_to_params_by_cells (defs : List wasm_valtype_t) (argv : List Nat)
    (out : List wasm_val_t)
    (hn : ∀ d ∈ defs, is_numeric d.kind = true)
    (hargv : 2 * defs.length ≤ argv.length) (hout : defs.length ≤ out.length)
    (hsz : defs.length < UINT32_MOD) :
    argv_to_params argv defs out
      = some (defs.length, params_of_cells defs argv 0 ++ out.drop defs.length) ∧
    ∀ (i : Nat) (d : wasm_valtype_t), defs[i]? = some d →
      (params_of_cells defs argv 0 ++ out.drop defs.length)[i]?
        = some ⟨d.kind,
            if slot_width d.kind = 1 then argv.getD (2 * i) 0 % UINT32_MOD
            else argv.getD (2 * i) 0 % UINT32_MOD
              + UINT32_MOD * (argv.getD (2 * i + 1) 0 % UINT32_MOD)⟩ := by
  constructor
  · have h := argv_to_params_loop_cells defs argv [] (out.take defs.length)
      (out.drop defs.length) 0 hn (by simp; omega) (by simpa using hargv) (by omega)
    simp only [List.nil_append, List.take_append_drop, List.length_nil, Nat.zero_add] at h
    exact h
  · intro i d hd
    have h := params_of_cells_getElem defs argv 0 i d hd
    simp only [Nat.zero_add] at h
    have hi : i < (params_of_cells defs argv 0).length := by
      by_contra hc
      rw [List.getElem?_eq_none (by omega)] at h
      simp at h
    rw [List.getElem?_append_left hi, h]

/-- Witness of C22: the parameters (i32, i64, i32) are read from the slots 0,
2 and 3, and 4. -/
theorem argv_to_params_by_cells_witness :
    argv_to_params [1, 2, 3, 4, 5, 6] [⟨.WASM_I32⟩, ⟨.WASM_I64⟩, ⟨.WASM_I32⟩]
        [wasm_val_t.zero, wasm_val_t.zero, wasm_val_t.zero]
      = some (3, [⟨.WASM_I32, 1⟩, ⟨.WASM_I64, 3 + UINT32_MOD * 4⟩, ⟨.WASM_I32, 5⟩]) :=
  (argv_to_params_by_cells [⟨.WASM_I32⟩, ⟨.WASM_I64⟩, ⟨.WASM_I32⟩] [1, 2, 3, 4, 5, 6]
    [wasm_val_t.zero, wasm_val_t.zero, wasm_val_t.zero]
    (by decide) (by decide) (by decide) (by decide)).1

/-- C25. The scratch buffer of `wasm_func_call` is large enough.  For every
function whose parameter and result kinds are in {i32, i64, f32, f64}, on
an argument area of exactly `2 * max (param_arity, result_arity)` 32-bit slots
(the `max (param_arity, result_arity)` 64-bit cells that `wasm_func_call`
allocates): the slot counts of the parameters and of the results are within the
area; `params_to_argv` of well-typed parameters runs to its end without a
store outside the area, and leaves the slots from the parameter slot count on
as they were; `argv_to_results` runs to its end without a load outside the
area. -/
theorem scratch_buffer_suffices (func : wasm_func_t) (params : List wasm_val_t)
    (argv : List Nat) (results : List wasm_val_t)
    (hk : kinds_match params func.type.params = true)
    (hn : ∀ v ∈ params, is_numeric v.kind = true)
    (hr : ∀ d ∈ func.type.results, is_numeric d.kind = true)
    (hargv : argv.length
      = 2 * max (wasm_func_param_arity func) (wasm_func_result_arity func))
    (hsz : argv.length < UINT32_MOD)
    (hres : wasm_func_result_arity func ≤ results.length) :
    slot_count func.type.params ≤ argv.length ∧
    slot_count func.type.results ≤ argv.length ∧
    (∃ argv1, params_to_argv params func.type.params (wasm_func_param_arity func) argv
        = some (slot_count func.type.params, argv1) ∧
      argv1.length = argv.length ∧
      argv1.drop (slot_count func.type.params) = argv.drop (slot_count func.type.params)) ∧
    ∃ results1, argv_to_results argv func.type.results (wasm_func_result_arity func) results
        = some (wasm_func_result_arity func, results1) ∧
      results1.length = results.length := by
  have hk1 : params.map (fun v => v.kind) = func.type.params.map (fun d => d.kind) := by
    simpa [kinds_match] using hk
  obtain ⟨_, hlen⟩ := slot_count_ge_length params func.type.params hk1 hn
  have hp := slot_count_le_two_mul func.type.params
  have hq := slot_count_le_two_mul func.type.results
  have hpa : wasm_func_param_arity func = func.type.params.length := rfl
  have hra : wasm_func_result_arity func = func.type.results.length := rfl
  have hsp : slot_count func.type.params ≤ argv.length := by omega
  have hsr : slot_count func.type.results ≤ argv.length := by omega
  refine ⟨hsp, hsr, ?_, ?_⟩
  · have hspec := params_to_argv_spec params func.type.params argv hk1 hn hsp hsz
    have himg := slot_image_length params func.type.params hk1
    refine ⟨_, by rw [hpa, hlen]; exact hspec, ?_, ?_⟩
    · simp only [List.length_append, himg, List.length_drop]
      omega
    · rw [← himg, List.drop_left]
  · by_cases h0 : wasm_func_result_arity func = 0
    · exact ⟨results, by simp [argv_to_results, h0], rfl⟩
    · obtain ⟨out1, h1, h2⟩ := argv_to_results_loop_total func.type.results argv 0 results 0 0
        hr (by omega) (by omega) (by omega)
      refine ⟨out1, ?_, h2⟩
      simp only [Nat.zero_add] at h1
      rw [hra] at h0
      simp only [argv_to_results, hra, if_neg h0, ne_eq, not_true_eq_false, if_false, h1]

/-- Witness of C25: a function of type (i32, f64) -> (i64) and an area of
four slots. -/
theorem scratch_buffer_suffices_witness :
    (∃ argv1, params_to_argv [⟨.WASM_I32, 7⟩, ⟨.WASM_F64, 4612248968380809216⟩]
        [⟨.WASM_I32⟩, ⟨.WASM_F64⟩] 2 [0, 0, 0, 0] = some (3, argv1) ∧
      argv1.length = 4) ∧
    ∃ results1, argv_to_results [0, 0, 0, 0] [⟨.WASM_I64⟩] 1 [wasm_val_t.zero]
        = some (1, results1) ∧ results1.length = 1 :=
  match scratch_buffer_suffices
      { bound_export with type := ⟨[⟨.WASM_I32⟩, ⟨.WASM_F64⟩], [⟨.WASM_I64⟩]⟩ }
      [⟨.WASM_I32, 7⟩, ⟨.WASM_F64, 4612248968380809216⟩] [0, 0, 0, 0] [wasm_val_t.zero]
      (by decide) (by decide) (by decide) (by decide) (by decide) (by decide) with
  | ⟨_, _, ⟨argv1, h1, h2, _⟩, h3⟩ => ⟨⟨argv1, h1, h2⟩, h3⟩

/-- C23, amended.  `wasm_func_call` on a bound function with well-typed
parameters of kinds in {i32, i64, f32, f64}.  When `max (param_arity,
result_arity)` is zero it allocates nothing (the outcome of the allocator does
not matter) and hands the backend a null argument area.  Otherwise it makes one
allocation of `max (param_arity, result_arity)` 64-bit cells: if that fails the
call fails before the backend is reached, and if it succeeds the backend is
handed an area of exactly `2 * max (param_arity, result_arity)` 32-bit slots.
That size is at least `max (param_slot_count, result_slot_count)`. -/
theorem func_call_scratch_cells (a : func_call_allocs) (f : Nat)
    (call_wasm : backend_call_t) (func : wasm_func_t) (params results : List wasm_val_t)
    (st : rt_state) (inst : Nat)
    (hinst : func.inst_comm_rt = some inst)
    (hk : kinds_match params func.type.params = true)
    (hn : ∀ v ∈ params, is_numeric v.kind = true)
    (hsize : 8 * max (wasm_func_param_arity func) (wasm_func_result_arity func) < UINT32_MAX) :
    (max (wasm_func_param_arity func) (wasm_func_result_arity func) = 0 →
      wasm_func_call a (some f) call_wasm func params results st
        = wasm_func_call_invoke a call_wasm inst f func 0 none results
            { st with cur_trap := none }) ∧
    (max (wasm_func_param_arity func) (wasm_func_result_arity func) ≠ 0 →
      a.argv_ok = false →
      wasm_func_call a (some f) call_wasm func params results st
        = some (wasm_func_call_failed a inst { st with cur_trap := none }, results,
            { st with cur_trap := none })) ∧
    (max (wasm_func_param_arity func) (wasm_func_result_arity func) ≠ 0 →
      a.argv_ok = true →
      ∃ argv, argv.length
          = 2 * max (wasm_func_param_arity func) (wasm_func_result_arity func) ∧
        wasm_func_call a (some f) call_wasm func params results st
          = wasm_func_call_invoke a call_wasm inst f func (slot_count func.type.params)
              (some argv) results { st with cur_trap := none }) ∧
    max (slot_count func.type.params) (slot_count func.type.results)
      ≤ 2 * max (wasm_func_param_arity func) (wasm_func_result_arity func) := by
  have hk1 : params.map (fun v => v.kind) = func.type.params.map (fun d => d.kind) := by
    simpa [kinds_match] using hk
  have himg := slot_image_length params func.type.params hk1
  have hp := slot_count_le_two_mul func.type.params
  have hq := slot_count_le_two_mul func.type.results
  have hpa : wasm_func_param_arity func = func.type.params.length := rfl
  have hra : wasm_func_result_arity func = func.type.results.length := rfl
  have hmax : (if wasm_func_param_arity func > wasm_func_result_arity func
      then wasm_func_param_arity func else wasm_func_result_arity func)
      = max (wasm_func_param_arity func) (wasm_func_result_arity func) := by
    split <;> omega
  refine ⟨?_, ?_, ?_, ?_⟩
  · intro h0
    have hp0 : wasm_func_param_arity func = 0 := by omega
    have hr0 : wasm_func_result_arity func = 0 := by omega
    simp [wasm_func_call, hinst, hp0, hr0]
  · intro hne hfail
    have hmalloc : malloc_internal a.argv_ok
        (8 * max (wasm_func_param_arity func) (wasm_func_result_arity func)) = false := by
      simp [malloc_internal, hfail]
    simp only [wasm_func_call, hinst, hmax, hmalloc, ne_eq, hne, not_false_eq_true, and_self,
      if_true]
  · intro hne hok
    have hreach := wasm_func_call_reaches_backend a f call_wasm func params results st inst
      hinst hk hn hok hsize
    refine ⟨slot_image params ++ List.replicate
      (2 * max (wasm_func_param_arity func) (wasm_func_result_arity func)
        - slot_count func.type.params) 0, ?_, ?_⟩
    · simp only [List.length_append, himg, List.length_replicate]
      omega
    · rw [hreach]
      simp only [scratch_argv, ne_eq, hne, not_false_eq_true, if_true]
  · omega

/-- Witness of C23: the function `bound_export` of type (i32) -> (i32) and
the backend that reports the size of the area. -/
theorem func_call_scratch_cells_witness :
    ∃ argv, argv.length = 2 ∧
      wasm_func_call ⟨true, true, true, true⟩ (some 1) measuring_backend bound_export
          [⟨.WASM_I32, 41⟩] [wasm_val_t.zero] quiet_state
        = wasm_func_call_invoke ⟨true, true, true, true⟩ measuring_backend 7 1 bound_export 1
            (some argv) [wasm_val_t.zero] { quiet_state with cur_trap := none } :=
  (func_call_scratch_cells ⟨true, true, true, true⟩ 1 measuring_backend bound_export
    [⟨.WASM_I32, 41⟩] [wasm_val_t.zero] quiet_state 7 rfl (by decide) (by decide)
    (by decide)).2.2.1 (by decide) rfl

end WasmCApi
